import Mathlib

/-!
Shallow embedding of the Game-of-Life engine of `gol-bevy` (file `src/life.rs`),
together with proofs of the specified properties.

The engine's machine integers (`u32`, `usize`, `u8`) are modelled as `Nat`
(offsets as `Int`, as in the source's `i32` arithmetic): the board holds
`size * size` cells with `size = 128` by default, so none of the arithmetic
below overflows its machine width in the source.
-/

namespace GoL

/-- Game mode, from `GameState` in `state.rs`: `Load` (initial), `Setup`, `Running`. -/
inductive GameState where
  | Load : GameState
  | Setup : GameState
  | Running : GameState
  deriving DecidableEq

/-- From `Board` (life.rs:407-417). Only the `size` field (cells per axis) is
carried: `center`, `cell_size` and `cell_scale` are floating-point rendering
configuration unused by the grid-automaton logic. -/
structure Board where
  size : Nat

/-- From `Board::cell_coord_to_idx` (life.rs:437-440):
`((cell_coord.y % self.size) * self.size + (cell_coord.x % self.size)) as usize`. -/
def cell_coord_to_idx (b : Board) (cell_coord : Nat × Nat) : Nat :=
  (cell_coord.2 % b.size) * b.size + (cell_coord.1 % b.size)

/-- From `Board::idx_to_cell_coord` (life.rs:442-445):
`uvec2(idx as u32 % self.size, idx as u32 / self.size)`. -/
def idx_to_cell_coord (b : Board) (idx : Nat) : Nat × Nat :=
  (idx % b.size, idx / b.size)

/-- From `Board::neighbour_indices` (life.rs:450-453): the iterator
`(-1..=1).flat_map(|y| (-1..=1).map(move |x| ivec2(x, y)))` filtered to drop
the `(0, 0)` offset. -/
def neighbour_offsets : List (Int × Int) :=
  ((([-1, 0, 1] : List Int).map fun y =>
      ([-1, 0, 1] : List Int).map fun x => ((x, y) : Int × Int)).flatten).filter
    fun pos_offs => !(pos_offs.1 == 0 && pos_offs.2 == 0)

/-- From `Board::neighbour_indices` (life.rs:456-467): one axis of the toroidal
wrap applied to `pos = cell_coord.as_ivec2() + pos_offs`: a negative component
maps to `size - 1`, a component `>= size` maps to `0`, otherwise the component
is kept. -/
def wrap_coord (size : Nat) (p : Int) : Nat :=
  if p < 0 then size - 1
  else if (size : Int) ≤ p then 0
  else p.toNat

/-- From `Board::neighbour_indices` (life.rs:447-476): for each of the 8
offsets, wrap each axis of `cell_coord + offset` independently and linearize
with `cell_coord_to_idx`. -/
def neighbour_indices (b : Board) (cell_coord : Nat × Nat) : List Nat :=
  neighbour_offsets.map fun pos_offs =>
    cell_coord_to_idx b
      (wrap_coord b.size ((cell_coord.1 : Int) + pos_offs.1),
       wrap_coord b.size ((cell_coord.2 : Int) + pos_offs.2))

/-- The grid state: per cell index, the `CurrentAlive(bool)` component and the
`FutureAlive(Option<bool>)` component (life.rs:385-389). Only indices below
`size * size` correspond to spawned cells. -/
structure GridState where
  current : Nat → Bool
  future : Nat → Option Bool

/-- From `update_cell_future_life` (life.rs:346-363): the number of the 8
neighbours of cell `i` (as wired at spawn time from
`board.neighbour_indices(board.idx_to_cell_coord(i))`, life.rs:167) whose
`CurrentAlive` is `true`. -/
def neighbour_count (b : Board) (current : Nat → Bool) (i : Nat) : Nat :=
  ((neighbour_indices b (idx_to_cell_coord b i)).map
    fun j => if current j then (1 : Nat) else 0).sum

/-- From `update_cell_future_life` (life.rs:346-363), phase 1 of a step: for
every spawned cell, stage `some true` on a neighbour count of 3, stage nothing
on a count of 2, and stage `some false` otherwise. Only the staged buffer is
written; the loop body is applied to every cell against the unchanged current
buffer. -/
def update_cell_future_life (b : Board) (g : GridState) : GridState :=
  { g with
    future := fun i =>
      if i < b.size * b.size then
        match neighbour_count b g.current i with
        | 3 => some true
        | 2 => g.future i
        | _ => some false
      else g.future i }

/-- From `update_cell_current_life` (life.rs:365-377), phase 2 (commit): every
cell whose staged `FutureAlive` holds `Some(alive)` gets `CurrentAlive` set to
`alive` and its staged slot reset to `None`; a cell with no staged value is
left untouched. -/
def update_cell_current_life (g : GridState) : GridState :=
  { current := fun i =>
      match g.future i with
      | some alive => alive
      | none => g.current i,
    future := fun i =>
      match g.future i with
      | some _ => none
      | none => g.future i }

/-- One full generation step, as scheduled by `LifePlugin::build`
(life.rs:27-31): `(update_cell_future_life, update_cell_current_life).chain()`. -/
def step (b : Board) (g : GridState) : GridState :=
  update_cell_current_life (update_cell_future_life b g)

/-- From `cells_set_life_on` (life.rs:248-263): the click observer flips
`CurrentAlive` of the targeted cell entity, but only when the game state is
`Setup`; in any other state nothing is changed. Material changes are
rendering-only and not modelled. -/
def cells_set_life_on (state : GameState) (g : GridState) (target : Nat) : GridState :=
  if state = GameState.Setup then
    { g with current := fun i => if i = target then !g.current i else g.current i }
  else g

/-- From `handle_setup_kbd` (life.rs:288-311) together with its schedule gate
`handle_setup_kbd.run_if(in_state(GameState::Setup))` (life.rs:35): when the
state is `Setup` and the `R` key was just pressed, every cell's `CurrentAlive`
is reassigned from the pseudo-random source (modelled as the draw function
`rand`); in any other state the system does not run and nothing changes. -/
def handle_setup_kbd (state : GameState) (pressedR : Bool) (rand : Nat → Bool)
    (g : GridState) : GridState :=
  if state = GameState.Setup then
    if pressedR then { g with current := fun i => rand i } else g
  else g

/-- Spec-side definition (§4.2 NeighborIndex): the 8 offset vectors of the
3×3 neighbourhood minus the centre, in row-major order, as the spec words
them. Used only to compare the source construction against the spec. -/
def spec_neighbour_offsets : List (Int × Int) :=
  [(-1, -1), (0, -1), (1, -1), (-1, 0), (1, 0), (-1, 1), (0, 1), (1, 1)]

/-- Spec-side definition (§4.2 NeighborIndex): wrap one axis independently: a
negative result maps to `N - 1`, a result `>= N` maps to `0`. -/
def spec_wrap_axis (n : Nat) (p : Int) : Nat :=
  if p < 0 then n - 1
  else if (n : Int) ≤ p then 0
  else p.toNat

/-- Spec-side definition (§4.2 NeighborIndex): add each of the 8 offsets to
`(x, y)`, wrap each axis, and linearize as `idx = y*N + x` (§3). -/
def spec_neighbour_indices (n x y : Nat) : List Nat :=
  spec_neighbour_offsets.map fun off =>
    spec_wrap_axis n ((y : Int) + off.2) * n + spec_wrap_axis n ((x : Int) + off.1)

/-- A staged grid used to witness the commit behaviour: every cell dead, cell 0
staged alive. -/
def gStaged : GridState :=
  { current := fun _ => false, future := fun i => if i = 0 then some true else none }

/-- An isolated live cell at the centre of a 3×3 board. -/
def gIso : GridState :=
  { current := fun i => i == 4, future := fun _ => none }

/-- A grid whose only live cells are a horizontal line of 3 adjacent cells at
`(x0, y0)`, `(x0+1, y0)`, `(x0+2, y0)`, with nothing staged. -/
def blinker (n x0 y0 : Nat) : GridState :=
  { current := fun i =>
      i == y0 * n + x0 || i == y0 * n + (x0 + 1) || i == y0 * n + (x0 + 2),
    future := fun _ => none }

/-- The intermediate generation of the blinker: a vertical line of 3 adjacent
cells at `(x0+1, y0-1)`, `(x0+1, y0)`, `(x0+1, y0+1)`, with nothing staged. -/
def vblinker (n x0 y0 : Nat) : GridState :=
  { current := fun i =>
      i == (y0 - 1) * n + (x0 + 1) || i == y0 * n + (x0 + 1) ||
        i == (y0 + 1) * n + (x0 + 1),
    future := fun _ => none }

/-! Helper lemmas shared by several claims. -/

/-- The toroidal wrap always lands inside the axis range. -/
theorem wrap_coord_lt (n : Nat) (p : Int) (hn : 0 < n) : wrap_coord n p < n := by
  unfold wrap_coord
  split_ifs <;> omega

/-- The linearized index of any coordinate pair lies below `n * n`. -/
theorem idx_lt_of_pos (n x y : Nat) (hn : 0 < n) :
    (y % n) * n + x % n < n * n := by
  have hx : x % n < n := Nat.mod_lt x hn
  have hy : y % n < n := Nat.mod_lt y hn
  have h1 : (y % n + 1) * n ≤ n * n := Nat.mul_le_mul_right n hy
  calc (y % n) * n + x % n < (y % n) * n + n := by omega
    _ = (y % n + 1) * n := by ring
    _ ≤ n * n := h1

/-- An in-range coordinate pair linearizes without the defensive modulo. -/
theorem cell_coord_to_idx_eq_of_lt (n x y : Nat) (hx : x < n) (hy : y < n) :
    cell_coord_to_idx ⟨n⟩ (x, y) = y * n + x := by
  unfold cell_coord_to_idx
  simp [Nat.mod_eq_of_lt hx, Nat.mod_eq_of_lt hy]

/-- Recovering the two components of a linear combination `b * n + a` with
`a < n`. -/
theorem linear_combine_inj (n a a' b b' : Nat) (hn : 0 < n) (ha : a < n)
    (ha' : a' < n) (h : b * n + a = b' * n + a') : a = a' ∧ b = b' := by
  have h1 : (b * n + a) % n = a := by
    rw [mul_comm, Nat.mul_add_mod, Nat.mod_eq_of_lt ha]
  have h2 : (b' * n + a') % n = a' := by
    rw [mul_comm, Nat.mul_add_mod, Nat.mod_eq_of_lt ha']
  have h3 : (b * n + a) / n = b := by
    rw [mul_comm, Nat.mul_add_div hn, Nat.div_eq_of_lt ha]
    omega
  have h4 : (b' * n + a') / n = b' := by
    rw [mul_comm, Nat.mul_add_div hn, Nat.div_eq_of_lt ha']
    omega
  refine ⟨?_, ?_⟩
  · rw [← h1, ← h2, h]
  · rw [← h3, ← h4, h]

/-- On an axis of length at least 3, the wrap of `x + d` for the three offsets
`d ∈ {-1, 0, 1}` determines the offset. -/
theorem wrap_coord_offset_inj (n x : Nat) (d d' : Int) (hn : 3 ≤ n) (hx : x < n)
    (hd : d = -1 ∨ d = 0 ∨ d = 1) (hd' : d' = -1 ∨ d' = 0 ∨ d' = 1)
    (h : wrap_coord n ((x : Int) + d) = wrap_coord n ((x : Int) + d')) :
    d = d' := by
  unfold wrap_coord at h
  rcases hd with rfl | rfl | rfl <;> rcases hd' with rfl | rfl | rfl <;>
    split_ifs at h <;> omega

/-- Each of the 8 neighbour offsets has both components in `{-1, 0, 1}`. -/
theorem neighbour_offsets_components :
    ∀ off ∈ neighbour_offsets,
      (off.1 = -1 ∨ off.1 = 0 ∨ off.1 = 1) ∧
      (off.2 = -1 ∨ off.2 = 0 ∨ off.2 = 1) := by
  decide

/-- The two-phase step applies the rule to every spawned cell whose slot was
unstaged: alive after the step iff the neighbour count was 3, or was 2 with
the cell already alive. -/
theorem step_rule_aux (b : Board) (g : GridState) (i : Nat)
    (hi : i < b.size * b.size) (hfut : g.future i = none) :
    (step b g).current i = true ↔
      (neighbour_count b g.current i = 3 ∨
       (neighbour_count b g.current i = 2 ∧ g.current i = true)) := by
  obtain ⟨c, hc⟩ : ∃ c, neighbour_count b g.current i = c := ⟨_, rfl⟩
  simp only [step, update_cell_current_life, update_cell_future_life, hc, hfut,
    hi, if_true]
  rcases c with _ | _ | _ | _ | m
  · simp
  · simp
  · simp
  · simp
  · simp

/-- A step keeps an unstaged slot unstaged: phase 1 writes `some` values or
leaves the slot alone, and the commit resets every `some` slot to `none`. -/
theorem step_future_none (b : Board) (g : GridState) (i : Nat)
    (hfut : g.future i = none) : (step b g).future i = none := by
  simp only [step, update_cell_current_life, update_cell_future_life]
  by_cases hi : i < b.size * b.size
  · simp only [hi, if_true, hfut]
    obtain ⟨c, hc⟩ : ∃ c, neighbour_count b g.current i = c := ⟨_, rfl⟩
    rw [hc]
    rcases c with _ | _ | _ | _ | m <;> simp
  · simp [hi, hfut]

/-- A step does not touch the current buffer outside the spawned cells. -/
theorem step_current_far (b : Board) (g : GridState) (i : Nat)
    (hi : ¬ i < b.size * b.size) (hfut : g.future i = none) :
    (step b g).current i = g.current i := by
  simp [step, update_cell_current_life, update_cell_future_life, hi, hfut]

/-! Claim theorems. -/

/-- C2: `commit()` overwrites `current_alive` with the staged value and resets
the staged slot to `None` at every index whose staged value is non-`None`, and
leaves `current_alive` unchanged at every index with no staged value; in
particular a cell whose neighbour count was 2 in phase 1 (and whose slot was
unstaged) keeps its prior state across a full step. -/
theorem commit_spec (g : GridState) (i : Nat) :
    (∀ v, g.future i = some v →
      (update_cell_current_life g).current i = v ∧
      (update_cell_current_life g).future i = none) ∧
    (g.future i = none →
      (update_cell_current_life g).current i = g.current i ∧
      (update_cell_current_life g).future i = none) ∧
    (∀ b : Board, i < b.size * b.size → g.future i = none →
      neighbour_count b g.current i = 2 →
      (step b g).current i = g.current i) := by
  refine ⟨fun v hv => ?_, fun hv => ?_, fun b hb hv hcnt => ?_⟩
  · unfold update_cell_current_life
    simp [hv]
  · unfold update_cell_current_life
    simp [hv]
  · unfold step update_cell_current_life update_cell_future_life
    simp [hb, hv, hcnt]

/-- C2 witness: applying the commit behaviour at the concrete staged grid. -/
theorem commit_spec_witness :
    (update_cell_current_life gStaged).current 0 = true ∧
    (update_cell_current_life gStaged).future 0 = none :=
  (commit_spec gStaged 0).1 true rfl

/-- C5: phase 1 never writes the current buffer: after
`update_cell_future_life` every cell's `current_alive` is exactly its pre-step
value, and the state observed after the commit phase is exactly the post-step
state `step b g`. -/
theorem phase1_frame (b : Board) (g : GridState) :
    (update_cell_future_life b g).current = g.current ∧
    step b g = update_cell_current_life (update_cell_future_life b g) :=
  ⟨rfl, rfl⟩

/-- C9: converting an in-range coordinate to its linear index and back yields
the original coordinate. -/
theorem coord_idx_round_trip (n x y : Nat) (hn : 0 < n) (hx : x < n)
    (hy : y < n) :
    idx_to_cell_coord ⟨n⟩ (cell_coord_to_idx ⟨n⟩ (x, y)) = (x, y) := by
  rw [cell_coord_to_idx_eq_of_lt n x y hx hy]
  unfold idx_to_cell_coord
  have h1 : (y * n + x) % n = x := by
    rw [mul_comm, Nat.mul_add_mod, Nat.mod_eq_of_lt hx]
  have h2 : (y * n + x) / n = y := by
    rw [mul_comm, Nat.mul_add_div hn, Nat.div_eq_of_lt hx]
    omega
  simp [h1, h2]

/-- C9 witness: the round trip at the concrete coordinate `(3, 5)` on an 8×8
board. -/
theorem coord_idx_round_trip_witness :
    idx_to_cell_coord ⟨8⟩ (cell_coord_to_idx ⟨8⟩ (3, 5)) = (3, 5) :=
  coord_idx_round_trip 8 3 5 (by decide) (by decide) (by decide)

/-- C10: the coordinate-to-index conversion is total and computes
`(y mod N) * N + (x mod N)`, wrapping out-of-range coordinates toroidally; the
concrete values match the `board_works` test (life.rs:508-513). -/
theorem cell_coord_to_idx_formula (n x y : Nat) (hn : 0 < n) :
    cell_coord_to_idx ⟨n⟩ (x, y) = (y % n) * n + (x % n) ∧
    cell_coord_to_idx ⟨8⟩ (8, 8) = 0 ∧
    cell_coord_to_idx ⟨8⟩ (7, 8) = 7 ∧
    cell_coord_to_idx ⟨8⟩ (8, 7) = 56 :=
  ⟨rfl, by decide, by decide, by decide⟩

/-- C10 witness: the formula applied at a concrete out-of-range coordinate. -/
theorem cell_coord_to_idx_formula_witness :
    cell_coord_to_idx ⟨8⟩ (9, 10) = (10 % 8) * 8 + (9 % 8) ∧
    cell_coord_to_idx ⟨8⟩ (8, 8) = 0 ∧
    cell_coord_to_idx ⟨8⟩ (7, 8) = 7 ∧
    cell_coord_to_idx ⟨8⟩ (8, 7) = 56 :=
  cell_coord_to_idx_formula 8 9 10 (by decide)

/-- C4 counterexample: the out-of-range coordinate `(8, 8)` on an 8×8 board
does not raise any error: the conversion silently wraps it into range,
returning the same index as the in-range coordinate `(0, 0)` (exactly what the
repository's own `board_works` test asserts). -/
theorem invalid_index_counterexample :
    cell_coord_to_idx ⟨8⟩ (8, 8) = cell_coord_to_idx ⟨8⟩ (0, 0) ∧
    cell_coord_to_idx ⟨8⟩ (8, 8) < 8 * 8 := by decide

/-- C4 amended: an out-of-range coordinate supplied to the coordinate-to-index
conversion is not rejected: the conversion is total, wraps each axis modulo
`N`, and always returns the index of the wrapped in-range coordinate, which
lies in `[0, N²)`. -/
theorem cell_coord_to_idx_wraps (n x y : Nat) (hn : 0 < n) :
    cell_coord_to_idx ⟨n⟩ (x, y) = cell_coord_to_idx ⟨n⟩ (x % n, y % n) ∧
    cell_coord_to_idx ⟨n⟩ (x, y) < n * n := by
  constructor
  · unfold cell_coord_to_idx
    simp [Nat.mod_mod_of_dvd]
  · exact idx_lt_of_pos n x y hn

/-- C4 witness: the wrap applied at the concrete out-of-range coordinate
`(9, 10)` on an 8×8 board. -/
theorem cell_coord_to_idx_wraps_witness :
    cell_coord_to_idx ⟨8⟩ (9, 10) = cell_coord_to_idx ⟨8⟩ (9 % 8, 10 % 8) ∧
    cell_coord_to_idx ⟨8⟩ (9, 10) < 8 * 8 :=
  cell_coord_to_idx_wraps 8 9 10 (by decide)

/-- C8: while the mode is `Running`, the toggle-cell observer and the
randomize system leave every cell's `current_alive` unchanged (no-ops, not
errors); while the mode is `Setup`, toggle-cell flips `current_alive` at the
targeted cell only, and randomize reassigns every cell from the pseudo-random
draws. -/
theorem mode_gates_commands (s : GameState) (g : GridState) (target : Nat)
    (rand : Nat → Bool) :
    (s = GameState.Running →
      (cells_set_life_on s g target).current = g.current ∧
      (handle_setup_kbd s true rand g).current = g.current) ∧
    (s = GameState.Setup →
      (cells_set_life_on s g target).current target = !g.current target ∧
      (∀ j, j ≠ target → (cells_set_life_on s g target).current j = g.current j) ∧
      (∀ i, (handle_setup_kbd s true rand g).current i = rand i)) := by
  constructor
  · rintro rfl
    constructor
    · unfold cells_set_life_on
      simp
    · unfold handle_setup_kbd
      simp
  · rintro rfl
    refine ⟨?_, fun j hj => ?_, fun i => ?_⟩
    · unfold cells_set_life_on
      simp
    · unfold cells_set_life_on
      simp [hj]
    · unfold handle_setup_kbd
      simp

/-- C1: after one full step (phase 1 for all cells, then commit), a cell is
alive iff it had exactly 3 live neighbours in the pre-step state, or exactly 2
live neighbours and was itself alive pre-step. The cell's staged slot is
unstaged pre-step, as every reachable pre-step state has it (the `FutureAlive`
default is `None` and `commit()` resets every staged slot it applies). -/
theorem step_life_rule (b : Board) (g : GridState) (i : Nat)
    (hi : i < b.size * b.size) (hfut : g.future i = none) :
    (step b g).current i = true ↔
      (neighbour_count b g.current i = 3 ∨
       (neighbour_count b g.current i = 2 ∧ g.current i = true)) :=
  step_rule_aux b g i hi hfut

/-- C1 witness: the rule applied to an isolated live cell at the centre of a
3×3 board; the cell has 0 live neighbours and is dead after the step. -/
theorem step_life_rule_witness :
    (4 < 3 * 3) ∧
    ((step ⟨3⟩ gIso).current 4 = true ↔
      (neighbour_count ⟨3⟩ gIso.current 4 = 3 ∨
       (neighbour_count ⟨3⟩ gIso.current 4 = 2 ∧ gIso.current 4 = true))) ∧
    (step ⟨3⟩ gIso).current 4 = false :=
  ⟨by decide, step_life_rule ⟨3⟩ gIso 4 (by decide) rfl, by decide⟩

/-- C3: for every in-range coordinate, the source's neighbour table entry is
exactly the spec's construction (row-major offsets, independent per-axis wrap,
then linearization), and on an 8×8 board the neighbours of `(0, 1)` include
the linear indices of `(7, 0)`, `(7, 1)` and `(7, 2)`. -/
theorem neighbour_indices_follow_spec (n x y : Nat) (hn : 0 < n)
    (hx : x < n) (hy : y < n) :
    neighbour_indices ⟨n⟩ (x, y) = spec_neighbour_indices n x y ∧
    cell_coord_to_idx ⟨8⟩ (7, 0) ∈ neighbour_indices ⟨8⟩ (0, 1) ∧
    cell_coord_to_idx ⟨8⟩ (7, 1) ∈ neighbour_indices ⟨8⟩ (0, 1) ∧
    cell_coord_to_idx ⟨8⟩ (7, 2) ∈ neighbour_indices ⟨8⟩ (0, 1) := by
  refine ⟨?_, by decide, by decide, by decide⟩
  have hoff : neighbour_offsets = spec_neighbour_offsets := by decide
  unfold neighbour_indices spec_neighbour_indices
  rw [hoff]
  refine List.map_congr_left fun off hmem => ?_
  have h1 : wrap_coord n ((x : Int) + off.1) < n := wrap_coord_lt n _ hn
  have h2 : wrap_coord n ((y : Int) + off.2) < n := wrap_coord_lt n _ hn
  rw [cell_coord_to_idx_eq_of_lt n _ _ h1 h2]
  rfl

/-- C3 witness: the spec construction coincides with the source table at the
concrete coordinate `(0, 1)` on an 8×8 board. -/
theorem neighbour_indices_follow_spec_witness :
    neighbour_indices ⟨8⟩ (0, 1) = spec_neighbour_indices 8 0 1 ∧
    cell_coord_to_idx ⟨8⟩ (7, 0) ∈ neighbour_indices ⟨8⟩ (0, 1) ∧
    cell_coord_to_idx ⟨8⟩ (7, 1) ∈ neighbour_indices ⟨8⟩ (0, 1) ∧
    cell_coord_to_idx ⟨8⟩ (7, 2) ∈ neighbour_indices ⟨8⟩ (0, 1) :=
  neighbour_indices_follow_spec 8 0 1 (by decide) (by decide) (by decide)

/-- C6 counterexample: the claim fails at grid size `N = 1` (which satisfies
`N > 0`): every neighbour of the single cell wraps back to that cell, so the
8 returned indices are all `0` and are not pairwise distinct. -/
theorem neighbour_indices_distinct_counterexample :
    0 < 1 ∧ 0 < 1 * 1 ∧
    neighbour_indices ⟨1⟩ (idx_to_cell_coord ⟨1⟩ 0) = [0, 0, 0, 0, 0, 0, 0, 0] ∧
    ¬ (neighbour_indices ⟨1⟩ (idx_to_cell_coord ⟨1⟩ 0)).Nodup := by
  decide

/-- C6 amended: for every grid size `N > 0` and cell index in `[0, N²)`, the 8
neighbour indices all lie in `[0, N²)`; they are pairwise distinct whenever
`N ≥ 3` (on 1- and 2-cell axes the toroidal wrap makes neighbours coincide). -/
theorem neighbour_indices_distinct (n i : Nat) (hn : 0 < n) (hi : i < n * n) :
    (∀ j ∈ neighbour_indices ⟨n⟩ (idx_to_cell_coord ⟨n⟩ i), j < n * n) ∧
    (3 ≤ n → (neighbour_indices ⟨n⟩ (idx_to_cell_coord ⟨n⟩ i)).Nodup) := by
  have hx : i % n < n := Nat.mod_lt i hn
  have hy : i / n < n := Nat.div_lt_of_lt_mul hi
  constructor
  · intro j hj
    unfold neighbour_indices at hj
    obtain ⟨off, hoff, rfl⟩ := List.mem_map.mp hj
    exact idx_lt_of_pos n _ _ hn
  · intro h3
    unfold neighbour_indices
    have hnodup : neighbour_offsets.Nodup := by decide
    refine hnodup.map_on fun off hoff off' hoff' heq => ?_
    have hb1 := wrap_coord_lt n (((idx_to_cell_coord ⟨n⟩ i).1 : Int) + off.1) hn
    have hb2 := wrap_coord_lt n (((idx_to_cell_coord ⟨n⟩ i).2 : Int) + off.2) hn
    have hb1' := wrap_coord_lt n (((idx_to_cell_coord ⟨n⟩ i).1 : Int) + off'.1) hn
    have hb2' := wrap_coord_lt n (((idx_to_cell_coord ⟨n⟩ i).2 : Int) + off'.2) hn
    rw [cell_coord_to_idx_eq_of_lt n _ _ hb1 hb2,
      cell_coord_to_idx_eq_of_lt n _ _ hb1' hb2'] at heq
    obtain ⟨hx_eq, hy_eq⟩ := linear_combine_inj n _ _ _ _ hn hb1 hb1' heq
    obtain ⟨hc1, hc2⟩ := neighbour_offsets_components off hoff
    obtain ⟨hc1', hc2'⟩ := neighbour_offsets_components off' hoff'
    have h1 : off.1 = off'.1 :=
      wrap_coord_offset_inj n (idx_to_cell_coord ⟨n⟩ i).1 off.1 off'.1 h3
        hx hc1 hc1' hx_eq
    have h2 : off.2 = off'.2 :=
      wrap_coord_offset_inj n (idx_to_cell_coord ⟨n⟩ i).2 off.2 off'.2 h3
        hy hc2 hc2' hy_eq
    obtain ⟨o1, o2⟩ := off
    obtain ⟨o1', o2'⟩ := off'
    simp only at h1 h2
    rw [h1, h2]

/-- C6 witness: distinctness and range at the concrete index 9 on an 8×8
board. -/
theorem neighbour_indices_distinct_witness :
    (neighbour_indices ⟨8⟩ (idx_to_cell_coord ⟨8⟩ 9)).Nodup :=
  (neighbour_indices_distinct 8 9 (by decide) (by decide)).2 (by decide)

/-- C8 witness: the no-op behaviour at `Running` on a concrete grid. -/
theorem mode_gates_commands_witness :
    (cells_set_life_on GameState.Running gStaged 0).current = gStaged.current ∧
    (handle_setup_kbd GameState.Running true (fun _ => true) gStaged).current =
      gStaged.current :=
  (mode_gates_commands GameState.Running gStaged 0 (fun _ => true)).1 rfl

/-! Infrastructure for the blinker claim. -/

/-- Two booleans are equal iff they are equivalent as propositions. -/
theorem bool_eq_iff (a b : Bool) : a = b ↔ (a = true ↔ b = true) := by
  cases a <;> cases b <;> simp

/-- A linearized in-range coordinate lies below `n * n`. -/
theorem mul_add_lt (n x y : Nat) (hx : x < n) (hy : y < n) :
    y * n + x < n * n := by
  have h1 : (y + 1) * n ≤ n * n := Nat.mul_le_mul_right n hy
  calc y * n + x < y * n + n := by omega
    _ = (y + 1) * n := by ring
    _ ≤ n * n := h1

/-- The value of the 8 neighbour offsets, row-major. -/
theorem neighbour_offsets_eq :
    neighbour_offsets =
      [(-1, -1), (0, -1), (1, -1), (-1, 0), (1, 0), (-1, 1), (0, 1), (1, 1)] := by
  decide

/-- The coordinate of a linearized in-range pair. -/
theorem idx_to_coord_linear (n x y : Nat) (hn : 0 < n) (hx : x < n) :
    idx_to_cell_coord ⟨n⟩ (y * n + x) = (x, y) := by
  unfold idx_to_cell_coord
  have h1 : (y * n + x) % n = x := by
    rw [mul_comm, Nat.mul_add_mod, Nat.mod_eq_of_lt hx]
  have h2 : (y * n + x) / n = y := by
    rw [mul_comm, Nat.mul_add_div hn, Nat.div_eq_of_lt hx]
    omega
  simp [h1, h2]

/-- Linearizing a wrapped pair needs no defensive modulo. -/
theorem idx_wrap (n : Nat) (hn : 0 < n) (p q : Int) :
    cell_coord_to_idx ⟨n⟩ (wrap_coord n p, wrap_coord n q) =
      wrap_coord n q * n + wrap_coord n p :=
  cell_coord_to_idx_eq_of_lt n _ _ (wrap_coord_lt n p hn) (wrap_coord_lt n q hn)

/-- The wrap is the identity on an in-range value. -/
theorem wrap_self (n x : Nat) (hx : x < n) : wrap_coord n (x : Int) = x := by
  unfold wrap_coord
  split_ifs <;> omega

/-- The wrap of a decrement, as a plain conditional on naturals. -/
theorem wrap_pred (n x : Nat) (hx : x < n) :
    wrap_coord n ((x : Int) + -1) = if x = 0 then n - 1 else x - 1 := by
  unfold wrap_coord
  split_ifs <;> omega

/-- The wrap of an increment, as a plain conditional on naturals. -/
theorem wrap_succ (n x : Nat) (hx : x < n) :
    wrap_coord n ((x : Int) + 1) = if x + 1 = n then 0 else x + 1 := by
  unfold wrap_coord
  split_ifs <;> omega

/-- Equality of linearized pairs with in-range columns is componentwise. -/
theorem lin_eq_iff {n a c : Nat} (hn : 0 < n) (ha : a < n) (hc : c < n)
    (b d : Nat) : b * n + a = d * n + c ↔ (b = d ∧ a = c) := by
  constructor
  · intro h
    have h2 := linear_combine_inj n a c b d hn ha hc h
    exact ⟨h2.2, h2.1⟩
  · rintro ⟨rfl, rfl⟩
    rfl

/-- Naming the wrapped decrement together with its linear characterization. -/
theorem if_pred_char (n x : Nat) (hn : 0 < n) (hx : x < n) :
    ∃ w, (if x = 0 then n - 1 else x - 1) = w ∧ w < n ∧
      ((x = 0 ∧ w = n - 1) ∨ (x ≠ 0 ∧ w = x - 1)) := by
  refine ⟨_, rfl, ?_, ?_⟩ <;> split_ifs <;> omega

/-- Naming the wrapped increment together with its linear characterization. -/
theorem if_succ_char (n x : Nat) (hx : x < n) :
    ∃ w, (if x + 1 = n then 0 else x + 1) = w ∧ w < n ∧
      ((x + 1 = n ∧ w = 0) ∨ (x + 1 ≠ n ∧ w = x + 1)) := by
  refine ⟨_, rfl, ?_, ?_⟩ <;> split_ifs <;> omega

/-- The neighbour count of an in-range cell, expanded to its 8 indicator
terms with every wrap written as a plain conditional. -/
theorem count_expand (n : Nat) (cur : Nat → Bool) (x y : Nat) (hn : 0 < n)
    (hx : x < n) (hy : y < n) :
    neighbour_count ⟨n⟩ cur (y * n + x) =
      (if cur ((if y = 0 then n - 1 else y - 1) * n +
          (if x = 0 then n - 1 else x - 1)) then 1 else 0) +
      ((if cur ((if y = 0 then n - 1 else y - 1) * n + x) then 1 else 0) +
      ((if cur ((if y = 0 then n - 1 else y - 1) * n +
          (if x + 1 = n then 0 else x + 1)) then 1 else 0) +
      ((if cur (y * n + (if x = 0 then n - 1 else x - 1)) then 1 else 0) +
      ((if cur (y * n + (if x + 1 = n then 0 else x + 1)) then 1 else 0) +
      ((if cur ((if y + 1 = n then 0 else y + 1) * n +
          (if x = 0 then n - 1 else x - 1)) then 1 else 0) +
      ((if cur ((if y + 1 = n then 0 else y + 1) * n + x) then 1 else 0) +
      (if cur ((if y + 1 = n then 0 else y + 1) * n +
          (if x + 1 = n then 0 else x + 1)) then 1 else 0))))))) := by
  unfold neighbour_count
  rw [idx_to_coord_linear n x y hn hx]
  unfold neighbour_indices
  rw [neighbour_offsets_eq]
  simp only [List.map_cons, List.map_nil, List.sum_cons, List.sum_nil,
    idx_wrap n hn, add_zero, wrap_pred n x hx, wrap_pred n y hy,
    wrap_succ n x hx, wrap_succ n y hy, wrap_self n x hx, wrap_self n y hy]

/-- Grid states with equal buffers are equal. -/
theorem GridState_ext (g h : GridState) (hc : ∀ i, g.current i = h.current i)
    (hf : ∀ i, g.future i = h.future i) : g = h := by
  cases g
  cases h
  simp only [GridState.mk.injEq]
  exact ⟨funext hc, funext hf⟩

/-- Outside the spawned cells both blinker phases are dead. -/
theorem blinker_far (n x0 y0 i : Nat) (hx4 : x0 + 4 ≤ n) (hy2 : 2 ≤ y0)
    (hy3 : y0 + 3 ≤ n) (hi : ¬ i < n * n) :
    (blinker n x0 y0).current i = false ∧
    (vblinker n x0 y0).current i = false := by
  have h1 : y0 * n + x0 < n * n := mul_add_lt n x0 y0 (by omega) (by omega)
  have h2 : y0 * n + (x0 + 1) < n * n := mul_add_lt n (x0 + 1) y0 (by omega) (by omega)
  have h3 : y0 * n + (x0 + 2) < n * n := mul_add_lt n (x0 + 2) y0 (by omega) (by omega)
  have h4 : (y0 - 1) * n + (x0 + 1) < n * n :=
    mul_add_lt n (x0 + 1) (y0 - 1) (by omega) (by omega)
  have h5 : (y0 + 1) * n + (x0 + 1) < n * n :=
    mul_add_lt n (x0 + 1) (y0 + 1) (by omega) (by omega)
  unfold blinker vblinker
  simp only [Bool.or_eq_false_iff, beq_eq_false_iff_ne, ne_eq]
  omega


/-- Naming the value of an indicator term together with its meaning. -/
theorem ind_char (P : Prop) [Decidable P] :
    ∃ k : Nat, (if P then (1 : Nat) else 0) = k ∧
      ((P ∧ k = 1) ∨ (¬ P ∧ k = 0)) := by
  split_ifs with h
  · exact ⟨1, rfl, Or.inl ⟨h, rfl⟩⟩
  · exact ⟨0, rfl, Or.inr ⟨h, rfl⟩⟩

/-- An indicator whose condition holds has value 1. -/
theorem ind_val_pos {P : Prop} {k : Nat}
    (h : (P ∧ k = 1) ∨ (¬ P ∧ k = 0)) (hp : P) : k = 1 := by
  rcases h with ⟨_, he⟩ | ⟨hnp, _⟩
  · exact he
  · exact absurd hp hnp

/-- An indicator whose condition fails has value 0. -/
theorem ind_val_neg {P : Prop} {k : Nat}
    (h : (P ∧ k = 1) ∨ (¬ P ∧ k = 0)) (hp : ¬ P) : k = 0 := by
  rcases h with ⟨hpp, _⟩ | ⟨_, he⟩
  · exact absurd hpp hp
  · exact he

/-- Case analysis leaf for `blinker_step1`. -/
theorem blinker_step1_case1 (n x0 y0 x y k1 k2 k3 k4 k5 k6 k7 k8 : Nat)
    (hx0 : 1 ≤ x0) (hx4 : x0 + 4 ≤ n) (hy2 : 2 ≤ y0) (hy3 : y0 + 3 ≤ n)
    (hk1 : (((y = y0 + 1 ∧ x = x0 + 1 ∨ y = y0 + 1 ∧ x = x0 + 2) ∨ y = y0 + 1 ∧ x = x0 + 3) ∧ k1 = 1) ∨ (¬((y = y0 + 1 ∧ x = x0 + 1 ∨ y = y0 + 1 ∧ x = x0 + 2) ∨ y = y0 + 1 ∧ x = x0 + 3) ∧ k1 = 0))
    (hk2 : (((y = y0 + 1 ∧ x = x0 ∨ y = y0 + 1 ∧ x = x0 + 1) ∨ y = y0 + 1 ∧ x = x0 + 2) ∧ k2 = 1) ∨ (¬((y = y0 + 1 ∧ x = x0 ∨ y = y0 + 1 ∧ x = x0 + 1) ∨ y = y0 + 1 ∧ x = x0 + 2) ∧ k2 = 0))
    (hk3 : (((y = y0 + 1 ∧ x + 1 = x0 ∨ y = y0 + 1 ∧ x = x0) ∨ y = y0 + 1 ∧ x = x0 + 1) ∧ k3 = 1) ∨ (¬((y = y0 + 1 ∧ x + 1 = x0 ∨ y = y0 + 1 ∧ x = x0) ∨ y = y0 + 1 ∧ x = x0 + 1) ∧ k3 = 0))
    (hk4 : (((y = y0 ∧ x = x0 + 1 ∨ y = y0 ∧ x = x0 + 2) ∨ y = y0 ∧ x = x0 + 3) ∧ k4 = 1) ∨ (¬((y = y0 ∧ x = x0 + 1 ∨ y = y0 ∧ x = x0 + 2) ∨ y = y0 ∧ x = x0 + 3) ∧ k4 = 0))
    (hk5 : (((y = y0 ∧ x + 1 = x0 ∨ y = y0 ∧ x = x0) ∨ y = y0 ∧ x = x0 + 1) ∧ k5 = 1) ∨ (¬((y = y0 ∧ x + 1 = x0 ∨ y = y0 ∧ x = x0) ∨ y = y0 ∧ x = x0 + 1) ∧ k5 = 0))
    (hk6 : (((y + 1 = y0 ∧ x = x0 + 1 ∨ y + 1 = y0 ∧ x = x0 + 2) ∨ y + 1 = y0 ∧ x = x0 + 3) ∧ k6 = 1) ∨ (¬((y + 1 = y0 ∧ x = x0 + 1 ∨ y + 1 = y0 ∧ x = x0 + 2) ∨ y + 1 = y0 ∧ x = x0 + 3) ∧ k6 = 0))
    (hk7 : (((y + 1 = y0 ∧ x = x0 ∨ y + 1 = y0 ∧ x = x0 + 1) ∨ y + 1 = y0 ∧ x = x0 + 2) ∧ k7 = 1) ∨ (¬((y + 1 = y0 ∧ x = x0 ∨ y + 1 = y0 ∧ x = x0 + 1) ∨ y + 1 = y0 ∧ x = x0 + 2) ∧ k7 = 0))
    (hk8 : (((y + 1 = y0 ∧ x + 1 = x0 ∨ y + 1 = y0 ∧ x = x0) ∨ y + 1 = y0 ∧ x = x0 + 1) ∧ k8 = 1) ∨ (¬((y + 1 = y0 ∧ x + 1 = x0 ∨ y + 1 = y0 ∧ x = x0) ∨ y + 1 = y0 ∧ x = x0 + 1) ∧ k8 = 0))
    (h1 : x + 1 = x0) (h2 : y + 1 = y0) :
    (k1 + (k2 + (k3 + (k4 + (k5 + (k6 + (k7 + k8)))))) = 3 ∨ k1 + (k2 + (k3 + (k4 + (k5 + (k6 + (k7 + k8)))))) = 2 ∧ ((y = y0 ∧ x = x0 ∨ y = y0 ∧ x = x0 + 1) ∨ y = y0 ∧ x = x0 + 2)) ↔ ((y = y0 - 1 ∧ x = x0 + 1 ∨ y = y0 ∧ x = x0 + 1) ∨ y = y0 + 1 ∧ x = x0 + 1) := by
  have e1 := ind_val_neg hk1 (by clear hk1 hk2 hk3 hk4 hk5 hk6 hk7 hk8; omega)
  have e2 := ind_val_neg hk2 (by clear hk1 hk2 hk3 hk4 hk5 hk6 hk7 hk8; omega)
  have e3 := ind_val_neg hk3 (by clear hk1 hk2 hk3 hk4 hk5 hk6 hk7 hk8; omega)
  have e4 := ind_val_neg hk4 (by clear hk1 hk2 hk3 hk4 hk5 hk6 hk7 hk8; omega)
  have e5 := ind_val_neg hk5 (by clear hk1 hk2 hk3 hk4 hk5 hk6 hk7 hk8; omega)
  have e6 := ind_val_neg hk6 (by clear hk1 hk2 hk3 hk4 hk5 hk6 hk7 hk8; omega)
  have e7 := ind_val_neg hk7 (by clear hk1 hk2 hk3 hk4 hk5 hk6 hk7 hk8; omega)
  have e8 := ind_val_pos hk8 (by clear hk1 hk2 hk3 hk4 hk5 hk6 hk7 hk8; omega)
  clear hk1 hk2 hk3 hk4 hk5 hk6 hk7 hk8
  omega

/-- Case analysis leaf for `blinker_step1`. -/
theorem blinker_step1_case2 (n x0 y0 x y k1 k2 k3 k4 k5 k6 k7 k8 : Nat)
    (hx0 : 1 ≤ x0) (hx4 : x0 + 4 ≤ n) (hy2 : 2 ≤ y0) (hy3 : y0 + 3 ≤ n)
    (hk1 : (((y = y0 + 1 ∧ x = x0 + 1 ∨ y = y0 + 1 ∧ x = x0 + 2) ∨ y = y0 + 1 ∧ x = x0 + 3) ∧ k1 = 1) ∨ (¬((y = y0 + 1 ∧ x = x0 + 1 ∨ y = y0 + 1 ∧ x = x0 + 2) ∨ y = y0 + 1 ∧ x = x0 + 3) ∧ k1 = 0))
    (hk2 : (((y = y0 + 1 ∧ x = x0 ∨ y = y0 + 1 ∧ x = x0 + 1) ∨ y = y0 + 1 ∧ x = x0 + 2) ∧ k2 = 1) ∨ (¬((y = y0 + 1 ∧ x = x0 ∨ y = y0 + 1 ∧ x = x0 + 1) ∨ y = y0 + 1 ∧ x = x0 + 2) ∧ k2 = 0))
    (hk3 : (((y = y0 + 1 ∧ x + 1 = x0 ∨ y = y0 + 1 ∧ x = x0) ∨ y = y0 + 1 ∧ x = x0 + 1) ∧ k3 = 1) ∨ (¬((y = y0 + 1 ∧ x + 1 = x0 ∨ y = y0 + 1 ∧ x = x0) ∨ y = y0 + 1 ∧ x = x0 + 1) ∧ k3 = 0))
    (hk4 : (((y = y0 ∧ x = x0 + 1 ∨ y = y0 ∧ x = x0 + 2) ∨ y = y0 ∧ x = x0 + 3) ∧ k4 = 1) ∨ (¬((y = y0 ∧ x = x0 + 1 ∨ y = y0 ∧ x = x0 + 2) ∨ y = y0 ∧ x = x0 + 3) ∧ k4 = 0))
    (hk5 : (((y = y0 ∧ x + 1 = x0 ∨ y = y0 ∧ x = x0) ∨ y = y0 ∧ x = x0 + 1) ∧ k5 = 1) ∨ (¬((y = y0 ∧ x + 1 = x0 ∨ y = y0 ∧ x = x0) ∨ y = y0 ∧ x = x0 + 1) ∧ k5 = 0))
    (hk6 : (((y + 1 = y0 ∧ x = x0 + 1 ∨ y + 1 = y0 ∧ x = x0 + 2) ∨ y + 1 = y0 ∧ x = x0 + 3) ∧ k6 = 1) ∨ (¬((y + 1 = y0 ∧ x = x0 + 1 ∨ y + 1 = y0 ∧ x = x0 + 2) ∨ y + 1 = y0 ∧ x = x0 + 3) ∧ k6 = 0))
    (hk7 : (((y + 1 = y0 ∧ x = x0 ∨ y + 1 = y0 ∧ x = x0 + 1) ∨ y + 1 = y0 ∧ x = x0 + 2) ∧ k7 = 1) ∨ (¬((y + 1 = y0 ∧ x = x0 ∨ y + 1 = y0 ∧ x = x0 + 1) ∨ y + 1 = y0 ∧ x = x0 + 2) ∧ k7 = 0))
    (hk8 : (((y + 1 = y0 ∧ x + 1 = x0 ∨ y + 1 = y0 ∧ x = x0) ∨ y + 1 = y0 ∧ x = x0 + 1) ∧ k8 = 1) ∨ (¬((y + 1 = y0 ∧ x + 1 = x0 ∨ y + 1 = y0 ∧ x = x0) ∨ y + 1 = y0 ∧ x = x0 + 1) ∧ k8 = 0))
    (h1 : x + 1 = x0) (h2 : y = y0) :
    (k1 + (k2 + (k3 + (k4 + (k5 + (k6 + (k7 + k8)))))) = 3 ∨ k1 + (k2 + (k3 + (k4 + (k5 + (k6 + (k7 + k8)))))) = 2 ∧ ((y = y0 ∧ x = x0 ∨ y = y0 ∧ x = x0 + 1) ∨ y = y0 ∧ x = x0 + 2)) ↔ ((y = y0 - 1 ∧ x = x0 + 1 ∨ y = y0 ∧ x = x0 + 1) ∨ y = y0 + 1 ∧ x = x0 + 1) := by
  have e1 := ind_val_neg hk1 (by clear hk1 hk2 hk3 hk4 hk5 hk6 hk7 hk8; omega)
  have e2 := ind_val_neg hk2 (by clear hk1 hk2 hk3 hk4 hk5 hk6 hk7 hk8; omega)
  have e3 := ind_val_neg hk3 (by clear hk1 hk2 hk3 hk4 hk5 hk6 hk7 hk8; omega)
  have e4 := ind_val_neg hk4 (by clear hk1 hk2 hk3 hk4 hk5 hk6 hk7 hk8; omega)
  have e5 := ind_val_pos hk5 (by clear hk1 hk2 hk3 hk4 hk5 hk6 hk7 hk8; omega)
  have e6 := ind_val_neg hk6 (by clear hk1 hk2 hk3 hk4 hk5 hk6 hk7 hk8; omega)
  have e7 := ind_val_neg hk7 (by clear hk1 hk2 hk3 hk4 hk5 hk6 hk7 hk8; omega)
  have e8 := ind_val_neg hk8 (by clear hk1 hk2 hk3 hk4 hk5 hk6 hk7 hk8; omega)
  clear hk1 hk2 hk3 hk4 hk5 hk6 hk7 hk8
  omega

/-- Case analysis leaf for `blinker_step1`. -/
theorem blinker_step1_case3 (n x0 y0 x y k1 k2 k3 k4 k5 k6 k7 k8 : Nat)
    (hx0 : 1 ≤ x0) (hx4 : x0 + 4 ≤ n) (hy2 : 2 ≤ y0) (hy3 : y0 + 3 ≤ n)
    (hk1 : (((y = y0 + 1 ∧ x = x0 + 1 ∨ y = y0 + 1 ∧ x = x0 + 2) ∨ y = y0 + 1 ∧ x = x0 + 3) ∧ k1 = 1) ∨ (¬((y = y0 + 1 ∧ x = x0 + 1 ∨ y = y0 + 1 ∧ x = x0 + 2) ∨ y = y0 + 1 ∧ x = x0 + 3) ∧ k1 = 0))
    (hk2 : (((y = y0 + 1 ∧ x = x0 ∨ y = y0 + 1 ∧ x = x0 + 1) ∨ y = y0 + 1 ∧ x = x0 + 2) ∧ k2 = 1) ∨ (¬((y = y0 + 1 ∧ x = x0 ∨ y = y0 + 1 ∧ x = x0 + 1) ∨ y = y0 + 1 ∧ x = x0 + 2) ∧ k2 = 0))
    (hk3 : (((y = y0 + 1 ∧ x + 1 = x0 ∨ y = y0 + 1 ∧ x = x0) ∨ y = y0 + 1 ∧ x = x0 + 1) ∧ k3 = 1) ∨ (¬((y = y0 + 1 ∧ x + 1 = x0 ∨ y = y0 + 1 ∧ x = x0) ∨ y = y0 + 1 ∧ x = x0 + 1) ∧ k3 = 0))
    (hk4 : (((y = y0 ∧ x = x0 + 1 ∨ y = y0 ∧ x = x0 + 2) ∨ y = y0 ∧ x = x0 + 3) ∧ k4 = 1) ∨ (¬((y = y0 ∧ x = x0 + 1 ∨ y = y0 ∧ x = x0 + 2) ∨ y = y0 ∧ x = x0 + 3) ∧ k4 = 0))
    (hk5 : (((y = y0 ∧ x + 1 = x0 ∨ y = y0 ∧ x = x0) ∨ y = y0 ∧ x = x0 + 1) ∧ k5 = 1) ∨ (¬((y = y0 ∧ x + 1 = x0 ∨ y = y0 ∧ x = x0) ∨ y = y0 ∧ x = x0 + 1) ∧ k5 = 0))
    (hk6 : (((y + 1 = y0 ∧ x = x0 + 1 ∨ y + 1 = y0 ∧ x = x0 + 2) ∨ y + 1 = y0 ∧ x = x0 + 3) ∧ k6 = 1) ∨ (¬((y + 1 = y0 ∧ x = x0 + 1 ∨ y + 1 = y0 ∧ x = x0 + 2) ∨ y + 1 = y0 ∧ x = x0 + 3) ∧ k6 = 0))
    (hk7 : (((y + 1 = y0 ∧ x = x0 ∨ y + 1 = y0 ∧ x = x0 + 1) ∨ y + 1 = y0 ∧ x = x0 + 2) ∧ k7 = 1) ∨ (¬((y + 1 = y0 ∧ x = x0 ∨ y + 1 = y0 ∧ x = x0 + 1) ∨ y + 1 = y0 ∧ x = x0 + 2) ∧ k7 = 0))
    (hk8 : (((y + 1 = y0 ∧ x + 1 = x0 ∨ y + 1 = y0 ∧ x = x0) ∨ y + 1 = y0 ∧ x = x0 + 1) ∧ k8 = 1) ∨ (¬((y + 1 = y0 ∧ x + 1 = x0 ∨ y + 1 = y0 ∧ x = x0) ∨ y + 1 = y0 ∧ x = x0 + 1) ∧ k8 = 0))
    (h1 : x + 1 = x0) (h2 : y = y0 + 1) :
    (k1 + (k2 + (k3 + (k4 + (k5 + (k6 + (k7 + k8)))))) = 3 ∨ k1 + (k2 + (k3 + (k4 + (k5 + (k6 + (k7 + k8)))))) = 2 ∧ ((y = y0 ∧ x = x0 ∨ y = y0 ∧ x = x0 + 1) ∨ y = y0 ∧ x = x0 + 2)) ↔ ((y = y0 - 1 ∧ x = x0 + 1 ∨ y = y0 ∧ x = x0 + 1) ∨ y = y0 + 1 ∧ x = x0 + 1) := by
  have e1 := ind_val_neg hk1 (by clear hk1 hk2 hk3 hk4 hk5 hk6 hk7 hk8; omega)
  have e2 := ind_val_neg hk2 (by clear hk1 hk2 hk3 hk4 hk5 hk6 hk7 hk8; omega)
  have e3 := ind_val_pos hk3 (by clear hk1 hk2 hk3 hk4 hk5 hk6 hk7 hk8; omega)
  have e4 := ind_val_neg hk4 (by clear hk1 hk2 hk3 hk4 hk5 hk6 hk7 hk8; omega)
  have e5 := ind_val_neg hk5 (by clear hk1 hk2 hk3 hk4 hk5 hk6 hk7 hk8; omega)
  have e6 := ind_val_neg hk6 (by clear hk1 hk2 hk3 hk4 hk5 hk6 hk7 hk8; omega)
  have e7 := ind_val_neg hk7 (by clear hk1 hk2 hk3 hk4 hk5 hk6 hk7 hk8; omega)
  have e8 := ind_val_neg hk8 (by clear hk1 hk2 hk3 hk4 hk5 hk6 hk7 hk8; omega)
  clear hk1 hk2 hk3 hk4 hk5 hk6 hk7 hk8
  omega

/-- Case analysis leaf for `blinker_step1`. -/
theorem blinker_step1_case4 (n x0 y0 x y k1 k2 k3 k4 k5 k6 k7 k8 : Nat)
    (hx0 : 1 ≤ x0) (hx4 : x0 + 4 ≤ n) (hy2 : 2 ≤ y0) (hy3 : y0 + 3 ≤ n)
    (hk1 : (((y = y0 + 1 ∧ x = x0 + 1 ∨ y = y0 + 1 ∧ x = x0 + 2) ∨ y = y0 + 1 ∧ x = x0 + 3) ∧ k1 = 1) ∨ (¬((y = y0 + 1 ∧ x = x0 + 1 ∨ y = y0 + 1 ∧ x = x0 + 2) ∨ y = y0 + 1 ∧ x = x0 + 3) ∧ k1 = 0))
    (hk2 : (((y = y0 + 1 ∧ x = x0 ∨ y = y0 + 1 ∧ x = x0 + 1) ∨ y = y0 + 1 ∧ x = x0 + 2) ∧ k2 = 1) ∨ (¬((y = y0 + 1 ∧ x = x0 ∨ y = y0 + 1 ∧ x = x0 + 1) ∨ y = y0 + 1 ∧ x = x0 + 2) ∧ k2 = 0))
    (hk3 : (((y = y0 + 1 ∧ x + 1 = x0 ∨ y = y0 + 1 ∧ x = x0) ∨ y = y0 + 1 ∧ x = x0 + 1) ∧ k3 = 1) ∨ (¬((y = y0 + 1 ∧ x + 1 = x0 ∨ y = y0 + 1 ∧ x = x0) ∨ y = y0 + 1 ∧ x = x0 + 1) ∧ k3 = 0))
    (hk4 : (((y = y0 ∧ x = x0 + 1 ∨ y = y0 ∧ x = x0 + 2) ∨ y = y0 ∧ x = x0 + 3) ∧ k4 = 1) ∨ (¬((y = y0 ∧ x = x0 + 1 ∨ y = y0 ∧ x = x0 + 2) ∨ y = y0 ∧ x = x0 + 3) ∧ k4 = 0))
    (hk5 : (((y = y0 ∧ x + 1 = x0 ∨ y = y0 ∧ x = x0) ∨ y = y0 ∧ x = x0 + 1) ∧ k5 = 1) ∨ (¬((y = y0 ∧ x + 1 = x0 ∨ y = y0 ∧ x = x0) ∨ y = y0 ∧ x = x0 + 1) ∧ k5 = 0))
    (hk6 : (((y + 1 = y0 ∧ x = x0 + 1 ∨ y + 1 = y0 ∧ x = x0 + 2) ∨ y + 1 = y0 ∧ x = x0 + 3) ∧ k6 = 1) ∨ (¬((y + 1 = y0 ∧ x = x0 + 1 ∨ y + 1 = y0 ∧ x = x0 + 2) ∨ y + 1 = y0 ∧ x = x0 + 3) ∧ k6 = 0))
    (hk7 : (((y + 1 = y0 ∧ x = x0 ∨ y + 1 = y0 ∧ x = x0 + 1) ∨ y + 1 = y0 ∧ x = x0 + 2) ∧ k7 = 1) ∨ (¬((y + 1 = y0 ∧ x = x0 ∨ y + 1 = y0 ∧ x = x0 + 1) ∨ y + 1 = y0 ∧ x = x0 + 2) ∧ k7 = 0))
    (hk8 : (((y + 1 = y0 ∧ x + 1 = x0 ∨ y + 1 = y0 ∧ x = x0) ∨ y + 1 = y0 ∧ x = x0 + 1) ∧ k8 = 1) ∨ (¬((y + 1 = y0 ∧ x + 1 = x0 ∨ y + 1 = y0 ∧ x = x0) ∨ y + 1 = y0 ∧ x = x0 + 1) ∧ k8 = 0))
    (h1 : x + 1 = x0) (h2 : y + 1 < y0) :
    (k1 + (k2 + (k3 + (k4 + (k5 + (k6 + (k7 + k8)))))) = 3 ∨ k1 + (k2 + (k3 + (k4 + (k5 + (k6 + (k7 + k8)))))) = 2 ∧ ((y = y0 ∧ x = x0 ∨ y = y0 ∧ x = x0 + 1) ∨ y = y0 ∧ x = x0 + 2)) ↔ ((y = y0 - 1 ∧ x = x0 + 1 ∨ y = y0 ∧ x = x0 + 1) ∨ y = y0 + 1 ∧ x = x0 + 1) := by
  have e1 := ind_val_neg hk1 (by clear hk1 hk2 hk3 hk4 hk5 hk6 hk7 hk8; omega)
  have e2 := ind_val_neg hk2 (by clear hk1 hk2 hk3 hk4 hk5 hk6 hk7 hk8; omega)
  have e3 := ind_val_neg hk3 (by clear hk1 hk2 hk3 hk4 hk5 hk6 hk7 hk8; omega)
  have e4 := ind_val_neg hk4 (by clear hk1 hk2 hk3 hk4 hk5 hk6 hk7 hk8; omega)
  have e5 := ind_val_neg hk5 (by clear hk1 hk2 hk3 hk4 hk5 hk6 hk7 hk8; omega)
  have e6 := ind_val_neg hk6 (by clear hk1 hk2 hk3 hk4 hk5 hk6 hk7 hk8; omega)
  have e7 := ind_val_neg hk7 (by clear hk1 hk2 hk3 hk4 hk5 hk6 hk7 hk8; omega)
  have e8 := ind_val_neg hk8 (by clear hk1 hk2 hk3 hk4 hk5 hk6 hk7 hk8; omega)
  clear hk1 hk2 hk3 hk4 hk5 hk6 hk7 hk8
  omega

/-- Case analysis leaf for `blinker_step1`. -/
theorem blinker_step1_case5 (n x0 y0 x y k1 k2 k3 k4 k5 k6 k7 k8 : Nat)
    (hx0 : 1 ≤ x0) (hx4 : x0 + 4 ≤ n) (hy2 : 2 ≤ y0) (hy3 : y0 + 3 ≤ n)
    (hk1 : (((y = y0 + 1 ∧ x = x0 + 1 ∨ y = y0 + 1 ∧ x = x0 + 2) ∨ y = y0 + 1 ∧ x = x0 + 3) ∧ k1 = 1) ∨ (¬((y = y0 + 1 ∧ x = x0 + 1 ∨ y = y0 + 1 ∧ x = x0 + 2) ∨ y = y0 + 1 ∧ x = x0 + 3) ∧ k1 = 0))
    (hk2 : (((y = y0 + 1 ∧ x = x0 ∨ y = y0 + 1 ∧ x = x0 + 1) ∨ y = y0 + 1 ∧ x = x0 + 2) ∧ k2 = 1) ∨ (¬((y = y0 + 1 ∧ x = x0 ∨ y = y0 + 1 ∧ x = x0 + 1) ∨ y = y0 + 1 ∧ x = x0 + 2) ∧ k2 = 0))
    (hk3 : (((y = y0 + 1 ∧ x + 1 = x0 ∨ y = y0 + 1 ∧ x = x0) ∨ y = y0 + 1 ∧ x = x0 + 1) ∧ k3 = 1) ∨ (¬((y = y0 + 1 ∧ x + 1 = x0 ∨ y = y0 + 1 ∧ x = x0) ∨ y = y0 + 1 ∧ x = x0 + 1) ∧ k3 = 0))
    (hk4 : (((y = y0 ∧ x = x0 + 1 ∨ y = y0 ∧ x = x0 + 2) ∨ y = y0 ∧ x = x0 + 3) ∧ k4 = 1) ∨ (¬((y = y0 ∧ x = x0 + 1 ∨ y = y0 ∧ x = x0 + 2) ∨ y = y0 ∧ x = x0 + 3) ∧ k4 = 0))
    (hk5 : (((y = y0 ∧ x + 1 = x0 ∨ y = y0 ∧ x = x0) ∨ y = y0 ∧ x = x0 + 1) ∧ k5 = 1) ∨ (¬((y = y0 ∧ x + 1 = x0 ∨ y = y0 ∧ x = x0) ∨ y = y0 ∧ x = x0 + 1) ∧ k5 = 0))
    (hk6 : (((y + 1 = y0 ∧ x = x0 + 1 ∨ y + 1 = y0 ∧ x = x0 + 2) ∨ y + 1 = y0 ∧ x = x0 + 3) ∧ k6 = 1) ∨ (¬((y + 1 = y0 ∧ x = x0 + 1 ∨ y + 1 = y0 ∧ x = x0 + 2) ∨ y + 1 = y0 ∧ x = x0 + 3) ∧ k6 = 0))
    (hk7 : (((y + 1 = y0 ∧ x = x0 ∨ y + 1 = y0 ∧ x = x0 + 1) ∨ y + 1 = y0 ∧ x = x0 + 2) ∧ k7 = 1) ∨ (¬((y + 1 = y0 ∧ x = x0 ∨ y + 1 = y0 ∧ x = x0 + 1) ∨ y + 1 = y0 ∧ x = x0 + 2) ∧ k7 = 0))
    (hk8 : (((y + 1 = y0 ∧ x + 1 = x0 ∨ y + 1 = y0 ∧ x = x0) ∨ y + 1 = y0 ∧ x = x0 + 1) ∧ k8 = 1) ∨ (¬((y + 1 = y0 ∧ x + 1 = x0 ∨ y + 1 = y0 ∧ x = x0) ∨ y + 1 = y0 ∧ x = x0 + 1) ∧ k8 = 0))
    (h1 : x + 1 = x0) (h2 : y0 + 2 ≤ y) :
    (k1 + (k2 + (k3 + (k4 + (k5 + (k6 + (k7 + k8)))))) = 3 ∨ k1 + (k2 + (k3 + (k4 + (k5 + (k6 + (k7 + k8)))))) = 2 ∧ ((y = y0 ∧ x = x0 ∨ y = y0 ∧ x = x0 + 1) ∨ y = y0 ∧ x = x0 + 2)) ↔ ((y = y0 - 1 ∧ x = x0 + 1 ∨ y = y0 ∧ x = x0 + 1) ∨ y = y0 + 1 ∧ x = x0 + 1) := by
  have e1 := ind_val_neg hk1 (by clear hk1 hk2 hk3 hk4 hk5 hk6 hk7 hk8; omega)
  have e2 := ind_val_neg hk2 (by clear hk1 hk2 hk3 hk4 hk5 hk6 hk7 hk8; omega)
  have e3 := ind_val_neg hk3 (by clear hk1 hk2 hk3 hk4 hk5 hk6 hk7 hk8; omega)
  have e4 := ind_val_neg hk4 (by clear hk1 hk2 hk3 hk4 hk5 hk6 hk7 hk8; omega)
  have e5 := ind_val_neg hk5 (by clear hk1 hk2 hk3 hk4 hk5 hk6 hk7 hk8; omega)
  have e6 := ind_val_neg hk6 (by clear hk1 hk2 hk3 hk4 hk5 hk6 hk7 hk8; omega)
  have e7 := ind_val_neg hk7 (by clear hk1 hk2 hk3 hk4 hk5 hk6 hk7 hk8; omega)
  have e8 := ind_val_neg hk8 (by clear hk1 hk2 hk3 hk4 hk5 hk6 hk7 hk8; omega)
  clear hk1 hk2 hk3 hk4 hk5 hk6 hk7 hk8
  omega

/-- Case analysis leaf for `blinker_step1`. -/
theorem blinker_step1_case6 (n x0 y0 x y k1 k2 k3 k4 k5 k6 k7 k8 : Nat)
    (hx0 : 1 ≤ x0) (hx4 : x0 + 4 ≤ n) (hy2 : 2 ≤ y0) (hy3 : y0 + 3 ≤ n)
    (hk1 : (((y = y0 + 1 ∧ x = x0 + 1 ∨ y = y0 + 1 ∧ x = x0 + 2) ∨ y = y0 + 1 ∧ x = x0 + 3) ∧ k1 = 1) ∨ (¬((y = y0 + 1 ∧ x = x0 + 1 ∨ y = y0 + 1 ∧ x = x0 + 2) ∨ y = y0 + 1 ∧ x = x0 + 3) ∧ k1 = 0))
    (hk2 : (((y = y0 + 1 ∧ x = x0 ∨ y = y0 + 1 ∧ x = x0 + 1) ∨ y = y0 + 1 ∧ x = x0 + 2) ∧ k2 = 1) ∨ (¬((y = y0 + 1 ∧ x = x0 ∨ y = y0 + 1 ∧ x = x0 + 1) ∨ y = y0 + 1 ∧ x = x0 + 2) ∧ k2 = 0))
    (hk3 : (((y = y0 + 1 ∧ x + 1 = x0 ∨ y = y0 + 1 ∧ x = x0) ∨ y = y0 + 1 ∧ x = x0 + 1) ∧ k3 = 1) ∨ (¬((y = y0 + 1 ∧ x + 1 = x0 ∨ y = y0 + 1 ∧ x = x0) ∨ y = y0 + 1 ∧ x = x0 + 1) ∧ k3 = 0))
    (hk4 : (((y = y0 ∧ x = x0 + 1 ∨ y = y0 ∧ x = x0 + 2) ∨ y = y0 ∧ x = x0 + 3) ∧ k4 = 1) ∨ (¬((y = y0 ∧ x = x0 + 1 ∨ y = y0 ∧ x = x0 + 2) ∨ y = y0 ∧ x = x0 + 3) ∧ k4 = 0))
    (hk5 : (((y = y0 ∧ x + 1 = x0 ∨ y = y0 ∧ x = x0) ∨ y = y0 ∧ x = x0 + 1) ∧ k5 = 1) ∨ (¬((y = y0 ∧ x + 1 = x0 ∨ y = y0 ∧ x = x0) ∨ y = y0 ∧ x = x0 + 1) ∧ k5 = 0))
    (hk6 : (((y + 1 = y0 ∧ x = x0 + 1 ∨ y + 1 = y0 ∧ x = x0 + 2) ∨ y + 1 = y0 ∧ x = x0 + 3) ∧ k6 = 1) ∨ (¬((y + 1 = y0 ∧ x = x0 + 1 ∨ y + 1 = y0 ∧ x = x0 + 2) ∨ y + 1 = y0 ∧ x = x0 + 3) ∧ k6 = 0))
    (hk7 : (((y + 1 = y0 ∧ x = x0 ∨ y + 1 = y0 ∧ x = x0 + 1) ∨ y + 1 = y0 ∧ x = x0 + 2) ∧ k7 = 1) ∨ (¬((y + 1 = y0 ∧ x = x0 ∨ y + 1 = y0 ∧ x = x0 + 1) ∨ y + 1 = y0 ∧ x = x0 + 2) ∧ k7 = 0))
    (hk8 : (((y + 1 = y0 ∧ x + 1 = x0 ∨ y + 1 = y0 ∧ x = x0) ∨ y + 1 = y0 ∧ x = x0 + 1) ∧ k8 = 1) ∨ (¬((y + 1 = y0 ∧ x + 1 = x0 ∨ y + 1 = y0 ∧ x = x0) ∨ y + 1 = y0 ∧ x = x0 + 1) ∧ k8 = 0))
    (h1 : x = x0) (h2 : y + 1 = y0) :
    (k1 + (k2 + (k3 + (k4 + (k5 + (k6 + (k7 + k8)))))) = 3 ∨ k1 + (k2 + (k3 + (k4 + (k5 + (k6 + (k7 + k8)))))) = 2 ∧ ((y = y0 ∧ x = x0 ∨ y = y0 ∧ x = x0 + 1) ∨ y = y0 ∧ x = x0 + 2)) ↔ ((y = y0 - 1 ∧ x = x0 + 1 ∨ y = y0 ∧ x = x0 + 1) ∨ y = y0 + 1 ∧ x = x0 + 1) := by
  have e1 := ind_val_neg hk1 (by clear hk1 hk2 hk3 hk4 hk5 hk6 hk7 hk8; omega)
  have e2 := ind_val_neg hk2 (by clear hk1 hk2 hk3 hk4 hk5 hk6 hk7 hk8; omega)
  have e3 := ind_val_neg hk3 (by clear hk1 hk2 hk3 hk4 hk5 hk6 hk7 hk8; omega)
  have e4 := ind_val_neg hk4 (by clear hk1 hk2 hk3 hk4 hk5 hk6 hk7 hk8; omega)
  have e5 := ind_val_neg hk5 (by clear hk1 hk2 hk3 hk4 hk5 hk6 hk7 hk8; omega)
  have e6 := ind_val_neg hk6 (by clear hk1 hk2 hk3 hk4 hk5 hk6 hk7 hk8; omega)
  have e7 := ind_val_pos hk7 (by clear hk1 hk2 hk3 hk4 hk5 hk6 hk7 hk8; omega)
  have e8 := ind_val_pos hk8 (by clear hk1 hk2 hk3 hk4 hk5 hk6 hk7 hk8; omega)
  clear hk1 hk2 hk3 hk4 hk5 hk6 hk7 hk8
  omega

/-- Case analysis leaf for `blinker_step1`. -/
theorem blinker_step1_case7 (n x0 y0 x y k1 k2 k3 k4 k5 k6 k7 k8 : Nat)
    (hx0 : 1 ≤ x0) (hx4 : x0 + 4 ≤ n) (hy2 : 2 ≤ y0) (hy3 : y0 + 3 ≤ n)
    (hk1 : (((y = y0 + 1 ∧ x = x0 + 1 ∨ y = y0 + 1 ∧ x = x0 + 2) ∨ y = y0 + 1 ∧ x = x0 + 3) ∧ k1 = 1) ∨ (¬((y = y0 + 1 ∧ x = x0 + 1 ∨ y = y0 + 1 ∧ x = x0 + 2) ∨ y = y0 + 1 ∧ x = x0 + 3) ∧ k1 = 0))
    (hk2 : (((y = y0 + 1 ∧ x = x0 ∨ y = y0 + 1 ∧ x = x0 + 1) ∨ y = y0 + 1 ∧ x = x0 + 2) ∧ k2 = 1) ∨ (¬((y = y0 + 1 ∧ x = x0 ∨ y = y0 + 1 ∧ x = x0 + 1) ∨ y = y0 + 1 ∧ x = x0 + 2) ∧ k2 = 0))
    (hk3 : (((y = y0 + 1 ∧ x + 1 = x0 ∨ y = y0 + 1 ∧ x = x0) ∨ y = y0 + 1 ∧ x = x0 + 1) ∧ k3 = 1) ∨ (¬((y = y0 + 1 ∧ x + 1 = x0 ∨ y = y0 + 1 ∧ x = x0) ∨ y = y0 + 1 ∧ x = x0 + 1) ∧ k3 = 0))
    (hk4 : (((y = y0 ∧ x = x0 + 1 ∨ y = y0 ∧ x = x0 + 2) ∨ y = y0 ∧ x = x0 + 3) ∧ k4 = 1) ∨ (¬((y = y0 ∧ x = x0 + 1 ∨ y = y0 ∧ x = x0 + 2) ∨ y = y0 ∧ x = x0 + 3) ∧ k4 = 0))
    (hk5 : (((y = y0 ∧ x + 1 = x0 ∨ y = y0 ∧ x = x0) ∨ y = y0 ∧ x = x0 + 1) ∧ k5 = 1) ∨ (¬((y = y0 ∧ x + 1 = x0 ∨ y = y0 ∧ x = x0) ∨ y = y0 ∧ x = x0 + 1) ∧ k5 = 0))
    (hk6 : (((y + 1 = y0 ∧ x = x0 + 1 ∨ y + 1 = y0 ∧ x = x0 + 2) ∨ y + 1 = y0 ∧ x = x0 + 3) ∧ k6 = 1) ∨ (¬((y + 1 = y0 ∧ x = x0 + 1 ∨ y + 1 = y0 ∧ x = x0 + 2) ∨ y + 1 = y0 ∧ x = x0 + 3) ∧ k6 = 0))
    (hk7 : (((y + 1 = y0 ∧ x = x0 ∨ y + 1 = y0 ∧ x = x0 + 1) ∨ y + 1 = y0 ∧ x = x0 + 2) ∧ k7 = 1) ∨ (¬((y + 1 = y0 ∧ x = x0 ∨ y + 1 = y0 ∧ x = x0 + 1) ∨ y + 1 = y0 ∧ x = x0 + 2) ∧ k7 = 0))
    (hk8 : (((y + 1 = y0 ∧ x + 1 = x0 ∨ y + 1 = y0 ∧ x = x0) ∨ y + 1 = y0 ∧ x = x0 + 1) ∧ k8 = 1) ∨ (¬((y + 1 = y0 ∧ x + 1 = x0 ∨ y + 1 = y0 ∧ x = x0) ∨ y + 1 = y0 ∧ x = x0 + 1) ∧ k8 = 0))
    (h1 : x = x0) (h2 : y = y0) :
    (k1 + (k2 + (k3 + (k4 + (k5 + (k6 + (k7 + k8)))))) = 3 ∨ k1 + (k2 + (k3 + (k4 + (k5 + (k6 + (k7 + k8)))))) = 2 ∧ ((y = y0 ∧ x = x0 ∨ y = y0 ∧ x = x0 + 1) ∨ y = y0 ∧ x = x0 + 2)) ↔ ((y = y0 - 1 ∧ x = x0 + 1 ∨ y = y0 ∧ x = x0 + 1) ∨ y = y0 + 1 ∧ x = x0 + 1) := by
  have e1 := ind_val_neg hk1 (by clear hk1 hk2 hk3 hk4 hk5 hk6 hk7 hk8; omega)
  have e2 := ind_val_neg hk2 (by clear hk1 hk2 hk3 hk4 hk5 hk6 hk7 hk8; omega)
  have e3 := ind_val_neg hk3 (by clear hk1 hk2 hk3 hk4 hk5 hk6 hk7 hk8; omega)
  have e4 := ind_val_neg hk4 (by clear hk1 hk2 hk3 hk4 hk5 hk6 hk7 hk8; omega)
  have e5 := ind_val_pos hk5 (by clear hk1 hk2 hk3 hk4 hk5 hk6 hk7 hk8; omega)
  have e6 := ind_val_neg hk6 (by clear hk1 hk2 hk3 hk4 hk5 hk6 hk7 hk8; omega)
  have e7 := ind_val_neg hk7 (by clear hk1 hk2 hk3 hk4 hk5 hk6 hk7 hk8; omega)
  have e8 := ind_val_neg hk8 (by clear hk1 hk2 hk3 hk4 hk5 hk6 hk7 hk8; omega)
  clear hk1 hk2 hk3 hk4 hk5 hk6 hk7 hk8
  omega

/-- Case analysis leaf for `blinker_step1`. -/
theorem blinker_step1_case8 (n x0 y0 x y k1 k2 k3 k4 k5 k6 k7 k8 : Nat)
    (hx0 : 1 ≤ x0) (hx4 : x0 + 4 ≤ n) (hy2 : 2 ≤ y0) (hy3 : y0 + 3 ≤ n)
    (hk1 : (((y = y0 + 1 ∧ x = x0 + 1 ∨ y = y0 + 1 ∧ x = x0 + 2) ∨ y = y0 + 1 ∧ x = x0 + 3) ∧ k1 = 1) ∨ (¬((y = y0 + 1 ∧ x = x0 + 1 ∨ y = y0 + 1 ∧ x = x0 + 2) ∨ y = y0 + 1 ∧ x = x0 + 3) ∧ k1 = 0))
    (hk2 : (((y = y0 + 1 ∧ x = x0 ∨ y = y0 + 1 ∧ x = x0 + 1) ∨ y = y0 + 1 ∧ x = x0 + 2) ∧ k2 = 1) ∨ (¬((y = y0 + 1 ∧ x = x0 ∨ y = y0 + 1 ∧ x = x0 + 1) ∨ y = y0 + 1 ∧ x = x0 + 2) ∧ k2 = 0))
    (hk3 : (((y = y0 + 1 ∧ x + 1 = x0 ∨ y = y0 + 1 ∧ x = x0) ∨ y = y0 + 1 ∧ x = x0 + 1) ∧ k3 = 1) ∨ (¬((y = y0 + 1 ∧ x + 1 = x0 ∨ y = y0 + 1 ∧ x = x0) ∨ y = y0 + 1 ∧ x = x0 + 1) ∧ k3 = 0))
    (hk4 : (((y = y0 ∧ x = x0 + 1 ∨ y = y0 ∧ x = x0 + 2) ∨ y = y0 ∧ x = x0 + 3) ∧ k4 = 1) ∨ (¬((y = y0 ∧ x = x0 + 1 ∨ y = y0 ∧ x = x0 + 2) ∨ y = y0 ∧ x = x0 + 3) ∧ k4 = 0))
    (hk5 : (((y = y0 ∧ x + 1 = x0 ∨ y = y0 ∧ x = x0) ∨ y = y0 ∧ x = x0 + 1) ∧ k5 = 1) ∨ (¬((y = y0 ∧ x + 1 = x0 ∨ y = y0 ∧ x = x0) ∨ y = y0 ∧ x = x0 + 1) ∧ k5 = 0))
    (hk6 : (((y + 1 = y0 ∧ x = x0 + 1 ∨ y + 1 = y0 ∧ x = x0 + 2) ∨ y + 1 = y0 ∧ x = x0 + 3) ∧ k6 = 1) ∨ (¬((y + 1 = y0 ∧ x = x0 + 1 ∨ y + 1 = y0 ∧ x = x0 + 2) ∨ y + 1 = y0 ∧ x = x0 + 3) ∧ k6 = 0))
    (hk7 : (((y + 1 = y0 ∧ x = x0 ∨ y + 1 = y0 ∧ x = x0 + 1) ∨ y + 1 = y0 ∧ x = x0 + 2) ∧ k7 = 1) ∨ (¬((y + 1 = y0 ∧ x = x0 ∨ y + 1 = y0 ∧ x = x0 + 1) ∨ y + 1 = y0 ∧ x = x0 + 2) ∧ k7 = 0))
    (hk8 : (((y + 1 = y0 ∧ x + 1 = x0 ∨ y + 1 = y0 ∧ x = x0) ∨ y + 1 = y0 ∧ x = x0 + 1) ∧ k8 = 1) ∨ (¬((y + 1 = y0 ∧ x + 1 = x0 ∨ y + 1 = y0 ∧ x = x0) ∨ y + 1 = y0 ∧ x = x0 + 1) ∧ k8 = 0))
    (h1 : x = x0) (h2 : y = y0 + 1) :
    (k1 + (k2 + (k3 + (k4 + (k5 + (k6 + (k7 + k8)))))) = 3 ∨ k1 + (k2 + (k3 + (k4 + (k5 + (k6 + (k7 + k8)))))) = 2 ∧ ((y = y0 ∧ x = x0 ∨ y = y0 ∧ x = x0 + 1) ∨ y = y0 ∧ x = x0 + 2)) ↔ ((y = y0 - 1 ∧ x = x0 + 1 ∨ y = y0 ∧ x = x0 + 1) ∨ y = y0 + 1 ∧ x = x0 + 1) := by
  have e1 := ind_val_neg hk1 (by clear hk1 hk2 hk3 hk4 hk5 hk6 hk7 hk8; omega)
  have e2 := ind_val_pos hk2 (by clear hk1 hk2 hk3 hk4 hk5 hk6 hk7 hk8; omega)
  have e3 := ind_val_pos hk3 (by clear hk1 hk2 hk3 hk4 hk5 hk6 hk7 hk8; omega)
  have e4 := ind_val_neg hk4 (by clear hk1 hk2 hk3 hk4 hk5 hk6 hk7 hk8; omega)
  have e5 := ind_val_neg hk5 (by clear hk1 hk2 hk3 hk4 hk5 hk6 hk7 hk8; omega)
  have e6 := ind_val_neg hk6 (by clear hk1 hk2 hk3 hk4 hk5 hk6 hk7 hk8; omega)
  have e7 := ind_val_neg hk7 (by clear hk1 hk2 hk3 hk4 hk5 hk6 hk7 hk8; omega)
  have e8 := ind_val_neg hk8 (by clear hk1 hk2 hk3 hk4 hk5 hk6 hk7 hk8; omega)
  clear hk1 hk2 hk3 hk4 hk5 hk6 hk7 hk8
  omega

/-- Case analysis leaf for `blinker_step1`. -/
theorem blinker_step1_case9 (n x0 y0 x y k1 k2 k3 k4 k5 k6 k7 k8 : Nat)
    (hx0 : 1 ≤ x0) (hx4 : x0 + 4 ≤ n) (hy2 : 2 ≤ y0) (hy3 : y0 + 3 ≤ n)
    (hk1 : (((y = y0 + 1 ∧ x = x0 + 1 ∨ y = y0 + 1 ∧ x = x0 + 2) ∨ y = y0 + 1 ∧ x = x0 + 3) ∧ k1 = 1) ∨ (¬((y = y0 + 1 ∧ x = x0 + 1 ∨ y = y0 + 1 ∧ x = x0 + 2) ∨ y = y0 + 1 ∧ x = x0 + 3) ∧ k1 = 0))
    (hk2 : (((y = y0 + 1 ∧ x = x0 ∨ y = y0 + 1 ∧ x = x0 + 1) ∨ y = y0 + 1 ∧ x = x0 + 2) ∧ k2 = 1) ∨ (¬((y = y0 + 1 ∧ x = x0 ∨ y = y0 + 1 ∧ x = x0 + 1) ∨ y = y0 + 1 ∧ x = x0 + 2) ∧ k2 = 0))
    (hk3 : (((y = y0 + 1 ∧ x + 1 = x0 ∨ y = y0 + 1 ∧ x = x0) ∨ y = y0 + 1 ∧ x = x0 + 1) ∧ k3 = 1) ∨ (¬((y = y0 + 1 ∧ x + 1 = x0 ∨ y = y0 + 1 ∧ x = x0) ∨ y = y0 + 1 ∧ x = x0 + 1) ∧ k3 = 0))
    (hk4 : (((y = y0 ∧ x = x0 + 1 ∨ y = y0 ∧ x = x0 + 2) ∨ y = y0 ∧ x = x0 + 3) ∧ k4 = 1) ∨ (¬((y = y0 ∧ x = x0 + 1 ∨ y = y0 ∧ x = x0 + 2) ∨ y = y0 ∧ x = x0 + 3) ∧ k4 = 0))
    (hk5 : (((y = y0 ∧ x + 1 = x0 ∨ y = y0 ∧ x = x0) ∨ y = y0 ∧ x = x0 + 1) ∧ k5 = 1) ∨ (¬((y = y0 ∧ x + 1 = x0 ∨ y = y0 ∧ x = x0) ∨ y = y0 ∧ x = x0 + 1) ∧ k5 = 0))
    (hk6 : (((y + 1 = y0 ∧ x = x0 + 1 ∨ y + 1 = y0 ∧ x = x0 + 2) ∨ y + 1 = y0 ∧ x = x0 + 3) ∧ k6 = 1) ∨ (¬((y + 1 = y0 ∧ x = x0 + 1 ∨ y + 1 = y0 ∧ x = x0 + 2) ∨ y + 1 = y0 ∧ x = x0 + 3) ∧ k6 = 0))
    (hk7 : (((y + 1 = y0 ∧ x = x0 ∨ y + 1 = y0 ∧ x = x0 + 1) ∨ y + 1 = y0 ∧ x = x0 + 2) ∧ k7 = 1) ∨ (¬((y + 1 = y0 ∧ x = x0 ∨ y + 1 = y0 ∧ x = x0 + 1) ∨ y + 1 = y0 ∧ x = x0 + 2) ∧ k7 = 0))
    (hk8 : (((y + 1 = y0 ∧ x + 1 = x0 ∨ y + 1 = y0 ∧ x = x0) ∨ y + 1 = y0 ∧ x = x0 + 1) ∧ k8 = 1) ∨ (¬((y + 1 = y0 ∧ x + 1 = x0 ∨ y + 1 = y0 ∧ x = x0) ∨ y + 1 = y0 ∧ x = x0 + 1) ∧ k8 = 0))
    (h1 : x = x0) (h2 : y + 1 < y0) :
    (k1 + (k2 + (k3 + (k4 + (k5 + (k6 + (k7 + k8)))))) = 3 ∨ k1 + (k2 + (k3 + (k4 + (k5 + (k6 + (k7 + k8)))))) = 2 ∧ ((y = y0 ∧ x = x0 ∨ y = y0 ∧ x = x0 + 1) ∨ y = y0 ∧ x = x0 + 2)) ↔ ((y = y0 - 1 ∧ x = x0 + 1 ∨ y = y0 ∧ x = x0 + 1) ∨ y = y0 + 1 ∧ x = x0 + 1) := by
  have e1 := ind_val_neg hk1 (by clear hk1 hk2 hk3 hk4 hk5 hk6 hk7 hk8; omega)
  have e2 := ind_val_neg hk2 (by clear hk1 hk2 hk3 hk4 hk5 hk6 hk7 hk8; omega)
  have e3 := ind_val_neg hk3 (by clear hk1 hk2 hk3 hk4 hk5 hk6 hk7 hk8; omega)
  have e4 := ind_val_neg hk4 (by clear hk1 hk2 hk3 hk4 hk5 hk6 hk7 hk8; omega)
  have e5 := ind_val_neg hk5 (by clear hk1 hk2 hk3 hk4 hk5 hk6 hk7 hk8; omega)
  have e6 := ind_val_neg hk6 (by clear hk1 hk2 hk3 hk4 hk5 hk6 hk7 hk8; omega)
  have e7 := ind_val_neg hk7 (by clear hk1 hk2 hk3 hk4 hk5 hk6 hk7 hk8; omega)
  have e8 := ind_val_neg hk8 (by clear hk1 hk2 hk3 hk4 hk5 hk6 hk7 hk8; omega)
  clear hk1 hk2 hk3 hk4 hk5 hk6 hk7 hk8
  omega

/-- Case analysis leaf for `blinker_step1`. -/
theorem blinker_step1_case10 (n x0 y0 x y k1 k2 k3 k4 k5 k6 k7 k8 : Nat)
    (hx0 : 1 ≤ x0) (hx4 : x0 + 4 ≤ n) (hy2 : 2 ≤ y0) (hy3 : y0 + 3 ≤ n)
    (hk1 : (((y = y0 + 1 ∧ x = x0 + 1 ∨ y = y0 + 1 ∧ x = x0 + 2) ∨ y = y0 + 1 ∧ x = x0 + 3) ∧ k1 = 1) ∨ (¬((y = y0 + 1 ∧ x = x0 + 1 ∨ y = y0 + 1 ∧ x = x0 + 2) ∨ y = y0 + 1 ∧ x = x0 + 3) ∧ k1 = 0))
    (hk2 : (((y = y0 + 1 ∧ x = x0 ∨ y = y0 + 1 ∧ x = x0 + 1) ∨ y = y0 + 1 ∧ x = x0 + 2) ∧ k2 = 1) ∨ (¬((y = y0 + 1 ∧ x = x0 ∨ y = y0 + 1 ∧ x = x0 + 1) ∨ y = y0 + 1 ∧ x = x0 + 2) ∧ k2 = 0))
    (hk3 : (((y = y0 + 1 ∧ x + 1 = x0 ∨ y = y0 + 1 ∧ x = x0) ∨ y = y0 + 1 ∧ x = x0 + 1) ∧ k3 = 1) ∨ (¬((y = y0 + 1 ∧ x + 1 = x0 ∨ y = y0 + 1 ∧ x = x0) ∨ y = y0 + 1 ∧ x = x0 + 1) ∧ k3 = 0))
    (hk4 : (((y = y0 ∧ x = x0 + 1 ∨ y = y0 ∧ x = x0 + 2) ∨ y = y0 ∧ x = x0 + 3) ∧ k4 = 1) ∨ (¬((y = y0 ∧ x = x0 + 1 ∨ y = y0 ∧ x = x0 + 2) ∨ y = y0 ∧ x = x0 + 3) ∧ k4 = 0))
    (hk5 : (((y = y0 ∧ x + 1 = x0 ∨ y = y0 ∧ x = x0) ∨ y = y0 ∧ x = x0 + 1) ∧ k5 = 1) ∨ (¬((y = y0 ∧ x + 1 = x0 ∨ y = y0 ∧ x = x0) ∨ y = y0 ∧ x = x0 + 1) ∧ k5 = 0))
    (hk6 : (((y + 1 = y0 ∧ x = x0 + 1 ∨ y + 1 = y0 ∧ x = x0 + 2) ∨ y + 1 = y0 ∧ x = x0 + 3) ∧ k6 = 1) ∨ (¬((y + 1 = y0 ∧ x = x0 + 1 ∨ y + 1 = y0 ∧ x = x0 + 2) ∨ y + 1 = y0 ∧ x = x0 + 3) ∧ k6 = 0))
    (hk7 : (((y + 1 = y0 ∧ x = x0 ∨ y + 1 = y0 ∧ x = x0 + 1) ∨ y + 1 = y0 ∧ x = x0 + 2) ∧ k7 = 1) ∨ (¬((y + 1 = y0 ∧ x = x0 ∨ y + 1 = y0 ∧ x = x0 + 1) ∨ y + 1 = y0 ∧ x = x0 + 2) ∧ k7 = 0))
    (hk8 : (((y + 1 = y0 ∧ x + 1 = x0 ∨ y + 1 = y0 ∧ x = x0) ∨ y + 1 = y0 ∧ x = x0 + 1) ∧ k8 = 1) ∨ (¬((y + 1 = y0 ∧ x + 1 = x0 ∨ y + 1 = y0 ∧ x = x0) ∨ y + 1 = y0 ∧ x = x0 + 1) ∧ k8 = 0))
    (h1 : x = x0) (h2 : y0 + 2 ≤ y) :
    (k1 + (k2 + (k3 + (k4 + (k5 + (k6 + (k7 + k8)))))) = 3 ∨ k1 + (k2 + (k3 + (k4 + (k5 + (k6 + (k7 + k8)))))) = 2 ∧ ((y = y0 ∧ x = x0 ∨ y = y0 ∧ x = x0 + 1) ∨ y = y0 ∧ x = x0 + 2)) ↔ ((y = y0 - 1 ∧ x = x0 + 1 ∨ y = y0 ∧ x = x0 + 1) ∨ y = y0 + 1 ∧ x = x0 + 1) := by
  have e1 := ind_val_neg hk1 (by clear hk1 hk2 hk3 hk4 hk5 hk6 hk7 hk8; omega)
  have e2 := ind_val_neg hk2 (by clear hk1 hk2 hk3 hk4 hk5 hk6 hk7 hk8; omega)
  have e3 := ind_val_neg hk3 (by clear hk1 hk2 hk3 hk4 hk5 hk6 hk7 hk8; omega)
  have e4 := ind_val_neg hk4 (by clear hk1 hk2 hk3 hk4 hk5 hk6 hk7 hk8; omega)
  have e5 := ind_val_neg hk5 (by clear hk1 hk2 hk3 hk4 hk5 hk6 hk7 hk8; omega)
  have e6 := ind_val_neg hk6 (by clear hk1 hk2 hk3 hk4 hk5 hk6 hk7 hk8; omega)
  have e7 := ind_val_neg hk7 (by clear hk1 hk2 hk3 hk4 hk5 hk6 hk7 hk8; omega)
  have e8 := ind_val_neg hk8 (by clear hk1 hk2 hk3 hk4 hk5 hk6 hk7 hk8; omega)
  clear hk1 hk2 hk3 hk4 hk5 hk6 hk7 hk8
  omega

/-- Case analysis leaf for `blinker_step1`. -/
theorem blinker_step1_case11 (n x0 y0 x y k1 k2 k3 k4 k5 k6 k7 k8 : Nat)
    (hx0 : 1 ≤ x0) (hx4 : x0 + 4 ≤ n) (hy2 : 2 ≤ y0) (hy3 : y0 + 3 ≤ n)
    (hk1 : (((y = y0 + 1 ∧ x = x0 + 1 ∨ y = y0 + 1 ∧ x = x0 + 2) ∨ y = y0 + 1 ∧ x = x0 + 3) ∧ k1 = 1) ∨ (¬((y = y0 + 1 ∧ x = x0 + 1 ∨ y = y0 + 1 ∧ x = x0 + 2) ∨ y = y0 + 1 ∧ x = x0 + 3) ∧ k1 = 0))
    (hk2 : (((y = y0 + 1 ∧ x = x0 ∨ y = y0 + 1 ∧ x = x0 + 1) ∨ y = y0 + 1 ∧ x = x0 + 2) ∧ k2 = 1) ∨ (¬((y = y0 + 1 ∧ x = x0 ∨ y = y0 + 1 ∧ x = x0 + 1) ∨ y = y0 + 1 ∧ x = x0 + 2) ∧ k2 = 0))
    (hk3 : (((y = y0 + 1 ∧ x + 1 = x0 ∨ y = y0 + 1 ∧ x = x0) ∨ y = y0 + 1 ∧ x = x0 + 1) ∧ k3 = 1) ∨ (¬((y = y0 + 1 ∧ x + 1 = x0 ∨ y = y0 + 1 ∧ x = x0) ∨ y = y0 + 1 ∧ x = x0 + 1) ∧ k3 = 0))
    (hk4 : (((y = y0 ∧ x = x0 + 1 ∨ y = y0 ∧ x = x0 + 2) ∨ y = y0 ∧ x = x0 + 3) ∧ k4 = 1) ∨ (¬((y = y0 ∧ x = x0 + 1 ∨ y = y0 ∧ x = x0 + 2) ∨ y = y0 ∧ x = x0 + 3) ∧ k4 = 0))
    (hk5 : (((y = y0 ∧ x + 1 = x0 ∨ y = y0 ∧ x = x0) ∨ y = y0 ∧ x = x0 + 1) ∧ k5 = 1) ∨ (¬((y = y0 ∧ x + 1 = x0 ∨ y = y0 ∧ x = x0) ∨ y = y0 ∧ x = x0 + 1) ∧ k5 = 0))
    (hk6 : (((y + 1 = y0 ∧ x = x0 + 1 ∨ y + 1 = y0 ∧ x = x0 + 2) ∨ y + 1 = y0 ∧ x = x0 + 3) ∧ k6 = 1) ∨ (¬((y + 1 = y0 ∧ x = x0 + 1 ∨ y + 1 = y0 ∧ x = x0 + 2) ∨ y + 1 = y0 ∧ x = x0 + 3) ∧ k6 = 0))
    (hk7 : (((y + 1 = y0 ∧ x = x0 ∨ y + 1 = y0 ∧ x = x0 + 1) ∨ y + 1 = y0 ∧ x = x0 + 2) ∧ k7 = 1) ∨ (¬((y + 1 = y0 ∧ x = x0 ∨ y + 1 = y0 ∧ x = x0 + 1) ∨ y + 1 = y0 ∧ x = x0 + 2) ∧ k7 = 0))
    (hk8 : (((y + 1 = y0 ∧ x + 1 = x0 ∨ y + 1 = y0 ∧ x = x0) ∨ y + 1 = y0 ∧ x = x0 + 1) ∧ k8 = 1) ∨ (¬((y + 1 = y0 ∧ x + 1 = x0 ∨ y + 1 = y0 ∧ x = x0) ∨ y + 1 = y0 ∧ x = x0 + 1) ∧ k8 = 0))
    (h1 : x = x0 + 1) (h2 : y + 1 = y0) :
    (k1 + (k2 + (k3 + (k4 + (k5 + (k6 + (k7 + k8)))))) = 3 ∨ k1 + (k2 + (k3 + (k4 + (k5 + (k6 + (k7 + k8)))))) = 2 ∧ ((y = y0 ∧ x = x0 ∨ y = y0 ∧ x = x0 + 1) ∨ y = y0 ∧ x = x0 + 2)) ↔ ((y = y0 - 1 ∧ x = x0 + 1 ∨ y = y0 ∧ x = x0 + 1) ∨ y = y0 + 1 ∧ x = x0 + 1) := by
  have e1 := ind_val_neg hk1 (by clear hk1 hk2 hk3 hk4 hk5 hk6 hk7 hk8; omega)
  have e2 := ind_val_neg hk2 (by clear hk1 hk2 hk3 hk4 hk5 hk6 hk7 hk8; omega)
  have e3 := ind_val_neg hk3 (by clear hk1 hk2 hk3 hk4 hk5 hk6 hk7 hk8; omega)
  have e4 := ind_val_neg hk4 (by clear hk1 hk2 hk3 hk4 hk5 hk6 hk7 hk8; omega)
  have e5 := ind_val_neg hk5 (by clear hk1 hk2 hk3 hk4 hk5 hk6 hk7 hk8; omega)
  have e6 := ind_val_pos hk6 (by clear hk1 hk2 hk3 hk4 hk5 hk6 hk7 hk8; omega)
  have e7 := ind_val_pos hk7 (by clear hk1 hk2 hk3 hk4 hk5 hk6 hk7 hk8; omega)
  have e8 := ind_val_pos hk8 (by clear hk1 hk2 hk3 hk4 hk5 hk6 hk7 hk8; omega)
  clear hk1 hk2 hk3 hk4 hk5 hk6 hk7 hk8
  omega

/-- Case analysis leaf for `blinker_step1`. -/
theorem blinker_step1_case12 (n x0 y0 x y k1 k2 k3 k4 k5 k6 k7 k8 : Nat)
    (hx0 : 1 ≤ x0) (hx4 : x0 + 4 ≤ n) (hy2 : 2 ≤ y0) (hy3 : y0 + 3 ≤ n)
    (hk1 : (((y = y0 + 1 ∧ x = x0 + 1 ∨ y = y0 + 1 ∧ x = x0 + 2) ∨ y = y0 + 1 ∧ x = x0 + 3) ∧ k1 = 1) ∨ (¬((y = y0 + 1 ∧ x = x0 + 1 ∨ y = y0 + 1 ∧ x = x0 + 2) ∨ y = y0 + 1 ∧ x = x0 + 3) ∧ k1 = 0))
    (hk2 : (((y = y0 + 1 ∧ x = x0 ∨ y = y0 + 1 ∧ x = x0 + 1) ∨ y = y0 + 1 ∧ x = x0 + 2) ∧ k2 = 1) ∨ (¬((y = y0 + 1 ∧ x = x0 ∨ y = y0 + 1 ∧ x = x0 + 1) ∨ y = y0 + 1 ∧ x = x0 + 2) ∧ k2 = 0))
    (hk3 : (((y = y0 + 1 ∧ x + 1 = x0 ∨ y = y0 + 1 ∧ x = x0) ∨ y = y0 + 1 ∧ x = x0 + 1) ∧ k3 = 1) ∨ (¬((y = y0 + 1 ∧ x + 1 = x0 ∨ y = y0 + 1 ∧ x = x0) ∨ y = y0 + 1 ∧ x = x0 + 1) ∧ k3 = 0))
    (hk4 : (((y = y0 ∧ x = x0 + 1 ∨ y = y0 ∧ x = x0 + 2) ∨ y = y0 ∧ x = x0 + 3) ∧ k4 = 1) ∨ (¬((y = y0 ∧ x = x0 + 1 ∨ y = y0 ∧ x = x0 + 2) ∨ y = y0 ∧ x = x0 + 3) ∧ k4 = 0))
    (hk5 : (((y = y0 ∧ x + 1 = x0 ∨ y = y0 ∧ x = x0) ∨ y = y0 ∧ x = x0 + 1) ∧ k5 = 1) ∨ (¬((y = y0 ∧ x + 1 = x0 ∨ y = y0 ∧ x = x0) ∨ y = y0 ∧ x = x0 + 1) ∧ k5 = 0))
    (hk6 : (((y + 1 = y0 ∧ x = x0 + 1 ∨ y + 1 = y0 ∧ x = x0 + 2) ∨ y + 1 = y0 ∧ x = x0 + 3) ∧ k6 = 1) ∨ (¬((y + 1 = y0 ∧ x = x0 + 1 ∨ y + 1 = y0 ∧ x = x0 + 2) ∨ y + 1 = y0 ∧ x = x0 + 3) ∧ k6 = 0))
    (hk7 : (((y + 1 = y0 ∧ x = x0 ∨ y + 1 = y0 ∧ x = x0 + 1) ∨ y + 1 = y0 ∧ x = x0 + 2) ∧ k7 = 1) ∨ (¬((y + 1 = y0 ∧ x = x0 ∨ y + 1 = y0 ∧ x = x0 + 1) ∨ y + 1 = y0 ∧ x = x0 + 2) ∧ k7 = 0))
    (hk8 : (((y + 1 = y0 ∧ x + 1 = x0 ∨ y + 1 = y0 ∧ x = x0) ∨ y + 1 = y0 ∧ x = x0 + 1) ∧ k8 = 1) ∨ (¬((y + 1 = y0 ∧ x + 1 = x0 ∨ y + 1 = y0 ∧ x = x0) ∨ y + 1 = y0 ∧ x = x0 + 1) ∧ k8 = 0))
    (h1 : x = x0 + 1) (h2 : y = y0) :
    (k1 + (k2 + (k3 + (k4 + (k5 + (k6 + (k7 + k8)))))) = 3 ∨ k1 + (k2 + (k3 + (k4 + (k5 + (k6 + (k7 + k8)))))) = 2 ∧ ((y = y0 ∧ x = x0 ∨ y = y0 ∧ x = x0 + 1) ∨ y = y0 ∧ x = x0 + 2)) ↔ ((y = y0 - 1 ∧ x = x0 + 1 ∨ y = y0 ∧ x = x0 + 1) ∨ y = y0 + 1 ∧ x = x0 + 1) := by
  have e1 := ind_val_neg hk1 (by clear hk1 hk2 hk3 hk4 hk5 hk6 hk7 hk8; omega)
  have e2 := ind_val_neg hk2 (by clear hk1 hk2 hk3 hk4 hk5 hk6 hk7 hk8; omega)
  have e3 := ind_val_neg hk3 (by clear hk1 hk2 hk3 hk4 hk5 hk6 hk7 hk8; omega)
  have e4 := ind_val_pos hk4 (by clear hk1 hk2 hk3 hk4 hk5 hk6 hk7 hk8; omega)
  have e5 := ind_val_pos hk5 (by clear hk1 hk2 hk3 hk4 hk5 hk6 hk7 hk8; omega)
  have e6 := ind_val_neg hk6 (by clear hk1 hk2 hk3 hk4 hk5 hk6 hk7 hk8; omega)
  have e7 := ind_val_neg hk7 (by clear hk1 hk2 hk3 hk4 hk5 hk6 hk7 hk8; omega)
  have e8 := ind_val_neg hk8 (by clear hk1 hk2 hk3 hk4 hk5 hk6 hk7 hk8; omega)
  clear hk1 hk2 hk3 hk4 hk5 hk6 hk7 hk8
  omega

/-- Case analysis leaf for `blinker_step1`. -/
theorem blinker_step1_case13 (n x0 y0 x y k1 k2 k3 k4 k5 k6 k7 k8 : Nat)
    (hx0 : 1 ≤ x0) (hx4 : x0 + 4 ≤ n) (hy2 : 2 ≤ y0) (hy3 : y0 + 3 ≤ n)
    (hk1 : (((y = y0 + 1 ∧ x = x0 + 1 ∨ y = y0 + 1 ∧ x = x0 + 2) ∨ y = y0 + 1 ∧ x = x0 + 3) ∧ k1 = 1) ∨ (¬((y = y0 + 1 ∧ x = x0 + 1 ∨ y = y0 + 1 ∧ x = x0 + 2) ∨ y = y0 + 1 ∧ x = x0 + 3) ∧ k1 = 0))
    (hk2 : (((y = y0 + 1 ∧ x = x0 ∨ y = y0 + 1 ∧ x = x0 + 1) ∨ y = y0 + 1 ∧ x = x0 + 2) ∧ k2 = 1) ∨ (¬((y = y0 + 1 ∧ x = x0 ∨ y = y0 + 1 ∧ x = x0 + 1) ∨ y = y0 + 1 ∧ x = x0 + 2) ∧ k2 = 0))
    (hk3 : (((y = y0 + 1 ∧ x + 1 = x0 ∨ y = y0 + 1 ∧ x = x0) ∨ y = y0 + 1 ∧ x = x0 + 1) ∧ k3 = 1) ∨ (¬((y = y0 + 1 ∧ x + 1 = x0 ∨ y = y0 + 1 ∧ x = x0) ∨ y = y0 + 1 ∧ x = x0 + 1) ∧ k3 = 0))
    (hk4 : (((y = y0 ∧ x = x0 + 1 ∨ y = y0 ∧ x = x0 + 2) ∨ y = y0 ∧ x = x0 + 3) ∧ k4 = 1) ∨ (¬((y = y0 ∧ x = x0 + 1 ∨ y = y0 ∧ x = x0 + 2) ∨ y = y0 ∧ x = x0 + 3) ∧ k4 = 0))
    (hk5 : (((y = y0 ∧ x + 1 = x0 ∨ y = y0 ∧ x = x0) ∨ y = y0 ∧ x = x0 + 1) ∧ k5 = 1) ∨ (¬((y = y0 ∧ x + 1 = x0 ∨ y = y0 ∧ x = x0) ∨ y = y0 ∧ x = x0 + 1) ∧ k5 = 0))
    (hk6 : (((y + 1 = y0 ∧ x = x0 + 1 ∨ y + 1 = y0 ∧ x = x0 + 2) ∨ y + 1 = y0 ∧ x = x0 + 3) ∧ k6 = 1) ∨ (¬((y + 1 = y0 ∧ x = x0 + 1 ∨ y + 1 = y0 ∧ x = x0 + 2) ∨ y + 1 = y0 ∧ x = x0 + 3) ∧ k6 = 0))
    (hk7 : (((y + 1 = y0 ∧ x = x0 ∨ y + 1 = y0 ∧ x = x0 + 1) ∨ y + 1 = y0 ∧ x = x0 + 2) ∧ k7 = 1) ∨ (¬((y + 1 = y0 ∧ x = x0 ∨ y + 1 = y0 ∧ x = x0 + 1) ∨ y + 1 = y0 ∧ x = x0 + 2) ∧ k7 = 0))
    (hk8 : (((y + 1 = y0 ∧ x + 1 = x0 ∨ y + 1 = y0 ∧ x = x0) ∨ y + 1 = y0 ∧ x = x0 + 1) ∧ k8 = 1) ∨ (¬((y + 1 = y0 ∧ x + 1 = x0 ∨ y + 1 = y0 ∧ x = x0) ∨ y + 1 = y0 ∧ x = x0 + 1) ∧ k8 = 0))
    (h1 : x = x0 + 1) (h2 : y = y0 + 1) :
    (k1 + (k2 + (k3 + (k4 + (k5 + (k6 + (k7 + k8)))))) = 3 ∨ k1 + (k2 + (k3 + (k4 + (k5 + (k6 + (k7 + k8)))))) = 2 ∧ ((y = y0 ∧ x = x0 ∨ y = y0 ∧ x = x0 + 1) ∨ y = y0 ∧ x = x0 + 2)) ↔ ((y = y0 - 1 ∧ x = x0 + 1 ∨ y = y0 ∧ x = x0 + 1) ∨ y = y0 + 1 ∧ x = x0 + 1) := by
  have e1 := ind_val_pos hk1 (by clear hk1 hk2 hk3 hk4 hk5 hk6 hk7 hk8; omega)
  have e2 := ind_val_pos hk2 (by clear hk1 hk2 hk3 hk4 hk5 hk6 hk7 hk8; omega)
  have e3 := ind_val_pos hk3 (by clear hk1 hk2 hk3 hk4 hk5 hk6 hk7 hk8; omega)
  have e4 := ind_val_neg hk4 (by clear hk1 hk2 hk3 hk4 hk5 hk6 hk7 hk8; omega)
  have e5 := ind_val_neg hk5 (by clear hk1 hk2 hk3 hk4 hk5 hk6 hk7 hk8; omega)
  have e6 := ind_val_neg hk6 (by clear hk1 hk2 hk3 hk4 hk5 hk6 hk7 hk8; omega)
  have e7 := ind_val_neg hk7 (by clear hk1 hk2 hk3 hk4 hk5 hk6 hk7 hk8; omega)
  have e8 := ind_val_neg hk8 (by clear hk1 hk2 hk3 hk4 hk5 hk6 hk7 hk8; omega)
  clear hk1 hk2 hk3 hk4 hk5 hk6 hk7 hk8
  omega

/-- Case analysis leaf for `blinker_step1`. -/
theorem blinker_step1_case14 (n x0 y0 x y k1 k2 k3 k4 k5 k6 k7 k8 : Nat)
    (hx0 : 1 ≤ x0) (hx4 : x0 + 4 ≤ n) (hy2 : 2 ≤ y0) (hy3 : y0 + 3 ≤ n)
    (hk1 : (((y = y0 + 1 ∧ x = x0 + 1 ∨ y = y0 + 1 ∧ x = x0 + 2) ∨ y = y0 + 1 ∧ x = x0 + 3) ∧ k1 = 1) ∨ (¬((y = y0 + 1 ∧ x = x0 + 1 ∨ y = y0 + 1 ∧ x = x0 + 2) ∨ y = y0 + 1 ∧ x = x0 + 3) ∧ k1 = 0))
    (hk2 : (((y = y0 + 1 ∧ x = x0 ∨ y = y0 + 1 ∧ x = x0 + 1) ∨ y = y0 + 1 ∧ x = x0 + 2) ∧ k2 = 1) ∨ (¬((y = y0 + 1 ∧ x = x0 ∨ y = y0 + 1 ∧ x = x0 + 1) ∨ y = y0 + 1 ∧ x = x0 + 2) ∧ k2 = 0))
    (hk3 : (((y = y0 + 1 ∧ x + 1 = x0 ∨ y = y0 + 1 ∧ x = x0) ∨ y = y0 + 1 ∧ x = x0 + 1) ∧ k3 = 1) ∨ (¬((y = y0 + 1 ∧ x + 1 = x0 ∨ y = y0 + 1 ∧ x = x0) ∨ y = y0 + 1 ∧ x = x0 + 1) ∧ k3 = 0))
    (hk4 : (((y = y0 ∧ x = x0 + 1 ∨ y = y0 ∧ x = x0 + 2) ∨ y = y0 ∧ x = x0 + 3) ∧ k4 = 1) ∨ (¬((y = y0 ∧ x = x0 + 1 ∨ y = y0 ∧ x = x0 + 2) ∨ y = y0 ∧ x = x0 + 3) ∧ k4 = 0))
    (hk5 : (((y = y0 ∧ x + 1 = x0 ∨ y = y0 ∧ x = x0) ∨ y = y0 ∧ x = x0 + 1) ∧ k5 = 1) ∨ (¬((y = y0 ∧ x + 1 = x0 ∨ y = y0 ∧ x = x0) ∨ y = y0 ∧ x = x0 + 1) ∧ k5 = 0))
    (hk6 : (((y + 1 = y0 ∧ x = x0 + 1 ∨ y + 1 = y0 ∧ x = x0 + 2) ∨ y + 1 = y0 ∧ x = x0 + 3) ∧ k6 = 1) ∨ (¬((y + 1 = y0 ∧ x = x0 + 1 ∨ y + 1 = y0 ∧ x = x0 + 2) ∨ y + 1 = y0 ∧ x = x0 + 3) ∧ k6 = 0))
    (hk7 : (((y + 1 = y0 ∧ x = x0 ∨ y + 1 = y0 ∧ x = x0 + 1) ∨ y + 1 = y0 ∧ x = x0 + 2) ∧ k7 = 1) ∨ (¬((y + 1 = y0 ∧ x = x0 ∨ y + 1 = y0 ∧ x = x0 + 1) ∨ y + 1 = y0 ∧ x = x0 + 2) ∧ k7 = 0))
    (hk8 : (((y + 1 = y0 ∧ x + 1 = x0 ∨ y + 1 = y0 ∧ x = x0) ∨ y + 1 = y0 ∧ x = x0 + 1) ∧ k8 = 1) ∨ (¬((y + 1 = y0 ∧ x + 1 = x0 ∨ y + 1 = y0 ∧ x = x0) ∨ y + 1 = y0 ∧ x = x0 + 1) ∧ k8 = 0))
    (h1 : x = x0 + 1) (h2 : y + 1 < y0) :
    (k1 + (k2 + (k3 + (k4 + (k5 + (k6 + (k7 + k8)))))) = 3 ∨ k1 + (k2 + (k3 + (k4 + (k5 + (k6 + (k7 + k8)))))) = 2 ∧ ((y = y0 ∧ x = x0 ∨ y = y0 ∧ x = x0 + 1) ∨ y = y0 ∧ x = x0 + 2)) ↔ ((y = y0 - 1 ∧ x = x0 + 1 ∨ y = y0 ∧ x = x0 + 1) ∨ y = y0 + 1 ∧ x = x0 + 1) := by
  have e1 := ind_val_neg hk1 (by clear hk1 hk2 hk3 hk4 hk5 hk6 hk7 hk8; omega)
  have e2 := ind_val_neg hk2 (by clear hk1 hk2 hk3 hk4 hk5 hk6 hk7 hk8; omega)
  have e3 := ind_val_neg hk3 (by clear hk1 hk2 hk3 hk4 hk5 hk6 hk7 hk8; omega)
  have e4 := ind_val_neg hk4 (by clear hk1 hk2 hk3 hk4 hk5 hk6 hk7 hk8; omega)
  have e5 := ind_val_neg hk5 (by clear hk1 hk2 hk3 hk4 hk5 hk6 hk7 hk8; omega)
  have e6 := ind_val_neg hk6 (by clear hk1 hk2 hk3 hk4 hk5 hk6 hk7 hk8; omega)
  have e7 := ind_val_neg hk7 (by clear hk1 hk2 hk3 hk4 hk5 hk6 hk7 hk8; omega)
  have e8 := ind_val_neg hk8 (by clear hk1 hk2 hk3 hk4 hk5 hk6 hk7 hk8; omega)
  clear hk1 hk2 hk3 hk4 hk5 hk6 hk7 hk8
  omega

/-- Case analysis leaf for `blinker_step1`. -/
theorem blinker_step1_case15 (n x0 y0 x y k1 k2 k3 k4 k5 k6 k7 k8 : Nat)
    (hx0 : 1 ≤ x0) (hx4 : x0 + 4 ≤ n) (hy2 : 2 ≤ y0) (hy3 : y0 + 3 ≤ n)
    (hk1 : (((y = y0 + 1 ∧ x = x0 + 1 ∨ y = y0 + 1 ∧ x = x0 + 2) ∨ y = y0 + 1 ∧ x = x0 + 3) ∧ k1 = 1) ∨ (¬((y = y0 + 1 ∧ x = x0 + 1 ∨ y = y0 + 1 ∧ x = x0 + 2) ∨ y = y0 + 1 ∧ x = x0 + 3) ∧ k1 = 0))
    (hk2 : (((y = y0 + 1 ∧ x = x0 ∨ y = y0 + 1 ∧ x = x0 + 1) ∨ y = y0 + 1 ∧ x = x0 + 2) ∧ k2 = 1) ∨ (¬((y = y0 + 1 ∧ x = x0 ∨ y = y0 + 1 ∧ x = x0 + 1) ∨ y = y0 + 1 ∧ x = x0 + 2) ∧ k2 = 0))
    (hk3 : (((y = y0 + 1 ∧ x + 1 = x0 ∨ y = y0 + 1 ∧ x = x0) ∨ y = y0 + 1 ∧ x = x0 + 1) ∧ k3 = 1) ∨ (¬((y = y0 + 1 ∧ x + 1 = x0 ∨ y = y0 + 1 ∧ x = x0) ∨ y = y0 + 1 ∧ x = x0 + 1) ∧ k3 = 0))
    (hk4 : (((y = y0 ∧ x = x0 + 1 ∨ y = y0 ∧ x = x0 + 2) ∨ y = y0 ∧ x = x0 + 3) ∧ k4 = 1) ∨ (¬((y = y0 ∧ x = x0 + 1 ∨ y = y0 ∧ x = x0 + 2) ∨ y = y0 ∧ x = x0 + 3) ∧ k4 = 0))
    (hk5 : (((y = y0 ∧ x + 1 = x0 ∨ y = y0 ∧ x = x0) ∨ y = y0 ∧ x = x0 + 1) ∧ k5 = 1) ∨ (¬((y = y0 ∧ x + 1 = x0 ∨ y = y0 ∧ x = x0) ∨ y = y0 ∧ x = x0 + 1) ∧ k5 = 0))
    (hk6 : (((y + 1 = y0 ∧ x = x0 + 1 ∨ y + 1 = y0 ∧ x = x0 + 2) ∨ y + 1 = y0 ∧ x = x0 + 3) ∧ k6 = 1) ∨ (¬((y + 1 = y0 ∧ x = x0 + 1 ∨ y + 1 = y0 ∧ x = x0 + 2) ∨ y + 1 = y0 ∧ x = x0 + 3) ∧ k6 = 0))
    (hk7 : (((y + 1 = y0 ∧ x = x0 ∨ y + 1 = y0 ∧ x = x0 + 1) ∨ y + 1 = y0 ∧ x = x0 + 2) ∧ k7 = 1) ∨ (¬((y + 1 = y0 ∧ x = x0 ∨ y + 1 = y0 ∧ x = x0 + 1) ∨ y + 1 = y0 ∧ x = x0 + 2) ∧ k7 = 0))
    (hk8 : (((y + 1 = y0 ∧ x + 1 = x0 ∨ y + 1 = y0 ∧ x = x0) ∨ y + 1 = y0 ∧ x = x0 + 1) ∧ k8 = 1) ∨ (¬((y + 1 = y0 ∧ x + 1 = x0 ∨ y + 1 = y0 ∧ x = x0) ∨ y + 1 = y0 ∧ x = x0 + 1) ∧ k8 = 0))
    (h1 : x = x0 + 1) (h2 : y0 + 2 ≤ y) :
    (k1 + (k2 + (k3 + (k4 + (k5 + (k6 + (k7 + k8)))))) = 3 ∨ k1 + (k2 + (k3 + (k4 + (k5 + (k6 + (k7 + k8)))))) = 2 ∧ ((y = y0 ∧ x = x0 ∨ y = y0 ∧ x = x0 + 1) ∨ y = y0 ∧ x = x0 + 2)) ↔ ((y = y0 - 1 ∧ x = x0 + 1 ∨ y = y0 ∧ x = x0 + 1) ∨ y = y0 + 1 ∧ x = x0 + 1) := by
  have e1 := ind_val_neg hk1 (by clear hk1 hk2 hk3 hk4 hk5 hk6 hk7 hk8; omega)
  have e2 := ind_val_neg hk2 (by clear hk1 hk2 hk3 hk4 hk5 hk6 hk7 hk8; omega)
  have e3 := ind_val_neg hk3 (by clear hk1 hk2 hk3 hk4 hk5 hk6 hk7 hk8; omega)
  have e4 := ind_val_neg hk4 (by clear hk1 hk2 hk3 hk4 hk5 hk6 hk7 hk8; omega)
  have e5 := ind_val_neg hk5 (by clear hk1 hk2 hk3 hk4 hk5 hk6 hk7 hk8; omega)
  have e6 := ind_val_neg hk6 (by clear hk1 hk2 hk3 hk4 hk5 hk6 hk7 hk8; omega)
  have e7 := ind_val_neg hk7 (by clear hk1 hk2 hk3 hk4 hk5 hk6 hk7 hk8; omega)
  have e8 := ind_val_neg hk8 (by clear hk1 hk2 hk3 hk4 hk5 hk6 hk7 hk8; omega)
  clear hk1 hk2 hk3 hk4 hk5 hk6 hk7 hk8
  omega

/-- Case analysis leaf for `blinker_step1`. -/
theorem blinker_step1_case16 (n x0 y0 x y k1 k2 k3 k4 k5 k6 k7 k8 : Nat)
    (hx0 : 1 ≤ x0) (hx4 : x0 + 4 ≤ n) (hy2 : 2 ≤ y0) (hy3 : y0 + 3 ≤ n)
    (hk1 : (((y = y0 + 1 ∧ x = x0 + 1 ∨ y = y0 + 1 ∧ x = x0 + 2) ∨ y = y0 + 1 ∧ x = x0 + 3) ∧ k1 = 1) ∨ (¬((y = y0 + 1 ∧ x = x0 + 1 ∨ y = y0 + 1 ∧ x = x0 + 2) ∨ y = y0 + 1 ∧ x = x0 + 3) ∧ k1 = 0))
    (hk2 : (((y = y0 + 1 ∧ x = x0 ∨ y = y0 + 1 ∧ x = x0 + 1) ∨ y = y0 + 1 ∧ x = x0 + 2) ∧ k2 = 1) ∨ (¬((y = y0 + 1 ∧ x = x0 ∨ y = y0 + 1 ∧ x = x0 + 1) ∨ y = y0 + 1 ∧ x = x0 + 2) ∧ k2 = 0))
    (hk3 : (((y = y0 + 1 ∧ x + 1 = x0 ∨ y = y0 + 1 ∧ x = x0) ∨ y = y0 + 1 ∧ x = x0 + 1) ∧ k3 = 1) ∨ (¬((y = y0 + 1 ∧ x + 1 = x0 ∨ y = y0 + 1 ∧ x = x0) ∨ y = y0 + 1 ∧ x = x0 + 1) ∧ k3 = 0))
    (hk4 : (((y = y0 ∧ x = x0 + 1 ∨ y = y0 ∧ x = x0 + 2) ∨ y = y0 ∧ x = x0 + 3) ∧ k4 = 1) ∨ (¬((y = y0 ∧ x = x0 + 1 ∨ y = y0 ∧ x = x0 + 2) ∨ y = y0 ∧ x = x0 + 3) ∧ k4 = 0))
    (hk5 : (((y = y0 ∧ x + 1 = x0 ∨ y = y0 ∧ x = x0) ∨ y = y0 ∧ x = x0 + 1) ∧ k5 = 1) ∨ (¬((y = y0 ∧ x + 1 = x0 ∨ y = y0 ∧ x = x0) ∨ y = y0 ∧ x = x0 + 1) ∧ k5 = 0))
    (hk6 : (((y + 1 = y0 ∧ x = x0 + 1 ∨ y + 1 = y0 ∧ x = x0 + 2) ∨ y + 1 = y0 ∧ x = x0 + 3) ∧ k6 = 1) ∨ (¬((y + 1 = y0 ∧ x = x0 + 1 ∨ y + 1 = y0 ∧ x = x0 + 2) ∨ y + 1 = y0 ∧ x = x0 + 3) ∧ k6 = 0))
    (hk7 : (((y + 1 = y0 ∧ x = x0 ∨ y + 1 = y0 ∧ x = x0 + 1) ∨ y + 1 = y0 ∧ x = x0 + 2) ∧ k7 = 1) ∨ (¬((y + 1 = y0 ∧ x = x0 ∨ y + 1 = y0 ∧ x = x0 + 1) ∨ y + 1 = y0 ∧ x = x0 + 2) ∧ k7 = 0))
    (hk8 : (((y + 1 = y0 ∧ x + 1 = x0 ∨ y + 1 = y0 ∧ x = x0) ∨ y + 1 = y0 ∧ x = x0 + 1) ∧ k8 = 1) ∨ (¬((y + 1 = y0 ∧ x + 1 = x0 ∨ y + 1 = y0 ∧ x = x0) ∨ y + 1 = y0 ∧ x = x0 + 1) ∧ k8 = 0))
    (h1 : x = x0 + 2) (h2 : y + 1 = y0) :
    (k1 + (k2 + (k3 + (k4 + (k5 + (k6 + (k7 + k8)))))) = 3 ∨ k1 + (k2 + (k3 + (k4 + (k5 + (k6 + (k7 + k8)))))) = 2 ∧ ((y = y0 ∧ x = x0 ∨ y = y0 ∧ x = x0 + 1) ∨ y = y0 ∧ x = x0 + 2)) ↔ ((y = y0 - 1 ∧ x = x0 + 1 ∨ y = y0 ∧ x = x0 + 1) ∨ y = y0 + 1 ∧ x = x0 + 1) := by
  have e1 := ind_val_neg hk1 (by clear hk1 hk2 hk3 hk4 hk5 hk6 hk7 hk8; omega)
  have e2 := ind_val_neg hk2 (by clear hk1 hk2 hk3 hk4 hk5 hk6 hk7 hk8; omega)
  have e3 := ind_val_neg hk3 (by clear hk1 hk2 hk3 hk4 hk5 hk6 hk7 hk8; omega)
  have e4 := ind_val_neg hk4 (by clear hk1 hk2 hk3 hk4 hk5 hk6 hk7 hk8; omega)
  have e5 := ind_val_neg hk5 (by clear hk1 hk2 hk3 hk4 hk5 hk6 hk7 hk8; omega)
  have e6 := ind_val_pos hk6 (by clear hk1 hk2 hk3 hk4 hk5 hk6 hk7 hk8; omega)
  have e7 := ind_val_pos hk7 (by clear hk1 hk2 hk3 hk4 hk5 hk6 hk7 hk8; omega)
  have e8 := ind_val_neg hk8 (by clear hk1 hk2 hk3 hk4 hk5 hk6 hk7 hk8; omega)
  clear hk1 hk2 hk3 hk4 hk5 hk6 hk7 hk8
  omega

/-- Case analysis leaf for `blinker_step1`. -/
theorem blinker_step1_case17 (n x0 y0 x y k1 k2 k3 k4 k5 k6 k7 k8 : Nat)
    (hx0 : 1 ≤ x0) (hx4 : x0 + 4 ≤ n) (hy2 : 2 ≤ y0) (hy3 : y0 + 3 ≤ n)
    (hk1 : (((y = y0 + 1 ∧ x = x0 + 1 ∨ y = y0 + 1 ∧ x = x0 + 2) ∨ y = y0 + 1 ∧ x = x0 + 3) ∧ k1 = 1) ∨ (¬((y = y0 + 1 ∧ x = x0 + 1 ∨ y = y0 + 1 ∧ x = x0 + 2) ∨ y = y0 + 1 ∧ x = x0 + 3) ∧ k1 = 0))
    (hk2 : (((y = y0 + 1 ∧ x = x0 ∨ y = y0 + 1 ∧ x = x0 + 1) ∨ y = y0 + 1 ∧ x = x0 + 2) ∧ k2 = 1) ∨ (¬((y = y0 + 1 ∧ x = x0 ∨ y = y0 + 1 ∧ x = x0 + 1) ∨ y = y0 + 1 ∧ x = x0 + 2) ∧ k2 = 0))
    (hk3 : (((y = y0 + 1 ∧ x + 1 = x0 ∨ y = y0 + 1 ∧ x = x0) ∨ y = y0 + 1 ∧ x = x0 + 1) ∧ k3 = 1) ∨ (¬((y = y0 + 1 ∧ x + 1 = x0 ∨ y = y0 + 1 ∧ x = x0) ∨ y = y0 + 1 ∧ x = x0 + 1) ∧ k3 = 0))
    (hk4 : (((y = y0 ∧ x = x0 + 1 ∨ y = y0 ∧ x = x0 + 2) ∨ y = y0 ∧ x = x0 + 3) ∧ k4 = 1) ∨ (¬((y = y0 ∧ x = x0 + 1 ∨ y = y0 ∧ x = x0 + 2) ∨ y = y0 ∧ x = x0 + 3) ∧ k4 = 0))
    (hk5 : (((y = y0 ∧ x + 1 = x0 ∨ y = y0 ∧ x = x0) ∨ y = y0 ∧ x = x0 + 1) ∧ k5 = 1) ∨ (¬((y = y0 ∧ x + 1 = x0 ∨ y = y0 ∧ x = x0) ∨ y = y0 ∧ x = x0 + 1) ∧ k5 = 0))
    (hk6 : (((y + 1 = y0 ∧ x = x0 + 1 ∨ y + 1 = y0 ∧ x = x0 + 2) ∨ y + 1 = y0 ∧ x = x0 + 3) ∧ k6 = 1) ∨ (¬((y + 1 = y0 ∧ x = x0 + 1 ∨ y + 1 = y0 ∧ x = x0 + 2) ∨ y + 1 = y0 ∧ x = x0 + 3) ∧ k6 = 0))
    (hk7 : (((y + 1 = y0 ∧ x = x0 ∨ y + 1 = y0 ∧ x = x0 + 1) ∨ y + 1 = y0 ∧ x = x0 + 2) ∧ k7 = 1) ∨ (¬((y + 1 = y0 ∧ x = x0 ∨ y + 1 = y0 ∧ x = x0 + 1) ∨ y + 1 = y0 ∧ x = x0 + 2) ∧ k7 = 0))
    (hk8 : (((y + 1 = y0 ∧ x + 1 = x0 ∨ y + 1 = y0 ∧ x = x0) ∨ y + 1 = y0 ∧ x = x0 + 1) ∧ k8 = 1) ∨ (¬((y + 1 = y0 ∧ x + 1 = x0 ∨ y + 1 = y0 ∧ x = x0) ∨ y + 1 = y0 ∧ x = x0 + 1) ∧ k8 = 0))
    (h1 : x = x0 + 2) (h2 : y = y0) :
    (k1 + (k2 + (k3 + (k4 + (k5 + (k6 + (k7 + k8)))))) = 3 ∨ k1 + (k2 + (k3 + (k4 + (k5 + (k6 + (k7 + k8)))))) = 2 ∧ ((y = y0 ∧ x = x0 ∨ y = y0 ∧ x = x0 + 1) ∨ y = y0 ∧ x = x0 + 2)) ↔ ((y = y0 - 1 ∧ x = x0 + 1 ∨ y = y0 ∧ x = x0 + 1) ∨ y = y0 + 1 ∧ x = x0 + 1) := by
  have e1 := ind_val_neg hk1 (by clear hk1 hk2 hk3 hk4 hk5 hk6 hk7 hk8; omega)
  have e2 := ind_val_neg hk2 (by clear hk1 hk2 hk3 hk4 hk5 hk6 hk7 hk8; omega)
  have e3 := ind_val_neg hk3 (by clear hk1 hk2 hk3 hk4 hk5 hk6 hk7 hk8; omega)
  have e4 := ind_val_pos hk4 (by clear hk1 hk2 hk3 hk4 hk5 hk6 hk7 hk8; omega)
  have e5 := ind_val_neg hk5 (by clear hk1 hk2 hk3 hk4 hk5 hk6 hk7 hk8; omega)
  have e6 := ind_val_neg hk6 (by clear hk1 hk2 hk3 hk4 hk5 hk6 hk7 hk8; omega)
  have e7 := ind_val_neg hk7 (by clear hk1 hk2 hk3 hk4 hk5 hk6 hk7 hk8; omega)
  have e8 := ind_val_neg hk8 (by clear hk1 hk2 hk3 hk4 hk5 hk6 hk7 hk8; omega)
  clear hk1 hk2 hk3 hk4 hk5 hk6 hk7 hk8
  omega

/-- Case analysis leaf for `blinker_step1`. -/
theorem blinker_step1_case18 (n x0 y0 x y k1 k2 k3 k4 k5 k6 k7 k8 : Nat)
    (hx0 : 1 ≤ x0) (hx4 : x0 + 4 ≤ n) (hy2 : 2 ≤ y0) (hy3 : y0 + 3 ≤ n)
    (hk1 : (((y = y0 + 1 ∧ x = x0 + 1 ∨ y = y0 + 1 ∧ x = x0 + 2) ∨ y = y0 + 1 ∧ x = x0 + 3) ∧ k1 = 1) ∨ (¬((y = y0 + 1 ∧ x = x0 + 1 ∨ y = y0 + 1 ∧ x = x0 + 2) ∨ y = y0 + 1 ∧ x = x0 + 3) ∧ k1 = 0))
    (hk2 : (((y = y0 + 1 ∧ x = x0 ∨ y = y0 + 1 ∧ x = x0 + 1) ∨ y = y0 + 1 ∧ x = x0 + 2) ∧ k2 = 1) ∨ (¬((y = y0 + 1 ∧ x = x0 ∨ y = y0 + 1 ∧ x = x0 + 1) ∨ y = y0 + 1 ∧ x = x0 + 2) ∧ k2 = 0))
    (hk3 : (((y = y0 + 1 ∧ x + 1 = x0 ∨ y = y0 + 1 ∧ x = x0) ∨ y = y0 + 1 ∧ x = x0 + 1) ∧ k3 = 1) ∨ (¬((y = y0 + 1 ∧ x + 1 = x0 ∨ y = y0 + 1 ∧ x = x0) ∨ y = y0 + 1 ∧ x = x0 + 1) ∧ k3 = 0))
    (hk4 : (((y = y0 ∧ x = x0 + 1 ∨ y = y0 ∧ x = x0 + 2) ∨ y = y0 ∧ x = x0 + 3) ∧ k4 = 1) ∨ (¬((y = y0 ∧ x = x0 + 1 ∨ y = y0 ∧ x = x0 + 2) ∨ y = y0 ∧ x = x0 + 3) ∧ k4 = 0))
    (hk5 : (((y = y0 ∧ x + 1 = x0 ∨ y = y0 ∧ x = x0) ∨ y = y0 ∧ x = x0 + 1) ∧ k5 = 1) ∨ (¬((y = y0 ∧ x + 1 = x0 ∨ y = y0 ∧ x = x0) ∨ y = y0 ∧ x = x0 + 1) ∧ k5 = 0))
    (hk6 : (((y + 1 = y0 ∧ x = x0 + 1 ∨ y + 1 = y0 ∧ x = x0 + 2) ∨ y + 1 = y0 ∧ x = x0 + 3) ∧ k6 = 1) ∨ (¬((y + 1 = y0 ∧ x = x0 + 1 ∨ y + 1 = y0 ∧ x = x0 + 2) ∨ y + 1 = y0 ∧ x = x0 + 3) ∧ k6 = 0))
    (hk7 : (((y + 1 = y0 ∧ x = x0 ∨ y + 1 = y0 ∧ x = x0 + 1) ∨ y + 1 = y0 ∧ x = x0 + 2) ∧ k7 = 1) ∨ (¬((y + 1 = y0 ∧ x = x0 ∨ y + 1 = y0 ∧ x = x0 + 1) ∨ y + 1 = y0 ∧ x = x0 + 2) ∧ k7 = 0))
    (hk8 : (((y + 1 = y0 ∧ x + 1 = x0 ∨ y + 1 = y0 ∧ x = x0) ∨ y + 1 = y0 ∧ x = x0 + 1) ∧ k8 = 1) ∨ (¬((y + 1 = y0 ∧ x + 1 = x0 ∨ y + 1 = y0 ∧ x = x0) ∨ y + 1 = y0 ∧ x = x0 + 1) ∧ k8 = 0))
    (h1 : x = x0 + 2) (h2 : y = y0 + 1) :
    (k1 + (k2 + (k3 + (k4 + (k5 + (k6 + (k7 + k8)))))) = 3 ∨ k1 + (k2 + (k3 + (k4 + (k5 + (k6 + (k7 + k8)))))) = 2 ∧ ((y = y0 ∧ x = x0 ∨ y = y0 ∧ x = x0 + 1) ∨ y = y0 ∧ x = x0 + 2)) ↔ ((y = y0 - 1 ∧ x = x0 + 1 ∨ y = y0 ∧ x = x0 + 1) ∨ y = y0 + 1 ∧ x = x0 + 1) := by
  have e1 := ind_val_pos hk1 (by clear hk1 hk2 hk3 hk4 hk5 hk6 hk7 hk8; omega)
  have e2 := ind_val_pos hk2 (by clear hk1 hk2 hk3 hk4 hk5 hk6 hk7 hk8; omega)
  have e3 := ind_val_neg hk3 (by clear hk1 hk2 hk3 hk4 hk5 hk6 hk7 hk8; omega)
  have e4 := ind_val_neg hk4 (by clear hk1 hk2 hk3 hk4 hk5 hk6 hk7 hk8; omega)
  have e5 := ind_val_neg hk5 (by clear hk1 hk2 hk3 hk4 hk5 hk6 hk7 hk8; omega)
  have e6 := ind_val_neg hk6 (by clear hk1 hk2 hk3 hk4 hk5 hk6 hk7 hk8; omega)
  have e7 := ind_val_neg hk7 (by clear hk1 hk2 hk3 hk4 hk5 hk6 hk7 hk8; omega)
  have e8 := ind_val_neg hk8 (by clear hk1 hk2 hk3 hk4 hk5 hk6 hk7 hk8; omega)
  clear hk1 hk2 hk3 hk4 hk5 hk6 hk7 hk8
  omega

/-- Case analysis leaf for `blinker_step1`. -/
theorem blinker_step1_case19 (n x0 y0 x y k1 k2 k3 k4 k5 k6 k7 k8 : Nat)
    (hx0 : 1 ≤ x0) (hx4 : x0 + 4 ≤ n) (hy2 : 2 ≤ y0) (hy3 : y0 + 3 ≤ n)
    (hk1 : (((y = y0 + 1 ∧ x = x0 + 1 ∨ y = y0 + 1 ∧ x = x0 + 2) ∨ y = y0 + 1 ∧ x = x0 + 3) ∧ k1 = 1) ∨ (¬((y = y0 + 1 ∧ x = x0 + 1 ∨ y = y0 + 1 ∧ x = x0 + 2) ∨ y = y0 + 1 ∧ x = x0 + 3) ∧ k1 = 0))
    (hk2 : (((y = y0 + 1 ∧ x = x0 ∨ y = y0 + 1 ∧ x = x0 + 1) ∨ y = y0 + 1 ∧ x = x0 + 2) ∧ k2 = 1) ∨ (¬((y = y0 + 1 ∧ x = x0 ∨ y = y0 + 1 ∧ x = x0 + 1) ∨ y = y0 + 1 ∧ x = x0 + 2) ∧ k2 = 0))
    (hk3 : (((y = y0 + 1 ∧ x + 1 = x0 ∨ y = y0 + 1 ∧ x = x0) ∨ y = y0 + 1 ∧ x = x0 + 1) ∧ k3 = 1) ∨ (¬((y = y0 + 1 ∧ x + 1 = x0 ∨ y = y0 + 1 ∧ x = x0) ∨ y = y0 + 1 ∧ x = x0 + 1) ∧ k3 = 0))
    (hk4 : (((y = y0 ∧ x = x0 + 1 ∨ y = y0 ∧ x = x0 + 2) ∨ y = y0 ∧ x = x0 + 3) ∧ k4 = 1) ∨ (¬((y = y0 ∧ x = x0 + 1 ∨ y = y0 ∧ x = x0 + 2) ∨ y = y0 ∧ x = x0 + 3) ∧ k4 = 0))
    (hk5 : (((y = y0 ∧ x + 1 = x0 ∨ y = y0 ∧ x = x0) ∨ y = y0 ∧ x = x0 + 1) ∧ k5 = 1) ∨ (¬((y = y0 ∧ x + 1 = x0 ∨ y = y0 ∧ x = x0) ∨ y = y0 ∧ x = x0 + 1) ∧ k5 = 0))
    (hk6 : (((y + 1 = y0 ∧ x = x0 + 1 ∨ y + 1 = y0 ∧ x = x0 + 2) ∨ y + 1 = y0 ∧ x = x0 + 3) ∧ k6 = 1) ∨ (¬((y + 1 = y0 ∧ x = x0 + 1 ∨ y + 1 = y0 ∧ x = x0 + 2) ∨ y + 1 = y0 ∧ x = x0 + 3) ∧ k6 = 0))
    (hk7 : (((y + 1 = y0 ∧ x = x0 ∨ y + 1 = y0 ∧ x = x0 + 1) ∨ y + 1 = y0 ∧ x = x0 + 2) ∧ k7 = 1) ∨ (¬((y + 1 = y0 ∧ x = x0 ∨ y + 1 = y0 ∧ x = x0 + 1) ∨ y + 1 = y0 ∧ x = x0 + 2) ∧ k7 = 0))
    (hk8 : (((y + 1 = y0 ∧ x + 1 = x0 ∨ y + 1 = y0 ∧ x = x0) ∨ y + 1 = y0 ∧ x = x0 + 1) ∧ k8 = 1) ∨ (¬((y + 1 = y0 ∧ x + 1 = x0 ∨ y + 1 = y0 ∧ x = x0) ∨ y + 1 = y0 ∧ x = x0 + 1) ∧ k8 = 0))
    (h1 : x = x0 + 2) (h2 : y + 1 < y0) :
    (k1 + (k2 + (k3 + (k4 + (k5 + (k6 + (k7 + k8)))))) = 3 ∨ k1 + (k2 + (k3 + (k4 + (k5 + (k6 + (k7 + k8)))))) = 2 ∧ ((y = y0 ∧ x = x0 ∨ y = y0 ∧ x = x0 + 1) ∨ y = y0 ∧ x = x0 + 2)) ↔ ((y = y0 - 1 ∧ x = x0 + 1 ∨ y = y0 ∧ x = x0 + 1) ∨ y = y0 + 1 ∧ x = x0 + 1) := by
  have e1 := ind_val_neg hk1 (by clear hk1 hk2 hk3 hk4 hk5 hk6 hk7 hk8; omega)
  have e2 := ind_val_neg hk2 (by clear hk1 hk2 hk3 hk4 hk5 hk6 hk7 hk8; omega)
  have e3 := ind_val_neg hk3 (by clear hk1 hk2 hk3 hk4 hk5 hk6 hk7 hk8; omega)
  have e4 := ind_val_neg hk4 (by clear hk1 hk2 hk3 hk4 hk5 hk6 hk7 hk8; omega)
  have e5 := ind_val_neg hk5 (by clear hk1 hk2 hk3 hk4 hk5 hk6 hk7 hk8; omega)
  have e6 := ind_val_neg hk6 (by clear hk1 hk2 hk3 hk4 hk5 hk6 hk7 hk8; omega)
  have e7 := ind_val_neg hk7 (by clear hk1 hk2 hk3 hk4 hk5 hk6 hk7 hk8; omega)
  have e8 := ind_val_neg hk8 (by clear hk1 hk2 hk3 hk4 hk5 hk6 hk7 hk8; omega)
  clear hk1 hk2 hk3 hk4 hk5 hk6 hk7 hk8
  omega

/-- Case analysis leaf for `blinker_step1`. -/
theorem blinker_step1_case20 (n x0 y0 x y k1 k2 k3 k4 k5 k6 k7 k8 : Nat)
    (hx0 : 1 ≤ x0) (hx4 : x0 + 4 ≤ n) (hy2 : 2 ≤ y0) (hy3 : y0 + 3 ≤ n)
    (hk1 : (((y = y0 + 1 ∧ x = x0 + 1 ∨ y = y0 + 1 ∧ x = x0 + 2) ∨ y = y0 + 1 ∧ x = x0 + 3) ∧ k1 = 1) ∨ (¬((y = y0 + 1 ∧ x = x0 + 1 ∨ y = y0 + 1 ∧ x = x0 + 2) ∨ y = y0 + 1 ∧ x = x0 + 3) ∧ k1 = 0))
    (hk2 : (((y = y0 + 1 ∧ x = x0 ∨ y = y0 + 1 ∧ x = x0 + 1) ∨ y = y0 + 1 ∧ x = x0 + 2) ∧ k2 = 1) ∨ (¬((y = y0 + 1 ∧ x = x0 ∨ y = y0 + 1 ∧ x = x0 + 1) ∨ y = y0 + 1 ∧ x = x0 + 2) ∧ k2 = 0))
    (hk3 : (((y = y0 + 1 ∧ x + 1 = x0 ∨ y = y0 + 1 ∧ x = x0) ∨ y = y0 + 1 ∧ x = x0 + 1) ∧ k3 = 1) ∨ (¬((y = y0 + 1 ∧ x + 1 = x0 ∨ y = y0 + 1 ∧ x = x0) ∨ y = y0 + 1 ∧ x = x0 + 1) ∧ k3 = 0))
    (hk4 : (((y = y0 ∧ x = x0 + 1 ∨ y = y0 ∧ x = x0 + 2) ∨ y = y0 ∧ x = x0 + 3) ∧ k4 = 1) ∨ (¬((y = y0 ∧ x = x0 + 1 ∨ y = y0 ∧ x = x0 + 2) ∨ y = y0 ∧ x = x0 + 3) ∧ k4 = 0))
    (hk5 : (((y = y0 ∧ x + 1 = x0 ∨ y = y0 ∧ x = x0) ∨ y = y0 ∧ x = x0 + 1) ∧ k5 = 1) ∨ (¬((y = y0 ∧ x + 1 = x0 ∨ y = y0 ∧ x = x0) ∨ y = y0 ∧ x = x0 + 1) ∧ k5 = 0))
    (hk6 : (((y + 1 = y0 ∧ x = x0 + 1 ∨ y + 1 = y0 ∧ x = x0 + 2) ∨ y + 1 = y0 ∧ x = x0 + 3) ∧ k6 = 1) ∨ (¬((y + 1 = y0 ∧ x = x0 + 1 ∨ y + 1 = y0 ∧ x = x0 + 2) ∨ y + 1 = y0 ∧ x = x0 + 3) ∧ k6 = 0))
    (hk7 : (((y + 1 = y0 ∧ x = x0 ∨ y + 1 = y0 ∧ x = x0 + 1) ∨ y + 1 = y0 ∧ x = x0 + 2) ∧ k7 = 1) ∨ (¬((y + 1 = y0 ∧ x = x0 ∨ y + 1 = y0 ∧ x = x0 + 1) ∨ y + 1 = y0 ∧ x = x0 + 2) ∧ k7 = 0))
    (hk8 : (((y + 1 = y0 ∧ x + 1 = x0 ∨ y + 1 = y0 ∧ x = x0) ∨ y + 1 = y0 ∧ x = x0 + 1) ∧ k8 = 1) ∨ (¬((y + 1 = y0 ∧ x + 1 = x0 ∨ y + 1 = y0 ∧ x = x0) ∨ y + 1 = y0 ∧ x = x0 + 1) ∧ k8 = 0))
    (h1 : x = x0 + 2) (h2 : y0 + 2 ≤ y) :
    (k1 + (k2 + (k3 + (k4 + (k5 + (k6 + (k7 + k8)))))) = 3 ∨ k1 + (k2 + (k3 + (k4 + (k5 + (k6 + (k7 + k8)))))) = 2 ∧ ((y = y0 ∧ x = x0 ∨ y = y0 ∧ x = x0 + 1) ∨ y = y0 ∧ x = x0 + 2)) ↔ ((y = y0 - 1 ∧ x = x0 + 1 ∨ y = y0 ∧ x = x0 + 1) ∨ y = y0 + 1 ∧ x = x0 + 1) := by
  have e1 := ind_val_neg hk1 (by clear hk1 hk2 hk3 hk4 hk5 hk6 hk7 hk8; omega)
  have e2 := ind_val_neg hk2 (by clear hk1 hk2 hk3 hk4 hk5 hk6 hk7 hk8; omega)
  have e3 := ind_val_neg hk3 (by clear hk1 hk2 hk3 hk4 hk5 hk6 hk7 hk8; omega)
  have e4 := ind_val_neg hk4 (by clear hk1 hk2 hk3 hk4 hk5 hk6 hk7 hk8; omega)
  have e5 := ind_val_neg hk5 (by clear hk1 hk2 hk3 hk4 hk5 hk6 hk7 hk8; omega)
  have e6 := ind_val_neg hk6 (by clear hk1 hk2 hk3 hk4 hk5 hk6 hk7 hk8; omega)
  have e7 := ind_val_neg hk7 (by clear hk1 hk2 hk3 hk4 hk5 hk6 hk7 hk8; omega)
  have e8 := ind_val_neg hk8 (by clear hk1 hk2 hk3 hk4 hk5 hk6 hk7 hk8; omega)
  clear hk1 hk2 hk3 hk4 hk5 hk6 hk7 hk8
  omega

/-- Case analysis leaf for `blinker_step1`. -/
theorem blinker_step1_case21 (n x0 y0 x y k1 k2 k3 k4 k5 k6 k7 k8 : Nat)
    (hx0 : 1 ≤ x0) (hx4 : x0 + 4 ≤ n) (hy2 : 2 ≤ y0) (hy3 : y0 + 3 ≤ n)
    (hk1 : (((y = y0 + 1 ∧ x = x0 + 1 ∨ y = y0 + 1 ∧ x = x0 + 2) ∨ y = y0 + 1 ∧ x = x0 + 3) ∧ k1 = 1) ∨ (¬((y = y0 + 1 ∧ x = x0 + 1 ∨ y = y0 + 1 ∧ x = x0 + 2) ∨ y = y0 + 1 ∧ x = x0 + 3) ∧ k1 = 0))
    (hk2 : (((y = y0 + 1 ∧ x = x0 ∨ y = y0 + 1 ∧ x = x0 + 1) ∨ y = y0 + 1 ∧ x = x0 + 2) ∧ k2 = 1) ∨ (¬((y = y0 + 1 ∧ x = x0 ∨ y = y0 + 1 ∧ x = x0 + 1) ∨ y = y0 + 1 ∧ x = x0 + 2) ∧ k2 = 0))
    (hk3 : (((y = y0 + 1 ∧ x + 1 = x0 ∨ y = y0 + 1 ∧ x = x0) ∨ y = y0 + 1 ∧ x = x0 + 1) ∧ k3 = 1) ∨ (¬((y = y0 + 1 ∧ x + 1 = x0 ∨ y = y0 + 1 ∧ x = x0) ∨ y = y0 + 1 ∧ x = x0 + 1) ∧ k3 = 0))
    (hk4 : (((y = y0 ∧ x = x0 + 1 ∨ y = y0 ∧ x = x0 + 2) ∨ y = y0 ∧ x = x0 + 3) ∧ k4 = 1) ∨ (¬((y = y0 ∧ x = x0 + 1 ∨ y = y0 ∧ x = x0 + 2) ∨ y = y0 ∧ x = x0 + 3) ∧ k4 = 0))
    (hk5 : (((y = y0 ∧ x + 1 = x0 ∨ y = y0 ∧ x = x0) ∨ y = y0 ∧ x = x0 + 1) ∧ k5 = 1) ∨ (¬((y = y0 ∧ x + 1 = x0 ∨ y = y0 ∧ x = x0) ∨ y = y0 ∧ x = x0 + 1) ∧ k5 = 0))
    (hk6 : (((y + 1 = y0 ∧ x = x0 + 1 ∨ y + 1 = y0 ∧ x = x0 + 2) ∨ y + 1 = y0 ∧ x = x0 + 3) ∧ k6 = 1) ∨ (¬((y + 1 = y0 ∧ x = x0 + 1 ∨ y + 1 = y0 ∧ x = x0 + 2) ∨ y + 1 = y0 ∧ x = x0 + 3) ∧ k6 = 0))
    (hk7 : (((y + 1 = y0 ∧ x = x0 ∨ y + 1 = y0 ∧ x = x0 + 1) ∨ y + 1 = y0 ∧ x = x0 + 2) ∧ k7 = 1) ∨ (¬((y + 1 = y0 ∧ x = x0 ∨ y + 1 = y0 ∧ x = x0 + 1) ∨ y + 1 = y0 ∧ x = x0 + 2) ∧ k7 = 0))
    (hk8 : (((y + 1 = y0 ∧ x + 1 = x0 ∨ y + 1 = y0 ∧ x = x0) ∨ y + 1 = y0 ∧ x = x0 + 1) ∧ k8 = 1) ∨ (¬((y + 1 = y0 ∧ x + 1 = x0 ∨ y + 1 = y0 ∧ x = x0) ∨ y + 1 = y0 ∧ x = x0 + 1) ∧ k8 = 0))
    (h1 : x = x0 + 3) (h2 : y + 1 = y0) :
    (k1 + (k2 + (k3 + (k4 + (k5 + (k6 + (k7 + k8)))))) = 3 ∨ k1 + (k2 + (k3 + (k4 + (k5 + (k6 + (k7 + k8)))))) = 2 ∧ ((y = y0 ∧ x = x0 ∨ y = y0 ∧ x = x0 + 1) ∨ y = y0 ∧ x = x0 + 2)) ↔ ((y = y0 - 1 ∧ x = x0 + 1 ∨ y = y0 ∧ x = x0 + 1) ∨ y = y0 + 1 ∧ x = x0 + 1) := by
  have e1 := ind_val_neg hk1 (by clear hk1 hk2 hk3 hk4 hk5 hk6 hk7 hk8; omega)
  have e2 := ind_val_neg hk2 (by clear hk1 hk2 hk3 hk4 hk5 hk6 hk7 hk8; omega)
  have e3 := ind_val_neg hk3 (by clear hk1 hk2 hk3 hk4 hk5 hk6 hk7 hk8; omega)
  have e4 := ind_val_neg hk4 (by clear hk1 hk2 hk3 hk4 hk5 hk6 hk7 hk8; omega)
  have e5 := ind_val_neg hk5 (by clear hk1 hk2 hk3 hk4 hk5 hk6 hk7 hk8; omega)
  have e6 := ind_val_pos hk6 (by clear hk1 hk2 hk3 hk4 hk5 hk6 hk7 hk8; omega)
  have e7 := ind_val_neg hk7 (by clear hk1 hk2 hk3 hk4 hk5 hk6 hk7 hk8; omega)
  have e8 := ind_val_neg hk8 (by clear hk1 hk2 hk3 hk4 hk5 hk6 hk7 hk8; omega)
  clear hk1 hk2 hk3 hk4 hk5 hk6 hk7 hk8
  omega

/-- Case analysis leaf for `blinker_step1`. -/
theorem blinker_step1_case22 (n x0 y0 x y k1 k2 k3 k4 k5 k6 k7 k8 : Nat)
    (hx0 : 1 ≤ x0) (hx4 : x0 + 4 ≤ n) (hy2 : 2 ≤ y0) (hy3 : y0 + 3 ≤ n)
    (hk1 : (((y = y0 + 1 ∧ x = x0 + 1 ∨ y = y0 + 1 ∧ x = x0 + 2) ∨ y = y0 + 1 ∧ x = x0 + 3) ∧ k1 = 1) ∨ (¬((y = y0 + 1 ∧ x = x0 + 1 ∨ y = y0 + 1 ∧ x = x0 + 2) ∨ y = y0 + 1 ∧ x = x0 + 3) ∧ k1 = 0))
    (hk2 : (((y = y0 + 1 ∧ x = x0 ∨ y = y0 + 1 ∧ x = x0 + 1) ∨ y = y0 + 1 ∧ x = x0 + 2) ∧ k2 = 1) ∨ (¬((y = y0 + 1 ∧ x = x0 ∨ y = y0 + 1 ∧ x = x0 + 1) ∨ y = y0 + 1 ∧ x = x0 + 2) ∧ k2 = 0))
    (hk3 : (((y = y0 + 1 ∧ x + 1 = x0 ∨ y = y0 + 1 ∧ x = x0) ∨ y = y0 + 1 ∧ x = x0 + 1) ∧ k3 = 1) ∨ (¬((y = y0 + 1 ∧ x + 1 = x0 ∨ y = y0 + 1 ∧ x = x0) ∨ y = y0 + 1 ∧ x = x0 + 1) ∧ k3 = 0))
    (hk4 : (((y = y0 ∧ x = x0 + 1 ∨ y = y0 ∧ x = x0 + 2) ∨ y = y0 ∧ x = x0 + 3) ∧ k4 = 1) ∨ (¬((y = y0 ∧ x = x0 + 1 ∨ y = y0 ∧ x = x0 + 2) ∨ y = y0 ∧ x = x0 + 3) ∧ k4 = 0))
    (hk5 : (((y = y0 ∧ x + 1 = x0 ∨ y = y0 ∧ x = x0) ∨ y = y0 ∧ x = x0 + 1) ∧ k5 = 1) ∨ (¬((y = y0 ∧ x + 1 = x0 ∨ y = y0 ∧ x = x0) ∨ y = y0 ∧ x = x0 + 1) ∧ k5 = 0))
    (hk6 : (((y + 1 = y0 ∧ x = x0 + 1 ∨ y + 1 = y0 ∧ x = x0 + 2) ∨ y + 1 = y0 ∧ x = x0 + 3) ∧ k6 = 1) ∨ (¬((y + 1 = y0 ∧ x = x0 + 1 ∨ y + 1 = y0 ∧ x = x0 + 2) ∨ y + 1 = y0 ∧ x = x0 + 3) ∧ k6 = 0))
    (hk7 : (((y + 1 = y0 ∧ x = x0 ∨ y + 1 = y0 ∧ x = x0 + 1) ∨ y + 1 = y0 ∧ x = x0 + 2) ∧ k7 = 1) ∨ (¬((y + 1 = y0 ∧ x = x0 ∨ y + 1 = y0 ∧ x = x0 + 1) ∨ y + 1 = y0 ∧ x = x0 + 2) ∧ k7 = 0))
    (hk8 : (((y + 1 = y0 ∧ x + 1 = x0 ∨ y + 1 = y0 ∧ x = x0) ∨ y + 1 = y0 ∧ x = x0 + 1) ∧ k8 = 1) ∨ (¬((y + 1 = y0 ∧ x + 1 = x0 ∨ y + 1 = y0 ∧ x = x0) ∨ y + 1 = y0 ∧ x = x0 + 1) ∧ k8 = 0))
    (h1 : x = x0 + 3) (h2 : y = y0) :
    (k1 + (k2 + (k3 + (k4 + (k5 + (k6 + (k7 + k8)))))) = 3 ∨ k1 + (k2 + (k3 + (k4 + (k5 + (k6 + (k7 + k8)))))) = 2 ∧ ((y = y0 ∧ x = x0 ∨ y = y0 ∧ x = x0 + 1) ∨ y = y0 ∧ x = x0 + 2)) ↔ ((y = y0 - 1 ∧ x = x0 + 1 ∨ y = y0 ∧ x = x0 + 1) ∨ y = y0 + 1 ∧ x = x0 + 1) := by
  have e1 := ind_val_neg hk1 (by clear hk1 hk2 hk3 hk4 hk5 hk6 hk7 hk8; omega)
  have e2 := ind_val_neg hk2 (by clear hk1 hk2 hk3 hk4 hk5 hk6 hk7 hk8; omega)
  have e3 := ind_val_neg hk3 (by clear hk1 hk2 hk3 hk4 hk5 hk6 hk7 hk8; omega)
  have e4 := ind_val_pos hk4 (by clear hk1 hk2 hk3 hk4 hk5 hk6 hk7 hk8; omega)
  have e5 := ind_val_neg hk5 (by clear hk1 hk2 hk3 hk4 hk5 hk6 hk7 hk8; omega)
  have e6 := ind_val_neg hk6 (by clear hk1 hk2 hk3 hk4 hk5 hk6 hk7 hk8; omega)
  have e7 := ind_val_neg hk7 (by clear hk1 hk2 hk3 hk4 hk5 hk6 hk7 hk8; omega)
  have e8 := ind_val_neg hk8 (by clear hk1 hk2 hk3 hk4 hk5 hk6 hk7 hk8; omega)
  clear hk1 hk2 hk3 hk4 hk5 hk6 hk7 hk8
  omega

/-- Case analysis leaf for `blinker_step1`. -/
theorem blinker_step1_case23 (n x0 y0 x y k1 k2 k3 k4 k5 k6 k7 k8 : Nat)
    (hx0 : 1 ≤ x0) (hx4 : x0 + 4 ≤ n) (hy2 : 2 ≤ y0) (hy3 : y0 + 3 ≤ n)
    (hk1 : (((y = y0 + 1 ∧ x = x0 + 1 ∨ y = y0 + 1 ∧ x = x0 + 2) ∨ y = y0 + 1 ∧ x = x0 + 3) ∧ k1 = 1) ∨ (¬((y = y0 + 1 ∧ x = x0 + 1 ∨ y = y0 + 1 ∧ x = x0 + 2) ∨ y = y0 + 1 ∧ x = x0 + 3) ∧ k1 = 0))
    (hk2 : (((y = y0 + 1 ∧ x = x0 ∨ y = y0 + 1 ∧ x = x0 + 1) ∨ y = y0 + 1 ∧ x = x0 + 2) ∧ k2 = 1) ∨ (¬((y = y0 + 1 ∧ x = x0 ∨ y = y0 + 1 ∧ x = x0 + 1) ∨ y = y0 + 1 ∧ x = x0 + 2) ∧ k2 = 0))
    (hk3 : (((y = y0 + 1 ∧ x + 1 = x0 ∨ y = y0 + 1 ∧ x = x0) ∨ y = y0 + 1 ∧ x = x0 + 1) ∧ k3 = 1) ∨ (¬((y = y0 + 1 ∧ x + 1 = x0 ∨ y = y0 + 1 ∧ x = x0) ∨ y = y0 + 1 ∧ x = x0 + 1) ∧ k3 = 0))
    (hk4 : (((y = y0 ∧ x = x0 + 1 ∨ y = y0 ∧ x = x0 + 2) ∨ y = y0 ∧ x = x0 + 3) ∧ k4 = 1) ∨ (¬((y = y0 ∧ x = x0 + 1 ∨ y = y0 ∧ x = x0 + 2) ∨ y = y0 ∧ x = x0 + 3) ∧ k4 = 0))
    (hk5 : (((y = y0 ∧ x + 1 = x0 ∨ y = y0 ∧ x = x0) ∨ y = y0 ∧ x = x0 + 1) ∧ k5 = 1) ∨ (¬((y = y0 ∧ x + 1 = x0 ∨ y = y0 ∧ x = x0) ∨ y = y0 ∧ x = x0 + 1) ∧ k5 = 0))
    (hk6 : (((y + 1 = y0 ∧ x = x0 + 1 ∨ y + 1 = y0 ∧ x = x0 + 2) ∨ y + 1 = y0 ∧ x = x0 + 3) ∧ k6 = 1) ∨ (¬((y + 1 = y0 ∧ x = x0 + 1 ∨ y + 1 = y0 ∧ x = x0 + 2) ∨ y + 1 = y0 ∧ x = x0 + 3) ∧ k6 = 0))
    (hk7 : (((y + 1 = y0 ∧ x = x0 ∨ y + 1 = y0 ∧ x = x0 + 1) ∨ y + 1 = y0 ∧ x = x0 + 2) ∧ k7 = 1) ∨ (¬((y + 1 = y0 ∧ x = x0 ∨ y + 1 = y0 ∧ x = x0 + 1) ∨ y + 1 = y0 ∧ x = x0 + 2) ∧ k7 = 0))
    (hk8 : (((y + 1 = y0 ∧ x + 1 = x0 ∨ y + 1 = y0 ∧ x = x0) ∨ y + 1 = y0 ∧ x = x0 + 1) ∧ k8 = 1) ∨ (¬((y + 1 = y0 ∧ x + 1 = x0 ∨ y + 1 = y0 ∧ x = x0) ∨ y + 1 = y0 ∧ x = x0 + 1) ∧ k8 = 0))
    (h1 : x = x0 + 3) (h2 : y = y0 + 1) :
    (k1 + (k2 + (k3 + (k4 + (k5 + (k6 + (k7 + k8)))))) = 3 ∨ k1 + (k2 + (k3 + (k4 + (k5 + (k6 + (k7 + k8)))))) = 2 ∧ ((y = y0 ∧ x = x0 ∨ y = y0 ∧ x = x0 + 1) ∨ y = y0 ∧ x = x0 + 2)) ↔ ((y = y0 - 1 ∧ x = x0 + 1 ∨ y = y0 ∧ x = x0 + 1) ∨ y = y0 + 1 ∧ x = x0 + 1) := by
  have e1 := ind_val_pos hk1 (by clear hk1 hk2 hk3 hk4 hk5 hk6 hk7 hk8; omega)
  have e2 := ind_val_neg hk2 (by clear hk1 hk2 hk3 hk4 hk5 hk6 hk7 hk8; omega)
  have e3 := ind_val_neg hk3 (by clear hk1 hk2 hk3 hk4 hk5 hk6 hk7 hk8; omega)
  have e4 := ind_val_neg hk4 (by clear hk1 hk2 hk3 hk4 hk5 hk6 hk7 hk8; omega)
  have e5 := ind_val_neg hk5 (by clear hk1 hk2 hk3 hk4 hk5 hk6 hk7 hk8; omega)
  have e6 := ind_val_neg hk6 (by clear hk1 hk2 hk3 hk4 hk5 hk6 hk7 hk8; omega)
  have e7 := ind_val_neg hk7 (by clear hk1 hk2 hk3 hk4 hk5 hk6 hk7 hk8; omega)
  have e8 := ind_val_neg hk8 (by clear hk1 hk2 hk3 hk4 hk5 hk6 hk7 hk8; omega)
  clear hk1 hk2 hk3 hk4 hk5 hk6 hk7 hk8
  omega

/-- Case analysis leaf for `blinker_step1`. -/
theorem blinker_step1_case24 (n x0 y0 x y k1 k2 k3 k4 k5 k6 k7 k8 : Nat)
    (hx0 : 1 ≤ x0) (hx4 : x0 + 4 ≤ n) (hy2 : 2 ≤ y0) (hy3 : y0 + 3 ≤ n)
    (hk1 : (((y = y0 + 1 ∧ x = x0 + 1 ∨ y = y0 + 1 ∧ x = x0 + 2) ∨ y = y0 + 1 ∧ x = x0 + 3) ∧ k1 = 1) ∨ (¬((y = y0 + 1 ∧ x = x0 + 1 ∨ y = y0 + 1 ∧ x = x0 + 2) ∨ y = y0 + 1 ∧ x = x0 + 3) ∧ k1 = 0))
    (hk2 : (((y = y0 + 1 ∧ x = x0 ∨ y = y0 + 1 ∧ x = x0 + 1) ∨ y = y0 + 1 ∧ x = x0 + 2) ∧ k2 = 1) ∨ (¬((y = y0 + 1 ∧ x = x0 ∨ y = y0 + 1 ∧ x = x0 + 1) ∨ y = y0 + 1 ∧ x = x0 + 2) ∧ k2 = 0))
    (hk3 : (((y = y0 + 1 ∧ x + 1 = x0 ∨ y = y0 + 1 ∧ x = x0) ∨ y = y0 + 1 ∧ x = x0 + 1) ∧ k3 = 1) ∨ (¬((y = y0 + 1 ∧ x + 1 = x0 ∨ y = y0 + 1 ∧ x = x0) ∨ y = y0 + 1 ∧ x = x0 + 1) ∧ k3 = 0))
    (hk4 : (((y = y0 ∧ x = x0 + 1 ∨ y = y0 ∧ x = x0 + 2) ∨ y = y0 ∧ x = x0 + 3) ∧ k4 = 1) ∨ (¬((y = y0 ∧ x = x0 + 1 ∨ y = y0 ∧ x = x0 + 2) ∨ y = y0 ∧ x = x0 + 3) ∧ k4 = 0))
    (hk5 : (((y = y0 ∧ x + 1 = x0 ∨ y = y0 ∧ x = x0) ∨ y = y0 ∧ x = x0 + 1) ∧ k5 = 1) ∨ (¬((y = y0 ∧ x + 1 = x0 ∨ y = y0 ∧ x = x0) ∨ y = y0 ∧ x = x0 + 1) ∧ k5 = 0))
    (hk6 : (((y + 1 = y0 ∧ x = x0 + 1 ∨ y + 1 = y0 ∧ x = x0 + 2) ∨ y + 1 = y0 ∧ x = x0 + 3) ∧ k6 = 1) ∨ (¬((y + 1 = y0 ∧ x = x0 + 1 ∨ y + 1 = y0 ∧ x = x0 + 2) ∨ y + 1 = y0 ∧ x = x0 + 3) ∧ k6 = 0))
    (hk7 : (((y + 1 = y0 ∧ x = x0 ∨ y + 1 = y0 ∧ x = x0 + 1) ∨ y + 1 = y0 ∧ x = x0 + 2) ∧ k7 = 1) ∨ (¬((y + 1 = y0 ∧ x = x0 ∨ y + 1 = y0 ∧ x = x0 + 1) ∨ y + 1 = y0 ∧ x = x0 + 2) ∧ k7 = 0))
    (hk8 : (((y + 1 = y0 ∧ x + 1 = x0 ∨ y + 1 = y0 ∧ x = x0) ∨ y + 1 = y0 ∧ x = x0 + 1) ∧ k8 = 1) ∨ (¬((y + 1 = y0 ∧ x + 1 = x0 ∨ y + 1 = y0 ∧ x = x0) ∨ y + 1 = y0 ∧ x = x0 + 1) ∧ k8 = 0))
    (h1 : x = x0 + 3) (h2 : y + 1 < y0) :
    (k1 + (k2 + (k3 + (k4 + (k5 + (k6 + (k7 + k8)))))) = 3 ∨ k1 + (k2 + (k3 + (k4 + (k5 + (k6 + (k7 + k8)))))) = 2 ∧ ((y = y0 ∧ x = x0 ∨ y = y0 ∧ x = x0 + 1) ∨ y = y0 ∧ x = x0 + 2)) ↔ ((y = y0 - 1 ∧ x = x0 + 1 ∨ y = y0 ∧ x = x0 + 1) ∨ y = y0 + 1 ∧ x = x0 + 1) := by
  have e1 := ind_val_neg hk1 (by clear hk1 hk2 hk3 hk4 hk5 hk6 hk7 hk8; omega)
  have e2 := ind_val_neg hk2 (by clear hk1 hk2 hk3 hk4 hk5 hk6 hk7 hk8; omega)
  have e3 := ind_val_neg hk3 (by clear hk1 hk2 hk3 hk4 hk5 hk6 hk7 hk8; omega)
  have e4 := ind_val_neg hk4 (by clear hk1 hk2 hk3 hk4 hk5 hk6 hk7 hk8; omega)
  have e5 := ind_val_neg hk5 (by clear hk1 hk2 hk3 hk4 hk5 hk6 hk7 hk8; omega)
  have e6 := ind_val_neg hk6 (by clear hk1 hk2 hk3 hk4 hk5 hk6 hk7 hk8; omega)
  have e7 := ind_val_neg hk7 (by clear hk1 hk2 hk3 hk4 hk5 hk6 hk7 hk8; omega)
  have e8 := ind_val_neg hk8 (by clear hk1 hk2 hk3 hk4 hk5 hk6 hk7 hk8; omega)
  clear hk1 hk2 hk3 hk4 hk5 hk6 hk7 hk8
  omega

/-- Case analysis leaf for `blinker_step1`. -/
theorem blinker_step1_case25 (n x0 y0 x y k1 k2 k3 k4 k5 k6 k7 k8 : Nat)
    (hx0 : 1 ≤ x0) (hx4 : x0 + 4 ≤ n) (hy2 : 2 ≤ y0) (hy3 : y0 + 3 ≤ n)
    (hk1 : (((y = y0 + 1 ∧ x = x0 + 1 ∨ y = y0 + 1 ∧ x = x0 + 2) ∨ y = y0 + 1 ∧ x = x0 + 3) ∧ k1 = 1) ∨ (¬((y = y0 + 1 ∧ x = x0 + 1 ∨ y = y0 + 1 ∧ x = x0 + 2) ∨ y = y0 + 1 ∧ x = x0 + 3) ∧ k1 = 0))
    (hk2 : (((y = y0 + 1 ∧ x = x0 ∨ y = y0 + 1 ∧ x = x0 + 1) ∨ y = y0 + 1 ∧ x = x0 + 2) ∧ k2 = 1) ∨ (¬((y = y0 + 1 ∧ x = x0 ∨ y = y0 + 1 ∧ x = x0 + 1) ∨ y = y0 + 1 ∧ x = x0 + 2) ∧ k2 = 0))
    (hk3 : (((y = y0 + 1 ∧ x + 1 = x0 ∨ y = y0 + 1 ∧ x = x0) ∨ y = y0 + 1 ∧ x = x0 + 1) ∧ k3 = 1) ∨ (¬((y = y0 + 1 ∧ x + 1 = x0 ∨ y = y0 + 1 ∧ x = x0) ∨ y = y0 + 1 ∧ x = x0 + 1) ∧ k3 = 0))
    (hk4 : (((y = y0 ∧ x = x0 + 1 ∨ y = y0 ∧ x = x0 + 2) ∨ y = y0 ∧ x = x0 + 3) ∧ k4 = 1) ∨ (¬((y = y0 ∧ x = x0 + 1 ∨ y = y0 ∧ x = x0 + 2) ∨ y = y0 ∧ x = x0 + 3) ∧ k4 = 0))
    (hk5 : (((y = y0 ∧ x + 1 = x0 ∨ y = y0 ∧ x = x0) ∨ y = y0 ∧ x = x0 + 1) ∧ k5 = 1) ∨ (¬((y = y0 ∧ x + 1 = x0 ∨ y = y0 ∧ x = x0) ∨ y = y0 ∧ x = x0 + 1) ∧ k5 = 0))
    (hk6 : (((y + 1 = y0 ∧ x = x0 + 1 ∨ y + 1 = y0 ∧ x = x0 + 2) ∨ y + 1 = y0 ∧ x = x0 + 3) ∧ k6 = 1) ∨ (¬((y + 1 = y0 ∧ x = x0 + 1 ∨ y + 1 = y0 ∧ x = x0 + 2) ∨ y + 1 = y0 ∧ x = x0 + 3) ∧ k6 = 0))
    (hk7 : (((y + 1 = y0 ∧ x = x0 ∨ y + 1 = y0 ∧ x = x0 + 1) ∨ y + 1 = y0 ∧ x = x0 + 2) ∧ k7 = 1) ∨ (¬((y + 1 = y0 ∧ x = x0 ∨ y + 1 = y0 ∧ x = x0 + 1) ∨ y + 1 = y0 ∧ x = x0 + 2) ∧ k7 = 0))
    (hk8 : (((y + 1 = y0 ∧ x + 1 = x0 ∨ y + 1 = y0 ∧ x = x0) ∨ y + 1 = y0 ∧ x = x0 + 1) ∧ k8 = 1) ∨ (¬((y + 1 = y0 ∧ x + 1 = x0 ∨ y + 1 = y0 ∧ x = x0) ∨ y + 1 = y0 ∧ x = x0 + 1) ∧ k8 = 0))
    (h1 : x = x0 + 3) (h2 : y0 + 2 ≤ y) :
    (k1 + (k2 + (k3 + (k4 + (k5 + (k6 + (k7 + k8)))))) = 3 ∨ k1 + (k2 + (k3 + (k4 + (k5 + (k6 + (k7 + k8)))))) = 2 ∧ ((y = y0 ∧ x = x0 ∨ y = y0 ∧ x = x0 + 1) ∨ y = y0 ∧ x = x0 + 2)) ↔ ((y = y0 - 1 ∧ x = x0 + 1 ∨ y = y0 ∧ x = x0 + 1) ∨ y = y0 + 1 ∧ x = x0 + 1) := by
  have e1 := ind_val_neg hk1 (by clear hk1 hk2 hk3 hk4 hk5 hk6 hk7 hk8; omega)
  have e2 := ind_val_neg hk2 (by clear hk1 hk2 hk3 hk4 hk5 hk6 hk7 hk8; omega)
  have e3 := ind_val_neg hk3 (by clear hk1 hk2 hk3 hk4 hk5 hk6 hk7 hk8; omega)
  have e4 := ind_val_neg hk4 (by clear hk1 hk2 hk3 hk4 hk5 hk6 hk7 hk8; omega)
  have e5 := ind_val_neg hk5 (by clear hk1 hk2 hk3 hk4 hk5 hk6 hk7 hk8; omega)
  have e6 := ind_val_neg hk6 (by clear hk1 hk2 hk3 hk4 hk5 hk6 hk7 hk8; omega)
  have e7 := ind_val_neg hk7 (by clear hk1 hk2 hk3 hk4 hk5 hk6 hk7 hk8; omega)
  have e8 := ind_val_neg hk8 (by clear hk1 hk2 hk3 hk4 hk5 hk6 hk7 hk8; omega)
  clear hk1 hk2 hk3 hk4 hk5 hk6 hk7 hk8
  omega

/-- Case analysis leaf for `blinker_step1`. -/
theorem blinker_step1_case26 (n x0 y0 x y k1 k2 k3 k4 k5 k6 k7 k8 : Nat)
    (hx0 : 1 ≤ x0) (hx4 : x0 + 4 ≤ n) (hy2 : 2 ≤ y0) (hy3 : y0 + 3 ≤ n)
    (hk1 : (((y = y0 + 1 ∧ x = x0 + 1 ∨ y = y0 + 1 ∧ x = x0 + 2) ∨ y = y0 + 1 ∧ x = x0 + 3) ∧ k1 = 1) ∨ (¬((y = y0 + 1 ∧ x = x0 + 1 ∨ y = y0 + 1 ∧ x = x0 + 2) ∨ y = y0 + 1 ∧ x = x0 + 3) ∧ k1 = 0))
    (hk2 : (((y = y0 + 1 ∧ x = x0 ∨ y = y0 + 1 ∧ x = x0 + 1) ∨ y = y0 + 1 ∧ x = x0 + 2) ∧ k2 = 1) ∨ (¬((y = y0 + 1 ∧ x = x0 ∨ y = y0 + 1 ∧ x = x0 + 1) ∨ y = y0 + 1 ∧ x = x0 + 2) ∧ k2 = 0))
    (hk3 : (((y = y0 + 1 ∧ x + 1 = x0 ∨ y = y0 + 1 ∧ x = x0) ∨ y = y0 + 1 ∧ x = x0 + 1) ∧ k3 = 1) ∨ (¬((y = y0 + 1 ∧ x + 1 = x0 ∨ y = y0 + 1 ∧ x = x0) ∨ y = y0 + 1 ∧ x = x0 + 1) ∧ k3 = 0))
    (hk4 : (((y = y0 ∧ x = x0 + 1 ∨ y = y0 ∧ x = x0 + 2) ∨ y = y0 ∧ x = x0 + 3) ∧ k4 = 1) ∨ (¬((y = y0 ∧ x = x0 + 1 ∨ y = y0 ∧ x = x0 + 2) ∨ y = y0 ∧ x = x0 + 3) ∧ k4 = 0))
    (hk5 : (((y = y0 ∧ x + 1 = x0 ∨ y = y0 ∧ x = x0) ∨ y = y0 ∧ x = x0 + 1) ∧ k5 = 1) ∨ (¬((y = y0 ∧ x + 1 = x0 ∨ y = y0 ∧ x = x0) ∨ y = y0 ∧ x = x0 + 1) ∧ k5 = 0))
    (hk6 : (((y + 1 = y0 ∧ x = x0 + 1 ∨ y + 1 = y0 ∧ x = x0 + 2) ∨ y + 1 = y0 ∧ x = x0 + 3) ∧ k6 = 1) ∨ (¬((y + 1 = y0 ∧ x = x0 + 1 ∨ y + 1 = y0 ∧ x = x0 + 2) ∨ y + 1 = y0 ∧ x = x0 + 3) ∧ k6 = 0))
    (hk7 : (((y + 1 = y0 ∧ x = x0 ∨ y + 1 = y0 ∧ x = x0 + 1) ∨ y + 1 = y0 ∧ x = x0 + 2) ∧ k7 = 1) ∨ (¬((y + 1 = y0 ∧ x = x0 ∨ y + 1 = y0 ∧ x = x0 + 1) ∨ y + 1 = y0 ∧ x = x0 + 2) ∧ k7 = 0))
    (hk8 : (((y + 1 = y0 ∧ x + 1 = x0 ∨ y + 1 = y0 ∧ x = x0) ∨ y + 1 = y0 ∧ x = x0 + 1) ∧ k8 = 1) ∨ (¬((y + 1 = y0 ∧ x + 1 = x0 ∨ y + 1 = y0 ∧ x = x0) ∨ y + 1 = y0 ∧ x = x0 + 1) ∧ k8 = 0))
    (h1 : x + 1 < x0) (h2 : y + 1 = y0) :
    (k1 + (k2 + (k3 + (k4 + (k5 + (k6 + (k7 + k8)))))) = 3 ∨ k1 + (k2 + (k3 + (k4 + (k5 + (k6 + (k7 + k8)))))) = 2 ∧ ((y = y0 ∧ x = x0 ∨ y = y0 ∧ x = x0 + 1) ∨ y = y0 ∧ x = x0 + 2)) ↔ ((y = y0 - 1 ∧ x = x0 + 1 ∨ y = y0 ∧ x = x0 + 1) ∨ y = y0 + 1 ∧ x = x0 + 1) := by
  have e1 := ind_val_neg hk1 (by clear hk1 hk2 hk3 hk4 hk5 hk6 hk7 hk8; omega)
  have e2 := ind_val_neg hk2 (by clear hk1 hk2 hk3 hk4 hk5 hk6 hk7 hk8; omega)
  have e3 := ind_val_neg hk3 (by clear hk1 hk2 hk3 hk4 hk5 hk6 hk7 hk8; omega)
  have e4 := ind_val_neg hk4 (by clear hk1 hk2 hk3 hk4 hk5 hk6 hk7 hk8; omega)
  have e5 := ind_val_neg hk5 (by clear hk1 hk2 hk3 hk4 hk5 hk6 hk7 hk8; omega)
  have e6 := ind_val_neg hk6 (by clear hk1 hk2 hk3 hk4 hk5 hk6 hk7 hk8; omega)
  have e7 := ind_val_neg hk7 (by clear hk1 hk2 hk3 hk4 hk5 hk6 hk7 hk8; omega)
  have e8 := ind_val_neg hk8 (by clear hk1 hk2 hk3 hk4 hk5 hk6 hk7 hk8; omega)
  clear hk1 hk2 hk3 hk4 hk5 hk6 hk7 hk8
  omega

/-- Case analysis leaf for `blinker_step1`. -/
theorem blinker_step1_case27 (n x0 y0 x y k1 k2 k3 k4 k5 k6 k7 k8 : Nat)
    (hx0 : 1 ≤ x0) (hx4 : x0 + 4 ≤ n) (hy2 : 2 ≤ y0) (hy3 : y0 + 3 ≤ n)
    (hk1 : (((y = y0 + 1 ∧ x = x0 + 1 ∨ y = y0 + 1 ∧ x = x0 + 2) ∨ y = y0 + 1 ∧ x = x0 + 3) ∧ k1 = 1) ∨ (¬((y = y0 + 1 ∧ x = x0 + 1 ∨ y = y0 + 1 ∧ x = x0 + 2) ∨ y = y0 + 1 ∧ x = x0 + 3) ∧ k1 = 0))
    (hk2 : (((y = y0 + 1 ∧ x = x0 ∨ y = y0 + 1 ∧ x = x0 + 1) ∨ y = y0 + 1 ∧ x = x0 + 2) ∧ k2 = 1) ∨ (¬((y = y0 + 1 ∧ x = x0 ∨ y = y0 + 1 ∧ x = x0 + 1) ∨ y = y0 + 1 ∧ x = x0 + 2) ∧ k2 = 0))
    (hk3 : (((y = y0 + 1 ∧ x + 1 = x0 ∨ y = y0 + 1 ∧ x = x0) ∨ y = y0 + 1 ∧ x = x0 + 1) ∧ k3 = 1) ∨ (¬((y = y0 + 1 ∧ x + 1 = x0 ∨ y = y0 + 1 ∧ x = x0) ∨ y = y0 + 1 ∧ x = x0 + 1) ∧ k3 = 0))
    (hk4 : (((y = y0 ∧ x = x0 + 1 ∨ y = y0 ∧ x = x0 + 2) ∨ y = y0 ∧ x = x0 + 3) ∧ k4 = 1) ∨ (¬((y = y0 ∧ x = x0 + 1 ∨ y = y0 ∧ x = x0 + 2) ∨ y = y0 ∧ x = x0 + 3) ∧ k4 = 0))
    (hk5 : (((y = y0 ∧ x + 1 = x0 ∨ y = y0 ∧ x = x0) ∨ y = y0 ∧ x = x0 + 1) ∧ k5 = 1) ∨ (¬((y = y0 ∧ x + 1 = x0 ∨ y = y0 ∧ x = x0) ∨ y = y0 ∧ x = x0 + 1) ∧ k5 = 0))
    (hk6 : (((y + 1 = y0 ∧ x = x0 + 1 ∨ y + 1 = y0 ∧ x = x0 + 2) ∨ y + 1 = y0 ∧ x = x0 + 3) ∧ k6 = 1) ∨ (¬((y + 1 = y0 ∧ x = x0 + 1 ∨ y + 1 = y0 ∧ x = x0 + 2) ∨ y + 1 = y0 ∧ x = x0 + 3) ∧ k6 = 0))
    (hk7 : (((y + 1 = y0 ∧ x = x0 ∨ y + 1 = y0 ∧ x = x0 + 1) ∨ y + 1 = y0 ∧ x = x0 + 2) ∧ k7 = 1) ∨ (¬((y + 1 = y0 ∧ x = x0 ∨ y + 1 = y0 ∧ x = x0 + 1) ∨ y + 1 = y0 ∧ x = x0 + 2) ∧ k7 = 0))
    (hk8 : (((y + 1 = y0 ∧ x + 1 = x0 ∨ y + 1 = y0 ∧ x = x0) ∨ y + 1 = y0 ∧ x = x0 + 1) ∧ k8 = 1) ∨ (¬((y + 1 = y0 ∧ x + 1 = x0 ∨ y + 1 = y0 ∧ x = x0) ∨ y + 1 = y0 ∧ x = x0 + 1) ∧ k8 = 0))
    (h1 : x + 1 < x0) (h2 : y = y0) :
    (k1 + (k2 + (k3 + (k4 + (k5 + (k6 + (k7 + k8)))))) = 3 ∨ k1 + (k2 + (k3 + (k4 + (k5 + (k6 + (k7 + k8)))))) = 2 ∧ ((y = y0 ∧ x = x0 ∨ y = y0 ∧ x = x0 + 1) ∨ y = y0 ∧ x = x0 + 2)) ↔ ((y = y0 - 1 ∧ x = x0 + 1 ∨ y = y0 ∧ x = x0 + 1) ∨ y = y0 + 1 ∧ x = x0 + 1) := by
  have e1 := ind_val_neg hk1 (by clear hk1 hk2 hk3 hk4 hk5 hk6 hk7 hk8; omega)
  have e2 := ind_val_neg hk2 (by clear hk1 hk2 hk3 hk4 hk5 hk6 hk7 hk8; omega)
  have e3 := ind_val_neg hk3 (by clear hk1 hk2 hk3 hk4 hk5 hk6 hk7 hk8; omega)
  have e4 := ind_val_neg hk4 (by clear hk1 hk2 hk3 hk4 hk5 hk6 hk7 hk8; omega)
  have e5 := ind_val_neg hk5 (by clear hk1 hk2 hk3 hk4 hk5 hk6 hk7 hk8; omega)
  have e6 := ind_val_neg hk6 (by clear hk1 hk2 hk3 hk4 hk5 hk6 hk7 hk8; omega)
  have e7 := ind_val_neg hk7 (by clear hk1 hk2 hk3 hk4 hk5 hk6 hk7 hk8; omega)
  have e8 := ind_val_neg hk8 (by clear hk1 hk2 hk3 hk4 hk5 hk6 hk7 hk8; omega)
  clear hk1 hk2 hk3 hk4 hk5 hk6 hk7 hk8
  omega

/-- Case analysis leaf for `blinker_step1`. -/
theorem blinker_step1_case28 (n x0 y0 x y k1 k2 k3 k4 k5 k6 k7 k8 : Nat)
    (hx0 : 1 ≤ x0) (hx4 : x0 + 4 ≤ n) (hy2 : 2 ≤ y0) (hy3 : y0 + 3 ≤ n)
    (hk1 : (((y = y0 + 1 ∧ x = x0 + 1 ∨ y = y0 + 1 ∧ x = x0 + 2) ∨ y = y0 + 1 ∧ x = x0 + 3) ∧ k1 = 1) ∨ (¬((y = y0 + 1 ∧ x = x0 + 1 ∨ y = y0 + 1 ∧ x = x0 + 2) ∨ y = y0 + 1 ∧ x = x0 + 3) ∧ k1 = 0))
    (hk2 : (((y = y0 + 1 ∧ x = x0 ∨ y = y0 + 1 ∧ x = x0 + 1) ∨ y = y0 + 1 ∧ x = x0 + 2) ∧ k2 = 1) ∨ (¬((y = y0 + 1 ∧ x = x0 ∨ y = y0 + 1 ∧ x = x0 + 1) ∨ y = y0 + 1 ∧ x = x0 + 2) ∧ k2 = 0))
    (hk3 : (((y = y0 + 1 ∧ x + 1 = x0 ∨ y = y0 + 1 ∧ x = x0) ∨ y = y0 + 1 ∧ x = x0 + 1) ∧ k3 = 1) ∨ (¬((y = y0 + 1 ∧ x + 1 = x0 ∨ y = y0 + 1 ∧ x = x0) ∨ y = y0 + 1 ∧ x = x0 + 1) ∧ k3 = 0))
    (hk4 : (((y = y0 ∧ x = x0 + 1 ∨ y = y0 ∧ x = x0 + 2) ∨ y = y0 ∧ x = x0 + 3) ∧ k4 = 1) ∨ (¬((y = y0 ∧ x = x0 + 1 ∨ y = y0 ∧ x = x0 + 2) ∨ y = y0 ∧ x = x0 + 3) ∧ k4 = 0))
    (hk5 : (((y = y0 ∧ x + 1 = x0 ∨ y = y0 ∧ x = x0) ∨ y = y0 ∧ x = x0 + 1) ∧ k5 = 1) ∨ (¬((y = y0 ∧ x + 1 = x0 ∨ y = y0 ∧ x = x0) ∨ y = y0 ∧ x = x0 + 1) ∧ k5 = 0))
    (hk6 : (((y + 1 = y0 ∧ x = x0 + 1 ∨ y + 1 = y0 ∧ x = x0 + 2) ∨ y + 1 = y0 ∧ x = x0 + 3) ∧ k6 = 1) ∨ (¬((y + 1 = y0 ∧ x = x0 + 1 ∨ y + 1 = y0 ∧ x = x0 + 2) ∨ y + 1 = y0 ∧ x = x0 + 3) ∧ k6 = 0))
    (hk7 : (((y + 1 = y0 ∧ x = x0 ∨ y + 1 = y0 ∧ x = x0 + 1) ∨ y + 1 = y0 ∧ x = x0 + 2) ∧ k7 = 1) ∨ (¬((y + 1 = y0 ∧ x = x0 ∨ y + 1 = y0 ∧ x = x0 + 1) ∨ y + 1 = y0 ∧ x = x0 + 2) ∧ k7 = 0))
    (hk8 : (((y + 1 = y0 ∧ x + 1 = x0 ∨ y + 1 = y0 ∧ x = x0) ∨ y + 1 = y0 ∧ x = x0 + 1) ∧ k8 = 1) ∨ (¬((y + 1 = y0 ∧ x + 1 = x0 ∨ y + 1 = y0 ∧ x = x0) ∨ y + 1 = y0 ∧ x = x0 + 1) ∧ k8 = 0))
    (h1 : x + 1 < x0) (h2 : y = y0 + 1) :
    (k1 + (k2 + (k3 + (k4 + (k5 + (k6 + (k7 + k8)))))) = 3 ∨ k1 + (k2 + (k3 + (k4 + (k5 + (k6 + (k7 + k8)))))) = 2 ∧ ((y = y0 ∧ x = x0 ∨ y = y0 ∧ x = x0 + 1) ∨ y = y0 ∧ x = x0 + 2)) ↔ ((y = y0 - 1 ∧ x = x0 + 1 ∨ y = y0 ∧ x = x0 + 1) ∨ y = y0 + 1 ∧ x = x0 + 1) := by
  have e1 := ind_val_neg hk1 (by clear hk1 hk2 hk3 hk4 hk5 hk6 hk7 hk8; omega)
  have e2 := ind_val_neg hk2 (by clear hk1 hk2 hk3 hk4 hk5 hk6 hk7 hk8; omega)
  have e3 := ind_val_neg hk3 (by clear hk1 hk2 hk3 hk4 hk5 hk6 hk7 hk8; omega)
  have e4 := ind_val_neg hk4 (by clear hk1 hk2 hk3 hk4 hk5 hk6 hk7 hk8; omega)
  have e5 := ind_val_neg hk5 (by clear hk1 hk2 hk3 hk4 hk5 hk6 hk7 hk8; omega)
  have e6 := ind_val_neg hk6 (by clear hk1 hk2 hk3 hk4 hk5 hk6 hk7 hk8; omega)
  have e7 := ind_val_neg hk7 (by clear hk1 hk2 hk3 hk4 hk5 hk6 hk7 hk8; omega)
  have e8 := ind_val_neg hk8 (by clear hk1 hk2 hk3 hk4 hk5 hk6 hk7 hk8; omega)
  clear hk1 hk2 hk3 hk4 hk5 hk6 hk7 hk8
  omega

/-- Case analysis leaf for `blinker_step1`. -/
theorem blinker_step1_case29 (n x0 y0 x y k1 k2 k3 k4 k5 k6 k7 k8 : Nat)
    (hx0 : 1 ≤ x0) (hx4 : x0 + 4 ≤ n) (hy2 : 2 ≤ y0) (hy3 : y0 + 3 ≤ n)
    (hk1 : (((y = y0 + 1 ∧ x = x0 + 1 ∨ y = y0 + 1 ∧ x = x0 + 2) ∨ y = y0 + 1 ∧ x = x0 + 3) ∧ k1 = 1) ∨ (¬((y = y0 + 1 ∧ x = x0 + 1 ∨ y = y0 + 1 ∧ x = x0 + 2) ∨ y = y0 + 1 ∧ x = x0 + 3) ∧ k1 = 0))
    (hk2 : (((y = y0 + 1 ∧ x = x0 ∨ y = y0 + 1 ∧ x = x0 + 1) ∨ y = y0 + 1 ∧ x = x0 + 2) ∧ k2 = 1) ∨ (¬((y = y0 + 1 ∧ x = x0 ∨ y = y0 + 1 ∧ x = x0 + 1) ∨ y = y0 + 1 ∧ x = x0 + 2) ∧ k2 = 0))
    (hk3 : (((y = y0 + 1 ∧ x + 1 = x0 ∨ y = y0 + 1 ∧ x = x0) ∨ y = y0 + 1 ∧ x = x0 + 1) ∧ k3 = 1) ∨ (¬((y = y0 + 1 ∧ x + 1 = x0 ∨ y = y0 + 1 ∧ x = x0) ∨ y = y0 + 1 ∧ x = x0 + 1) ∧ k3 = 0))
    (hk4 : (((y = y0 ∧ x = x0 + 1 ∨ y = y0 ∧ x = x0 + 2) ∨ y = y0 ∧ x = x0 + 3) ∧ k4 = 1) ∨ (¬((y = y0 ∧ x = x0 + 1 ∨ y = y0 ∧ x = x0 + 2) ∨ y = y0 ∧ x = x0 + 3) ∧ k4 = 0))
    (hk5 : (((y = y0 ∧ x + 1 = x0 ∨ y = y0 ∧ x = x0) ∨ y = y0 ∧ x = x0 + 1) ∧ k5 = 1) ∨ (¬((y = y0 ∧ x + 1 = x0 ∨ y = y0 ∧ x = x0) ∨ y = y0 ∧ x = x0 + 1) ∧ k5 = 0))
    (hk6 : (((y + 1 = y0 ∧ x = x0 + 1 ∨ y + 1 = y0 ∧ x = x0 + 2) ∨ y + 1 = y0 ∧ x = x0 + 3) ∧ k6 = 1) ∨ (¬((y + 1 = y0 ∧ x = x0 + 1 ∨ y + 1 = y0 ∧ x = x0 + 2) ∨ y + 1 = y0 ∧ x = x0 + 3) ∧ k6 = 0))
    (hk7 : (((y + 1 = y0 ∧ x = x0 ∨ y + 1 = y0 ∧ x = x0 + 1) ∨ y + 1 = y0 ∧ x = x0 + 2) ∧ k7 = 1) ∨ (¬((y + 1 = y0 ∧ x = x0 ∨ y + 1 = y0 ∧ x = x0 + 1) ∨ y + 1 = y0 ∧ x = x0 + 2) ∧ k7 = 0))
    (hk8 : (((y + 1 = y0 ∧ x + 1 = x0 ∨ y + 1 = y0 ∧ x = x0) ∨ y + 1 = y0 ∧ x = x0 + 1) ∧ k8 = 1) ∨ (¬((y + 1 = y0 ∧ x + 1 = x0 ∨ y + 1 = y0 ∧ x = x0) ∨ y + 1 = y0 ∧ x = x0 + 1) ∧ k8 = 0))
    (h1 : x + 1 < x0) (h2 : y + 1 < y0) :
    (k1 + (k2 + (k3 + (k4 + (k5 + (k6 + (k7 + k8)))))) = 3 ∨ k1 + (k2 + (k3 + (k4 + (k5 + (k6 + (k7 + k8)))))) = 2 ∧ ((y = y0 ∧ x = x0 ∨ y = y0 ∧ x = x0 + 1) ∨ y = y0 ∧ x = x0 + 2)) ↔ ((y = y0 - 1 ∧ x = x0 + 1 ∨ y = y0 ∧ x = x0 + 1) ∨ y = y0 + 1 ∧ x = x0 + 1) := by
  have e1 := ind_val_neg hk1 (by clear hk1 hk2 hk3 hk4 hk5 hk6 hk7 hk8; omega)
  have e2 := ind_val_neg hk2 (by clear hk1 hk2 hk3 hk4 hk5 hk6 hk7 hk8; omega)
  have e3 := ind_val_neg hk3 (by clear hk1 hk2 hk3 hk4 hk5 hk6 hk7 hk8; omega)
  have e4 := ind_val_neg hk4 (by clear hk1 hk2 hk3 hk4 hk5 hk6 hk7 hk8; omega)
  have e5 := ind_val_neg hk5 (by clear hk1 hk2 hk3 hk4 hk5 hk6 hk7 hk8; omega)
  have e6 := ind_val_neg hk6 (by clear hk1 hk2 hk3 hk4 hk5 hk6 hk7 hk8; omega)
  have e7 := ind_val_neg hk7 (by clear hk1 hk2 hk3 hk4 hk5 hk6 hk7 hk8; omega)
  have e8 := ind_val_neg hk8 (by clear hk1 hk2 hk3 hk4 hk5 hk6 hk7 hk8; omega)
  clear hk1 hk2 hk3 hk4 hk5 hk6 hk7 hk8
  omega

/-- Case analysis leaf for `blinker_step1`. -/
theorem blinker_step1_case30 (n x0 y0 x y k1 k2 k3 k4 k5 k6 k7 k8 : Nat)
    (hx0 : 1 ≤ x0) (hx4 : x0 + 4 ≤ n) (hy2 : 2 ≤ y0) (hy3 : y0 + 3 ≤ n)
    (hk1 : (((y = y0 + 1 ∧ x = x0 + 1 ∨ y = y0 + 1 ∧ x = x0 + 2) ∨ y = y0 + 1 ∧ x = x0 + 3) ∧ k1 = 1) ∨ (¬((y = y0 + 1 ∧ x = x0 + 1 ∨ y = y0 + 1 ∧ x = x0 + 2) ∨ y = y0 + 1 ∧ x = x0 + 3) ∧ k1 = 0))
    (hk2 : (((y = y0 + 1 ∧ x = x0 ∨ y = y0 + 1 ∧ x = x0 + 1) ∨ y = y0 + 1 ∧ x = x0 + 2) ∧ k2 = 1) ∨ (¬((y = y0 + 1 ∧ x = x0 ∨ y = y0 + 1 ∧ x = x0 + 1) ∨ y = y0 + 1 ∧ x = x0 + 2) ∧ k2 = 0))
    (hk3 : (((y = y0 + 1 ∧ x + 1 = x0 ∨ y = y0 + 1 ∧ x = x0) ∨ y = y0 + 1 ∧ x = x0 + 1) ∧ k3 = 1) ∨ (¬((y = y0 + 1 ∧ x + 1 = x0 ∨ y = y0 + 1 ∧ x = x0) ∨ y = y0 + 1 ∧ x = x0 + 1) ∧ k3 = 0))
    (hk4 : (((y = y0 ∧ x = x0 + 1 ∨ y = y0 ∧ x = x0 + 2) ∨ y = y0 ∧ x = x0 + 3) ∧ k4 = 1) ∨ (¬((y = y0 ∧ x = x0 + 1 ∨ y = y0 ∧ x = x0 + 2) ∨ y = y0 ∧ x = x0 + 3) ∧ k4 = 0))
    (hk5 : (((y = y0 ∧ x + 1 = x0 ∨ y = y0 ∧ x = x0) ∨ y = y0 ∧ x = x0 + 1) ∧ k5 = 1) ∨ (¬((y = y0 ∧ x + 1 = x0 ∨ y = y0 ∧ x = x0) ∨ y = y0 ∧ x = x0 + 1) ∧ k5 = 0))
    (hk6 : (((y + 1 = y0 ∧ x = x0 + 1 ∨ y + 1 = y0 ∧ x = x0 + 2) ∨ y + 1 = y0 ∧ x = x0 + 3) ∧ k6 = 1) ∨ (¬((y + 1 = y0 ∧ x = x0 + 1 ∨ y + 1 = y0 ∧ x = x0 + 2) ∨ y + 1 = y0 ∧ x = x0 + 3) ∧ k6 = 0))
    (hk7 : (((y + 1 = y0 ∧ x = x0 ∨ y + 1 = y0 ∧ x = x0 + 1) ∨ y + 1 = y0 ∧ x = x0 + 2) ∧ k7 = 1) ∨ (¬((y + 1 = y0 ∧ x = x0 ∨ y + 1 = y0 ∧ x = x0 + 1) ∨ y + 1 = y0 ∧ x = x0 + 2) ∧ k7 = 0))
    (hk8 : (((y + 1 = y0 ∧ x + 1 = x0 ∨ y + 1 = y0 ∧ x = x0) ∨ y + 1 = y0 ∧ x = x0 + 1) ∧ k8 = 1) ∨ (¬((y + 1 = y0 ∧ x + 1 = x0 ∨ y + 1 = y0 ∧ x = x0) ∨ y + 1 = y0 ∧ x = x0 + 1) ∧ k8 = 0))
    (h1 : x + 1 < x0) (h2 : y0 + 2 ≤ y) :
    (k1 + (k2 + (k3 + (k4 + (k5 + (k6 + (k7 + k8)))))) = 3 ∨ k1 + (k2 + (k3 + (k4 + (k5 + (k6 + (k7 + k8)))))) = 2 ∧ ((y = y0 ∧ x = x0 ∨ y = y0 ∧ x = x0 + 1) ∨ y = y0 ∧ x = x0 + 2)) ↔ ((y = y0 - 1 ∧ x = x0 + 1 ∨ y = y0 ∧ x = x0 + 1) ∨ y = y0 + 1 ∧ x = x0 + 1) := by
  have e1 := ind_val_neg hk1 (by clear hk1 hk2 hk3 hk4 hk5 hk6 hk7 hk8; omega)
  have e2 := ind_val_neg hk2 (by clear hk1 hk2 hk3 hk4 hk5 hk6 hk7 hk8; omega)
  have e3 := ind_val_neg hk3 (by clear hk1 hk2 hk3 hk4 hk5 hk6 hk7 hk8; omega)
  have e4 := ind_val_neg hk4 (by clear hk1 hk2 hk3 hk4 hk5 hk6 hk7 hk8; omega)
  have e5 := ind_val_neg hk5 (by clear hk1 hk2 hk3 hk4 hk5 hk6 hk7 hk8; omega)
  have e6 := ind_val_neg hk6 (by clear hk1 hk2 hk3 hk4 hk5 hk6 hk7 hk8; omega)
  have e7 := ind_val_neg hk7 (by clear hk1 hk2 hk3 hk4 hk5 hk6 hk7 hk8; omega)
  have e8 := ind_val_neg hk8 (by clear hk1 hk2 hk3 hk4 hk5 hk6 hk7 hk8; omega)
  clear hk1 hk2 hk3 hk4 hk5 hk6 hk7 hk8
  omega

/-- Case analysis leaf for `blinker_step1`. -/
theorem blinker_step1_case31 (n x0 y0 x y k1 k2 k3 k4 k5 k6 k7 k8 : Nat)
    (hx0 : 1 ≤ x0) (hx4 : x0 + 4 ≤ n) (hy2 : 2 ≤ y0) (hy3 : y0 + 3 ≤ n)
    (hk1 : (((y = y0 + 1 ∧ x = x0 + 1 ∨ y = y0 + 1 ∧ x = x0 + 2) ∨ y = y0 + 1 ∧ x = x0 + 3) ∧ k1 = 1) ∨ (¬((y = y0 + 1 ∧ x = x0 + 1 ∨ y = y0 + 1 ∧ x = x0 + 2) ∨ y = y0 + 1 ∧ x = x0 + 3) ∧ k1 = 0))
    (hk2 : (((y = y0 + 1 ∧ x = x0 ∨ y = y0 + 1 ∧ x = x0 + 1) ∨ y = y0 + 1 ∧ x = x0 + 2) ∧ k2 = 1) ∨ (¬((y = y0 + 1 ∧ x = x0 ∨ y = y0 + 1 ∧ x = x0 + 1) ∨ y = y0 + 1 ∧ x = x0 + 2) ∧ k2 = 0))
    (hk3 : (((y = y0 + 1 ∧ x + 1 = x0 ∨ y = y0 + 1 ∧ x = x0) ∨ y = y0 + 1 ∧ x = x0 + 1) ∧ k3 = 1) ∨ (¬((y = y0 + 1 ∧ x + 1 = x0 ∨ y = y0 + 1 ∧ x = x0) ∨ y = y0 + 1 ∧ x = x0 + 1) ∧ k3 = 0))
    (hk4 : (((y = y0 ∧ x = x0 + 1 ∨ y = y0 ∧ x = x0 + 2) ∨ y = y0 ∧ x = x0 + 3) ∧ k4 = 1) ∨ (¬((y = y0 ∧ x = x0 + 1 ∨ y = y0 ∧ x = x0 + 2) ∨ y = y0 ∧ x = x0 + 3) ∧ k4 = 0))
    (hk5 : (((y = y0 ∧ x + 1 = x0 ∨ y = y0 ∧ x = x0) ∨ y = y0 ∧ x = x0 + 1) ∧ k5 = 1) ∨ (¬((y = y0 ∧ x + 1 = x0 ∨ y = y0 ∧ x = x0) ∨ y = y0 ∧ x = x0 + 1) ∧ k5 = 0))
    (hk6 : (((y + 1 = y0 ∧ x = x0 + 1 ∨ y + 1 = y0 ∧ x = x0 + 2) ∨ y + 1 = y0 ∧ x = x0 + 3) ∧ k6 = 1) ∨ (¬((y + 1 = y0 ∧ x = x0 + 1 ∨ y + 1 = y0 ∧ x = x0 + 2) ∨ y + 1 = y0 ∧ x = x0 + 3) ∧ k6 = 0))
    (hk7 : (((y + 1 = y0 ∧ x = x0 ∨ y + 1 = y0 ∧ x = x0 + 1) ∨ y + 1 = y0 ∧ x = x0 + 2) ∧ k7 = 1) ∨ (¬((y + 1 = y0 ∧ x = x0 ∨ y + 1 = y0 ∧ x = x0 + 1) ∨ y + 1 = y0 ∧ x = x0 + 2) ∧ k7 = 0))
    (hk8 : (((y + 1 = y0 ∧ x + 1 = x0 ∨ y + 1 = y0 ∧ x = x0) ∨ y + 1 = y0 ∧ x = x0 + 1) ∧ k8 = 1) ∨ (¬((y + 1 = y0 ∧ x + 1 = x0 ∨ y + 1 = y0 ∧ x = x0) ∨ y + 1 = y0 ∧ x = x0 + 1) ∧ k8 = 0))
    (h1 : x0 + 4 ≤ x) (h2 : y + 1 = y0) :
    (k1 + (k2 + (k3 + (k4 + (k5 + (k6 + (k7 + k8)))))) = 3 ∨ k1 + (k2 + (k3 + (k4 + (k5 + (k6 + (k7 + k8)))))) = 2 ∧ ((y = y0 ∧ x = x0 ∨ y = y0 ∧ x = x0 + 1) ∨ y = y0 ∧ x = x0 + 2)) ↔ ((y = y0 - 1 ∧ x = x0 + 1 ∨ y = y0 ∧ x = x0 + 1) ∨ y = y0 + 1 ∧ x = x0 + 1) := by
  have e1 := ind_val_neg hk1 (by clear hk1 hk2 hk3 hk4 hk5 hk6 hk7 hk8; omega)
  have e2 := ind_val_neg hk2 (by clear hk1 hk2 hk3 hk4 hk5 hk6 hk7 hk8; omega)
  have e3 := ind_val_neg hk3 (by clear hk1 hk2 hk3 hk4 hk5 hk6 hk7 hk8; omega)
  have e4 := ind_val_neg hk4 (by clear hk1 hk2 hk3 hk4 hk5 hk6 hk7 hk8; omega)
  have e5 := ind_val_neg hk5 (by clear hk1 hk2 hk3 hk4 hk5 hk6 hk7 hk8; omega)
  have e6 := ind_val_neg hk6 (by clear hk1 hk2 hk3 hk4 hk5 hk6 hk7 hk8; omega)
  have e7 := ind_val_neg hk7 (by clear hk1 hk2 hk3 hk4 hk5 hk6 hk7 hk8; omega)
  have e8 := ind_val_neg hk8 (by clear hk1 hk2 hk3 hk4 hk5 hk6 hk7 hk8; omega)
  clear hk1 hk2 hk3 hk4 hk5 hk6 hk7 hk8
  omega

/-- Case analysis leaf for `blinker_step1`. -/
theorem blinker_step1_case32 (n x0 y0 x y k1 k2 k3 k4 k5 k6 k7 k8 : Nat)
    (hx0 : 1 ≤ x0) (hx4 : x0 + 4 ≤ n) (hy2 : 2 ≤ y0) (hy3 : y0 + 3 ≤ n)
    (hk1 : (((y = y0 + 1 ∧ x = x0 + 1 ∨ y = y0 + 1 ∧ x = x0 + 2) ∨ y = y0 + 1 ∧ x = x0 + 3) ∧ k1 = 1) ∨ (¬((y = y0 + 1 ∧ x = x0 + 1 ∨ y = y0 + 1 ∧ x = x0 + 2) ∨ y = y0 + 1 ∧ x = x0 + 3) ∧ k1 = 0))
    (hk2 : (((y = y0 + 1 ∧ x = x0 ∨ y = y0 + 1 ∧ x = x0 + 1) ∨ y = y0 + 1 ∧ x = x0 + 2) ∧ k2 = 1) ∨ (¬((y = y0 + 1 ∧ x = x0 ∨ y = y0 + 1 ∧ x = x0 + 1) ∨ y = y0 + 1 ∧ x = x0 + 2) ∧ k2 = 0))
    (hk3 : (((y = y0 + 1 ∧ x + 1 = x0 ∨ y = y0 + 1 ∧ x = x0) ∨ y = y0 + 1 ∧ x = x0 + 1) ∧ k3 = 1) ∨ (¬((y = y0 + 1 ∧ x + 1 = x0 ∨ y = y0 + 1 ∧ x = x0) ∨ y = y0 + 1 ∧ x = x0 + 1) ∧ k3 = 0))
    (hk4 : (((y = y0 ∧ x = x0 + 1 ∨ y = y0 ∧ x = x0 + 2) ∨ y = y0 ∧ x = x0 + 3) ∧ k4 = 1) ∨ (¬((y = y0 ∧ x = x0 + 1 ∨ y = y0 ∧ x = x0 + 2) ∨ y = y0 ∧ x = x0 + 3) ∧ k4 = 0))
    (hk5 : (((y = y0 ∧ x + 1 = x0 ∨ y = y0 ∧ x = x0) ∨ y = y0 ∧ x = x0 + 1) ∧ k5 = 1) ∨ (¬((y = y0 ∧ x + 1 = x0 ∨ y = y0 ∧ x = x0) ∨ y = y0 ∧ x = x0 + 1) ∧ k5 = 0))
    (hk6 : (((y + 1 = y0 ∧ x = x0 + 1 ∨ y + 1 = y0 ∧ x = x0 + 2) ∨ y + 1 = y0 ∧ x = x0 + 3) ∧ k6 = 1) ∨ (¬((y + 1 = y0 ∧ x = x0 + 1 ∨ y + 1 = y0 ∧ x = x0 + 2) ∨ y + 1 = y0 ∧ x = x0 + 3) ∧ k6 = 0))
    (hk7 : (((y + 1 = y0 ∧ x = x0 ∨ y + 1 = y0 ∧ x = x0 + 1) ∨ y + 1 = y0 ∧ x = x0 + 2) ∧ k7 = 1) ∨ (¬((y + 1 = y0 ∧ x = x0 ∨ y + 1 = y0 ∧ x = x0 + 1) ∨ y + 1 = y0 ∧ x = x0 + 2) ∧ k7 = 0))
    (hk8 : (((y + 1 = y0 ∧ x + 1 = x0 ∨ y + 1 = y0 ∧ x = x0) ∨ y + 1 = y0 ∧ x = x0 + 1) ∧ k8 = 1) ∨ (¬((y + 1 = y0 ∧ x + 1 = x0 ∨ y + 1 = y0 ∧ x = x0) ∨ y + 1 = y0 ∧ x = x0 + 1) ∧ k8 = 0))
    (h1 : x0 + 4 ≤ x) (h2 : y = y0) :
    (k1 + (k2 + (k3 + (k4 + (k5 + (k6 + (k7 + k8)))))) = 3 ∨ k1 + (k2 + (k3 + (k4 + (k5 + (k6 + (k7 + k8)))))) = 2 ∧ ((y = y0 ∧ x = x0 ∨ y = y0 ∧ x = x0 + 1) ∨ y = y0 ∧ x = x0 + 2)) ↔ ((y = y0 - 1 ∧ x = x0 + 1 ∨ y = y0 ∧ x = x0 + 1) ∨ y = y0 + 1 ∧ x = x0 + 1) := by
  have e1 := ind_val_neg hk1 (by clear hk1 hk2 hk3 hk4 hk5 hk6 hk7 hk8; omega)
  have e2 := ind_val_neg hk2 (by clear hk1 hk2 hk3 hk4 hk5 hk6 hk7 hk8; omega)
  have e3 := ind_val_neg hk3 (by clear hk1 hk2 hk3 hk4 hk5 hk6 hk7 hk8; omega)
  have e4 := ind_val_neg hk4 (by clear hk1 hk2 hk3 hk4 hk5 hk6 hk7 hk8; omega)
  have e5 := ind_val_neg hk5 (by clear hk1 hk2 hk3 hk4 hk5 hk6 hk7 hk8; omega)
  have e6 := ind_val_neg hk6 (by clear hk1 hk2 hk3 hk4 hk5 hk6 hk7 hk8; omega)
  have e7 := ind_val_neg hk7 (by clear hk1 hk2 hk3 hk4 hk5 hk6 hk7 hk8; omega)
  have e8 := ind_val_neg hk8 (by clear hk1 hk2 hk3 hk4 hk5 hk6 hk7 hk8; omega)
  clear hk1 hk2 hk3 hk4 hk5 hk6 hk7 hk8
  omega

/-- Case analysis leaf for `blinker_step1`. -/
theorem blinker_step1_case33 (n x0 y0 x y k1 k2 k3 k4 k5 k6 k7 k8 : Nat)
    (hx0 : 1 ≤ x0) (hx4 : x0 + 4 ≤ n) (hy2 : 2 ≤ y0) (hy3 : y0 + 3 ≤ n)
    (hk1 : (((y = y0 + 1 ∧ x = x0 + 1 ∨ y = y0 + 1 ∧ x = x0 + 2) ∨ y = y0 + 1 ∧ x = x0 + 3) ∧ k1 = 1) ∨ (¬((y = y0 + 1 ∧ x = x0 + 1 ∨ y = y0 + 1 ∧ x = x0 + 2) ∨ y = y0 + 1 ∧ x = x0 + 3) ∧ k1 = 0))
    (hk2 : (((y = y0 + 1 ∧ x = x0 ∨ y = y0 + 1 ∧ x = x0 + 1) ∨ y = y0 + 1 ∧ x = x0 + 2) ∧ k2 = 1) ∨ (¬((y = y0 + 1 ∧ x = x0 ∨ y = y0 + 1 ∧ x = x0 + 1) ∨ y = y0 + 1 ∧ x = x0 + 2) ∧ k2 = 0))
    (hk3 : (((y = y0 + 1 ∧ x + 1 = x0 ∨ y = y0 + 1 ∧ x = x0) ∨ y = y0 + 1 ∧ x = x0 + 1) ∧ k3 = 1) ∨ (¬((y = y0 + 1 ∧ x + 1 = x0 ∨ y = y0 + 1 ∧ x = x0) ∨ y = y0 + 1 ∧ x = x0 + 1) ∧ k3 = 0))
    (hk4 : (((y = y0 ∧ x = x0 + 1 ∨ y = y0 ∧ x = x0 + 2) ∨ y = y0 ∧ x = x0 + 3) ∧ k4 = 1) ∨ (¬((y = y0 ∧ x = x0 + 1 ∨ y = y0 ∧ x = x0 + 2) ∨ y = y0 ∧ x = x0 + 3) ∧ k4 = 0))
    (hk5 : (((y = y0 ∧ x + 1 = x0 ∨ y = y0 ∧ x = x0) ∨ y = y0 ∧ x = x0 + 1) ∧ k5 = 1) ∨ (¬((y = y0 ∧ x + 1 = x0 ∨ y = y0 ∧ x = x0) ∨ y = y0 ∧ x = x0 + 1) ∧ k5 = 0))
    (hk6 : (((y + 1 = y0 ∧ x = x0 + 1 ∨ y + 1 = y0 ∧ x = x0 + 2) ∨ y + 1 = y0 ∧ x = x0 + 3) ∧ k6 = 1) ∨ (¬((y + 1 = y0 ∧ x = x0 + 1 ∨ y + 1 = y0 ∧ x = x0 + 2) ∨ y + 1 = y0 ∧ x = x0 + 3) ∧ k6 = 0))
    (hk7 : (((y + 1 = y0 ∧ x = x0 ∨ y + 1 = y0 ∧ x = x0 + 1) ∨ y + 1 = y0 ∧ x = x0 + 2) ∧ k7 = 1) ∨ (¬((y + 1 = y0 ∧ x = x0 ∨ y + 1 = y0 ∧ x = x0 + 1) ∨ y + 1 = y0 ∧ x = x0 + 2) ∧ k7 = 0))
    (hk8 : (((y + 1 = y0 ∧ x + 1 = x0 ∨ y + 1 = y0 ∧ x = x0) ∨ y + 1 = y0 ∧ x = x0 + 1) ∧ k8 = 1) ∨ (¬((y + 1 = y0 ∧ x + 1 = x0 ∨ y + 1 = y0 ∧ x = x0) ∨ y + 1 = y0 ∧ x = x0 + 1) ∧ k8 = 0))
    (h1 : x0 + 4 ≤ x) (h2 : y = y0 + 1) :
    (k1 + (k2 + (k3 + (k4 + (k5 + (k6 + (k7 + k8)))))) = 3 ∨ k1 + (k2 + (k3 + (k4 + (k5 + (k6 + (k7 + k8)))))) = 2 ∧ ((y = y0 ∧ x = x0 ∨ y = y0 ∧ x = x0 + 1) ∨ y = y0 ∧ x = x0 + 2)) ↔ ((y = y0 - 1 ∧ x = x0 + 1 ∨ y = y0 ∧ x = x0 + 1) ∨ y = y0 + 1 ∧ x = x0 + 1) := by
  have e1 := ind_val_neg hk1 (by clear hk1 hk2 hk3 hk4 hk5 hk6 hk7 hk8; omega)
  have e2 := ind_val_neg hk2 (by clear hk1 hk2 hk3 hk4 hk5 hk6 hk7 hk8; omega)
  have e3 := ind_val_neg hk3 (by clear hk1 hk2 hk3 hk4 hk5 hk6 hk7 hk8; omega)
  have e4 := ind_val_neg hk4 (by clear hk1 hk2 hk3 hk4 hk5 hk6 hk7 hk8; omega)
  have e5 := ind_val_neg hk5 (by clear hk1 hk2 hk3 hk4 hk5 hk6 hk7 hk8; omega)
  have e6 := ind_val_neg hk6 (by clear hk1 hk2 hk3 hk4 hk5 hk6 hk7 hk8; omega)
  have e7 := ind_val_neg hk7 (by clear hk1 hk2 hk3 hk4 hk5 hk6 hk7 hk8; omega)
  have e8 := ind_val_neg hk8 (by clear hk1 hk2 hk3 hk4 hk5 hk6 hk7 hk8; omega)
  clear hk1 hk2 hk3 hk4 hk5 hk6 hk7 hk8
  omega

/-- Case analysis leaf for `blinker_step1`. -/
theorem blinker_step1_case34 (n x0 y0 x y k1 k2 k3 k4 k5 k6 k7 k8 : Nat)
    (hx0 : 1 ≤ x0) (hx4 : x0 + 4 ≤ n) (hy2 : 2 ≤ y0) (hy3 : y0 + 3 ≤ n)
    (hk1 : (((y = y0 + 1 ∧ x = x0 + 1 ∨ y = y0 + 1 ∧ x = x0 + 2) ∨ y = y0 + 1 ∧ x = x0 + 3) ∧ k1 = 1) ∨ (¬((y = y0 + 1 ∧ x = x0 + 1 ∨ y = y0 + 1 ∧ x = x0 + 2) ∨ y = y0 + 1 ∧ x = x0 + 3) ∧ k1 = 0))
    (hk2 : (((y = y0 + 1 ∧ x = x0 ∨ y = y0 + 1 ∧ x = x0 + 1) ∨ y = y0 + 1 ∧ x = x0 + 2) ∧ k2 = 1) ∨ (¬((y = y0 + 1 ∧ x = x0 ∨ y = y0 + 1 ∧ x = x0 + 1) ∨ y = y0 + 1 ∧ x = x0 + 2) ∧ k2 = 0))
    (hk3 : (((y = y0 + 1 ∧ x + 1 = x0 ∨ y = y0 + 1 ∧ x = x0) ∨ y = y0 + 1 ∧ x = x0 + 1) ∧ k3 = 1) ∨ (¬((y = y0 + 1 ∧ x + 1 = x0 ∨ y = y0 + 1 ∧ x = x0) ∨ y = y0 + 1 ∧ x = x0 + 1) ∧ k3 = 0))
    (hk4 : (((y = y0 ∧ x = x0 + 1 ∨ y = y0 ∧ x = x0 + 2) ∨ y = y0 ∧ x = x0 + 3) ∧ k4 = 1) ∨ (¬((y = y0 ∧ x = x0 + 1 ∨ y = y0 ∧ x = x0 + 2) ∨ y = y0 ∧ x = x0 + 3) ∧ k4 = 0))
    (hk5 : (((y = y0 ∧ x + 1 = x0 ∨ y = y0 ∧ x = x0) ∨ y = y0 ∧ x = x0 + 1) ∧ k5 = 1) ∨ (¬((y = y0 ∧ x + 1 = x0 ∨ y = y0 ∧ x = x0) ∨ y = y0 ∧ x = x0 + 1) ∧ k5 = 0))
    (hk6 : (((y + 1 = y0 ∧ x = x0 + 1 ∨ y + 1 = y0 ∧ x = x0 + 2) ∨ y + 1 = y0 ∧ x = x0 + 3) ∧ k6 = 1) ∨ (¬((y + 1 = y0 ∧ x = x0 + 1 ∨ y + 1 = y0 ∧ x = x0 + 2) ∨ y + 1 = y0 ∧ x = x0 + 3) ∧ k6 = 0))
    (hk7 : (((y + 1 = y0 ∧ x = x0 ∨ y + 1 = y0 ∧ x = x0 + 1) ∨ y + 1 = y0 ∧ x = x0 + 2) ∧ k7 = 1) ∨ (¬((y + 1 = y0 ∧ x = x0 ∨ y + 1 = y0 ∧ x = x0 + 1) ∨ y + 1 = y0 ∧ x = x0 + 2) ∧ k7 = 0))
    (hk8 : (((y + 1 = y0 ∧ x + 1 = x0 ∨ y + 1 = y0 ∧ x = x0) ∨ y + 1 = y0 ∧ x = x0 + 1) ∧ k8 = 1) ∨ (¬((y + 1 = y0 ∧ x + 1 = x0 ∨ y + 1 = y0 ∧ x = x0) ∨ y + 1 = y0 ∧ x = x0 + 1) ∧ k8 = 0))
    (h1 : x0 + 4 ≤ x) (h2 : y + 1 < y0) :
    (k1 + (k2 + (k3 + (k4 + (k5 + (k6 + (k7 + k8)))))) = 3 ∨ k1 + (k2 + (k3 + (k4 + (k5 + (k6 + (k7 + k8)))))) = 2 ∧ ((y = y0 ∧ x = x0 ∨ y = y0 ∧ x = x0 + 1) ∨ y = y0 ∧ x = x0 + 2)) ↔ ((y = y0 - 1 ∧ x = x0 + 1 ∨ y = y0 ∧ x = x0 + 1) ∨ y = y0 + 1 ∧ x = x0 + 1) := by
  have e1 := ind_val_neg hk1 (by clear hk1 hk2 hk3 hk4 hk5 hk6 hk7 hk8; omega)
  have e2 := ind_val_neg hk2 (by clear hk1 hk2 hk3 hk4 hk5 hk6 hk7 hk8; omega)
  have e3 := ind_val_neg hk3 (by clear hk1 hk2 hk3 hk4 hk5 hk6 hk7 hk8; omega)
  have e4 := ind_val_neg hk4 (by clear hk1 hk2 hk3 hk4 hk5 hk6 hk7 hk8; omega)
  have e5 := ind_val_neg hk5 (by clear hk1 hk2 hk3 hk4 hk5 hk6 hk7 hk8; omega)
  have e6 := ind_val_neg hk6 (by clear hk1 hk2 hk3 hk4 hk5 hk6 hk7 hk8; omega)
  have e7 := ind_val_neg hk7 (by clear hk1 hk2 hk3 hk4 hk5 hk6 hk7 hk8; omega)
  have e8 := ind_val_neg hk8 (by clear hk1 hk2 hk3 hk4 hk5 hk6 hk7 hk8; omega)
  clear hk1 hk2 hk3 hk4 hk5 hk6 hk7 hk8
  omega

/-- Case analysis leaf for `blinker_step1`. -/
theorem blinker_step1_case35 (n x0 y0 x y k1 k2 k3 k4 k5 k6 k7 k8 : Nat)
    (hx0 : 1 ≤ x0) (hx4 : x0 + 4 ≤ n) (hy2 : 2 ≤ y0) (hy3 : y0 + 3 ≤ n)
    (hk1 : (((y = y0 + 1 ∧ x = x0 + 1 ∨ y = y0 + 1 ∧ x = x0 + 2) ∨ y = y0 + 1 ∧ x = x0 + 3) ∧ k1 = 1) ∨ (¬((y = y0 + 1 ∧ x = x0 + 1 ∨ y = y0 + 1 ∧ x = x0 + 2) ∨ y = y0 + 1 ∧ x = x0 + 3) ∧ k1 = 0))
    (hk2 : (((y = y0 + 1 ∧ x = x0 ∨ y = y0 + 1 ∧ x = x0 + 1) ∨ y = y0 + 1 ∧ x = x0 + 2) ∧ k2 = 1) ∨ (¬((y = y0 + 1 ∧ x = x0 ∨ y = y0 + 1 ∧ x = x0 + 1) ∨ y = y0 + 1 ∧ x = x0 + 2) ∧ k2 = 0))
    (hk3 : (((y = y0 + 1 ∧ x + 1 = x0 ∨ y = y0 + 1 ∧ x = x0) ∨ y = y0 + 1 ∧ x = x0 + 1) ∧ k3 = 1) ∨ (¬((y = y0 + 1 ∧ x + 1 = x0 ∨ y = y0 + 1 ∧ x = x0) ∨ y = y0 + 1 ∧ x = x0 + 1) ∧ k3 = 0))
    (hk4 : (((y = y0 ∧ x = x0 + 1 ∨ y = y0 ∧ x = x0 + 2) ∨ y = y0 ∧ x = x0 + 3) ∧ k4 = 1) ∨ (¬((y = y0 ∧ x = x0 + 1 ∨ y = y0 ∧ x = x0 + 2) ∨ y = y0 ∧ x = x0 + 3) ∧ k4 = 0))
    (hk5 : (((y = y0 ∧ x + 1 = x0 ∨ y = y0 ∧ x = x0) ∨ y = y0 ∧ x = x0 + 1) ∧ k5 = 1) ∨ (¬((y = y0 ∧ x + 1 = x0 ∨ y = y0 ∧ x = x0) ∨ y = y0 ∧ x = x0 + 1) ∧ k5 = 0))
    (hk6 : (((y + 1 = y0 ∧ x = x0 + 1 ∨ y + 1 = y0 ∧ x = x0 + 2) ∨ y + 1 = y0 ∧ x = x0 + 3) ∧ k6 = 1) ∨ (¬((y + 1 = y0 ∧ x = x0 + 1 ∨ y + 1 = y0 ∧ x = x0 + 2) ∨ y + 1 = y0 ∧ x = x0 + 3) ∧ k6 = 0))
    (hk7 : (((y + 1 = y0 ∧ x = x0 ∨ y + 1 = y0 ∧ x = x0 + 1) ∨ y + 1 = y0 ∧ x = x0 + 2) ∧ k7 = 1) ∨ (¬((y + 1 = y0 ∧ x = x0 ∨ y + 1 = y0 ∧ x = x0 + 1) ∨ y + 1 = y0 ∧ x = x0 + 2) ∧ k7 = 0))
    (hk8 : (((y + 1 = y0 ∧ x + 1 = x0 ∨ y + 1 = y0 ∧ x = x0) ∨ y + 1 = y0 ∧ x = x0 + 1) ∧ k8 = 1) ∨ (¬((y + 1 = y0 ∧ x + 1 = x0 ∨ y + 1 = y0 ∧ x = x0) ∨ y + 1 = y0 ∧ x = x0 + 1) ∧ k8 = 0))
    (h1 : x0 + 4 ≤ x) (h2 : y0 + 2 ≤ y) :
    (k1 + (k2 + (k3 + (k4 + (k5 + (k6 + (k7 + k8)))))) = 3 ∨ k1 + (k2 + (k3 + (k4 + (k5 + (k6 + (k7 + k8)))))) = 2 ∧ ((y = y0 ∧ x = x0 ∨ y = y0 ∧ x = x0 + 1) ∨ y = y0 ∧ x = x0 + 2)) ↔ ((y = y0 - 1 ∧ x = x0 + 1 ∨ y = y0 ∧ x = x0 + 1) ∨ y = y0 + 1 ∧ x = x0 + 1) := by
  have e1 := ind_val_neg hk1 (by clear hk1 hk2 hk3 hk4 hk5 hk6 hk7 hk8; omega)
  have e2 := ind_val_neg hk2 (by clear hk1 hk2 hk3 hk4 hk5 hk6 hk7 hk8; omega)
  have e3 := ind_val_neg hk3 (by clear hk1 hk2 hk3 hk4 hk5 hk6 hk7 hk8; omega)
  have e4 := ind_val_neg hk4 (by clear hk1 hk2 hk3 hk4 hk5 hk6 hk7 hk8; omega)
  have e5 := ind_val_neg hk5 (by clear hk1 hk2 hk3 hk4 hk5 hk6 hk7 hk8; omega)
  have e6 := ind_val_neg hk6 (by clear hk1 hk2 hk3 hk4 hk5 hk6 hk7 hk8; omega)
  have e7 := ind_val_neg hk7 (by clear hk1 hk2 hk3 hk4 hk5 hk6 hk7 hk8; omega)
  have e8 := ind_val_neg hk8 (by clear hk1 hk2 hk3 hk4 hk5 hk6 hk7 hk8; omega)
  clear hk1 hk2 hk3 hk4 hk5 hk6 hk7 hk8
  omega

set_option maxHeartbeats 1000000 in
/-- One step turns the horizontal blinker into the vertical blinker, cell by cell. -/
theorem blinker_step1 (n x0 y0 x y : Nat) (hx0 : 1 ≤ x0) (hx4 : x0 + 4 ≤ n)
    (hy2 : 2 ≤ y0) (hy3 : y0 + 3 ≤ n) (hx : x < n) (hy : y < n) :
    (step ⟨n⟩ (blinker n x0 y0)).current (y * n + x) =
      (vblinker n x0 y0).current (y * n + x) := by
  have hn : 0 < n := by omega
  have hin : y * n + x < n * n := mul_add_lt n x y hx hy
  have hcx0 : x0 < n := by omega
  have hcx1 : x0 + 1 < n := by omega
  have hcx2 : x0 + 2 < n := by omega
  obtain ⟨wm, hwmeq, hwmlt, hwm⟩ := if_pred_char n x hn hx
  obtain ⟨wp, hwpeq, hwplt, hwp⟩ := if_succ_char n x hx
  obtain ⟨vm, hvmeq, hvmlt, hvm⟩ := if_pred_char n y hn hy
  obtain ⟨vp, hvpeq, hvplt, hvp⟩ := if_succ_char n y hy
  have ha1 : (vm = y0) ↔ (y = y0 + 1) := by clear hwm hwp hvp hwmeq hwpeq hvmeq hvpeq hin hcx0 hcx1 hcx2; omega
  have ha2 : (vp = y0) ↔ (y + 1 = y0) := by clear hwm hwp hvm hwmeq hwpeq hvmeq hvpeq ha1 hin hcx0 hcx1 hcx2; omega
  have ha3 : (wm = x0) ↔ (x = x0 + 1) := by clear hwp hvm hvp hwmeq hwpeq hvmeq hvpeq ha1 ha2 hin hcx0 hcx1 hcx2; omega
  have ha4 : (wm = x0 + 1) ↔ (x = x0 + 2) := by clear hwp hvm hvp hwmeq hwpeq hvmeq hvpeq ha1 ha2 ha3 hin hcx0 hcx1 hcx2; omega
  have ha5 : (wm = x0 + 2) ↔ (x = x0 + 3) := by clear hwp hvm hvp hwmeq hwpeq hvmeq hvpeq ha1 ha2 ha3 ha4 hin hcx0 hcx1 hcx2; omega
  have ha6 : (wp = x0) ↔ (x + 1 = x0) := by clear hwm hvm hvp hwmeq hwpeq hvmeq hvpeq ha1 ha2 ha3 ha4 ha5 hin hcx0 hcx1 hcx2; omega
  have ha7 : (wp = x0 + 1) ↔ (x = x0) := by clear hwm hvm hvp hwmeq hwpeq hvmeq hvpeq ha1 ha2 ha3 ha4 ha5 ha6 hin hcx0 hcx1 hcx2; omega
  have ha8 : (wp = x0 + 2) ↔ (x = x0 + 1) := by clear hwm hvm hvp hwmeq hwpeq hvmeq hvpeq ha1 ha2 ha3 ha4 ha5 ha6 ha7 hin hcx0 hcx1 hcx2; omega
  rw [bool_eq_iff]
  rw [step_rule_aux ⟨n⟩ (blinker n x0 y0) (y * n + x) hin rfl]
  rw [count_expand n _ x y hn hx hy, hwmeq, hwpeq, hvmeq, hvpeq]
  obtain ⟨k1, hk1e, hk1⟩ := ind_char ((blinker n x0 y0).current (vm * n + wm) = true)
  obtain ⟨k2, hk2e, hk2⟩ := ind_char ((blinker n x0 y0).current (vm * n + x) = true)
  obtain ⟨k3, hk3e, hk3⟩ := ind_char ((blinker n x0 y0).current (vm * n + wp) = true)
  obtain ⟨k4, hk4e, hk4⟩ := ind_char ((blinker n x0 y0).current (y * n + wm) = true)
  obtain ⟨k5, hk5e, hk5⟩ := ind_char ((blinker n x0 y0).current (y * n + wp) = true)
  obtain ⟨k6, hk6e, hk6⟩ := ind_char ((blinker n x0 y0).current (vp * n + wm) = true)
  obtain ⟨k7, hk7e, hk7⟩ := ind_char ((blinker n x0 y0).current (vp * n + x) = true)
  obtain ⟨k8, hk8e, hk8⟩ := ind_char ((blinker n x0 y0).current (vp * n + wp) = true)
  have hxc : x + 1 = x0 ∨ x = x0 ∨ x = x0 + 1 ∨ x = x0 + 2 ∨ x = x0 + 3 ∨ x + 1 < x0 ∨ x0 + 4 ≤ x := by
    clear hwm hwp hvm hvp hwmeq hwpeq hvmeq hvpeq ha1 ha2 ha3 ha4 ha5 ha6 ha7 ha8 hin hcx0 hcx1 hcx2
    omega
  have hyc : y + 1 = y0 ∨ y = y0 ∨ y = y0 + 1 ∨ y + 1 < y0 ∨ y0 + 2 ≤ y := by
    clear hwm hwp hvm hvp hwmeq hwpeq hvmeq hvpeq ha1 ha2 ha3 ha4 ha5 ha6 ha7 ha8 hin hcx0 hcx1 hcx2
    omega
  rw [hk1e, hk2e, hk3e, hk4e, hk5e, hk6e, hk7e, hk8e]
  simp only [blinker, vblinker, Bool.or_eq_true, beq_iff_eq,
    lin_eq_iff hn hwmlt hcx0, lin_eq_iff hn hwmlt hcx1, lin_eq_iff hn hwmlt hcx2,
    lin_eq_iff hn hx hcx0, lin_eq_iff hn hx hcx1, lin_eq_iff hn hx hcx2,
    lin_eq_iff hn hwplt hcx0, lin_eq_iff hn hwplt hcx1, lin_eq_iff hn hwplt hcx2,
    ha1, ha2, ha3, ha4, ha5, ha6, ha7, ha8]
    at hk1 hk2 hk3 hk4 hk5 hk6 hk7 hk8 ⊢
  exact
    hxc.elim (fun hxx0 => (hyc.elim (fun hyy0_0 => (blinker_step1_case1 n x0 y0 x y k1 k2 k3 k4 k5 k6 k7 k8 hx0 hx4 hy2 hy3 hk1 hk2 hk3 hk4 hk5 hk6 hk7 hk8 hxx0 hyy0_0)) (fun hyr0_1 => hyr0_1.elim (fun hyy0_1 => (blinker_step1_case2 n x0 y0 x y k1 k2 k3 k4 k5 k6 k7 k8 hx0 hx4 hy2 hy3 hk1 hk2 hk3 hk4 hk5 hk6 hk7 hk8 hxx0 hyy0_1)) (fun hyr0_2 => hyr0_2.elim (fun hyy0_2 => (blinker_step1_case3 n x0 y0 x y k1 k2 k3 k4 k5 k6 k7 k8 hx0 hx4 hy2 hy3 hk1 hk2 hk3 hk4 hk5 hk6 hk7 hk8 hxx0 hyy0_2)) (fun hyr0_3 => hyr0_3.elim (fun hyy0_3 => (blinker_step1_case4 n x0 y0 x y k1 k2 k3 k4 k5 k6 k7 k8 hx0 hx4 hy2 hy3 hk1 hk2 hk3 hk4 hk5 hk6 hk7 hk8 hxx0 hyy0_3)) (fun hyy0_4 => (blinker_step1_case5 n x0 y0 x y k1 k2 k3 k4 k5 k6 k7 k8 hx0 hx4 hy2 hy3 hk1 hk2 hk3 hk4 hk5 hk6 hk7 hk8 hxx0 hyy0_4))))))) (fun hxr1 => hxr1.elim (fun hxx1 => (hyc.elim (fun hyy1_0 => (blinker_step1_case6 n x0 y0 x y k1 k2 k3 k4 k5 k6 k7 k8 hx0 hx4 hy2 hy3 hk1 hk2 hk3 hk4 hk5 hk6 hk7 hk8 hxx1 hyy1_0)) (fun hyr1_1 => hyr1_1.elim (fun hyy1_1 => (blinker_step1_case7 n x0 y0 x y k1 k2 k3 k4 k5 k6 k7 k8 hx0 hx4 hy2 hy3 hk1 hk2 hk3 hk4 hk5 hk6 hk7 hk8 hxx1 hyy1_1)) (fun hyr1_2 => hyr1_2.elim (fun hyy1_2 => (blinker_step1_case8 n x0 y0 x y k1 k2 k3 k4 k5 k6 k7 k8 hx0 hx4 hy2 hy3 hk1 hk2 hk3 hk4 hk5 hk6 hk7 hk8 hxx1 hyy1_2)) (fun hyr1_3 => hyr1_3.elim (fun hyy1_3 => (blinker_step1_case9 n x0 y0 x y k1 k2 k3 k4 k5 k6 k7 k8 hx0 hx4 hy2 hy3 hk1 hk2 hk3 hk4 hk5 hk6 hk7 hk8 hxx1 hyy1_3)) (fun hyy1_4 => (blinker_step1_case10 n x0 y0 x y k1 k2 k3 k4 k5 k6 k7 k8 hx0 hx4 hy2 hy3 hk1 hk2 hk3 hk4 hk5 hk6 hk7 hk8 hxx1 hyy1_4))))))) (fun hxr2 => hxr2.elim (fun hxx2 => (hyc.elim (fun hyy2_0 => (blinker_step1_case11 n x0 y0 x y k1 k2 k3 k4 k5 k6 k7 k8 hx0 hx4 hy2 hy3 hk1 hk2 hk3 hk4 hk5 hk6 hk7 hk8 hxx2 hyy2_0)) (fun hyr2_1 => hyr2_1.elim (fun hyy2_1 => (blinker_step1_case12 n x0 y0 x y k1 k2 k3 k4 k5 k6 k7 k8 hx0 hx4 hy2 hy3 hk1 hk2 hk3 hk4 hk5 hk6 hk7 hk8 hxx2 hyy2_1)) (fun hyr2_2 => hyr2_2.elim (fun hyy2_2 => (blinker_step1_case13 n x0 y0 x y k1 k2 k3 k4 k5 k6 k7 k8 hx0 hx4 hy2 hy3 hk1 hk2 hk3 hk4 hk5 hk6 hk7 hk8 hxx2 hyy2_2)) (fun hyr2_3 => hyr2_3.elim (fun hyy2_3 => (blinker_step1_case14 n x0 y0 x y k1 k2 k3 k4 k5 k6 k7 k8 hx0 hx4 hy2 hy3 hk1 hk2 hk3 hk4 hk5 hk6 hk7 hk8 hxx2 hyy2_3)) (fun hyy2_4 => (blinker_step1_case15 n x0 y0 x y k1 k2 k3 k4 k5 k6 k7 k8 hx0 hx4 hy2 hy3 hk1 hk2 hk3 hk4 hk5 hk6 hk7 hk8 hxx2 hyy2_4))))))) (fun hxr3 => hxr3.elim (fun hxx3 => (hyc.elim (fun hyy3_0 => (blinker_step1_case16 n x0 y0 x y k1 k2 k3 k4 k5 k6 k7 k8 hx0 hx4 hy2 hy3 hk1 hk2 hk3 hk4 hk5 hk6 hk7 hk8 hxx3 hyy3_0)) (fun hyr3_1 => hyr3_1.elim (fun hyy3_1 => (blinker_step1_case17 n x0 y0 x y k1 k2 k3 k4 k5 k6 k7 k8 hx0 hx4 hy2 hy3 hk1 hk2 hk3 hk4 hk5 hk6 hk7 hk8 hxx3 hyy3_1)) (fun hyr3_2 => hyr3_2.elim (fun hyy3_2 => (blinker_step1_case18 n x0 y0 x y k1 k2 k3 k4 k5 k6 k7 k8 hx0 hx4 hy2 hy3 hk1 hk2 hk3 hk4 hk5 hk6 hk7 hk8 hxx3 hyy3_2)) (fun hyr3_3 => hyr3_3.elim (fun hyy3_3 => (blinker_step1_case19 n x0 y0 x y k1 k2 k3 k4 k5 k6 k7 k8 hx0 hx4 hy2 hy3 hk1 hk2 hk3 hk4 hk5 hk6 hk7 hk8 hxx3 hyy3_3)) (fun hyy3_4 => (blinker_step1_case20 n x0 y0 x y k1 k2 k3 k4 k5 k6 k7 k8 hx0 hx4 hy2 hy3 hk1 hk2 hk3 hk4 hk5 hk6 hk7 hk8 hxx3 hyy3_4))))))) (fun hxr4 => hxr4.elim (fun hxx4 => (hyc.elim (fun hyy4_0 => (blinker_step1_case21 n x0 y0 x y k1 k2 k3 k4 k5 k6 k7 k8 hx0 hx4 hy2 hy3 hk1 hk2 hk3 hk4 hk5 hk6 hk7 hk8 hxx4 hyy4_0)) (fun hyr4_1 => hyr4_1.elim (fun hyy4_1 => (blinker_step1_case22 n x0 y0 x y k1 k2 k3 k4 k5 k6 k7 k8 hx0 hx4 hy2 hy3 hk1 hk2 hk3 hk4 hk5 hk6 hk7 hk8 hxx4 hyy4_1)) (fun hyr4_2 => hyr4_2.elim (fun hyy4_2 => (blinker_step1_case23 n x0 y0 x y k1 k2 k3 k4 k5 k6 k7 k8 hx0 hx4 hy2 hy3 hk1 hk2 hk3 hk4 hk5 hk6 hk7 hk8 hxx4 hyy4_2)) (fun hyr4_3 => hyr4_3.elim (fun hyy4_3 => (blinker_step1_case24 n x0 y0 x y k1 k2 k3 k4 k5 k6 k7 k8 hx0 hx4 hy2 hy3 hk1 hk2 hk3 hk4 hk5 hk6 hk7 hk8 hxx4 hyy4_3)) (fun hyy4_4 => (blinker_step1_case25 n x0 y0 x y k1 k2 k3 k4 k5 k6 k7 k8 hx0 hx4 hy2 hy3 hk1 hk2 hk3 hk4 hk5 hk6 hk7 hk8 hxx4 hyy4_4))))))) (fun hxr5 => hxr5.elim (fun hxx5 => (hyc.elim (fun hyy5_0 => (blinker_step1_case26 n x0 y0 x y k1 k2 k3 k4 k5 k6 k7 k8 hx0 hx4 hy2 hy3 hk1 hk2 hk3 hk4 hk5 hk6 hk7 hk8 hxx5 hyy5_0)) (fun hyr5_1 => hyr5_1.elim (fun hyy5_1 => (blinker_step1_case27 n x0 y0 x y k1 k2 k3 k4 k5 k6 k7 k8 hx0 hx4 hy2 hy3 hk1 hk2 hk3 hk4 hk5 hk6 hk7 hk8 hxx5 hyy5_1)) (fun hyr5_2 => hyr5_2.elim (fun hyy5_2 => (blinker_step1_case28 n x0 y0 x y k1 k2 k3 k4 k5 k6 k7 k8 hx0 hx4 hy2 hy3 hk1 hk2 hk3 hk4 hk5 hk6 hk7 hk8 hxx5 hyy5_2)) (fun hyr5_3 => hyr5_3.elim (fun hyy5_3 => (blinker_step1_case29 n x0 y0 x y k1 k2 k3 k4 k5 k6 k7 k8 hx0 hx4 hy2 hy3 hk1 hk2 hk3 hk4 hk5 hk6 hk7 hk8 hxx5 hyy5_3)) (fun hyy5_4 => (blinker_step1_case30 n x0 y0 x y k1 k2 k3 k4 k5 k6 k7 k8 hx0 hx4 hy2 hy3 hk1 hk2 hk3 hk4 hk5 hk6 hk7 hk8 hxx5 hyy5_4))))))) (fun hxx6 => (hyc.elim (fun hyy6_0 => (blinker_step1_case31 n x0 y0 x y k1 k2 k3 k4 k5 k6 k7 k8 hx0 hx4 hy2 hy3 hk1 hk2 hk3 hk4 hk5 hk6 hk7 hk8 hxx6 hyy6_0)) (fun hyr6_1 => hyr6_1.elim (fun hyy6_1 => (blinker_step1_case32 n x0 y0 x y k1 k2 k3 k4 k5 k6 k7 k8 hx0 hx4 hy2 hy3 hk1 hk2 hk3 hk4 hk5 hk6 hk7 hk8 hxx6 hyy6_1)) (fun hyr6_2 => hyr6_2.elim (fun hyy6_2 => (blinker_step1_case33 n x0 y0 x y k1 k2 k3 k4 k5 k6 k7 k8 hx0 hx4 hy2 hy3 hk1 hk2 hk3 hk4 hk5 hk6 hk7 hk8 hxx6 hyy6_2)) (fun hyr6_3 => hyr6_3.elim (fun hyy6_3 => (blinker_step1_case34 n x0 y0 x y k1 k2 k3 k4 k5 k6 k7 k8 hx0 hx4 hy2 hy3 hk1 hk2 hk3 hk4 hk5 hk6 hk7 hk8 hxx6 hyy6_3)) (fun hyy6_4 => (blinker_step1_case35 n x0 y0 x y k1 k2 k3 k4 k5 k6 k7 k8 hx0 hx4 hy2 hy3 hk1 hk2 hk3 hk4 hk5 hk6 hk7 hk8 hxx6 hyy6_4))))))))))))

/-- Case analysis leaf for `blinker_step2`. -/
theorem blinker_step2_case1 (n x0 y0 x y k1 k2 k3 k4 k5 k6 k7 k8 : Nat)
    (hx0 : 1 ≤ x0) (hx4 : x0 + 4 ≤ n) (hy2 : 2 ≤ y0) (hy3 : y0 + 3 ≤ n)
    (hk1 : (((y = y0 ∧ x = x0 + 2 ∨ y = y0 + 1 ∧ x = x0 + 2) ∨ y = y0 + 2 ∧ x = x0 + 2) ∧ k1 = 1) ∨ (¬((y = y0 ∧ x = x0 + 2 ∨ y = y0 + 1 ∧ x = x0 + 2) ∨ y = y0 + 2 ∧ x = x0 + 2) ∧ k1 = 0))
    (hk2 : (((y = y0 ∧ x = x0 + 1 ∨ y = y0 + 1 ∧ x = x0 + 1) ∨ y = y0 + 2 ∧ x = x0 + 1) ∧ k2 = 1) ∨ (¬((y = y0 ∧ x = x0 + 1 ∨ y = y0 + 1 ∧ x = x0 + 1) ∨ y = y0 + 2 ∧ x = x0 + 1) ∧ k2 = 0))
    (hk3 : (((y = y0 ∧ x = x0 ∨ y = y0 + 1 ∧ x = x0) ∨ y = y0 + 2 ∧ x = x0) ∧ k3 = 1) ∨ (¬((y = y0 ∧ x = x0 ∨ y = y0 + 1 ∧ x = x0) ∨ y = y0 + 2 ∧ x = x0) ∧ k3 = 0))
    (hk4 : (((y = y0 - 1 ∧ x = x0 + 2 ∨ y = y0 ∧ x = x0 + 2) ∨ y = y0 + 1 ∧ x = x0 + 2) ∧ k4 = 1) ∨ (¬((y = y0 - 1 ∧ x = x0 + 2 ∨ y = y0 ∧ x = x0 + 2) ∨ y = y0 + 1 ∧ x = x0 + 2) ∧ k4 = 0))
    (hk5 : (((y = y0 - 1 ∧ x = x0 ∨ y = y0 ∧ x = x0) ∨ y = y0 + 1 ∧ x = x0) ∧ k5 = 1) ∨ (¬((y = y0 - 1 ∧ x = x0 ∨ y = y0 ∧ x = x0) ∨ y = y0 + 1 ∧ x = x0) ∧ k5 = 0))
    (hk6 : (((y + 2 = y0 ∧ x = x0 + 2 ∨ y + 1 = y0 ∧ x = x0 + 2) ∨ y = y0 ∧ x = x0 + 2) ∧ k6 = 1) ∨ (¬((y + 2 = y0 ∧ x = x0 + 2 ∨ y + 1 = y0 ∧ x = x0 + 2) ∨ y = y0 ∧ x = x0 + 2) ∧ k6 = 0))
    (hk7 : (((y + 2 = y0 ∧ x = x0 + 1 ∨ y + 1 = y0 ∧ x = x0 + 1) ∨ y = y0 ∧ x = x0 + 1) ∧ k7 = 1) ∨ (¬((y + 2 = y0 ∧ x = x0 + 1 ∨ y + 1 = y0 ∧ x = x0 + 1) ∨ y = y0 ∧ x = x0 + 1) ∧ k7 = 0))
    (hk8 : (((y + 2 = y0 ∧ x = x0 ∨ y + 1 = y0 ∧ x = x0) ∨ y = y0 ∧ x = x0) ∧ k8 = 1) ∨ (¬((y + 2 = y0 ∧ x = x0 ∨ y + 1 = y0 ∧ x = x0) ∨ y = y0 ∧ x = x0) ∧ k8 = 0))
    (h1 : x = x0) (h2 : y + 2 = y0) :
    (k1 + (k2 + (k3 + (k4 + (k5 + (k6 + (k7 + k8)))))) = 3 ∨ k1 + (k2 + (k3 + (k4 + (k5 + (k6 + (k7 + k8)))))) = 2 ∧ ((y = y0 - 1 ∧ x = x0 + 1 ∨ y = y0 ∧ x = x0 + 1) ∨ y = y0 + 1 ∧ x = x0 + 1)) ↔ ((y = y0 ∧ x = x0 ∨ y = y0 ∧ x = x0 + 1) ∨ y = y0 ∧ x = x0 + 2) := by
  have e1 := ind_val_neg hk1 (by clear hk1 hk2 hk3 hk4 hk5 hk6 hk7 hk8; omega)
  have e2 := ind_val_neg hk2 (by clear hk1 hk2 hk3 hk4 hk5 hk6 hk7 hk8; omega)
  have e3 := ind_val_neg hk3 (by clear hk1 hk2 hk3 hk4 hk5 hk6 hk7 hk8; omega)
  have e4 := ind_val_neg hk4 (by clear hk1 hk2 hk3 hk4 hk5 hk6 hk7 hk8; omega)
  have e5 := ind_val_neg hk5 (by clear hk1 hk2 hk3 hk4 hk5 hk6 hk7 hk8; omega)
  have e6 := ind_val_neg hk6 (by clear hk1 hk2 hk3 hk4 hk5 hk6 hk7 hk8; omega)
  have e7 := ind_val_neg hk7 (by clear hk1 hk2 hk3 hk4 hk5 hk6 hk7 hk8; omega)
  have e8 := ind_val_pos hk8 (by clear hk1 hk2 hk3 hk4 hk5 hk6 hk7 hk8; omega)
  clear hk1 hk2 hk3 hk4 hk5 hk6 hk7 hk8
  omega

/-- Case analysis leaf for `blinker_step2`. -/
theorem blinker_step2_case2 (n x0 y0 x y k1 k2 k3 k4 k5 k6 k7 k8 : Nat)
    (hx0 : 1 ≤ x0) (hx4 : x0 + 4 ≤ n) (hy2 : 2 ≤ y0) (hy3 : y0 + 3 ≤ n)
    (hk1 : (((y = y0 ∧ x = x0 + 2 ∨ y = y0 + 1 ∧ x = x0 + 2) ∨ y = y0 + 2 ∧ x = x0 + 2) ∧ k1 = 1) ∨ (¬((y = y0 ∧ x = x0 + 2 ∨ y = y0 + 1 ∧ x = x0 + 2) ∨ y = y0 + 2 ∧ x = x0 + 2) ∧ k1 = 0))
    (hk2 : (((y = y0 ∧ x = x0 + 1 ∨ y = y0 + 1 ∧ x = x0 + 1) ∨ y = y0 + 2 ∧ x = x0 + 1) ∧ k2 = 1) ∨ (¬((y = y0 ∧ x = x0 + 1 ∨ y = y0 + 1 ∧ x = x0 + 1) ∨ y = y0 + 2 ∧ x = x0 + 1) ∧ k2 = 0))
    (hk3 : (((y = y0 ∧ x = x0 ∨ y = y0 + 1 ∧ x = x0) ∨ y = y0 + 2 ∧ x = x0) ∧ k3 = 1) ∨ (¬((y = y0 ∧ x = x0 ∨ y = y0 + 1 ∧ x = x0) ∨ y = y0 + 2 ∧ x = x0) ∧ k3 = 0))
    (hk4 : (((y = y0 - 1 ∧ x = x0 + 2 ∨ y = y0 ∧ x = x0 + 2) ∨ y = y0 + 1 ∧ x = x0 + 2) ∧ k4 = 1) ∨ (¬((y = y0 - 1 ∧ x = x0 + 2 ∨ y = y0 ∧ x = x0 + 2) ∨ y = y0 + 1 ∧ x = x0 + 2) ∧ k4 = 0))
    (hk5 : (((y = y0 - 1 ∧ x = x0 ∨ y = y0 ∧ x = x0) ∨ y = y0 + 1 ∧ x = x0) ∧ k5 = 1) ∨ (¬((y = y0 - 1 ∧ x = x0 ∨ y = y0 ∧ x = x0) ∨ y = y0 + 1 ∧ x = x0) ∧ k5 = 0))
    (hk6 : (((y + 2 = y0 ∧ x = x0 + 2 ∨ y + 1 = y0 ∧ x = x0 + 2) ∨ y = y0 ∧ x = x0 + 2) ∧ k6 = 1) ∨ (¬((y + 2 = y0 ∧ x = x0 + 2 ∨ y + 1 = y0 ∧ x = x0 + 2) ∨ y = y0 ∧ x = x0 + 2) ∧ k6 = 0))
    (hk7 : (((y + 2 = y0 ∧ x = x0 + 1 ∨ y + 1 = y0 ∧ x = x0 + 1) ∨ y = y0 ∧ x = x0 + 1) ∧ k7 = 1) ∨ (¬((y + 2 = y0 ∧ x = x0 + 1 ∨ y + 1 = y0 ∧ x = x0 + 1) ∨ y = y0 ∧ x = x0 + 1) ∧ k7 = 0))
    (hk8 : (((y + 2 = y0 ∧ x = x0 ∨ y + 1 = y0 ∧ x = x0) ∨ y = y0 ∧ x = x0) ∧ k8 = 1) ∨ (¬((y + 2 = y0 ∧ x = x0 ∨ y + 1 = y0 ∧ x = x0) ∨ y = y0 ∧ x = x0) ∧ k8 = 0))
    (h1 : x = x0) (h2 : y + 1 = y0) :
    (k1 + (k2 + (k3 + (k4 + (k5 + (k6 + (k7 + k8)))))) = 3 ∨ k1 + (k2 + (k3 + (k4 + (k5 + (k6 + (k7 + k8)))))) = 2 ∧ ((y = y0 - 1 ∧ x = x0 + 1 ∨ y = y0 ∧ x = x0 + 1) ∨ y = y0 + 1 ∧ x = x0 + 1)) ↔ ((y = y0 ∧ x = x0 ∨ y = y0 ∧ x = x0 + 1) ∨ y = y0 ∧ x = x0 + 2) := by
  have e1 := ind_val_neg hk1 (by clear hk1 hk2 hk3 hk4 hk5 hk6 hk7 hk8; omega)
  have e2 := ind_val_neg hk2 (by clear hk1 hk2 hk3 hk4 hk5 hk6 hk7 hk8; omega)
  have e3 := ind_val_neg hk3 (by clear hk1 hk2 hk3 hk4 hk5 hk6 hk7 hk8; omega)
  have e4 := ind_val_neg hk4 (by clear hk1 hk2 hk3 hk4 hk5 hk6 hk7 hk8; omega)
  have e5 := ind_val_pos hk5 (by clear hk1 hk2 hk3 hk4 hk5 hk6 hk7 hk8; omega)
  have e6 := ind_val_neg hk6 (by clear hk1 hk2 hk3 hk4 hk5 hk6 hk7 hk8; omega)
  have e7 := ind_val_neg hk7 (by clear hk1 hk2 hk3 hk4 hk5 hk6 hk7 hk8; omega)
  have e8 := ind_val_pos hk8 (by clear hk1 hk2 hk3 hk4 hk5 hk6 hk7 hk8; omega)
  clear hk1 hk2 hk3 hk4 hk5 hk6 hk7 hk8
  omega

/-- Case analysis leaf for `blinker_step2`. -/
theorem blinker_step2_case3 (n x0 y0 x y k1 k2 k3 k4 k5 k6 k7 k8 : Nat)
    (hx0 : 1 ≤ x0) (hx4 : x0 + 4 ≤ n) (hy2 : 2 ≤ y0) (hy3 : y0 + 3 ≤ n)
    (hk1 : (((y = y0 ∧ x = x0 + 2 ∨ y = y0 + 1 ∧ x = x0 + 2) ∨ y = y0 + 2 ∧ x = x0 + 2) ∧ k1 = 1) ∨ (¬((y = y0 ∧ x = x0 + 2 ∨ y = y0 + 1 ∧ x = x0 + 2) ∨ y = y0 + 2 ∧ x = x0 + 2) ∧ k1 = 0))
    (hk2 : (((y = y0 ∧ x = x0 + 1 ∨ y = y0 + 1 ∧ x = x0 + 1) ∨ y = y0 + 2 ∧ x = x0 + 1) ∧ k2 = 1) ∨ (¬((y = y0 ∧ x = x0 + 1 ∨ y = y0 + 1 ∧ x = x0 + 1) ∨ y = y0 + 2 ∧ x = x0 + 1) ∧ k2 = 0))
    (hk3 : (((y = y0 ∧ x = x0 ∨ y = y0 + 1 ∧ x = x0) ∨ y = y0 + 2 ∧ x = x0) ∧ k3 = 1) ∨ (¬((y = y0 ∧ x = x0 ∨ y = y0 + 1 ∧ x = x0) ∨ y = y0 + 2 ∧ x = x0) ∧ k3 = 0))
    (hk4 : (((y = y0 - 1 ∧ x = x0 + 2 ∨ y = y0 ∧ x = x0 + 2) ∨ y = y0 + 1 ∧ x = x0 + 2) ∧ k4 = 1) ∨ (¬((y = y0 - 1 ∧ x = x0 + 2 ∨ y = y0 ∧ x = x0 + 2) ∨ y = y0 + 1 ∧ x = x0 + 2) ∧ k4 = 0))
    (hk5 : (((y = y0 - 1 ∧ x = x0 ∨ y = y0 ∧ x = x0) ∨ y = y0 + 1 ∧ x = x0) ∧ k5 = 1) ∨ (¬((y = y0 - 1 ∧ x = x0 ∨ y = y0 ∧ x = x0) ∨ y = y0 + 1 ∧ x = x0) ∧ k5 = 0))
    (hk6 : (((y + 2 = y0 ∧ x = x0 + 2 ∨ y + 1 = y0 ∧ x = x0 + 2) ∨ y = y0 ∧ x = x0 + 2) ∧ k6 = 1) ∨ (¬((y + 2 = y0 ∧ x = x0 + 2 ∨ y + 1 = y0 ∧ x = x0 + 2) ∨ y = y0 ∧ x = x0 + 2) ∧ k6 = 0))
    (hk7 : (((y + 2 = y0 ∧ x = x0 + 1 ∨ y + 1 = y0 ∧ x = x0 + 1) ∨ y = y0 ∧ x = x0 + 1) ∧ k7 = 1) ∨ (¬((y + 2 = y0 ∧ x = x0 + 1 ∨ y + 1 = y0 ∧ x = x0 + 1) ∨ y = y0 ∧ x = x0 + 1) ∧ k7 = 0))
    (hk8 : (((y + 2 = y0 ∧ x = x0 ∨ y + 1 = y0 ∧ x = x0) ∨ y = y0 ∧ x = x0) ∧ k8 = 1) ∨ (¬((y + 2 = y0 ∧ x = x0 ∨ y + 1 = y0 ∧ x = x0) ∨ y = y0 ∧ x = x0) ∧ k8 = 0))
    (h1 : x = x0) (h2 : y = y0) :
    (k1 + (k2 + (k3 + (k4 + (k5 + (k6 + (k7 + k8)))))) = 3 ∨ k1 + (k2 + (k3 + (k4 + (k5 + (k6 + (k7 + k8)))))) = 2 ∧ ((y = y0 - 1 ∧ x = x0 + 1 ∨ y = y0 ∧ x = x0 + 1) ∨ y = y0 + 1 ∧ x = x0 + 1)) ↔ ((y = y0 ∧ x = x0 ∨ y = y0 ∧ x = x0 + 1) ∨ y = y0 ∧ x = x0 + 2) := by
  have e1 := ind_val_neg hk1 (by clear hk1 hk2 hk3 hk4 hk5 hk6 hk7 hk8; omega)
  have e2 := ind_val_neg hk2 (by clear hk1 hk2 hk3 hk4 hk5 hk6 hk7 hk8; omega)
  have e3 := ind_val_pos hk3 (by clear hk1 hk2 hk3 hk4 hk5 hk6 hk7 hk8; omega)
  have e4 := ind_val_neg hk4 (by clear hk1 hk2 hk3 hk4 hk5 hk6 hk7 hk8; omega)
  have e5 := ind_val_pos hk5 (by clear hk1 hk2 hk3 hk4 hk5 hk6 hk7 hk8; omega)
  have e6 := ind_val_neg hk6 (by clear hk1 hk2 hk3 hk4 hk5 hk6 hk7 hk8; omega)
  have e7 := ind_val_neg hk7 (by clear hk1 hk2 hk3 hk4 hk5 hk6 hk7 hk8; omega)
  have e8 := ind_val_pos hk8 (by clear hk1 hk2 hk3 hk4 hk5 hk6 hk7 hk8; omega)
  clear hk1 hk2 hk3 hk4 hk5 hk6 hk7 hk8
  omega

/-- Case analysis leaf for `blinker_step2`. -/
theorem blinker_step2_case4 (n x0 y0 x y k1 k2 k3 k4 k5 k6 k7 k8 : Nat)
    (hx0 : 1 ≤ x0) (hx4 : x0 + 4 ≤ n) (hy2 : 2 ≤ y0) (hy3 : y0 + 3 ≤ n)
    (hk1 : (((y = y0 ∧ x = x0 + 2 ∨ y = y0 + 1 ∧ x = x0 + 2) ∨ y = y0 + 2 ∧ x = x0 + 2) ∧ k1 = 1) ∨ (¬((y = y0 ∧ x = x0 + 2 ∨ y = y0 + 1 ∧ x = x0 + 2) ∨ y = y0 + 2 ∧ x = x0 + 2) ∧ k1 = 0))
    (hk2 : (((y = y0 ∧ x = x0 + 1 ∨ y = y0 + 1 ∧ x = x0 + 1) ∨ y = y0 + 2 ∧ x = x0 + 1) ∧ k2 = 1) ∨ (¬((y = y0 ∧ x = x0 + 1 ∨ y = y0 + 1 ∧ x = x0 + 1) ∨ y = y0 + 2 ∧ x = x0 + 1) ∧ k2 = 0))
    (hk3 : (((y = y0 ∧ x = x0 ∨ y = y0 + 1 ∧ x = x0) ∨ y = y0 + 2 ∧ x = x0) ∧ k3 = 1) ∨ (¬((y = y0 ∧ x = x0 ∨ y = y0 + 1 ∧ x = x0) ∨ y = y0 + 2 ∧ x = x0) ∧ k3 = 0))
    (hk4 : (((y = y0 - 1 ∧ x = x0 + 2 ∨ y = y0 ∧ x = x0 + 2) ∨ y = y0 + 1 ∧ x = x0 + 2) ∧ k4 = 1) ∨ (¬((y = y0 - 1 ∧ x = x0 + 2 ∨ y = y0 ∧ x = x0 + 2) ∨ y = y0 + 1 ∧ x = x0 + 2) ∧ k4 = 0))
    (hk5 : (((y = y0 - 1 ∧ x = x0 ∨ y = y0 ∧ x = x0) ∨ y = y0 + 1 ∧ x = x0) ∧ k5 = 1) ∨ (¬((y = y0 - 1 ∧ x = x0 ∨ y = y0 ∧ x = x0) ∨ y = y0 + 1 ∧ x = x0) ∧ k5 = 0))
    (hk6 : (((y + 2 = y0 ∧ x = x0 + 2 ∨ y + 1 = y0 ∧ x = x0 + 2) ∨ y = y0 ∧ x = x0 + 2) ∧ k6 = 1) ∨ (¬((y + 2 = y0 ∧ x = x0 + 2 ∨ y + 1 = y0 ∧ x = x0 + 2) ∨ y = y0 ∧ x = x0 + 2) ∧ k6 = 0))
    (hk7 : (((y + 2 = y0 ∧ x = x0 + 1 ∨ y + 1 = y0 ∧ x = x0 + 1) ∨ y = y0 ∧ x = x0 + 1) ∧ k7 = 1) ∨ (¬((y + 2 = y0 ∧ x = x0 + 1 ∨ y + 1 = y0 ∧ x = x0 + 1) ∨ y = y0 ∧ x = x0 + 1) ∧ k7 = 0))
    (hk8 : (((y + 2 = y0 ∧ x = x0 ∨ y + 1 = y0 ∧ x = x0) ∨ y = y0 ∧ x = x0) ∧ k8 = 1) ∨ (¬((y + 2 = y0 ∧ x = x0 ∨ y + 1 = y0 ∧ x = x0) ∨ y = y0 ∧ x = x0) ∧ k8 = 0))
    (h1 : x = x0) (h2 : y = y0 + 1) :
    (k1 + (k2 + (k3 + (k4 + (k5 + (k6 + (k7 + k8)))))) = 3 ∨ k1 + (k2 + (k3 + (k4 + (k5 + (k6 + (k7 + k8)))))) = 2 ∧ ((y = y0 - 1 ∧ x = x0 + 1 ∨ y = y0 ∧ x = x0 + 1) ∨ y = y0 + 1 ∧ x = x0 + 1)) ↔ ((y = y0 ∧ x = x0 ∨ y = y0 ∧ x = x0 + 1) ∨ y = y0 ∧ x = x0 + 2) := by
  have e1 := ind_val_neg hk1 (by clear hk1 hk2 hk3 hk4 hk5 hk6 hk7 hk8; omega)
  have e2 := ind_val_neg hk2 (by clear hk1 hk2 hk3 hk4 hk5 hk6 hk7 hk8; omega)
  have e3 := ind_val_pos hk3 (by clear hk1 hk2 hk3 hk4 hk5 hk6 hk7 hk8; omega)
  have e4 := ind_val_neg hk4 (by clear hk1 hk2 hk3 hk4 hk5 hk6 hk7 hk8; omega)
  have e5 := ind_val_pos hk5 (by clear hk1 hk2 hk3 hk4 hk5 hk6 hk7 hk8; omega)
  have e6 := ind_val_neg hk6 (by clear hk1 hk2 hk3 hk4 hk5 hk6 hk7 hk8; omega)
  have e7 := ind_val_neg hk7 (by clear hk1 hk2 hk3 hk4 hk5 hk6 hk7 hk8; omega)
  have e8 := ind_val_neg hk8 (by clear hk1 hk2 hk3 hk4 hk5 hk6 hk7 hk8; omega)
  clear hk1 hk2 hk3 hk4 hk5 hk6 hk7 hk8
  omega

/-- Case analysis leaf for `blinker_step2`. -/
theorem blinker_step2_case5 (n x0 y0 x y k1 k2 k3 k4 k5 k6 k7 k8 : Nat)
    (hx0 : 1 ≤ x0) (hx4 : x0 + 4 ≤ n) (hy2 : 2 ≤ y0) (hy3 : y0 + 3 ≤ n)
    (hk1 : (((y = y0 ∧ x = x0 + 2 ∨ y = y0 + 1 ∧ x = x0 + 2) ∨ y = y0 + 2 ∧ x = x0 + 2) ∧ k1 = 1) ∨ (¬((y = y0 ∧ x = x0 + 2 ∨ y = y0 + 1 ∧ x = x0 + 2) ∨ y = y0 + 2 ∧ x = x0 + 2) ∧ k1 = 0))
    (hk2 : (((y = y0 ∧ x = x0 + 1 ∨ y = y0 + 1 ∧ x = x0 + 1) ∨ y = y0 + 2 ∧ x = x0 + 1) ∧ k2 = 1) ∨ (¬((y = y0 ∧ x = x0 + 1 ∨ y = y0 + 1 ∧ x = x0 + 1) ∨ y = y0 + 2 ∧ x = x0 + 1) ∧ k2 = 0))
    (hk3 : (((y = y0 ∧ x = x0 ∨ y = y0 + 1 ∧ x = x0) ∨ y = y0 + 2 ∧ x = x0) ∧ k3 = 1) ∨ (¬((y = y0 ∧ x = x0 ∨ y = y0 + 1 ∧ x = x0) ∨ y = y0 + 2 ∧ x = x0) ∧ k3 = 0))
    (hk4 : (((y = y0 - 1 ∧ x = x0 + 2 ∨ y = y0 ∧ x = x0 + 2) ∨ y = y0 + 1 ∧ x = x0 + 2) ∧ k4 = 1) ∨ (¬((y = y0 - 1 ∧ x = x0 + 2 ∨ y = y0 ∧ x = x0 + 2) ∨ y = y0 + 1 ∧ x = x0 + 2) ∧ k4 = 0))
    (hk5 : (((y = y0 - 1 ∧ x = x0 ∨ y = y0 ∧ x = x0) ∨ y = y0 + 1 ∧ x = x0) ∧ k5 = 1) ∨ (¬((y = y0 - 1 ∧ x = x0 ∨ y = y0 ∧ x = x0) ∨ y = y0 + 1 ∧ x = x0) ∧ k5 = 0))
    (hk6 : (((y + 2 = y0 ∧ x = x0 + 2 ∨ y + 1 = y0 ∧ x = x0 + 2) ∨ y = y0 ∧ x = x0 + 2) ∧ k6 = 1) ∨ (¬((y + 2 = y0 ∧ x = x0 + 2 ∨ y + 1 = y0 ∧ x = x0 + 2) ∨ y = y0 ∧ x = x0 + 2) ∧ k6 = 0))
    (hk7 : (((y + 2 = y0 ∧ x = x0 + 1 ∨ y + 1 = y0 ∧ x = x0 + 1) ∨ y = y0 ∧ x = x0 + 1) ∧ k7 = 1) ∨ (¬((y + 2 = y0 ∧ x = x0 + 1 ∨ y + 1 = y0 ∧ x = x0 + 1) ∨ y = y0 ∧ x = x0 + 1) ∧ k7 = 0))
    (hk8 : (((y + 2 = y0 ∧ x = x0 ∨ y + 1 = y0 ∧ x = x0) ∨ y = y0 ∧ x = x0) ∧ k8 = 1) ∨ (¬((y + 2 = y0 ∧ x = x0 ∨ y + 1 = y0 ∧ x = x0) ∨ y = y0 ∧ x = x0) ∧ k8 = 0))
    (h1 : x = x0) (h2 : y = y0 + 2) :
    (k1 + (k2 + (k3 + (k4 + (k5 + (k6 + (k7 + k8)))))) = 3 ∨ k1 + (k2 + (k3 + (k4 + (k5 + (k6 + (k7 + k8)))))) = 2 ∧ ((y = y0 - 1 ∧ x = x0 + 1 ∨ y = y0 ∧ x = x0 + 1) ∨ y = y0 + 1 ∧ x = x0 + 1)) ↔ ((y = y0 ∧ x = x0 ∨ y = y0 ∧ x = x0 + 1) ∨ y = y0 ∧ x = x0 + 2) := by
  have e1 := ind_val_neg hk1 (by clear hk1 hk2 hk3 hk4 hk5 hk6 hk7 hk8; omega)
  have e2 := ind_val_neg hk2 (by clear hk1 hk2 hk3 hk4 hk5 hk6 hk7 hk8; omega)
  have e3 := ind_val_pos hk3 (by clear hk1 hk2 hk3 hk4 hk5 hk6 hk7 hk8; omega)
  have e4 := ind_val_neg hk4 (by clear hk1 hk2 hk3 hk4 hk5 hk6 hk7 hk8; omega)
  have e5 := ind_val_neg hk5 (by clear hk1 hk2 hk3 hk4 hk5 hk6 hk7 hk8; omega)
  have e6 := ind_val_neg hk6 (by clear hk1 hk2 hk3 hk4 hk5 hk6 hk7 hk8; omega)
  have e7 := ind_val_neg hk7 (by clear hk1 hk2 hk3 hk4 hk5 hk6 hk7 hk8; omega)
  have e8 := ind_val_neg hk8 (by clear hk1 hk2 hk3 hk4 hk5 hk6 hk7 hk8; omega)
  clear hk1 hk2 hk3 hk4 hk5 hk6 hk7 hk8
  omega

/-- Case analysis leaf for `blinker_step2`. -/
theorem blinker_step2_case6 (n x0 y0 x y k1 k2 k3 k4 k5 k6 k7 k8 : Nat)
    (hx0 : 1 ≤ x0) (hx4 : x0 + 4 ≤ n) (hy2 : 2 ≤ y0) (hy3 : y0 + 3 ≤ n)
    (hk1 : (((y = y0 ∧ x = x0 + 2 ∨ y = y0 + 1 ∧ x = x0 + 2) ∨ y = y0 + 2 ∧ x = x0 + 2) ∧ k1 = 1) ∨ (¬((y = y0 ∧ x = x0 + 2 ∨ y = y0 + 1 ∧ x = x0 + 2) ∨ y = y0 + 2 ∧ x = x0 + 2) ∧ k1 = 0))
    (hk2 : (((y = y0 ∧ x = x0 + 1 ∨ y = y0 + 1 ∧ x = x0 + 1) ∨ y = y0 + 2 ∧ x = x0 + 1) ∧ k2 = 1) ∨ (¬((y = y0 ∧ x = x0 + 1 ∨ y = y0 + 1 ∧ x = x0 + 1) ∨ y = y0 + 2 ∧ x = x0 + 1) ∧ k2 = 0))
    (hk3 : (((y = y0 ∧ x = x0 ∨ y = y0 + 1 ∧ x = x0) ∨ y = y0 + 2 ∧ x = x0) ∧ k3 = 1) ∨ (¬((y = y0 ∧ x = x0 ∨ y = y0 + 1 ∧ x = x0) ∨ y = y0 + 2 ∧ x = x0) ∧ k3 = 0))
    (hk4 : (((y = y0 - 1 ∧ x = x0 + 2 ∨ y = y0 ∧ x = x0 + 2) ∨ y = y0 + 1 ∧ x = x0 + 2) ∧ k4 = 1) ∨ (¬((y = y0 - 1 ∧ x = x0 + 2 ∨ y = y0 ∧ x = x0 + 2) ∨ y = y0 + 1 ∧ x = x0 + 2) ∧ k4 = 0))
    (hk5 : (((y = y0 - 1 ∧ x = x0 ∨ y = y0 ∧ x = x0) ∨ y = y0 + 1 ∧ x = x0) ∧ k5 = 1) ∨ (¬((y = y0 - 1 ∧ x = x0 ∨ y = y0 ∧ x = x0) ∨ y = y0 + 1 ∧ x = x0) ∧ k5 = 0))
    (hk6 : (((y + 2 = y0 ∧ x = x0 + 2 ∨ y + 1 = y0 ∧ x = x0 + 2) ∨ y = y0 ∧ x = x0 + 2) ∧ k6 = 1) ∨ (¬((y + 2 = y0 ∧ x = x0 + 2 ∨ y + 1 = y0 ∧ x = x0 + 2) ∨ y = y0 ∧ x = x0 + 2) ∧ k6 = 0))
    (hk7 : (((y + 2 = y0 ∧ x = x0 + 1 ∨ y + 1 = y0 ∧ x = x0 + 1) ∨ y = y0 ∧ x = x0 + 1) ∧ k7 = 1) ∨ (¬((y + 2 = y0 ∧ x = x0 + 1 ∨ y + 1 = y0 ∧ x = x0 + 1) ∨ y = y0 ∧ x = x0 + 1) ∧ k7 = 0))
    (hk8 : (((y + 2 = y0 ∧ x = x0 ∨ y + 1 = y0 ∧ x = x0) ∨ y = y0 ∧ x = x0) ∧ k8 = 1) ∨ (¬((y + 2 = y0 ∧ x = x0 ∨ y + 1 = y0 ∧ x = x0) ∨ y = y0 ∧ x = x0) ∧ k8 = 0))
    (h1 : x = x0) (h2 : y + 2 < y0) :
    (k1 + (k2 + (k3 + (k4 + (k5 + (k6 + (k7 + k8)))))) = 3 ∨ k1 + (k2 + (k3 + (k4 + (k5 + (k6 + (k7 + k8)))))) = 2 ∧ ((y = y0 - 1 ∧ x = x0 + 1 ∨ y = y0 ∧ x = x0 + 1) ∨ y = y0 + 1 ∧ x = x0 + 1)) ↔ ((y = y0 ∧ x = x0 ∨ y = y0 ∧ x = x0 + 1) ∨ y = y0 ∧ x = x0 + 2) := by
  have e1 := ind_val_neg hk1 (by clear hk1 hk2 hk3 hk4 hk5 hk6 hk7 hk8; omega)
  have e2 := ind_val_neg hk2 (by clear hk1 hk2 hk3 hk4 hk5 hk6 hk7 hk8; omega)
  have e3 := ind_val_neg hk3 (by clear hk1 hk2 hk3 hk4 hk5 hk6 hk7 hk8; omega)
  have e4 := ind_val_neg hk4 (by clear hk1 hk2 hk3 hk4 hk5 hk6 hk7 hk8; omega)
  have e5 := ind_val_neg hk5 (by clear hk1 hk2 hk3 hk4 hk5 hk6 hk7 hk8; omega)
  have e6 := ind_val_neg hk6 (by clear hk1 hk2 hk3 hk4 hk5 hk6 hk7 hk8; omega)
  have e7 := ind_val_neg hk7 (by clear hk1 hk2 hk3 hk4 hk5 hk6 hk7 hk8; omega)
  have e8 := ind_val_neg hk8 (by clear hk1 hk2 hk3 hk4 hk5 hk6 hk7 hk8; omega)
  clear hk1 hk2 hk3 hk4 hk5 hk6 hk7 hk8
  omega

/-- Case analysis leaf for `blinker_step2`. -/
theorem blinker_step2_case7 (n x0 y0 x y k1 k2 k3 k4 k5 k6 k7 k8 : Nat)
    (hx0 : 1 ≤ x0) (hx4 : x0 + 4 ≤ n) (hy2 : 2 ≤ y0) (hy3 : y0 + 3 ≤ n)
    (hk1 : (((y = y0 ∧ x = x0 + 2 ∨ y = y0 + 1 ∧ x = x0 + 2) ∨ y = y0 + 2 ∧ x = x0 + 2) ∧ k1 = 1) ∨ (¬((y = y0 ∧ x = x0 + 2 ∨ y = y0 + 1 ∧ x = x0 + 2) ∨ y = y0 + 2 ∧ x = x0 + 2) ∧ k1 = 0))
    (hk2 : (((y = y0 ∧ x = x0 + 1 ∨ y = y0 + 1 ∧ x = x0 + 1) ∨ y = y0 + 2 ∧ x = x0 + 1) ∧ k2 = 1) ∨ (¬((y = y0 ∧ x = x0 + 1 ∨ y = y0 + 1 ∧ x = x0 + 1) ∨ y = y0 + 2 ∧ x = x0 + 1) ∧ k2 = 0))
    (hk3 : (((y = y0 ∧ x = x0 ∨ y = y0 + 1 ∧ x = x0) ∨ y = y0 + 2 ∧ x = x0) ∧ k3 = 1) ∨ (¬((y = y0 ∧ x = x0 ∨ y = y0 + 1 ∧ x = x0) ∨ y = y0 + 2 ∧ x = x0) ∧ k3 = 0))
    (hk4 : (((y = y0 - 1 ∧ x = x0 + 2 ∨ y = y0 ∧ x = x0 + 2) ∨ y = y0 + 1 ∧ x = x0 + 2) ∧ k4 = 1) ∨ (¬((y = y0 - 1 ∧ x = x0 + 2 ∨ y = y0 ∧ x = x0 + 2) ∨ y = y0 + 1 ∧ x = x0 + 2) ∧ k4 = 0))
    (hk5 : (((y = y0 - 1 ∧ x = x0 ∨ y = y0 ∧ x = x0) ∨ y = y0 + 1 ∧ x = x0) ∧ k5 = 1) ∨ (¬((y = y0 - 1 ∧ x = x0 ∨ y = y0 ∧ x = x0) ∨ y = y0 + 1 ∧ x = x0) ∧ k5 = 0))
    (hk6 : (((y + 2 = y0 ∧ x = x0 + 2 ∨ y + 1 = y0 ∧ x = x0 + 2) ∨ y = y0 ∧ x = x0 + 2) ∧ k6 = 1) ∨ (¬((y + 2 = y0 ∧ x = x0 + 2 ∨ y + 1 = y0 ∧ x = x0 + 2) ∨ y = y0 ∧ x = x0 + 2) ∧ k6 = 0))
    (hk7 : (((y + 2 = y0 ∧ x = x0 + 1 ∨ y + 1 = y0 ∧ x = x0 + 1) ∨ y = y0 ∧ x = x0 + 1) ∧ k7 = 1) ∨ (¬((y + 2 = y0 ∧ x = x0 + 1 ∨ y + 1 = y0 ∧ x = x0 + 1) ∨ y = y0 ∧ x = x0 + 1) ∧ k7 = 0))
    (hk8 : (((y + 2 = y0 ∧ x = x0 ∨ y + 1 = y0 ∧ x = x0) ∨ y = y0 ∧ x = x0) ∧ k8 = 1) ∨ (¬((y + 2 = y0 ∧ x = x0 ∨ y + 1 = y0 ∧ x = x0) ∨ y = y0 ∧ x = x0) ∧ k8 = 0))
    (h1 : x = x0) (h2 : y0 + 3 ≤ y) :
    (k1 + (k2 + (k3 + (k4 + (k5 + (k6 + (k7 + k8)))))) = 3 ∨ k1 + (k2 + (k3 + (k4 + (k5 + (k6 + (k7 + k8)))))) = 2 ∧ ((y = y0 - 1 ∧ x = x0 + 1 ∨ y = y0 ∧ x = x0 + 1) ∨ y = y0 + 1 ∧ x = x0 + 1)) ↔ ((y = y0 ∧ x = x0 ∨ y = y0 ∧ x = x0 + 1) ∨ y = y0 ∧ x = x0 + 2) := by
  have e1 := ind_val_neg hk1 (by clear hk1 hk2 hk3 hk4 hk5 hk6 hk7 hk8; omega)
  have e2 := ind_val_neg hk2 (by clear hk1 hk2 hk3 hk4 hk5 hk6 hk7 hk8; omega)
  have e3 := ind_val_neg hk3 (by clear hk1 hk2 hk3 hk4 hk5 hk6 hk7 hk8; omega)
  have e4 := ind_val_neg hk4 (by clear hk1 hk2 hk3 hk4 hk5 hk6 hk7 hk8; omega)
  have e5 := ind_val_neg hk5 (by clear hk1 hk2 hk3 hk4 hk5 hk6 hk7 hk8; omega)
  have e6 := ind_val_neg hk6 (by clear hk1 hk2 hk3 hk4 hk5 hk6 hk7 hk8; omega)
  have e7 := ind_val_neg hk7 (by clear hk1 hk2 hk3 hk4 hk5 hk6 hk7 hk8; omega)
  have e8 := ind_val_neg hk8 (by clear hk1 hk2 hk3 hk4 hk5 hk6 hk7 hk8; omega)
  clear hk1 hk2 hk3 hk4 hk5 hk6 hk7 hk8
  omega

/-- Case analysis leaf for `blinker_step2`. -/
theorem blinker_step2_case8 (n x0 y0 x y k1 k2 k3 k4 k5 k6 k7 k8 : Nat)
    (hx0 : 1 ≤ x0) (hx4 : x0 + 4 ≤ n) (hy2 : 2 ≤ y0) (hy3 : y0 + 3 ≤ n)
    (hk1 : (((y = y0 ∧ x = x0 + 2 ∨ y = y0 + 1 ∧ x = x0 + 2) ∨ y = y0 + 2 ∧ x = x0 + 2) ∧ k1 = 1) ∨ (¬((y = y0 ∧ x = x0 + 2 ∨ y = y0 + 1 ∧ x = x0 + 2) ∨ y = y0 + 2 ∧ x = x0 + 2) ∧ k1 = 0))
    (hk2 : (((y = y0 ∧ x = x0 + 1 ∨ y = y0 + 1 ∧ x = x0 + 1) ∨ y = y0 + 2 ∧ x = x0 + 1) ∧ k2 = 1) ∨ (¬((y = y0 ∧ x = x0 + 1 ∨ y = y0 + 1 ∧ x = x0 + 1) ∨ y = y0 + 2 ∧ x = x0 + 1) ∧ k2 = 0))
    (hk3 : (((y = y0 ∧ x = x0 ∨ y = y0 + 1 ∧ x = x0) ∨ y = y0 + 2 ∧ x = x0) ∧ k3 = 1) ∨ (¬((y = y0 ∧ x = x0 ∨ y = y0 + 1 ∧ x = x0) ∨ y = y0 + 2 ∧ x = x0) ∧ k3 = 0))
    (hk4 : (((y = y0 - 1 ∧ x = x0 + 2 ∨ y = y0 ∧ x = x0 + 2) ∨ y = y0 + 1 ∧ x = x0 + 2) ∧ k4 = 1) ∨ (¬((y = y0 - 1 ∧ x = x0 + 2 ∨ y = y0 ∧ x = x0 + 2) ∨ y = y0 + 1 ∧ x = x0 + 2) ∧ k4 = 0))
    (hk5 : (((y = y0 - 1 ∧ x = x0 ∨ y = y0 ∧ x = x0) ∨ y = y0 + 1 ∧ x = x0) ∧ k5 = 1) ∨ (¬((y = y0 - 1 ∧ x = x0 ∨ y = y0 ∧ x = x0) ∨ y = y0 + 1 ∧ x = x0) ∧ k5 = 0))
    (hk6 : (((y + 2 = y0 ∧ x = x0 + 2 ∨ y + 1 = y0 ∧ x = x0 + 2) ∨ y = y0 ∧ x = x0 + 2) ∧ k6 = 1) ∨ (¬((y + 2 = y0 ∧ x = x0 + 2 ∨ y + 1 = y0 ∧ x = x0 + 2) ∨ y = y0 ∧ x = x0 + 2) ∧ k6 = 0))
    (hk7 : (((y + 2 = y0 ∧ x = x0 + 1 ∨ y + 1 = y0 ∧ x = x0 + 1) ∨ y = y0 ∧ x = x0 + 1) ∧ k7 = 1) ∨ (¬((y + 2 = y0 ∧ x = x0 + 1 ∨ y + 1 = y0 ∧ x = x0 + 1) ∨ y = y0 ∧ x = x0 + 1) ∧ k7 = 0))
    (hk8 : (((y + 2 = y0 ∧ x = x0 ∨ y + 1 = y0 ∧ x = x0) ∨ y = y0 ∧ x = x0) ∧ k8 = 1) ∨ (¬((y + 2 = y0 ∧ x = x0 ∨ y + 1 = y0 ∧ x = x0) ∨ y = y0 ∧ x = x0) ∧ k8 = 0))
    (h1 : x = x0 + 1) (h2 : y + 2 = y0) :
    (k1 + (k2 + (k3 + (k4 + (k5 + (k6 + (k7 + k8)))))) = 3 ∨ k1 + (k2 + (k3 + (k4 + (k5 + (k6 + (k7 + k8)))))) = 2 ∧ ((y = y0 - 1 ∧ x = x0 + 1 ∨ y = y0 ∧ x = x0 + 1) ∨ y = y0 + 1 ∧ x = x0 + 1)) ↔ ((y = y0 ∧ x = x0 ∨ y = y0 ∧ x = x0 + 1) ∨ y = y0 ∧ x = x0 + 2) := by
  have e1 := ind_val_neg hk1 (by clear hk1 hk2 hk3 hk4 hk5 hk6 hk7 hk8; omega)
  have e2 := ind_val_neg hk2 (by clear hk1 hk2 hk3 hk4 hk5 hk6 hk7 hk8; omega)
  have e3 := ind_val_neg hk3 (by clear hk1 hk2 hk3 hk4 hk5 hk6 hk7 hk8; omega)
  have e4 := ind_val_neg hk4 (by clear hk1 hk2 hk3 hk4 hk5 hk6 hk7 hk8; omega)
  have e5 := ind_val_neg hk5 (by clear hk1 hk2 hk3 hk4 hk5 hk6 hk7 hk8; omega)
  have e6 := ind_val_neg hk6 (by clear hk1 hk2 hk3 hk4 hk5 hk6 hk7 hk8; omega)
  have e7 := ind_val_pos hk7 (by clear hk1 hk2 hk3 hk4 hk5 hk6 hk7 hk8; omega)
  have e8 := ind_val_neg hk8 (by clear hk1 hk2 hk3 hk4 hk5 hk6 hk7 hk8; omega)
  clear hk1 hk2 hk3 hk4 hk5 hk6 hk7 hk8
  omega

/-- Case analysis leaf for `blinker_step2`. -/
theorem blinker_step2_case9 (n x0 y0 x y k1 k2 k3 k4 k5 k6 k7 k8 : Nat)
    (hx0 : 1 ≤ x0) (hx4 : x0 + 4 ≤ n) (hy2 : 2 ≤ y0) (hy3 : y0 + 3 ≤ n)
    (hk1 : (((y = y0 ∧ x = x0 + 2 ∨ y = y0 + 1 ∧ x = x0 + 2) ∨ y = y0 + 2 ∧ x = x0 + 2) ∧ k1 = 1) ∨ (¬((y = y0 ∧ x = x0 + 2 ∨ y = y0 + 1 ∧ x = x0 + 2) ∨ y = y0 + 2 ∧ x = x0 + 2) ∧ k1 = 0))
    (hk2 : (((y = y0 ∧ x = x0 + 1 ∨ y = y0 + 1 ∧ x = x0 + 1) ∨ y = y0 + 2 ∧ x = x0 + 1) ∧ k2 = 1) ∨ (¬((y = y0 ∧ x = x0 + 1 ∨ y = y0 + 1 ∧ x = x0 + 1) ∨ y = y0 + 2 ∧ x = x0 + 1) ∧ k2 = 0))
    (hk3 : (((y = y0 ∧ x = x0 ∨ y = y0 + 1 ∧ x = x0) ∨ y = y0 + 2 ∧ x = x0) ∧ k3 = 1) ∨ (¬((y = y0 ∧ x = x0 ∨ y = y0 + 1 ∧ x = x0) ∨ y = y0 + 2 ∧ x = x0) ∧ k3 = 0))
    (hk4 : (((y = y0 - 1 ∧ x = x0 + 2 ∨ y = y0 ∧ x = x0 + 2) ∨ y = y0 + 1 ∧ x = x0 + 2) ∧ k4 = 1) ∨ (¬((y = y0 - 1 ∧ x = x0 + 2 ∨ y = y0 ∧ x = x0 + 2) ∨ y = y0 + 1 ∧ x = x0 + 2) ∧ k4 = 0))
    (hk5 : (((y = y0 - 1 ∧ x = x0 ∨ y = y0 ∧ x = x0) ∨ y = y0 + 1 ∧ x = x0) ∧ k5 = 1) ∨ (¬((y = y0 - 1 ∧ x = x0 ∨ y = y0 ∧ x = x0) ∨ y = y0 + 1 ∧ x = x0) ∧ k5 = 0))
    (hk6 : (((y + 2 = y0 ∧ x = x0 + 2 ∨ y + 1 = y0 ∧ x = x0 + 2) ∨ y = y0 ∧ x = x0 + 2) ∧ k6 = 1) ∨ (¬((y + 2 = y0 ∧ x = x0 + 2 ∨ y + 1 = y0 ∧ x = x0 + 2) ∨ y = y0 ∧ x = x0 + 2) ∧ k6 = 0))
    (hk7 : (((y + 2 = y0 ∧ x = x0 + 1 ∨ y + 1 = y0 ∧ x = x0 + 1) ∨ y = y0 ∧ x = x0 + 1) ∧ k7 = 1) ∨ (¬((y + 2 = y0 ∧ x = x0 + 1 ∨ y + 1 = y0 ∧ x = x0 + 1) ∨ y = y0 ∧ x = x0 + 1) ∧ k7 = 0))
    (hk8 : (((y + 2 = y0 ∧ x = x0 ∨ y + 1 = y0 ∧ x = x0) ∨ y = y0 ∧ x = x0) ∧ k8 = 1) ∨ (¬((y + 2 = y0 ∧ x = x0 ∨ y + 1 = y0 ∧ x = x0) ∨ y = y0 ∧ x = x0) ∧ k8 = 0))
    (h1 : x = x0 + 1) (h2 : y + 1 = y0) :
    (k1 + (k2 + (k3 + (k4 + (k5 + (k6 + (k7 + k8)))))) = 3 ∨ k1 + (k2 + (k3 + (k4 + (k5 + (k6 + (k7 + k8)))))) = 2 ∧ ((y = y0 - 1 ∧ x = x0 + 1 ∨ y = y0 ∧ x = x0 + 1) ∨ y = y0 + 1 ∧ x = x0 + 1)) ↔ ((y = y0 ∧ x = x0 ∨ y = y0 ∧ x = x0 + 1) ∨ y = y0 ∧ x = x0 + 2) := by
  have e1 := ind_val_neg hk1 (by clear hk1 hk2 hk3 hk4 hk5 hk6 hk7 hk8; omega)
  have e2 := ind_val_neg hk2 (by clear hk1 hk2 hk3 hk4 hk5 hk6 hk7 hk8; omega)
  have e3 := ind_val_neg hk3 (by clear hk1 hk2 hk3 hk4 hk5 hk6 hk7 hk8; omega)
  have e4 := ind_val_neg hk4 (by clear hk1 hk2 hk3 hk4 hk5 hk6 hk7 hk8; omega)
  have e5 := ind_val_neg hk5 (by clear hk1 hk2 hk3 hk4 hk5 hk6 hk7 hk8; omega)
  have e6 := ind_val_neg hk6 (by clear hk1 hk2 hk3 hk4 hk5 hk6 hk7 hk8; omega)
  have e7 := ind_val_pos hk7 (by clear hk1 hk2 hk3 hk4 hk5 hk6 hk7 hk8; omega)
  have e8 := ind_val_neg hk8 (by clear hk1 hk2 hk3 hk4 hk5 hk6 hk7 hk8; omega)
  clear hk1 hk2 hk3 hk4 hk5 hk6 hk7 hk8
  omega

/-- Case analysis leaf for `blinker_step2`. -/
theorem blinker_step2_case10 (n x0 y0 x y k1 k2 k3 k4 k5 k6 k7 k8 : Nat)
    (hx0 : 1 ≤ x0) (hx4 : x0 + 4 ≤ n) (hy2 : 2 ≤ y0) (hy3 : y0 + 3 ≤ n)
    (hk1 : (((y = y0 ∧ x = x0 + 2 ∨ y = y0 + 1 ∧ x = x0 + 2) ∨ y = y0 + 2 ∧ x = x0 + 2) ∧ k1 = 1) ∨ (¬((y = y0 ∧ x = x0 + 2 ∨ y = y0 + 1 ∧ x = x0 + 2) ∨ y = y0 + 2 ∧ x = x0 + 2) ∧ k1 = 0))
    (hk2 : (((y = y0 ∧ x = x0 + 1 ∨ y = y0 + 1 ∧ x = x0 + 1) ∨ y = y0 + 2 ∧ x = x0 + 1) ∧ k2 = 1) ∨ (¬((y = y0 ∧ x = x0 + 1 ∨ y = y0 + 1 ∧ x = x0 + 1) ∨ y = y0 + 2 ∧ x = x0 + 1) ∧ k2 = 0))
    (hk3 : (((y = y0 ∧ x = x0 ∨ y = y0 + 1 ∧ x = x0) ∨ y = y0 + 2 ∧ x = x0) ∧ k3 = 1) ∨ (¬((y = y0 ∧ x = x0 ∨ y = y0 + 1 ∧ x = x0) ∨ y = y0 + 2 ∧ x = x0) ∧ k3 = 0))
    (hk4 : (((y = y0 - 1 ∧ x = x0 + 2 ∨ y = y0 ∧ x = x0 + 2) ∨ y = y0 + 1 ∧ x = x0 + 2) ∧ k4 = 1) ∨ (¬((y = y0 - 1 ∧ x = x0 + 2 ∨ y = y0 ∧ x = x0 + 2) ∨ y = y0 + 1 ∧ x = x0 + 2) ∧ k4 = 0))
    (hk5 : (((y = y0 - 1 ∧ x = x0 ∨ y = y0 ∧ x = x0) ∨ y = y0 + 1 ∧ x = x0) ∧ k5 = 1) ∨ (¬((y = y0 - 1 ∧ x = x0 ∨ y = y0 ∧ x = x0) ∨ y = y0 + 1 ∧ x = x0) ∧ k5 = 0))
    (hk6 : (((y + 2 = y0 ∧ x = x0 + 2 ∨ y + 1 = y0 ∧ x = x0 + 2) ∨ y = y0 ∧ x = x0 + 2) ∧ k6 = 1) ∨ (¬((y + 2 = y0 ∧ x = x0 + 2 ∨ y + 1 = y0 ∧ x = x0 + 2) ∨ y = y0 ∧ x = x0 + 2) ∧ k6 = 0))
    (hk7 : (((y + 2 = y0 ∧ x = x0 + 1 ∨ y + 1 = y0 ∧ x = x0 + 1) ∨ y = y0 ∧ x = x0 + 1) ∧ k7 = 1) ∨ (¬((y + 2 = y0 ∧ x = x0 + 1 ∨ y + 1 = y0 ∧ x = x0 + 1) ∨ y = y0 ∧ x = x0 + 1) ∧ k7 = 0))
    (hk8 : (((y + 2 = y0 ∧ x = x0 ∨ y + 1 = y0 ∧ x = x0) ∨ y = y0 ∧ x = x0) ∧ k8 = 1) ∨ (¬((y + 2 = y0 ∧ x = x0 ∨ y + 1 = y0 ∧ x = x0) ∨ y = y0 ∧ x = x0) ∧ k8 = 0))
    (h1 : x = x0 + 1) (h2 : y = y0) :
    (k1 + (k2 + (k3 + (k4 + (k5 + (k6 + (k7 + k8)))))) = 3 ∨ k1 + (k2 + (k3 + (k4 + (k5 + (k6 + (k7 + k8)))))) = 2 ∧ ((y = y0 - 1 ∧ x = x0 + 1 ∨ y = y0 ∧ x = x0 + 1) ∨ y = y0 + 1 ∧ x = x0 + 1)) ↔ ((y = y0 ∧ x = x0 ∨ y = y0 ∧ x = x0 + 1) ∨ y = y0 ∧ x = x0 + 2) := by
  have e1 := ind_val_neg hk1 (by clear hk1 hk2 hk3 hk4 hk5 hk6 hk7 hk8; omega)
  have e2 := ind_val_pos hk2 (by clear hk1 hk2 hk3 hk4 hk5 hk6 hk7 hk8; omega)
  have e3 := ind_val_neg hk3 (by clear hk1 hk2 hk3 hk4 hk5 hk6 hk7 hk8; omega)
  have e4 := ind_val_neg hk4 (by clear hk1 hk2 hk3 hk4 hk5 hk6 hk7 hk8; omega)
  have e5 := ind_val_neg hk5 (by clear hk1 hk2 hk3 hk4 hk5 hk6 hk7 hk8; omega)
  have e6 := ind_val_neg hk6 (by clear hk1 hk2 hk3 hk4 hk5 hk6 hk7 hk8; omega)
  have e7 := ind_val_pos hk7 (by clear hk1 hk2 hk3 hk4 hk5 hk6 hk7 hk8; omega)
  have e8 := ind_val_neg hk8 (by clear hk1 hk2 hk3 hk4 hk5 hk6 hk7 hk8; omega)
  clear hk1 hk2 hk3 hk4 hk5 hk6 hk7 hk8
  omega

/-- Case analysis leaf for `blinker_step2`. -/
theorem blinker_step2_case11 (n x0 y0 x y k1 k2 k3 k4 k5 k6 k7 k8 : Nat)
    (hx0 : 1 ≤ x0) (hx4 : x0 + 4 ≤ n) (hy2 : 2 ≤ y0) (hy3 : y0 + 3 ≤ n)
    (hk1 : (((y = y0 ∧ x = x0 + 2 ∨ y = y0 + 1 ∧ x = x0 + 2) ∨ y = y0 + 2 ∧ x = x0 + 2) ∧ k1 = 1) ∨ (¬((y = y0 ∧ x = x0 + 2 ∨ y = y0 + 1 ∧ x = x0 + 2) ∨ y = y0 + 2 ∧ x = x0 + 2) ∧ k1 = 0))
    (hk2 : (((y = y0 ∧ x = x0 + 1 ∨ y = y0 + 1 ∧ x = x0 + 1) ∨ y = y0 + 2 ∧ x = x0 + 1) ∧ k2 = 1) ∨ (¬((y = y0 ∧ x = x0 + 1 ∨ y = y0 + 1 ∧ x = x0 + 1) ∨ y = y0 + 2 ∧ x = x0 + 1) ∧ k2 = 0))
    (hk3 : (((y = y0 ∧ x = x0 ∨ y = y0 + 1 ∧ x = x0) ∨ y = y0 + 2 ∧ x = x0) ∧ k3 = 1) ∨ (¬((y = y0 ∧ x = x0 ∨ y = y0 + 1 ∧ x = x0) ∨ y = y0 + 2 ∧ x = x0) ∧ k3 = 0))
    (hk4 : (((y = y0 - 1 ∧ x = x0 + 2 ∨ y = y0 ∧ x = x0 + 2) ∨ y = y0 + 1 ∧ x = x0 + 2) ∧ k4 = 1) ∨ (¬((y = y0 - 1 ∧ x = x0 + 2 ∨ y = y0 ∧ x = x0 + 2) ∨ y = y0 + 1 ∧ x = x0 + 2) ∧ k4 = 0))
    (hk5 : (((y = y0 - 1 ∧ x = x0 ∨ y = y0 ∧ x = x0) ∨ y = y0 + 1 ∧ x = x0) ∧ k5 = 1) ∨ (¬((y = y0 - 1 ∧ x = x0 ∨ y = y0 ∧ x = x0) ∨ y = y0 + 1 ∧ x = x0) ∧ k5 = 0))
    (hk6 : (((y + 2 = y0 ∧ x = x0 + 2 ∨ y + 1 = y0 ∧ x = x0 + 2) ∨ y = y0 ∧ x = x0 + 2) ∧ k6 = 1) ∨ (¬((y + 2 = y0 ∧ x = x0 + 2 ∨ y + 1 = y0 ∧ x = x0 + 2) ∨ y = y0 ∧ x = x0 + 2) ∧ k6 = 0))
    (hk7 : (((y + 2 = y0 ∧ x = x0 + 1 ∨ y + 1 = y0 ∧ x = x0 + 1) ∨ y = y0 ∧ x = x0 + 1) ∧ k7 = 1) ∨ (¬((y + 2 = y0 ∧ x = x0 + 1 ∨ y + 1 = y0 ∧ x = x0 + 1) ∨ y = y0 ∧ x = x0 + 1) ∧ k7 = 0))
    (hk8 : (((y + 2 = y0 ∧ x = x0 ∨ y + 1 = y0 ∧ x = x0) ∨ y = y0 ∧ x = x0) ∧ k8 = 1) ∨ (¬((y + 2 = y0 ∧ x = x0 ∨ y + 1 = y0 ∧ x = x0) ∨ y = y0 ∧ x = x0) ∧ k8 = 0))
    (h1 : x = x0 + 1) (h2 : y = y0 + 1) :
    (k1 + (k2 + (k3 + (k4 + (k5 + (k6 + (k7 + k8)))))) = 3 ∨ k1 + (k2 + (k3 + (k4 + (k5 + (k6 + (k7 + k8)))))) = 2 ∧ ((y = y0 - 1 ∧ x = x0 + 1 ∨ y = y0 ∧ x = x0 + 1) ∨ y = y0 + 1 ∧ x = x0 + 1)) ↔ ((y = y0 ∧ x = x0 ∨ y = y0 ∧ x = x0 + 1) ∨ y = y0 ∧ x = x0 + 2) := by
  have e1 := ind_val_neg hk1 (by clear hk1 hk2 hk3 hk4 hk5 hk6 hk7 hk8; omega)
  have e2 := ind_val_pos hk2 (by clear hk1 hk2 hk3 hk4 hk5 hk6 hk7 hk8; omega)
  have e3 := ind_val_neg hk3 (by clear hk1 hk2 hk3 hk4 hk5 hk6 hk7 hk8; omega)
  have e4 := ind_val_neg hk4 (by clear hk1 hk2 hk3 hk4 hk5 hk6 hk7 hk8; omega)
  have e5 := ind_val_neg hk5 (by clear hk1 hk2 hk3 hk4 hk5 hk6 hk7 hk8; omega)
  have e6 := ind_val_neg hk6 (by clear hk1 hk2 hk3 hk4 hk5 hk6 hk7 hk8; omega)
  have e7 := ind_val_neg hk7 (by clear hk1 hk2 hk3 hk4 hk5 hk6 hk7 hk8; omega)
  have e8 := ind_val_neg hk8 (by clear hk1 hk2 hk3 hk4 hk5 hk6 hk7 hk8; omega)
  clear hk1 hk2 hk3 hk4 hk5 hk6 hk7 hk8
  omega

/-- Case analysis leaf for `blinker_step2`. -/
theorem blinker_step2_case12 (n x0 y0 x y k1 k2 k3 k4 k5 k6 k7 k8 : Nat)
    (hx0 : 1 ≤ x0) (hx4 : x0 + 4 ≤ n) (hy2 : 2 ≤ y0) (hy3 : y0 + 3 ≤ n)
    (hk1 : (((y = y0 ∧ x = x0 + 2 ∨ y = y0 + 1 ∧ x = x0 + 2) ∨ y = y0 + 2 ∧ x = x0 + 2) ∧ k1 = 1) ∨ (¬((y = y0 ∧ x = x0 + 2 ∨ y = y0 + 1 ∧ x = x0 + 2) ∨ y = y0 + 2 ∧ x = x0 + 2) ∧ k1 = 0))
    (hk2 : (((y = y0 ∧ x = x0 + 1 ∨ y = y0 + 1 ∧ x = x0 + 1) ∨ y = y0 + 2 ∧ x = x0 + 1) ∧ k2 = 1) ∨ (¬((y = y0 ∧ x = x0 + 1 ∨ y = y0 + 1 ∧ x = x0 + 1) ∨ y = y0 + 2 ∧ x = x0 + 1) ∧ k2 = 0))
    (hk3 : (((y = y0 ∧ x = x0 ∨ y = y0 + 1 ∧ x = x0) ∨ y = y0 + 2 ∧ x = x0) ∧ k3 = 1) ∨ (¬((y = y0 ∧ x = x0 ∨ y = y0 + 1 ∧ x = x0) ∨ y = y0 + 2 ∧ x = x0) ∧ k3 = 0))
    (hk4 : (((y = y0 - 1 ∧ x = x0 + 2 ∨ y = y0 ∧ x = x0 + 2) ∨ y = y0 + 1 ∧ x = x0 + 2) ∧ k4 = 1) ∨ (¬((y = y0 - 1 ∧ x = x0 + 2 ∨ y = y0 ∧ x = x0 + 2) ∨ y = y0 + 1 ∧ x = x0 + 2) ∧ k4 = 0))
    (hk5 : (((y = y0 - 1 ∧ x = x0 ∨ y = y0 ∧ x = x0) ∨ y = y0 + 1 ∧ x = x0) ∧ k5 = 1) ∨ (¬((y = y0 - 1 ∧ x = x0 ∨ y = y0 ∧ x = x0) ∨ y = y0 + 1 ∧ x = x0) ∧ k5 = 0))
    (hk6 : (((y + 2 = y0 ∧ x = x0 + 2 ∨ y + 1 = y0 ∧ x = x0 + 2) ∨ y = y0 ∧ x = x0 + 2) ∧ k6 = 1) ∨ (¬((y + 2 = y0 ∧ x = x0 + 2 ∨ y + 1 = y0 ∧ x = x0 + 2) ∨ y = y0 ∧ x = x0 + 2) ∧ k6 = 0))
    (hk7 : (((y + 2 = y0 ∧ x = x0 + 1 ∨ y + 1 = y0 ∧ x = x0 + 1) ∨ y = y0 ∧ x = x0 + 1) ∧ k7 = 1) ∨ (¬((y + 2 = y0 ∧ x = x0 + 1 ∨ y + 1 = y0 ∧ x = x0 + 1) ∨ y = y0 ∧ x = x0 + 1) ∧ k7 = 0))
    (hk8 : (((y + 2 = y0 ∧ x = x0 ∨ y + 1 = y0 ∧ x = x0) ∨ y = y0 ∧ x = x0) ∧ k8 = 1) ∨ (¬((y + 2 = y0 ∧ x = x0 ∨ y + 1 = y0 ∧ x = x0) ∨ y = y0 ∧ x = x0) ∧ k8 = 0))
    (h1 : x = x0 + 1) (h2 : y = y0 + 2) :
    (k1 + (k2 + (k3 + (k4 + (k5 + (k6 + (k7 + k8)))))) = 3 ∨ k1 + (k2 + (k3 + (k4 + (k5 + (k6 + (k7 + k8)))))) = 2 ∧ ((y = y0 - 1 ∧ x = x0 + 1 ∨ y = y0 ∧ x = x0 + 1) ∨ y = y0 + 1 ∧ x = x0 + 1)) ↔ ((y = y0 ∧ x = x0 ∨ y = y0 ∧ x = x0 + 1) ∨ y = y0 ∧ x = x0 + 2) := by
  have e1 := ind_val_neg hk1 (by clear hk1 hk2 hk3 hk4 hk5 hk6 hk7 hk8; omega)
  have e2 := ind_val_pos hk2 (by clear hk1 hk2 hk3 hk4 hk5 hk6 hk7 hk8; omega)
  have e3 := ind_val_neg hk3 (by clear hk1 hk2 hk3 hk4 hk5 hk6 hk7 hk8; omega)
  have e4 := ind_val_neg hk4 (by clear hk1 hk2 hk3 hk4 hk5 hk6 hk7 hk8; omega)
  have e5 := ind_val_neg hk5 (by clear hk1 hk2 hk3 hk4 hk5 hk6 hk7 hk8; omega)
  have e6 := ind_val_neg hk6 (by clear hk1 hk2 hk3 hk4 hk5 hk6 hk7 hk8; omega)
  have e7 := ind_val_neg hk7 (by clear hk1 hk2 hk3 hk4 hk5 hk6 hk7 hk8; omega)
  have e8 := ind_val_neg hk8 (by clear hk1 hk2 hk3 hk4 hk5 hk6 hk7 hk8; omega)
  clear hk1 hk2 hk3 hk4 hk5 hk6 hk7 hk8
  omega

/-- Case analysis leaf for `blinker_step2`. -/
theorem blinker_step2_case13 (n x0 y0 x y k1 k2 k3 k4 k5 k6 k7 k8 : Nat)
    (hx0 : 1 ≤ x0) (hx4 : x0 + 4 ≤ n) (hy2 : 2 ≤ y0) (hy3 : y0 + 3 ≤ n)
    (hk1 : (((y = y0 ∧ x = x0 + 2 ∨ y = y0 + 1 ∧ x = x0 + 2) ∨ y = y0 + 2 ∧ x = x0 + 2) ∧ k1 = 1) ∨ (¬((y = y0 ∧ x = x0 + 2 ∨ y = y0 + 1 ∧ x = x0 + 2) ∨ y = y0 + 2 ∧ x = x0 + 2) ∧ k1 = 0))
    (hk2 : (((y = y0 ∧ x = x0 + 1 ∨ y = y0 + 1 ∧ x = x0 + 1) ∨ y = y0 + 2 ∧ x = x0 + 1) ∧ k2 = 1) ∨ (¬((y = y0 ∧ x = x0 + 1 ∨ y = y0 + 1 ∧ x = x0 + 1) ∨ y = y0 + 2 ∧ x = x0 + 1) ∧ k2 = 0))
    (hk3 : (((y = y0 ∧ x = x0 ∨ y = y0 + 1 ∧ x = x0) ∨ y = y0 + 2 ∧ x = x0) ∧ k3 = 1) ∨ (¬((y = y0 ∧ x = x0 ∨ y = y0 + 1 ∧ x = x0) ∨ y = y0 + 2 ∧ x = x0) ∧ k3 = 0))
    (hk4 : (((y = y0 - 1 ∧ x = x0 + 2 ∨ y = y0 ∧ x = x0 + 2) ∨ y = y0 + 1 ∧ x = x0 + 2) ∧ k4 = 1) ∨ (¬((y = y0 - 1 ∧ x = x0 + 2 ∨ y = y0 ∧ x = x0 + 2) ∨ y = y0 + 1 ∧ x = x0 + 2) ∧ k4 = 0))
    (hk5 : (((y = y0 - 1 ∧ x = x0 ∨ y = y0 ∧ x = x0) ∨ y = y0 + 1 ∧ x = x0) ∧ k5 = 1) ∨ (¬((y = y0 - 1 ∧ x = x0 ∨ y = y0 ∧ x = x0) ∨ y = y0 + 1 ∧ x = x0) ∧ k5 = 0))
    (hk6 : (((y + 2 = y0 ∧ x = x0 + 2 ∨ y + 1 = y0 ∧ x = x0 + 2) ∨ y = y0 ∧ x = x0 + 2) ∧ k6 = 1) ∨ (¬((y + 2 = y0 ∧ x = x0 + 2 ∨ y + 1 = y0 ∧ x = x0 + 2) ∨ y = y0 ∧ x = x0 + 2) ∧ k6 = 0))
    (hk7 : (((y + 2 = y0 ∧ x = x0 + 1 ∨ y + 1 = y0 ∧ x = x0 + 1) ∨ y = y0 ∧ x = x0 + 1) ∧ k7 = 1) ∨ (¬((y + 2 = y0 ∧ x = x0 + 1 ∨ y + 1 = y0 ∧ x = x0 + 1) ∨ y = y0 ∧ x = x0 + 1) ∧ k7 = 0))
    (hk8 : (((y + 2 = y0 ∧ x = x0 ∨ y + 1 = y0 ∧ x = x0) ∨ y = y0 ∧ x = x0) ∧ k8 = 1) ∨ (¬((y + 2 = y0 ∧ x = x0 ∨ y + 1 = y0 ∧ x = x0) ∨ y = y0 ∧ x = x0) ∧ k8 = 0))
    (h1 : x = x0 + 1) (h2 : y + 2 < y0) :
    (k1 + (k2 + (k3 + (k4 + (k5 + (k6 + (k7 + k8)))))) = 3 ∨ k1 + (k2 + (k3 + (k4 + (k5 + (k6 + (k7 + k8)))))) = 2 ∧ ((y = y0 - 1 ∧ x = x0 + 1 ∨ y = y0 ∧ x = x0 + 1) ∨ y = y0 + 1 ∧ x = x0 + 1)) ↔ ((y = y0 ∧ x = x0 ∨ y = y0 ∧ x = x0 + 1) ∨ y = y0 ∧ x = x0 + 2) := by
  have e1 := ind_val_neg hk1 (by clear hk1 hk2 hk3 hk4 hk5 hk6 hk7 hk8; omega)
  have e2 := ind_val_neg hk2 (by clear hk1 hk2 hk3 hk4 hk5 hk6 hk7 hk8; omega)
  have e3 := ind_val_neg hk3 (by clear hk1 hk2 hk3 hk4 hk5 hk6 hk7 hk8; omega)
  have e4 := ind_val_neg hk4 (by clear hk1 hk2 hk3 hk4 hk5 hk6 hk7 hk8; omega)
  have e5 := ind_val_neg hk5 (by clear hk1 hk2 hk3 hk4 hk5 hk6 hk7 hk8; omega)
  have e6 := ind_val_neg hk6 (by clear hk1 hk2 hk3 hk4 hk5 hk6 hk7 hk8; omega)
  have e7 := ind_val_neg hk7 (by clear hk1 hk2 hk3 hk4 hk5 hk6 hk7 hk8; omega)
  have e8 := ind_val_neg hk8 (by clear hk1 hk2 hk3 hk4 hk5 hk6 hk7 hk8; omega)
  clear hk1 hk2 hk3 hk4 hk5 hk6 hk7 hk8
  omega

/-- Case analysis leaf for `blinker_step2`. -/
theorem blinker_step2_case14 (n x0 y0 x y k1 k2 k3 k4 k5 k6 k7 k8 : Nat)
    (hx0 : 1 ≤ x0) (hx4 : x0 + 4 ≤ n) (hy2 : 2 ≤ y0) (hy3 : y0 + 3 ≤ n)
    (hk1 : (((y = y0 ∧ x = x0 + 2 ∨ y = y0 + 1 ∧ x = x0 + 2) ∨ y = y0 + 2 ∧ x = x0 + 2) ∧ k1 = 1) ∨ (¬((y = y0 ∧ x = x0 + 2 ∨ y = y0 + 1 ∧ x = x0 + 2) ∨ y = y0 + 2 ∧ x = x0 + 2) ∧ k1 = 0))
    (hk2 : (((y = y0 ∧ x = x0 + 1 ∨ y = y0 + 1 ∧ x = x0 + 1) ∨ y = y0 + 2 ∧ x = x0 + 1) ∧ k2 = 1) ∨ (¬((y = y0 ∧ x = x0 + 1 ∨ y = y0 + 1 ∧ x = x0 + 1) ∨ y = y0 + 2 ∧ x = x0 + 1) ∧ k2 = 0))
    (hk3 : (((y = y0 ∧ x = x0 ∨ y = y0 + 1 ∧ x = x0) ∨ y = y0 + 2 ∧ x = x0) ∧ k3 = 1) ∨ (¬((y = y0 ∧ x = x0 ∨ y = y0 + 1 ∧ x = x0) ∨ y = y0 + 2 ∧ x = x0) ∧ k3 = 0))
    (hk4 : (((y = y0 - 1 ∧ x = x0 + 2 ∨ y = y0 ∧ x = x0 + 2) ∨ y = y0 + 1 ∧ x = x0 + 2) ∧ k4 = 1) ∨ (¬((y = y0 - 1 ∧ x = x0 + 2 ∨ y = y0 ∧ x = x0 + 2) ∨ y = y0 + 1 ∧ x = x0 + 2) ∧ k4 = 0))
    (hk5 : (((y = y0 - 1 ∧ x = x0 ∨ y = y0 ∧ x = x0) ∨ y = y0 + 1 ∧ x = x0) ∧ k5 = 1) ∨ (¬((y = y0 - 1 ∧ x = x0 ∨ y = y0 ∧ x = x0) ∨ y = y0 + 1 ∧ x = x0) ∧ k5 = 0))
    (hk6 : (((y + 2 = y0 ∧ x = x0 + 2 ∨ y + 1 = y0 ∧ x = x0 + 2) ∨ y = y0 ∧ x = x0 + 2) ∧ k6 = 1) ∨ (¬((y + 2 = y0 ∧ x = x0 + 2 ∨ y + 1 = y0 ∧ x = x0 + 2) ∨ y = y0 ∧ x = x0 + 2) ∧ k6 = 0))
    (hk7 : (((y + 2 = y0 ∧ x = x0 + 1 ∨ y + 1 = y0 ∧ x = x0 + 1) ∨ y = y0 ∧ x = x0 + 1) ∧ k7 = 1) ∨ (¬((y + 2 = y0 ∧ x = x0 + 1 ∨ y + 1 = y0 ∧ x = x0 + 1) ∨ y = y0 ∧ x = x0 + 1) ∧ k7 = 0))
    (hk8 : (((y + 2 = y0 ∧ x = x0 ∨ y + 1 = y0 ∧ x = x0) ∨ y = y0 ∧ x = x0) ∧ k8 = 1) ∨ (¬((y + 2 = y0 ∧ x = x0 ∨ y + 1 = y0 ∧ x = x0) ∨ y = y0 ∧ x = x0) ∧ k8 = 0))
    (h1 : x = x0 + 1) (h2 : y0 + 3 ≤ y) :
    (k1 + (k2 + (k3 + (k4 + (k5 + (k6 + (k7 + k8)))))) = 3 ∨ k1 + (k2 + (k3 + (k4 + (k5 + (k6 + (k7 + k8)))))) = 2 ∧ ((y = y0 - 1 ∧ x = x0 + 1 ∨ y = y0 ∧ x = x0 + 1) ∨ y = y0 + 1 ∧ x = x0 + 1)) ↔ ((y = y0 ∧ x = x0 ∨ y = y0 ∧ x = x0 + 1) ∨ y = y0 ∧ x = x0 + 2) := by
  have e1 := ind_val_neg hk1 (by clear hk1 hk2 hk3 hk4 hk5 hk6 hk7 hk8; omega)
  have e2 := ind_val_neg hk2 (by clear hk1 hk2 hk3 hk4 hk5 hk6 hk7 hk8; omega)
  have e3 := ind_val_neg hk3 (by clear hk1 hk2 hk3 hk4 hk5 hk6 hk7 hk8; omega)
  have e4 := ind_val_neg hk4 (by clear hk1 hk2 hk3 hk4 hk5 hk6 hk7 hk8; omega)
  have e5 := ind_val_neg hk5 (by clear hk1 hk2 hk3 hk4 hk5 hk6 hk7 hk8; omega)
  have e6 := ind_val_neg hk6 (by clear hk1 hk2 hk3 hk4 hk5 hk6 hk7 hk8; omega)
  have e7 := ind_val_neg hk7 (by clear hk1 hk2 hk3 hk4 hk5 hk6 hk7 hk8; omega)
  have e8 := ind_val_neg hk8 (by clear hk1 hk2 hk3 hk4 hk5 hk6 hk7 hk8; omega)
  clear hk1 hk2 hk3 hk4 hk5 hk6 hk7 hk8
  omega

/-- Case analysis leaf for `blinker_step2`. -/
theorem blinker_step2_case15 (n x0 y0 x y k1 k2 k3 k4 k5 k6 k7 k8 : Nat)
    (hx0 : 1 ≤ x0) (hx4 : x0 + 4 ≤ n) (hy2 : 2 ≤ y0) (hy3 : y0 + 3 ≤ n)
    (hk1 : (((y = y0 ∧ x = x0 + 2 ∨ y = y0 + 1 ∧ x = x0 + 2) ∨ y = y0 + 2 ∧ x = x0 + 2) ∧ k1 = 1) ∨ (¬((y = y0 ∧ x = x0 + 2 ∨ y = y0 + 1 ∧ x = x0 + 2) ∨ y = y0 + 2 ∧ x = x0 + 2) ∧ k1 = 0))
    (hk2 : (((y = y0 ∧ x = x0 + 1 ∨ y = y0 + 1 ∧ x = x0 + 1) ∨ y = y0 + 2 ∧ x = x0 + 1) ∧ k2 = 1) ∨ (¬((y = y0 ∧ x = x0 + 1 ∨ y = y0 + 1 ∧ x = x0 + 1) ∨ y = y0 + 2 ∧ x = x0 + 1) ∧ k2 = 0))
    (hk3 : (((y = y0 ∧ x = x0 ∨ y = y0 + 1 ∧ x = x0) ∨ y = y0 + 2 ∧ x = x0) ∧ k3 = 1) ∨ (¬((y = y0 ∧ x = x0 ∨ y = y0 + 1 ∧ x = x0) ∨ y = y0 + 2 ∧ x = x0) ∧ k3 = 0))
    (hk4 : (((y = y0 - 1 ∧ x = x0 + 2 ∨ y = y0 ∧ x = x0 + 2) ∨ y = y0 + 1 ∧ x = x0 + 2) ∧ k4 = 1) ∨ (¬((y = y0 - 1 ∧ x = x0 + 2 ∨ y = y0 ∧ x = x0 + 2) ∨ y = y0 + 1 ∧ x = x0 + 2) ∧ k4 = 0))
    (hk5 : (((y = y0 - 1 ∧ x = x0 ∨ y = y0 ∧ x = x0) ∨ y = y0 + 1 ∧ x = x0) ∧ k5 = 1) ∨ (¬((y = y0 - 1 ∧ x = x0 ∨ y = y0 ∧ x = x0) ∨ y = y0 + 1 ∧ x = x0) ∧ k5 = 0))
    (hk6 : (((y + 2 = y0 ∧ x = x0 + 2 ∨ y + 1 = y0 ∧ x = x0 + 2) ∨ y = y0 ∧ x = x0 + 2) ∧ k6 = 1) ∨ (¬((y + 2 = y0 ∧ x = x0 + 2 ∨ y + 1 = y0 ∧ x = x0 + 2) ∨ y = y0 ∧ x = x0 + 2) ∧ k6 = 0))
    (hk7 : (((y + 2 = y0 ∧ x = x0 + 1 ∨ y + 1 = y0 ∧ x = x0 + 1) ∨ y = y0 ∧ x = x0 + 1) ∧ k7 = 1) ∨ (¬((y + 2 = y0 ∧ x = x0 + 1 ∨ y + 1 = y0 ∧ x = x0 + 1) ∨ y = y0 ∧ x = x0 + 1) ∧ k7 = 0))
    (hk8 : (((y + 2 = y0 ∧ x = x0 ∨ y + 1 = y0 ∧ x = x0) ∨ y = y0 ∧ x = x0) ∧ k8 = 1) ∨ (¬((y + 2 = y0 ∧ x = x0 ∨ y + 1 = y0 ∧ x = x0) ∨ y = y0 ∧ x = x0) ∧ k8 = 0))
    (h1 : x = x0 + 2) (h2 : y + 2 = y0) :
    (k1 + (k2 + (k3 + (k4 + (k5 + (k6 + (k7 + k8)))))) = 3 ∨ k1 + (k2 + (k3 + (k4 + (k5 + (k6 + (k7 + k8)))))) = 2 ∧ ((y = y0 - 1 ∧ x = x0 + 1 ∨ y = y0 ∧ x = x0 + 1) ∨ y = y0 + 1 ∧ x = x0 + 1)) ↔ ((y = y0 ∧ x = x0 ∨ y = y0 ∧ x = x0 + 1) ∨ y = y0 ∧ x = x0 + 2) := by
  have e1 := ind_val_neg hk1 (by clear hk1 hk2 hk3 hk4 hk5 hk6 hk7 hk8; omega)
  have e2 := ind_val_neg hk2 (by clear hk1 hk2 hk3 hk4 hk5 hk6 hk7 hk8; omega)
  have e3 := ind_val_neg hk3 (by clear hk1 hk2 hk3 hk4 hk5 hk6 hk7 hk8; omega)
  have e4 := ind_val_neg hk4 (by clear hk1 hk2 hk3 hk4 hk5 hk6 hk7 hk8; omega)
  have e5 := ind_val_neg hk5 (by clear hk1 hk2 hk3 hk4 hk5 hk6 hk7 hk8; omega)
  have e6 := ind_val_pos hk6 (by clear hk1 hk2 hk3 hk4 hk5 hk6 hk7 hk8; omega)
  have e7 := ind_val_neg hk7 (by clear hk1 hk2 hk3 hk4 hk5 hk6 hk7 hk8; omega)
  have e8 := ind_val_neg hk8 (by clear hk1 hk2 hk3 hk4 hk5 hk6 hk7 hk8; omega)
  clear hk1 hk2 hk3 hk4 hk5 hk6 hk7 hk8
  omega

/-- Case analysis leaf for `blinker_step2`. -/
theorem blinker_step2_case16 (n x0 y0 x y k1 k2 k3 k4 k5 k6 k7 k8 : Nat)
    (hx0 : 1 ≤ x0) (hx4 : x0 + 4 ≤ n) (hy2 : 2 ≤ y0) (hy3 : y0 + 3 ≤ n)
    (hk1 : (((y = y0 ∧ x = x0 + 2 ∨ y = y0 + 1 ∧ x = x0 + 2) ∨ y = y0 + 2 ∧ x = x0 + 2) ∧ k1 = 1) ∨ (¬((y = y0 ∧ x = x0 + 2 ∨ y = y0 + 1 ∧ x = x0 + 2) ∨ y = y0 + 2 ∧ x = x0 + 2) ∧ k1 = 0))
    (hk2 : (((y = y0 ∧ x = x0 + 1 ∨ y = y0 + 1 ∧ x = x0 + 1) ∨ y = y0 + 2 ∧ x = x0 + 1) ∧ k2 = 1) ∨ (¬((y = y0 ∧ x = x0 + 1 ∨ y = y0 + 1 ∧ x = x0 + 1) ∨ y = y0 + 2 ∧ x = x0 + 1) ∧ k2 = 0))
    (hk3 : (((y = y0 ∧ x = x0 ∨ y = y0 + 1 ∧ x = x0) ∨ y = y0 + 2 ∧ x = x0) ∧ k3 = 1) ∨ (¬((y = y0 ∧ x = x0 ∨ y = y0 + 1 ∧ x = x0) ∨ y = y0 + 2 ∧ x = x0) ∧ k3 = 0))
    (hk4 : (((y = y0 - 1 ∧ x = x0 + 2 ∨ y = y0 ∧ x = x0 + 2) ∨ y = y0 + 1 ∧ x = x0 + 2) ∧ k4 = 1) ∨ (¬((y = y0 - 1 ∧ x = x0 + 2 ∨ y = y0 ∧ x = x0 + 2) ∨ y = y0 + 1 ∧ x = x0 + 2) ∧ k4 = 0))
    (hk5 : (((y = y0 - 1 ∧ x = x0 ∨ y = y0 ∧ x = x0) ∨ y = y0 + 1 ∧ x = x0) ∧ k5 = 1) ∨ (¬((y = y0 - 1 ∧ x = x0 ∨ y = y0 ∧ x = x0) ∨ y = y0 + 1 ∧ x = x0) ∧ k5 = 0))
    (hk6 : (((y + 2 = y0 ∧ x = x0 + 2 ∨ y + 1 = y0 ∧ x = x0 + 2) ∨ y = y0 ∧ x = x0 + 2) ∧ k6 = 1) ∨ (¬((y + 2 = y0 ∧ x = x0 + 2 ∨ y + 1 = y0 ∧ x = x0 + 2) ∨ y = y0 ∧ x = x0 + 2) ∧ k6 = 0))
    (hk7 : (((y + 2 = y0 ∧ x = x0 + 1 ∨ y + 1 = y0 ∧ x = x0 + 1) ∨ y = y0 ∧ x = x0 + 1) ∧ k7 = 1) ∨ (¬((y + 2 = y0 ∧ x = x0 + 1 ∨ y + 1 = y0 ∧ x = x0 + 1) ∨ y = y0 ∧ x = x0 + 1) ∧ k7 = 0))
    (hk8 : (((y + 2 = y0 ∧ x = x0 ∨ y + 1 = y0 ∧ x = x0) ∨ y = y0 ∧ x = x0) ∧ k8 = 1) ∨ (¬((y + 2 = y0 ∧ x = x0 ∨ y + 1 = y0 ∧ x = x0) ∨ y = y0 ∧ x = x0) ∧ k8 = 0))
    (h1 : x = x0 + 2) (h2 : y + 1 = y0) :
    (k1 + (k2 + (k3 + (k4 + (k5 + (k6 + (k7 + k8)))))) = 3 ∨ k1 + (k2 + (k3 + (k4 + (k5 + (k6 + (k7 + k8)))))) = 2 ∧ ((y = y0 - 1 ∧ x = x0 + 1 ∨ y = y0 ∧ x = x0 + 1) ∨ y = y0 + 1 ∧ x = x0 + 1)) ↔ ((y = y0 ∧ x = x0 ∨ y = y0 ∧ x = x0 + 1) ∨ y = y0 ∧ x = x0 + 2) := by
  have e1 := ind_val_neg hk1 (by clear hk1 hk2 hk3 hk4 hk5 hk6 hk7 hk8; omega)
  have e2 := ind_val_neg hk2 (by clear hk1 hk2 hk3 hk4 hk5 hk6 hk7 hk8; omega)
  have e3 := ind_val_neg hk3 (by clear hk1 hk2 hk3 hk4 hk5 hk6 hk7 hk8; omega)
  have e4 := ind_val_pos hk4 (by clear hk1 hk2 hk3 hk4 hk5 hk6 hk7 hk8; omega)
  have e5 := ind_val_neg hk5 (by clear hk1 hk2 hk3 hk4 hk5 hk6 hk7 hk8; omega)
  have e6 := ind_val_pos hk6 (by clear hk1 hk2 hk3 hk4 hk5 hk6 hk7 hk8; omega)
  have e7 := ind_val_neg hk7 (by clear hk1 hk2 hk3 hk4 hk5 hk6 hk7 hk8; omega)
  have e8 := ind_val_neg hk8 (by clear hk1 hk2 hk3 hk4 hk5 hk6 hk7 hk8; omega)
  clear hk1 hk2 hk3 hk4 hk5 hk6 hk7 hk8
  omega

/-- Case analysis leaf for `blinker_step2`. -/
theorem blinker_step2_case17 (n x0 y0 x y k1 k2 k3 k4 k5 k6 k7 k8 : Nat)
    (hx0 : 1 ≤ x0) (hx4 : x0 + 4 ≤ n) (hy2 : 2 ≤ y0) (hy3 : y0 + 3 ≤ n)
    (hk1 : (((y = y0 ∧ x = x0 + 2 ∨ y = y0 + 1 ∧ x = x0 + 2) ∨ y = y0 + 2 ∧ x = x0 + 2) ∧ k1 = 1) ∨ (¬((y = y0 ∧ x = x0 + 2 ∨ y = y0 + 1 ∧ x = x0 + 2) ∨ y = y0 + 2 ∧ x = x0 + 2) ∧ k1 = 0))
    (hk2 : (((y = y0 ∧ x = x0 + 1 ∨ y = y0 + 1 ∧ x = x0 + 1) ∨ y = y0 + 2 ∧ x = x0 + 1) ∧ k2 = 1) ∨ (¬((y = y0 ∧ x = x0 + 1 ∨ y = y0 + 1 ∧ x = x0 + 1) ∨ y = y0 + 2 ∧ x = x0 + 1) ∧ k2 = 0))
    (hk3 : (((y = y0 ∧ x = x0 ∨ y = y0 + 1 ∧ x = x0) ∨ y = y0 + 2 ∧ x = x0) ∧ k3 = 1) ∨ (¬((y = y0 ∧ x = x0 ∨ y = y0 + 1 ∧ x = x0) ∨ y = y0 + 2 ∧ x = x0) ∧ k3 = 0))
    (hk4 : (((y = y0 - 1 ∧ x = x0 + 2 ∨ y = y0 ∧ x = x0 + 2) ∨ y = y0 + 1 ∧ x = x0 + 2) ∧ k4 = 1) ∨ (¬((y = y0 - 1 ∧ x = x0 + 2 ∨ y = y0 ∧ x = x0 + 2) ∨ y = y0 + 1 ∧ x = x0 + 2) ∧ k4 = 0))
    (hk5 : (((y = y0 - 1 ∧ x = x0 ∨ y = y0 ∧ x = x0) ∨ y = y0 + 1 ∧ x = x0) ∧ k5 = 1) ∨ (¬((y = y0 - 1 ∧ x = x0 ∨ y = y0 ∧ x = x0) ∨ y = y0 + 1 ∧ x = x0) ∧ k5 = 0))
    (hk6 : (((y + 2 = y0 ∧ x = x0 + 2 ∨ y + 1 = y0 ∧ x = x0 + 2) ∨ y = y0 ∧ x = x0 + 2) ∧ k6 = 1) ∨ (¬((y + 2 = y0 ∧ x = x0 + 2 ∨ y + 1 = y0 ∧ x = x0 + 2) ∨ y = y0 ∧ x = x0 + 2) ∧ k6 = 0))
    (hk7 : (((y + 2 = y0 ∧ x = x0 + 1 ∨ y + 1 = y0 ∧ x = x0 + 1) ∨ y = y0 ∧ x = x0 + 1) ∧ k7 = 1) ∨ (¬((y + 2 = y0 ∧ x = x0 + 1 ∨ y + 1 = y0 ∧ x = x0 + 1) ∨ y = y0 ∧ x = x0 + 1) ∧ k7 = 0))
    (hk8 : (((y + 2 = y0 ∧ x = x0 ∨ y + 1 = y0 ∧ x = x0) ∨ y = y0 ∧ x = x0) ∧ k8 = 1) ∨ (¬((y + 2 = y0 ∧ x = x0 ∨ y + 1 = y0 ∧ x = x0) ∨ y = y0 ∧ x = x0) ∧ k8 = 0))
    (h1 : x = x0 + 2) (h2 : y = y0) :
    (k1 + (k2 + (k3 + (k4 + (k5 + (k6 + (k7 + k8)))))) = 3 ∨ k1 + (k2 + (k3 + (k4 + (k5 + (k6 + (k7 + k8)))))) = 2 ∧ ((y = y0 - 1 ∧ x = x0 + 1 ∨ y = y0 ∧ x = x0 + 1) ∨ y = y0 + 1 ∧ x = x0 + 1)) ↔ ((y = y0 ∧ x = x0 ∨ y = y0 ∧ x = x0 + 1) ∨ y = y0 ∧ x = x0 + 2) := by
  have e1 := ind_val_pos hk1 (by clear hk1 hk2 hk3 hk4 hk5 hk6 hk7 hk8; omega)
  have e2 := ind_val_neg hk2 (by clear hk1 hk2 hk3 hk4 hk5 hk6 hk7 hk8; omega)
  have e3 := ind_val_neg hk3 (by clear hk1 hk2 hk3 hk4 hk5 hk6 hk7 hk8; omega)
  have e4 := ind_val_pos hk4 (by clear hk1 hk2 hk3 hk4 hk5 hk6 hk7 hk8; omega)
  have e5 := ind_val_neg hk5 (by clear hk1 hk2 hk3 hk4 hk5 hk6 hk7 hk8; omega)
  have e6 := ind_val_pos hk6 (by clear hk1 hk2 hk3 hk4 hk5 hk6 hk7 hk8; omega)
  have e7 := ind_val_neg hk7 (by clear hk1 hk2 hk3 hk4 hk5 hk6 hk7 hk8; omega)
  have e8 := ind_val_neg hk8 (by clear hk1 hk2 hk3 hk4 hk5 hk6 hk7 hk8; omega)
  clear hk1 hk2 hk3 hk4 hk5 hk6 hk7 hk8
  omega

/-- Case analysis leaf for `blinker_step2`. -/
theorem blinker_step2_case18 (n x0 y0 x y k1 k2 k3 k4 k5 k6 k7 k8 : Nat)
    (hx0 : 1 ≤ x0) (hx4 : x0 + 4 ≤ n) (hy2 : 2 ≤ y0) (hy3 : y0 + 3 ≤ n)
    (hk1 : (((y = y0 ∧ x = x0 + 2 ∨ y = y0 + 1 ∧ x = x0 + 2) ∨ y = y0 + 2 ∧ x = x0 + 2) ∧ k1 = 1) ∨ (¬((y = y0 ∧ x = x0 + 2 ∨ y = y0 + 1 ∧ x = x0 + 2) ∨ y = y0 + 2 ∧ x = x0 + 2) ∧ k1 = 0))
    (hk2 : (((y = y0 ∧ x = x0 + 1 ∨ y = y0 + 1 ∧ x = x0 + 1) ∨ y = y0 + 2 ∧ x = x0 + 1) ∧ k2 = 1) ∨ (¬((y = y0 ∧ x = x0 + 1 ∨ y = y0 + 1 ∧ x = x0 + 1) ∨ y = y0 + 2 ∧ x = x0 + 1) ∧ k2 = 0))
    (hk3 : (((y = y0 ∧ x = x0 ∨ y = y0 + 1 ∧ x = x0) ∨ y = y0 + 2 ∧ x = x0) ∧ k3 = 1) ∨ (¬((y = y0 ∧ x = x0 ∨ y = y0 + 1 ∧ x = x0) ∨ y = y0 + 2 ∧ x = x0) ∧ k3 = 0))
    (hk4 : (((y = y0 - 1 ∧ x = x0 + 2 ∨ y = y0 ∧ x = x0 + 2) ∨ y = y0 + 1 ∧ x = x0 + 2) ∧ k4 = 1) ∨ (¬((y = y0 - 1 ∧ x = x0 + 2 ∨ y = y0 ∧ x = x0 + 2) ∨ y = y0 + 1 ∧ x = x0 + 2) ∧ k4 = 0))
    (hk5 : (((y = y0 - 1 ∧ x = x0 ∨ y = y0 ∧ x = x0) ∨ y = y0 + 1 ∧ x = x0) ∧ k5 = 1) ∨ (¬((y = y0 - 1 ∧ x = x0 ∨ y = y0 ∧ x = x0) ∨ y = y0 + 1 ∧ x = x0) ∧ k5 = 0))
    (hk6 : (((y + 2 = y0 ∧ x = x0 + 2 ∨ y + 1 = y0 ∧ x = x0 + 2) ∨ y = y0 ∧ x = x0 + 2) ∧ k6 = 1) ∨ (¬((y + 2 = y0 ∧ x = x0 + 2 ∨ y + 1 = y0 ∧ x = x0 + 2) ∨ y = y0 ∧ x = x0 + 2) ∧ k6 = 0))
    (hk7 : (((y + 2 = y0 ∧ x = x0 + 1 ∨ y + 1 = y0 ∧ x = x0 + 1) ∨ y = y0 ∧ x = x0 + 1) ∧ k7 = 1) ∨ (¬((y + 2 = y0 ∧ x = x0 + 1 ∨ y + 1 = y0 ∧ x = x0 + 1) ∨ y = y0 ∧ x = x0 + 1) ∧ k7 = 0))
    (hk8 : (((y + 2 = y0 ∧ x = x0 ∨ y + 1 = y0 ∧ x = x0) ∨ y = y0 ∧ x = x0) ∧ k8 = 1) ∨ (¬((y + 2 = y0 ∧ x = x0 ∨ y + 1 = y0 ∧ x = x0) ∨ y = y0 ∧ x = x0) ∧ k8 = 0))
    (h1 : x = x0 + 2) (h2 : y = y0 + 1) :
    (k1 + (k2 + (k3 + (k4 + (k5 + (k6 + (k7 + k8)))))) = 3 ∨ k1 + (k2 + (k3 + (k4 + (k5 + (k6 + (k7 + k8)))))) = 2 ∧ ((y = y0 - 1 ∧ x = x0 + 1 ∨ y = y0 ∧ x = x0 + 1) ∨ y = y0 + 1 ∧ x = x0 + 1)) ↔ ((y = y0 ∧ x = x0 ∨ y = y0 ∧ x = x0 + 1) ∨ y = y0 ∧ x = x0 + 2) := by
  have e1 := ind_val_pos hk1 (by clear hk1 hk2 hk3 hk4 hk5 hk6 hk7 hk8; omega)
  have e2 := ind_val_neg hk2 (by clear hk1 hk2 hk3 hk4 hk5 hk6 hk7 hk8; omega)
  have e3 := ind_val_neg hk3 (by clear hk1 hk2 hk3 hk4 hk5 hk6 hk7 hk8; omega)
  have e4 := ind_val_pos hk4 (by clear hk1 hk2 hk3 hk4 hk5 hk6 hk7 hk8; omega)
  have e5 := ind_val_neg hk5 (by clear hk1 hk2 hk3 hk4 hk5 hk6 hk7 hk8; omega)
  have e6 := ind_val_neg hk6 (by clear hk1 hk2 hk3 hk4 hk5 hk6 hk7 hk8; omega)
  have e7 := ind_val_neg hk7 (by clear hk1 hk2 hk3 hk4 hk5 hk6 hk7 hk8; omega)
  have e8 := ind_val_neg hk8 (by clear hk1 hk2 hk3 hk4 hk5 hk6 hk7 hk8; omega)
  clear hk1 hk2 hk3 hk4 hk5 hk6 hk7 hk8
  omega

/-- Case analysis leaf for `blinker_step2`. -/
theorem blinker_step2_case19 (n x0 y0 x y k1 k2 k3 k4 k5 k6 k7 k8 : Nat)
    (hx0 : 1 ≤ x0) (hx4 : x0 + 4 ≤ n) (hy2 : 2 ≤ y0) (hy3 : y0 + 3 ≤ n)
    (hk1 : (((y = y0 ∧ x = x0 + 2 ∨ y = y0 + 1 ∧ x = x0 + 2) ∨ y = y0 + 2 ∧ x = x0 + 2) ∧ k1 = 1) ∨ (¬((y = y0 ∧ x = x0 + 2 ∨ y = y0 + 1 ∧ x = x0 + 2) ∨ y = y0 + 2 ∧ x = x0 + 2) ∧ k1 = 0))
    (hk2 : (((y = y0 ∧ x = x0 + 1 ∨ y = y0 + 1 ∧ x = x0 + 1) ∨ y = y0 + 2 ∧ x = x0 + 1) ∧ k2 = 1) ∨ (¬((y = y0 ∧ x = x0 + 1 ∨ y = y0 + 1 ∧ x = x0 + 1) ∨ y = y0 + 2 ∧ x = x0 + 1) ∧ k2 = 0))
    (hk3 : (((y = y0 ∧ x = x0 ∨ y = y0 + 1 ∧ x = x0) ∨ y = y0 + 2 ∧ x = x0) ∧ k3 = 1) ∨ (¬((y = y0 ∧ x = x0 ∨ y = y0 + 1 ∧ x = x0) ∨ y = y0 + 2 ∧ x = x0) ∧ k3 = 0))
    (hk4 : (((y = y0 - 1 ∧ x = x0 + 2 ∨ y = y0 ∧ x = x0 + 2) ∨ y = y0 + 1 ∧ x = x0 + 2) ∧ k4 = 1) ∨ (¬((y = y0 - 1 ∧ x = x0 + 2 ∨ y = y0 ∧ x = x0 + 2) ∨ y = y0 + 1 ∧ x = x0 + 2) ∧ k4 = 0))
    (hk5 : (((y = y0 - 1 ∧ x = x0 ∨ y = y0 ∧ x = x0) ∨ y = y0 + 1 ∧ x = x0) ∧ k5 = 1) ∨ (¬((y = y0 - 1 ∧ x = x0 ∨ y = y0 ∧ x = x0) ∨ y = y0 + 1 ∧ x = x0) ∧ k5 = 0))
    (hk6 : (((y + 2 = y0 ∧ x = x0 + 2 ∨ y + 1 = y0 ∧ x = x0 + 2) ∨ y = y0 ∧ x = x0 + 2) ∧ k6 = 1) ∨ (¬((y + 2 = y0 ∧ x = x0 + 2 ∨ y + 1 = y0 ∧ x = x0 + 2) ∨ y = y0 ∧ x = x0 + 2) ∧ k6 = 0))
    (hk7 : (((y + 2 = y0 ∧ x = x0 + 1 ∨ y + 1 = y0 ∧ x = x0 + 1) ∨ y = y0 ∧ x = x0 + 1) ∧ k7 = 1) ∨ (¬((y + 2 = y0 ∧ x = x0 + 1 ∨ y + 1 = y0 ∧ x = x0 + 1) ∨ y = y0 ∧ x = x0 + 1) ∧ k7 = 0))
    (hk8 : (((y + 2 = y0 ∧ x = x0 ∨ y + 1 = y0 ∧ x = x0) ∨ y = y0 ∧ x = x0) ∧ k8 = 1) ∨ (¬((y + 2 = y0 ∧ x = x0 ∨ y + 1 = y0 ∧ x = x0) ∨ y = y0 ∧ x = x0) ∧ k8 = 0))
    (h1 : x = x0 + 2) (h2 : y = y0 + 2) :
    (k1 + (k2 + (k3 + (k4 + (k5 + (k6 + (k7 + k8)))))) = 3 ∨ k1 + (k2 + (k3 + (k4 + (k5 + (k6 + (k7 + k8)))))) = 2 ∧ ((y = y0 - 1 ∧ x = x0 + 1 ∨ y = y0 ∧ x = x0 + 1) ∨ y = y0 + 1 ∧ x = x0 + 1)) ↔ ((y = y0 ∧ x = x0 ∨ y = y0 ∧ x = x0 + 1) ∨ y = y0 ∧ x = x0 + 2) := by
  have e1 := ind_val_pos hk1 (by clear hk1 hk2 hk3 hk4 hk5 hk6 hk7 hk8; omega)
  have e2 := ind_val_neg hk2 (by clear hk1 hk2 hk3 hk4 hk5 hk6 hk7 hk8; omega)
  have e3 := ind_val_neg hk3 (by clear hk1 hk2 hk3 hk4 hk5 hk6 hk7 hk8; omega)
  have e4 := ind_val_neg hk4 (by clear hk1 hk2 hk3 hk4 hk5 hk6 hk7 hk8; omega)
  have e5 := ind_val_neg hk5 (by clear hk1 hk2 hk3 hk4 hk5 hk6 hk7 hk8; omega)
  have e6 := ind_val_neg hk6 (by clear hk1 hk2 hk3 hk4 hk5 hk6 hk7 hk8; omega)
  have e7 := ind_val_neg hk7 (by clear hk1 hk2 hk3 hk4 hk5 hk6 hk7 hk8; omega)
  have e8 := ind_val_neg hk8 (by clear hk1 hk2 hk3 hk4 hk5 hk6 hk7 hk8; omega)
  clear hk1 hk2 hk3 hk4 hk5 hk6 hk7 hk8
  omega

/-- Case analysis leaf for `blinker_step2`. -/
theorem blinker_step2_case20 (n x0 y0 x y k1 k2 k3 k4 k5 k6 k7 k8 : Nat)
    (hx0 : 1 ≤ x0) (hx4 : x0 + 4 ≤ n) (hy2 : 2 ≤ y0) (hy3 : y0 + 3 ≤ n)
    (hk1 : (((y = y0 ∧ x = x0 + 2 ∨ y = y0 + 1 ∧ x = x0 + 2) ∨ y = y0 + 2 ∧ x = x0 + 2) ∧ k1 = 1) ∨ (¬((y = y0 ∧ x = x0 + 2 ∨ y = y0 + 1 ∧ x = x0 + 2) ∨ y = y0 + 2 ∧ x = x0 + 2) ∧ k1 = 0))
    (hk2 : (((y = y0 ∧ x = x0 + 1 ∨ y = y0 + 1 ∧ x = x0 + 1) ∨ y = y0 + 2 ∧ x = x0 + 1) ∧ k2 = 1) ∨ (¬((y = y0 ∧ x = x0 + 1 ∨ y = y0 + 1 ∧ x = x0 + 1) ∨ y = y0 + 2 ∧ x = x0 + 1) ∧ k2 = 0))
    (hk3 : (((y = y0 ∧ x = x0 ∨ y = y0 + 1 ∧ x = x0) ∨ y = y0 + 2 ∧ x = x0) ∧ k3 = 1) ∨ (¬((y = y0 ∧ x = x0 ∨ y = y0 + 1 ∧ x = x0) ∨ y = y0 + 2 ∧ x = x0) ∧ k3 = 0))
    (hk4 : (((y = y0 - 1 ∧ x = x0 + 2 ∨ y = y0 ∧ x = x0 + 2) ∨ y = y0 + 1 ∧ x = x0 + 2) ∧ k4 = 1) ∨ (¬((y = y0 - 1 ∧ x = x0 + 2 ∨ y = y0 ∧ x = x0 + 2) ∨ y = y0 + 1 ∧ x = x0 + 2) ∧ k4 = 0))
    (hk5 : (((y = y0 - 1 ∧ x = x0 ∨ y = y0 ∧ x = x0) ∨ y = y0 + 1 ∧ x = x0) ∧ k5 = 1) ∨ (¬((y = y0 - 1 ∧ x = x0 ∨ y = y0 ∧ x = x0) ∨ y = y0 + 1 ∧ x = x0) ∧ k5 = 0))
    (hk6 : (((y + 2 = y0 ∧ x = x0 + 2 ∨ y + 1 = y0 ∧ x = x0 + 2) ∨ y = y0 ∧ x = x0 + 2) ∧ k6 = 1) ∨ (¬((y + 2 = y0 ∧ x = x0 + 2 ∨ y + 1 = y0 ∧ x = x0 + 2) ∨ y = y0 ∧ x = x0 + 2) ∧ k6 = 0))
    (hk7 : (((y + 2 = y0 ∧ x = x0 + 1 ∨ y + 1 = y0 ∧ x = x0 + 1) ∨ y = y0 ∧ x = x0 + 1) ∧ k7 = 1) ∨ (¬((y + 2 = y0 ∧ x = x0 + 1 ∨ y + 1 = y0 ∧ x = x0 + 1) ∨ y = y0 ∧ x = x0 + 1) ∧ k7 = 0))
    (hk8 : (((y + 2 = y0 ∧ x = x0 ∨ y + 1 = y0 ∧ x = x0) ∨ y = y0 ∧ x = x0) ∧ k8 = 1) ∨ (¬((y + 2 = y0 ∧ x = x0 ∨ y + 1 = y0 ∧ x = x0) ∨ y = y0 ∧ x = x0) ∧ k8 = 0))
    (h1 : x = x0 + 2) (h2 : y + 2 < y0) :
    (k1 + (k2 + (k3 + (k4 + (k5 + (k6 + (k7 + k8)))))) = 3 ∨ k1 + (k2 + (k3 + (k4 + (k5 + (k6 + (k7 + k8)))))) = 2 ∧ ((y = y0 - 1 ∧ x = x0 + 1 ∨ y = y0 ∧ x = x0 + 1) ∨ y = y0 + 1 ∧ x = x0 + 1)) ↔ ((y = y0 ∧ x = x0 ∨ y = y0 ∧ x = x0 + 1) ∨ y = y0 ∧ x = x0 + 2) := by
  have e1 := ind_val_neg hk1 (by clear hk1 hk2 hk3 hk4 hk5 hk6 hk7 hk8; omega)
  have e2 := ind_val_neg hk2 (by clear hk1 hk2 hk3 hk4 hk5 hk6 hk7 hk8; omega)
  have e3 := ind_val_neg hk3 (by clear hk1 hk2 hk3 hk4 hk5 hk6 hk7 hk8; omega)
  have e4 := ind_val_neg hk4 (by clear hk1 hk2 hk3 hk4 hk5 hk6 hk7 hk8; omega)
  have e5 := ind_val_neg hk5 (by clear hk1 hk2 hk3 hk4 hk5 hk6 hk7 hk8; omega)
  have e6 := ind_val_neg hk6 (by clear hk1 hk2 hk3 hk4 hk5 hk6 hk7 hk8; omega)
  have e7 := ind_val_neg hk7 (by clear hk1 hk2 hk3 hk4 hk5 hk6 hk7 hk8; omega)
  have e8 := ind_val_neg hk8 (by clear hk1 hk2 hk3 hk4 hk5 hk6 hk7 hk8; omega)
  clear hk1 hk2 hk3 hk4 hk5 hk6 hk7 hk8
  omega

/-- Case analysis leaf for `blinker_step2`. -/
theorem blinker_step2_case21 (n x0 y0 x y k1 k2 k3 k4 k5 k6 k7 k8 : Nat)
    (hx0 : 1 ≤ x0) (hx4 : x0 + 4 ≤ n) (hy2 : 2 ≤ y0) (hy3 : y0 + 3 ≤ n)
    (hk1 : (((y = y0 ∧ x = x0 + 2 ∨ y = y0 + 1 ∧ x = x0 + 2) ∨ y = y0 + 2 ∧ x = x0 + 2) ∧ k1 = 1) ∨ (¬((y = y0 ∧ x = x0 + 2 ∨ y = y0 + 1 ∧ x = x0 + 2) ∨ y = y0 + 2 ∧ x = x0 + 2) ∧ k1 = 0))
    (hk2 : (((y = y0 ∧ x = x0 + 1 ∨ y = y0 + 1 ∧ x = x0 + 1) ∨ y = y0 + 2 ∧ x = x0 + 1) ∧ k2 = 1) ∨ (¬((y = y0 ∧ x = x0 + 1 ∨ y = y0 + 1 ∧ x = x0 + 1) ∨ y = y0 + 2 ∧ x = x0 + 1) ∧ k2 = 0))
    (hk3 : (((y = y0 ∧ x = x0 ∨ y = y0 + 1 ∧ x = x0) ∨ y = y0 + 2 ∧ x = x0) ∧ k3 = 1) ∨ (¬((y = y0 ∧ x = x0 ∨ y = y0 + 1 ∧ x = x0) ∨ y = y0 + 2 ∧ x = x0) ∧ k3 = 0))
    (hk4 : (((y = y0 - 1 ∧ x = x0 + 2 ∨ y = y0 ∧ x = x0 + 2) ∨ y = y0 + 1 ∧ x = x0 + 2) ∧ k4 = 1) ∨ (¬((y = y0 - 1 ∧ x = x0 + 2 ∨ y = y0 ∧ x = x0 + 2) ∨ y = y0 + 1 ∧ x = x0 + 2) ∧ k4 = 0))
    (hk5 : (((y = y0 - 1 ∧ x = x0 ∨ y = y0 ∧ x = x0) ∨ y = y0 + 1 ∧ x = x0) ∧ k5 = 1) ∨ (¬((y = y0 - 1 ∧ x = x0 ∨ y = y0 ∧ x = x0) ∨ y = y0 + 1 ∧ x = x0) ∧ k5 = 0))
    (hk6 : (((y + 2 = y0 ∧ x = x0 + 2 ∨ y + 1 = y0 ∧ x = x0 + 2) ∨ y = y0 ∧ x = x0 + 2) ∧ k6 = 1) ∨ (¬((y + 2 = y0 ∧ x = x0 + 2 ∨ y + 1 = y0 ∧ x = x0 + 2) ∨ y = y0 ∧ x = x0 + 2) ∧ k6 = 0))
    (hk7 : (((y + 2 = y0 ∧ x = x0 + 1 ∨ y + 1 = y0 ∧ x = x0 + 1) ∨ y = y0 ∧ x = x0 + 1) ∧ k7 = 1) ∨ (¬((y + 2 = y0 ∧ x = x0 + 1 ∨ y + 1 = y0 ∧ x = x0 + 1) ∨ y = y0 ∧ x = x0 + 1) ∧ k7 = 0))
    (hk8 : (((y + 2 = y0 ∧ x = x0 ∨ y + 1 = y0 ∧ x = x0) ∨ y = y0 ∧ x = x0) ∧ k8 = 1) ∨ (¬((y + 2 = y0 ∧ x = x0 ∨ y + 1 = y0 ∧ x = x0) ∨ y = y0 ∧ x = x0) ∧ k8 = 0))
    (h1 : x = x0 + 2) (h2 : y0 + 3 ≤ y) :
    (k1 + (k2 + (k3 + (k4 + (k5 + (k6 + (k7 + k8)))))) = 3 ∨ k1 + (k2 + (k3 + (k4 + (k5 + (k6 + (k7 + k8)))))) = 2 ∧ ((y = y0 - 1 ∧ x = x0 + 1 ∨ y = y0 ∧ x = x0 + 1) ∨ y = y0 + 1 ∧ x = x0 + 1)) ↔ ((y = y0 ∧ x = x0 ∨ y = y0 ∧ x = x0 + 1) ∨ y = y0 ∧ x = x0 + 2) := by
  have e1 := ind_val_neg hk1 (by clear hk1 hk2 hk3 hk4 hk5 hk6 hk7 hk8; omega)
  have e2 := ind_val_neg hk2 (by clear hk1 hk2 hk3 hk4 hk5 hk6 hk7 hk8; omega)
  have e3 := ind_val_neg hk3 (by clear hk1 hk2 hk3 hk4 hk5 hk6 hk7 hk8; omega)
  have e4 := ind_val_neg hk4 (by clear hk1 hk2 hk3 hk4 hk5 hk6 hk7 hk8; omega)
  have e5 := ind_val_neg hk5 (by clear hk1 hk2 hk3 hk4 hk5 hk6 hk7 hk8; omega)
  have e6 := ind_val_neg hk6 (by clear hk1 hk2 hk3 hk4 hk5 hk6 hk7 hk8; omega)
  have e7 := ind_val_neg hk7 (by clear hk1 hk2 hk3 hk4 hk5 hk6 hk7 hk8; omega)
  have e8 := ind_val_neg hk8 (by clear hk1 hk2 hk3 hk4 hk5 hk6 hk7 hk8; omega)
  clear hk1 hk2 hk3 hk4 hk5 hk6 hk7 hk8
  omega

/-- Case analysis leaf for `blinker_step2`. -/
theorem blinker_step2_case22 (n x0 y0 x y k1 k2 k3 k4 k5 k6 k7 k8 : Nat)
    (hx0 : 1 ≤ x0) (hx4 : x0 + 4 ≤ n) (hy2 : 2 ≤ y0) (hy3 : y0 + 3 ≤ n)
    (hk1 : (((y = y0 ∧ x = x0 + 2 ∨ y = y0 + 1 ∧ x = x0 + 2) ∨ y = y0 + 2 ∧ x = x0 + 2) ∧ k1 = 1) ∨ (¬((y = y0 ∧ x = x0 + 2 ∨ y = y0 + 1 ∧ x = x0 + 2) ∨ y = y0 + 2 ∧ x = x0 + 2) ∧ k1 = 0))
    (hk2 : (((y = y0 ∧ x = x0 + 1 ∨ y = y0 + 1 ∧ x = x0 + 1) ∨ y = y0 + 2 ∧ x = x0 + 1) ∧ k2 = 1) ∨ (¬((y = y0 ∧ x = x0 + 1 ∨ y = y0 + 1 ∧ x = x0 + 1) ∨ y = y0 + 2 ∧ x = x0 + 1) ∧ k2 = 0))
    (hk3 : (((y = y0 ∧ x = x0 ∨ y = y0 + 1 ∧ x = x0) ∨ y = y0 + 2 ∧ x = x0) ∧ k3 = 1) ∨ (¬((y = y0 ∧ x = x0 ∨ y = y0 + 1 ∧ x = x0) ∨ y = y0 + 2 ∧ x = x0) ∧ k3 = 0))
    (hk4 : (((y = y0 - 1 ∧ x = x0 + 2 ∨ y = y0 ∧ x = x0 + 2) ∨ y = y0 + 1 ∧ x = x0 + 2) ∧ k4 = 1) ∨ (¬((y = y0 - 1 ∧ x = x0 + 2 ∨ y = y0 ∧ x = x0 + 2) ∨ y = y0 + 1 ∧ x = x0 + 2) ∧ k4 = 0))
    (hk5 : (((y = y0 - 1 ∧ x = x0 ∨ y = y0 ∧ x = x0) ∨ y = y0 + 1 ∧ x = x0) ∧ k5 = 1) ∨ (¬((y = y0 - 1 ∧ x = x0 ∨ y = y0 ∧ x = x0) ∨ y = y0 + 1 ∧ x = x0) ∧ k5 = 0))
    (hk6 : (((y + 2 = y0 ∧ x = x0 + 2 ∨ y + 1 = y0 ∧ x = x0 + 2) ∨ y = y0 ∧ x = x0 + 2) ∧ k6 = 1) ∨ (¬((y + 2 = y0 ∧ x = x0 + 2 ∨ y + 1 = y0 ∧ x = x0 + 2) ∨ y = y0 ∧ x = x0 + 2) ∧ k6 = 0))
    (hk7 : (((y + 2 = y0 ∧ x = x0 + 1 ∨ y + 1 = y0 ∧ x = x0 + 1) ∨ y = y0 ∧ x = x0 + 1) ∧ k7 = 1) ∨ (¬((y + 2 = y0 ∧ x = x0 + 1 ∨ y + 1 = y0 ∧ x = x0 + 1) ∨ y = y0 ∧ x = x0 + 1) ∧ k7 = 0))
    (hk8 : (((y + 2 = y0 ∧ x = x0 ∨ y + 1 = y0 ∧ x = x0) ∨ y = y0 ∧ x = x0) ∧ k8 = 1) ∨ (¬((y + 2 = y0 ∧ x = x0 ∨ y + 1 = y0 ∧ x = x0) ∨ y = y0 ∧ x = x0) ∧ k8 = 0))
    (h1 : x < x0) (h2 : y + 2 = y0) :
    (k1 + (k2 + (k3 + (k4 + (k5 + (k6 + (k7 + k8)))))) = 3 ∨ k1 + (k2 + (k3 + (k4 + (k5 + (k6 + (k7 + k8)))))) = 2 ∧ ((y = y0 - 1 ∧ x = x0 + 1 ∨ y = y0 ∧ x = x0 + 1) ∨ y = y0 + 1 ∧ x = x0 + 1)) ↔ ((y = y0 ∧ x = x0 ∨ y = y0 ∧ x = x0 + 1) ∨ y = y0 ∧ x = x0 + 2) := by
  have e1 := ind_val_neg hk1 (by clear hk1 hk2 hk3 hk4 hk5 hk6 hk7 hk8; omega)
  have e2 := ind_val_neg hk2 (by clear hk1 hk2 hk3 hk4 hk5 hk6 hk7 hk8; omega)
  have e3 := ind_val_neg hk3 (by clear hk1 hk2 hk3 hk4 hk5 hk6 hk7 hk8; omega)
  have e4 := ind_val_neg hk4 (by clear hk1 hk2 hk3 hk4 hk5 hk6 hk7 hk8; omega)
  have e5 := ind_val_neg hk5 (by clear hk1 hk2 hk3 hk4 hk5 hk6 hk7 hk8; omega)
  have e6 := ind_val_neg hk6 (by clear hk1 hk2 hk3 hk4 hk5 hk6 hk7 hk8; omega)
  have e7 := ind_val_neg hk7 (by clear hk1 hk2 hk3 hk4 hk5 hk6 hk7 hk8; omega)
  have e8 := ind_val_neg hk8 (by clear hk1 hk2 hk3 hk4 hk5 hk6 hk7 hk8; omega)
  clear hk1 hk2 hk3 hk4 hk5 hk6 hk7 hk8
  omega

/-- Case analysis leaf for `blinker_step2`. -/
theorem blinker_step2_case23 (n x0 y0 x y k1 k2 k3 k4 k5 k6 k7 k8 : Nat)
    (hx0 : 1 ≤ x0) (hx4 : x0 + 4 ≤ n) (hy2 : 2 ≤ y0) (hy3 : y0 + 3 ≤ n)
    (hk1 : (((y = y0 ∧ x = x0 + 2 ∨ y = y0 + 1 ∧ x = x0 + 2) ∨ y = y0 + 2 ∧ x = x0 + 2) ∧ k1 = 1) ∨ (¬((y = y0 ∧ x = x0 + 2 ∨ y = y0 + 1 ∧ x = x0 + 2) ∨ y = y0 + 2 ∧ x = x0 + 2) ∧ k1 = 0))
    (hk2 : (((y = y0 ∧ x = x0 + 1 ∨ y = y0 + 1 ∧ x = x0 + 1) ∨ y = y0 + 2 ∧ x = x0 + 1) ∧ k2 = 1) ∨ (¬((y = y0 ∧ x = x0 + 1 ∨ y = y0 + 1 ∧ x = x0 + 1) ∨ y = y0 + 2 ∧ x = x0 + 1) ∧ k2 = 0))
    (hk3 : (((y = y0 ∧ x = x0 ∨ y = y0 + 1 ∧ x = x0) ∨ y = y0 + 2 ∧ x = x0) ∧ k3 = 1) ∨ (¬((y = y0 ∧ x = x0 ∨ y = y0 + 1 ∧ x = x0) ∨ y = y0 + 2 ∧ x = x0) ∧ k3 = 0))
    (hk4 : (((y = y0 - 1 ∧ x = x0 + 2 ∨ y = y0 ∧ x = x0 + 2) ∨ y = y0 + 1 ∧ x = x0 + 2) ∧ k4 = 1) ∨ (¬((y = y0 - 1 ∧ x = x0 + 2 ∨ y = y0 ∧ x = x0 + 2) ∨ y = y0 + 1 ∧ x = x0 + 2) ∧ k4 = 0))
    (hk5 : (((y = y0 - 1 ∧ x = x0 ∨ y = y0 ∧ x = x0) ∨ y = y0 + 1 ∧ x = x0) ∧ k5 = 1) ∨ (¬((y = y0 - 1 ∧ x = x0 ∨ y = y0 ∧ x = x0) ∨ y = y0 + 1 ∧ x = x0) ∧ k5 = 0))
    (hk6 : (((y + 2 = y0 ∧ x = x0 + 2 ∨ y + 1 = y0 ∧ x = x0 + 2) ∨ y = y0 ∧ x = x0 + 2) ∧ k6 = 1) ∨ (¬((y + 2 = y0 ∧ x = x0 + 2 ∨ y + 1 = y0 ∧ x = x0 + 2) ∨ y = y0 ∧ x = x0 + 2) ∧ k6 = 0))
    (hk7 : (((y + 2 = y0 ∧ x = x0 + 1 ∨ y + 1 = y0 ∧ x = x0 + 1) ∨ y = y0 ∧ x = x0 + 1) ∧ k7 = 1) ∨ (¬((y + 2 = y0 ∧ x = x0 + 1 ∨ y + 1 = y0 ∧ x = x0 + 1) ∨ y = y0 ∧ x = x0 + 1) ∧ k7 = 0))
    (hk8 : (((y + 2 = y0 ∧ x = x0 ∨ y + 1 = y0 ∧ x = x0) ∨ y = y0 ∧ x = x0) ∧ k8 = 1) ∨ (¬((y + 2 = y0 ∧ x = x0 ∨ y + 1 = y0 ∧ x = x0) ∨ y = y0 ∧ x = x0) ∧ k8 = 0))
    (h1 : x < x0) (h2 : y + 1 = y0) :
    (k1 + (k2 + (k3 + (k4 + (k5 + (k6 + (k7 + k8)))))) = 3 ∨ k1 + (k2 + (k3 + (k4 + (k5 + (k6 + (k7 + k8)))))) = 2 ∧ ((y = y0 - 1 ∧ x = x0 + 1 ∨ y = y0 ∧ x = x0 + 1) ∨ y = y0 + 1 ∧ x = x0 + 1)) ↔ ((y = y0 ∧ x = x0 ∨ y = y0 ∧ x = x0 + 1) ∨ y = y0 ∧ x = x0 + 2) := by
  have e1 := ind_val_neg hk1 (by clear hk1 hk2 hk3 hk4 hk5 hk6 hk7 hk8; omega)
  have e2 := ind_val_neg hk2 (by clear hk1 hk2 hk3 hk4 hk5 hk6 hk7 hk8; omega)
  have e3 := ind_val_neg hk3 (by clear hk1 hk2 hk3 hk4 hk5 hk6 hk7 hk8; omega)
  have e4 := ind_val_neg hk4 (by clear hk1 hk2 hk3 hk4 hk5 hk6 hk7 hk8; omega)
  have e5 := ind_val_neg hk5 (by clear hk1 hk2 hk3 hk4 hk5 hk6 hk7 hk8; omega)
  have e6 := ind_val_neg hk6 (by clear hk1 hk2 hk3 hk4 hk5 hk6 hk7 hk8; omega)
  have e7 := ind_val_neg hk7 (by clear hk1 hk2 hk3 hk4 hk5 hk6 hk7 hk8; omega)
  have e8 := ind_val_neg hk8 (by clear hk1 hk2 hk3 hk4 hk5 hk6 hk7 hk8; omega)
  clear hk1 hk2 hk3 hk4 hk5 hk6 hk7 hk8
  omega

/-- Case analysis leaf for `blinker_step2`. -/
theorem blinker_step2_case24 (n x0 y0 x y k1 k2 k3 k4 k5 k6 k7 k8 : Nat)
    (hx0 : 1 ≤ x0) (hx4 : x0 + 4 ≤ n) (hy2 : 2 ≤ y0) (hy3 : y0 + 3 ≤ n)
    (hk1 : (((y = y0 ∧ x = x0 + 2 ∨ y = y0 + 1 ∧ x = x0 + 2) ∨ y = y0 + 2 ∧ x = x0 + 2) ∧ k1 = 1) ∨ (¬((y = y0 ∧ x = x0 + 2 ∨ y = y0 + 1 ∧ x = x0 + 2) ∨ y = y0 + 2 ∧ x = x0 + 2) ∧ k1 = 0))
    (hk2 : (((y = y0 ∧ x = x0 + 1 ∨ y = y0 + 1 ∧ x = x0 + 1) ∨ y = y0 + 2 ∧ x = x0 + 1) ∧ k2 = 1) ∨ (¬((y = y0 ∧ x = x0 + 1 ∨ y = y0 + 1 ∧ x = x0 + 1) ∨ y = y0 + 2 ∧ x = x0 + 1) ∧ k2 = 0))
    (hk3 : (((y = y0 ∧ x = x0 ∨ y = y0 + 1 ∧ x = x0) ∨ y = y0 + 2 ∧ x = x0) ∧ k3 = 1) ∨ (¬((y = y0 ∧ x = x0 ∨ y = y0 + 1 ∧ x = x0) ∨ y = y0 + 2 ∧ x = x0) ∧ k3 = 0))
    (hk4 : (((y = y0 - 1 ∧ x = x0 + 2 ∨ y = y0 ∧ x = x0 + 2) ∨ y = y0 + 1 ∧ x = x0 + 2) ∧ k4 = 1) ∨ (¬((y = y0 - 1 ∧ x = x0 + 2 ∨ y = y0 ∧ x = x0 + 2) ∨ y = y0 + 1 ∧ x = x0 + 2) ∧ k4 = 0))
    (hk5 : (((y = y0 - 1 ∧ x = x0 ∨ y = y0 ∧ x = x0) ∨ y = y0 + 1 ∧ x = x0) ∧ k5 = 1) ∨ (¬((y = y0 - 1 ∧ x = x0 ∨ y = y0 ∧ x = x0) ∨ y = y0 + 1 ∧ x = x0) ∧ k5 = 0))
    (hk6 : (((y + 2 = y0 ∧ x = x0 + 2 ∨ y + 1 = y0 ∧ x = x0 + 2) ∨ y = y0 ∧ x = x0 + 2) ∧ k6 = 1) ∨ (¬((y + 2 = y0 ∧ x = x0 + 2 ∨ y + 1 = y0 ∧ x = x0 + 2) ∨ y = y0 ∧ x = x0 + 2) ∧ k6 = 0))
    (hk7 : (((y + 2 = y0 ∧ x = x0 + 1 ∨ y + 1 = y0 ∧ x = x0 + 1) ∨ y = y0 ∧ x = x0 + 1) ∧ k7 = 1) ∨ (¬((y + 2 = y0 ∧ x = x0 + 1 ∨ y + 1 = y0 ∧ x = x0 + 1) ∨ y = y0 ∧ x = x0 + 1) ∧ k7 = 0))
    (hk8 : (((y + 2 = y0 ∧ x = x0 ∨ y + 1 = y0 ∧ x = x0) ∨ y = y0 ∧ x = x0) ∧ k8 = 1) ∨ (¬((y + 2 = y0 ∧ x = x0 ∨ y + 1 = y0 ∧ x = x0) ∨ y = y0 ∧ x = x0) ∧ k8 = 0))
    (h1 : x < x0) (h2 : y = y0) :
    (k1 + (k2 + (k3 + (k4 + (k5 + (k6 + (k7 + k8)))))) = 3 ∨ k1 + (k2 + (k3 + (k4 + (k5 + (k6 + (k7 + k8)))))) = 2 ∧ ((y = y0 - 1 ∧ x = x0 + 1 ∨ y = y0 ∧ x = x0 + 1) ∨ y = y0 + 1 ∧ x = x0 + 1)) ↔ ((y = y0 ∧ x = x0 ∨ y = y0 ∧ x = x0 + 1) ∨ y = y0 ∧ x = x0 + 2) := by
  have e1 := ind_val_neg hk1 (by clear hk1 hk2 hk3 hk4 hk5 hk6 hk7 hk8; omega)
  have e2 := ind_val_neg hk2 (by clear hk1 hk2 hk3 hk4 hk5 hk6 hk7 hk8; omega)
  have e3 := ind_val_neg hk3 (by clear hk1 hk2 hk3 hk4 hk5 hk6 hk7 hk8; omega)
  have e4 := ind_val_neg hk4 (by clear hk1 hk2 hk3 hk4 hk5 hk6 hk7 hk8; omega)
  have e5 := ind_val_neg hk5 (by clear hk1 hk2 hk3 hk4 hk5 hk6 hk7 hk8; omega)
  have e6 := ind_val_neg hk6 (by clear hk1 hk2 hk3 hk4 hk5 hk6 hk7 hk8; omega)
  have e7 := ind_val_neg hk7 (by clear hk1 hk2 hk3 hk4 hk5 hk6 hk7 hk8; omega)
  have e8 := ind_val_neg hk8 (by clear hk1 hk2 hk3 hk4 hk5 hk6 hk7 hk8; omega)
  clear hk1 hk2 hk3 hk4 hk5 hk6 hk7 hk8
  omega

/-- Case analysis leaf for `blinker_step2`. -/
theorem blinker_step2_case25 (n x0 y0 x y k1 k2 k3 k4 k5 k6 k7 k8 : Nat)
    (hx0 : 1 ≤ x0) (hx4 : x0 + 4 ≤ n) (hy2 : 2 ≤ y0) (hy3 : y0 + 3 ≤ n)
    (hk1 : (((y = y0 ∧ x = x0 + 2 ∨ y = y0 + 1 ∧ x = x0 + 2) ∨ y = y0 + 2 ∧ x = x0 + 2) ∧ k1 = 1) ∨ (¬((y = y0 ∧ x = x0 + 2 ∨ y = y0 + 1 ∧ x = x0 + 2) ∨ y = y0 + 2 ∧ x = x0 + 2) ∧ k1 = 0))
    (hk2 : (((y = y0 ∧ x = x0 + 1 ∨ y = y0 + 1 ∧ x = x0 + 1) ∨ y = y0 + 2 ∧ x = x0 + 1) ∧ k2 = 1) ∨ (¬((y = y0 ∧ x = x0 + 1 ∨ y = y0 + 1 ∧ x = x0 + 1) ∨ y = y0 + 2 ∧ x = x0 + 1) ∧ k2 = 0))
    (hk3 : (((y = y0 ∧ x = x0 ∨ y = y0 + 1 ∧ x = x0) ∨ y = y0 + 2 ∧ x = x0) ∧ k3 = 1) ∨ (¬((y = y0 ∧ x = x0 ∨ y = y0 + 1 ∧ x = x0) ∨ y = y0 + 2 ∧ x = x0) ∧ k3 = 0))
    (hk4 : (((y = y0 - 1 ∧ x = x0 + 2 ∨ y = y0 ∧ x = x0 + 2) ∨ y = y0 + 1 ∧ x = x0 + 2) ∧ k4 = 1) ∨ (¬((y = y0 - 1 ∧ x = x0 + 2 ∨ y = y0 ∧ x = x0 + 2) ∨ y = y0 + 1 ∧ x = x0 + 2) ∧ k4 = 0))
    (hk5 : (((y = y0 - 1 ∧ x = x0 ∨ y = y0 ∧ x = x0) ∨ y = y0 + 1 ∧ x = x0) ∧ k5 = 1) ∨ (¬((y = y0 - 1 ∧ x = x0 ∨ y = y0 ∧ x = x0) ∨ y = y0 + 1 ∧ x = x0) ∧ k5 = 0))
    (hk6 : (((y + 2 = y0 ∧ x = x0 + 2 ∨ y + 1 = y0 ∧ x = x0 + 2) ∨ y = y0 ∧ x = x0 + 2) ∧ k6 = 1) ∨ (¬((y + 2 = y0 ∧ x = x0 + 2 ∨ y + 1 = y0 ∧ x = x0 + 2) ∨ y = y0 ∧ x = x0 + 2) ∧ k6 = 0))
    (hk7 : (((y + 2 = y0 ∧ x = x0 + 1 ∨ y + 1 = y0 ∧ x = x0 + 1) ∨ y = y0 ∧ x = x0 + 1) ∧ k7 = 1) ∨ (¬((y + 2 = y0 ∧ x = x0 + 1 ∨ y + 1 = y0 ∧ x = x0 + 1) ∨ y = y0 ∧ x = x0 + 1) ∧ k7 = 0))
    (hk8 : (((y + 2 = y0 ∧ x = x0 ∨ y + 1 = y0 ∧ x = x0) ∨ y = y0 ∧ x = x0) ∧ k8 = 1) ∨ (¬((y + 2 = y0 ∧ x = x0 ∨ y + 1 = y0 ∧ x = x0) ∨ y = y0 ∧ x = x0) ∧ k8 = 0))
    (h1 : x < x0) (h2 : y = y0 + 1) :
    (k1 + (k2 + (k3 + (k4 + (k5 + (k6 + (k7 + k8)))))) = 3 ∨ k1 + (k2 + (k3 + (k4 + (k5 + (k6 + (k7 + k8)))))) = 2 ∧ ((y = y0 - 1 ∧ x = x0 + 1 ∨ y = y0 ∧ x = x0 + 1) ∨ y = y0 + 1 ∧ x = x0 + 1)) ↔ ((y = y0 ∧ x = x0 ∨ y = y0 ∧ x = x0 + 1) ∨ y = y0 ∧ x = x0 + 2) := by
  have e1 := ind_val_neg hk1 (by clear hk1 hk2 hk3 hk4 hk5 hk6 hk7 hk8; omega)
  have e2 := ind_val_neg hk2 (by clear hk1 hk2 hk3 hk4 hk5 hk6 hk7 hk8; omega)
  have e3 := ind_val_neg hk3 (by clear hk1 hk2 hk3 hk4 hk5 hk6 hk7 hk8; omega)
  have e4 := ind_val_neg hk4 (by clear hk1 hk2 hk3 hk4 hk5 hk6 hk7 hk8; omega)
  have e5 := ind_val_neg hk5 (by clear hk1 hk2 hk3 hk4 hk5 hk6 hk7 hk8; omega)
  have e6 := ind_val_neg hk6 (by clear hk1 hk2 hk3 hk4 hk5 hk6 hk7 hk8; omega)
  have e7 := ind_val_neg hk7 (by clear hk1 hk2 hk3 hk4 hk5 hk6 hk7 hk8; omega)
  have e8 := ind_val_neg hk8 (by clear hk1 hk2 hk3 hk4 hk5 hk6 hk7 hk8; omega)
  clear hk1 hk2 hk3 hk4 hk5 hk6 hk7 hk8
  omega

/-- Case analysis leaf for `blinker_step2`. -/
theorem blinker_step2_case26 (n x0 y0 x y k1 k2 k3 k4 k5 k6 k7 k8 : Nat)
    (hx0 : 1 ≤ x0) (hx4 : x0 + 4 ≤ n) (hy2 : 2 ≤ y0) (hy3 : y0 + 3 ≤ n)
    (hk1 : (((y = y0 ∧ x = x0 + 2 ∨ y = y0 + 1 ∧ x = x0 + 2) ∨ y = y0 + 2 ∧ x = x0 + 2) ∧ k1 = 1) ∨ (¬((y = y0 ∧ x = x0 + 2 ∨ y = y0 + 1 ∧ x = x0 + 2) ∨ y = y0 + 2 ∧ x = x0 + 2) ∧ k1 = 0))
    (hk2 : (((y = y0 ∧ x = x0 + 1 ∨ y = y0 + 1 ∧ x = x0 + 1) ∨ y = y0 + 2 ∧ x = x0 + 1) ∧ k2 = 1) ∨ (¬((y = y0 ∧ x = x0 + 1 ∨ y = y0 + 1 ∧ x = x0 + 1) ∨ y = y0 + 2 ∧ x = x0 + 1) ∧ k2 = 0))
    (hk3 : (((y = y0 ∧ x = x0 ∨ y = y0 + 1 ∧ x = x0) ∨ y = y0 + 2 ∧ x = x0) ∧ k3 = 1) ∨ (¬((y = y0 ∧ x = x0 ∨ y = y0 + 1 ∧ x = x0) ∨ y = y0 + 2 ∧ x = x0) ∧ k3 = 0))
    (hk4 : (((y = y0 - 1 ∧ x = x0 + 2 ∨ y = y0 ∧ x = x0 + 2) ∨ y = y0 + 1 ∧ x = x0 + 2) ∧ k4 = 1) ∨ (¬((y = y0 - 1 ∧ x = x0 + 2 ∨ y = y0 ∧ x = x0 + 2) ∨ y = y0 + 1 ∧ x = x0 + 2) ∧ k4 = 0))
    (hk5 : (((y = y0 - 1 ∧ x = x0 ∨ y = y0 ∧ x = x0) ∨ y = y0 + 1 ∧ x = x0) ∧ k5 = 1) ∨ (¬((y = y0 - 1 ∧ x = x0 ∨ y = y0 ∧ x = x0) ∨ y = y0 + 1 ∧ x = x0) ∧ k5 = 0))
    (hk6 : (((y + 2 = y0 ∧ x = x0 + 2 ∨ y + 1 = y0 ∧ x = x0 + 2) ∨ y = y0 ∧ x = x0 + 2) ∧ k6 = 1) ∨ (¬((y + 2 = y0 ∧ x = x0 + 2 ∨ y + 1 = y0 ∧ x = x0 + 2) ∨ y = y0 ∧ x = x0 + 2) ∧ k6 = 0))
    (hk7 : (((y + 2 = y0 ∧ x = x0 + 1 ∨ y + 1 = y0 ∧ x = x0 + 1) ∨ y = y0 ∧ x = x0 + 1) ∧ k7 = 1) ∨ (¬((y + 2 = y0 ∧ x = x0 + 1 ∨ y + 1 = y0 ∧ x = x0 + 1) ∨ y = y0 ∧ x = x0 + 1) ∧ k7 = 0))
    (hk8 : (((y + 2 = y0 ∧ x = x0 ∨ y + 1 = y0 ∧ x = x0) ∨ y = y0 ∧ x = x0) ∧ k8 = 1) ∨ (¬((y + 2 = y0 ∧ x = x0 ∨ y + 1 = y0 ∧ x = x0) ∨ y = y0 ∧ x = x0) ∧ k8 = 0))
    (h1 : x < x0) (h2 : y = y0 + 2) :
    (k1 + (k2 + (k3 + (k4 + (k5 + (k6 + (k7 + k8)))))) = 3 ∨ k1 + (k2 + (k3 + (k4 + (k5 + (k6 + (k7 + k8)))))) = 2 ∧ ((y = y0 - 1 ∧ x = x0 + 1 ∨ y = y0 ∧ x = x0 + 1) ∨ y = y0 + 1 ∧ x = x0 + 1)) ↔ ((y = y0 ∧ x = x0 ∨ y = y0 ∧ x = x0 + 1) ∨ y = y0 ∧ x = x0 + 2) := by
  have e1 := ind_val_neg hk1 (by clear hk1 hk2 hk3 hk4 hk5 hk6 hk7 hk8; omega)
  have e2 := ind_val_neg hk2 (by clear hk1 hk2 hk3 hk4 hk5 hk6 hk7 hk8; omega)
  have e3 := ind_val_neg hk3 (by clear hk1 hk2 hk3 hk4 hk5 hk6 hk7 hk8; omega)
  have e4 := ind_val_neg hk4 (by clear hk1 hk2 hk3 hk4 hk5 hk6 hk7 hk8; omega)
  have e5 := ind_val_neg hk5 (by clear hk1 hk2 hk3 hk4 hk5 hk6 hk7 hk8; omega)
  have e6 := ind_val_neg hk6 (by clear hk1 hk2 hk3 hk4 hk5 hk6 hk7 hk8; omega)
  have e7 := ind_val_neg hk7 (by clear hk1 hk2 hk3 hk4 hk5 hk6 hk7 hk8; omega)
  have e8 := ind_val_neg hk8 (by clear hk1 hk2 hk3 hk4 hk5 hk6 hk7 hk8; omega)
  clear hk1 hk2 hk3 hk4 hk5 hk6 hk7 hk8
  omega

/-- Case analysis leaf for `blinker_step2`. -/
theorem blinker_step2_case27 (n x0 y0 x y k1 k2 k3 k4 k5 k6 k7 k8 : Nat)
    (hx0 : 1 ≤ x0) (hx4 : x0 + 4 ≤ n) (hy2 : 2 ≤ y0) (hy3 : y0 + 3 ≤ n)
    (hk1 : (((y = y0 ∧ x = x0 + 2 ∨ y = y0 + 1 ∧ x = x0 + 2) ∨ y = y0 + 2 ∧ x = x0 + 2) ∧ k1 = 1) ∨ (¬((y = y0 ∧ x = x0 + 2 ∨ y = y0 + 1 ∧ x = x0 + 2) ∨ y = y0 + 2 ∧ x = x0 + 2) ∧ k1 = 0))
    (hk2 : (((y = y0 ∧ x = x0 + 1 ∨ y = y0 + 1 ∧ x = x0 + 1) ∨ y = y0 + 2 ∧ x = x0 + 1) ∧ k2 = 1) ∨ (¬((y = y0 ∧ x = x0 + 1 ∨ y = y0 + 1 ∧ x = x0 + 1) ∨ y = y0 + 2 ∧ x = x0 + 1) ∧ k2 = 0))
    (hk3 : (((y = y0 ∧ x = x0 ∨ y = y0 + 1 ∧ x = x0) ∨ y = y0 + 2 ∧ x = x0) ∧ k3 = 1) ∨ (¬((y = y0 ∧ x = x0 ∨ y = y0 + 1 ∧ x = x0) ∨ y = y0 + 2 ∧ x = x0) ∧ k3 = 0))
    (hk4 : (((y = y0 - 1 ∧ x = x0 + 2 ∨ y = y0 ∧ x = x0 + 2) ∨ y = y0 + 1 ∧ x = x0 + 2) ∧ k4 = 1) ∨ (¬((y = y0 - 1 ∧ x = x0 + 2 ∨ y = y0 ∧ x = x0 + 2) ∨ y = y0 + 1 ∧ x = x0 + 2) ∧ k4 = 0))
    (hk5 : (((y = y0 - 1 ∧ x = x0 ∨ y = y0 ∧ x = x0) ∨ y = y0 + 1 ∧ x = x0) ∧ k5 = 1) ∨ (¬((y = y0 - 1 ∧ x = x0 ∨ y = y0 ∧ x = x0) ∨ y = y0 + 1 ∧ x = x0) ∧ k5 = 0))
    (hk6 : (((y + 2 = y0 ∧ x = x0 + 2 ∨ y + 1 = y0 ∧ x = x0 + 2) ∨ y = y0 ∧ x = x0 + 2) ∧ k6 = 1) ∨ (¬((y + 2 = y0 ∧ x = x0 + 2 ∨ y + 1 = y0 ∧ x = x0 + 2) ∨ y = y0 ∧ x = x0 + 2) ∧ k6 = 0))
    (hk7 : (((y + 2 = y0 ∧ x = x0 + 1 ∨ y + 1 = y0 ∧ x = x0 + 1) ∨ y = y0 ∧ x = x0 + 1) ∧ k7 = 1) ∨ (¬((y + 2 = y0 ∧ x = x0 + 1 ∨ y + 1 = y0 ∧ x = x0 + 1) ∨ y = y0 ∧ x = x0 + 1) ∧ k7 = 0))
    (hk8 : (((y + 2 = y0 ∧ x = x0 ∨ y + 1 = y0 ∧ x = x0) ∨ y = y0 ∧ x = x0) ∧ k8 = 1) ∨ (¬((y + 2 = y0 ∧ x = x0 ∨ y + 1 = y0 ∧ x = x0) ∨ y = y0 ∧ x = x0) ∧ k8 = 0))
    (h1 : x < x0) (h2 : y + 2 < y0) :
    (k1 + (k2 + (k3 + (k4 + (k5 + (k6 + (k7 + k8)))))) = 3 ∨ k1 + (k2 + (k3 + (k4 + (k5 + (k6 + (k7 + k8)))))) = 2 ∧ ((y = y0 - 1 ∧ x = x0 + 1 ∨ y = y0 ∧ x = x0 + 1) ∨ y = y0 + 1 ∧ x = x0 + 1)) ↔ ((y = y0 ∧ x = x0 ∨ y = y0 ∧ x = x0 + 1) ∨ y = y0 ∧ x = x0 + 2) := by
  have e1 := ind_val_neg hk1 (by clear hk1 hk2 hk3 hk4 hk5 hk6 hk7 hk8; omega)
  have e2 := ind_val_neg hk2 (by clear hk1 hk2 hk3 hk4 hk5 hk6 hk7 hk8; omega)
  have e3 := ind_val_neg hk3 (by clear hk1 hk2 hk3 hk4 hk5 hk6 hk7 hk8; omega)
  have e4 := ind_val_neg hk4 (by clear hk1 hk2 hk3 hk4 hk5 hk6 hk7 hk8; omega)
  have e5 := ind_val_neg hk5 (by clear hk1 hk2 hk3 hk4 hk5 hk6 hk7 hk8; omega)
  have e6 := ind_val_neg hk6 (by clear hk1 hk2 hk3 hk4 hk5 hk6 hk7 hk8; omega)
  have e7 := ind_val_neg hk7 (by clear hk1 hk2 hk3 hk4 hk5 hk6 hk7 hk8; omega)
  have e8 := ind_val_neg hk8 (by clear hk1 hk2 hk3 hk4 hk5 hk6 hk7 hk8; omega)
  clear hk1 hk2 hk3 hk4 hk5 hk6 hk7 hk8
  omega

/-- Case analysis leaf for `blinker_step2`. -/
theorem blinker_step2_case28 (n x0 y0 x y k1 k2 k3 k4 k5 k6 k7 k8 : Nat)
    (hx0 : 1 ≤ x0) (hx4 : x0 + 4 ≤ n) (hy2 : 2 ≤ y0) (hy3 : y0 + 3 ≤ n)
    (hk1 : (((y = y0 ∧ x = x0 + 2 ∨ y = y0 + 1 ∧ x = x0 + 2) ∨ y = y0 + 2 ∧ x = x0 + 2) ∧ k1 = 1) ∨ (¬((y = y0 ∧ x = x0 + 2 ∨ y = y0 + 1 ∧ x = x0 + 2) ∨ y = y0 + 2 ∧ x = x0 + 2) ∧ k1 = 0))
    (hk2 : (((y = y0 ∧ x = x0 + 1 ∨ y = y0 + 1 ∧ x = x0 + 1) ∨ y = y0 + 2 ∧ x = x0 + 1) ∧ k2 = 1) ∨ (¬((y = y0 ∧ x = x0 + 1 ∨ y = y0 + 1 ∧ x = x0 + 1) ∨ y = y0 + 2 ∧ x = x0 + 1) ∧ k2 = 0))
    (hk3 : (((y = y0 ∧ x = x0 ∨ y = y0 + 1 ∧ x = x0) ∨ y = y0 + 2 ∧ x = x0) ∧ k3 = 1) ∨ (¬((y = y0 ∧ x = x0 ∨ y = y0 + 1 ∧ x = x0) ∨ y = y0 + 2 ∧ x = x0) ∧ k3 = 0))
    (hk4 : (((y = y0 - 1 ∧ x = x0 + 2 ∨ y = y0 ∧ x = x0 + 2) ∨ y = y0 + 1 ∧ x = x0 + 2) ∧ k4 = 1) ∨ (¬((y = y0 - 1 ∧ x = x0 + 2 ∨ y = y0 ∧ x = x0 + 2) ∨ y = y0 + 1 ∧ x = x0 + 2) ∧ k4 = 0))
    (hk5 : (((y = y0 - 1 ∧ x = x0 ∨ y = y0 ∧ x = x0) ∨ y = y0 + 1 ∧ x = x0) ∧ k5 = 1) ∨ (¬((y = y0 - 1 ∧ x = x0 ∨ y = y0 ∧ x = x0) ∨ y = y0 + 1 ∧ x = x0) ∧ k5 = 0))
    (hk6 : (((y + 2 = y0 ∧ x = x0 + 2 ∨ y + 1 = y0 ∧ x = x0 + 2) ∨ y = y0 ∧ x = x0 + 2) ∧ k6 = 1) ∨ (¬((y + 2 = y0 ∧ x = x0 + 2 ∨ y + 1 = y0 ∧ x = x0 + 2) ∨ y = y0 ∧ x = x0 + 2) ∧ k6 = 0))
    (hk7 : (((y + 2 = y0 ∧ x = x0 + 1 ∨ y + 1 = y0 ∧ x = x0 + 1) ∨ y = y0 ∧ x = x0 + 1) ∧ k7 = 1) ∨ (¬((y + 2 = y0 ∧ x = x0 + 1 ∨ y + 1 = y0 ∧ x = x0 + 1) ∨ y = y0 ∧ x = x0 + 1) ∧ k7 = 0))
    (hk8 : (((y + 2 = y0 ∧ x = x0 ∨ y + 1 = y0 ∧ x = x0) ∨ y = y0 ∧ x = x0) ∧ k8 = 1) ∨ (¬((y + 2 = y0 ∧ x = x0 ∨ y + 1 = y0 ∧ x = x0) ∨ y = y0 ∧ x = x0) ∧ k8 = 0))
    (h1 : x < x0) (h2 : y0 + 3 ≤ y) :
    (k1 + (k2 + (k3 + (k4 + (k5 + (k6 + (k7 + k8)))))) = 3 ∨ k1 + (k2 + (k3 + (k4 + (k5 + (k6 + (k7 + k8)))))) = 2 ∧ ((y = y0 - 1 ∧ x = x0 + 1 ∨ y = y0 ∧ x = x0 + 1) ∨ y = y0 + 1 ∧ x = x0 + 1)) ↔ ((y = y0 ∧ x = x0 ∨ y = y0 ∧ x = x0 + 1) ∨ y = y0 ∧ x = x0 + 2) := by
  have e1 := ind_val_neg hk1 (by clear hk1 hk2 hk3 hk4 hk5 hk6 hk7 hk8; omega)
  have e2 := ind_val_neg hk2 (by clear hk1 hk2 hk3 hk4 hk5 hk6 hk7 hk8; omega)
  have e3 := ind_val_neg hk3 (by clear hk1 hk2 hk3 hk4 hk5 hk6 hk7 hk8; omega)
  have e4 := ind_val_neg hk4 (by clear hk1 hk2 hk3 hk4 hk5 hk6 hk7 hk8; omega)
  have e5 := ind_val_neg hk5 (by clear hk1 hk2 hk3 hk4 hk5 hk6 hk7 hk8; omega)
  have e6 := ind_val_neg hk6 (by clear hk1 hk2 hk3 hk4 hk5 hk6 hk7 hk8; omega)
  have e7 := ind_val_neg hk7 (by clear hk1 hk2 hk3 hk4 hk5 hk6 hk7 hk8; omega)
  have e8 := ind_val_neg hk8 (by clear hk1 hk2 hk3 hk4 hk5 hk6 hk7 hk8; omega)
  clear hk1 hk2 hk3 hk4 hk5 hk6 hk7 hk8
  omega

/-- Case analysis leaf for `blinker_step2`. -/
theorem blinker_step2_case29 (n x0 y0 x y k1 k2 k3 k4 k5 k6 k7 k8 : Nat)
    (hx0 : 1 ≤ x0) (hx4 : x0 + 4 ≤ n) (hy2 : 2 ≤ y0) (hy3 : y0 + 3 ≤ n)
    (hk1 : (((y = y0 ∧ x = x0 + 2 ∨ y = y0 + 1 ∧ x = x0 + 2) ∨ y = y0 + 2 ∧ x = x0 + 2) ∧ k1 = 1) ∨ (¬((y = y0 ∧ x = x0 + 2 ∨ y = y0 + 1 ∧ x = x0 + 2) ∨ y = y0 + 2 ∧ x = x0 + 2) ∧ k1 = 0))
    (hk2 : (((y = y0 ∧ x = x0 + 1 ∨ y = y0 + 1 ∧ x = x0 + 1) ∨ y = y0 + 2 ∧ x = x0 + 1) ∧ k2 = 1) ∨ (¬((y = y0 ∧ x = x0 + 1 ∨ y = y0 + 1 ∧ x = x0 + 1) ∨ y = y0 + 2 ∧ x = x0 + 1) ∧ k2 = 0))
    (hk3 : (((y = y0 ∧ x = x0 ∨ y = y0 + 1 ∧ x = x0) ∨ y = y0 + 2 ∧ x = x0) ∧ k3 = 1) ∨ (¬((y = y0 ∧ x = x0 ∨ y = y0 + 1 ∧ x = x0) ∨ y = y0 + 2 ∧ x = x0) ∧ k3 = 0))
    (hk4 : (((y = y0 - 1 ∧ x = x0 + 2 ∨ y = y0 ∧ x = x0 + 2) ∨ y = y0 + 1 ∧ x = x0 + 2) ∧ k4 = 1) ∨ (¬((y = y0 - 1 ∧ x = x0 + 2 ∨ y = y0 ∧ x = x0 + 2) ∨ y = y0 + 1 ∧ x = x0 + 2) ∧ k4 = 0))
    (hk5 : (((y = y0 - 1 ∧ x = x0 ∨ y = y0 ∧ x = x0) ∨ y = y0 + 1 ∧ x = x0) ∧ k5 = 1) ∨ (¬((y = y0 - 1 ∧ x = x0 ∨ y = y0 ∧ x = x0) ∨ y = y0 + 1 ∧ x = x0) ∧ k5 = 0))
    (hk6 : (((y + 2 = y0 ∧ x = x0 + 2 ∨ y + 1 = y0 ∧ x = x0 + 2) ∨ y = y0 ∧ x = x0 + 2) ∧ k6 = 1) ∨ (¬((y + 2 = y0 ∧ x = x0 + 2 ∨ y + 1 = y0 ∧ x = x0 + 2) ∨ y = y0 ∧ x = x0 + 2) ∧ k6 = 0))
    (hk7 : (((y + 2 = y0 ∧ x = x0 + 1 ∨ y + 1 = y0 ∧ x = x0 + 1) ∨ y = y0 ∧ x = x0 + 1) ∧ k7 = 1) ∨ (¬((y + 2 = y0 ∧ x = x0 + 1 ∨ y + 1 = y0 ∧ x = x0 + 1) ∨ y = y0 ∧ x = x0 + 1) ∧ k7 = 0))
    (hk8 : (((y + 2 = y0 ∧ x = x0 ∨ y + 1 = y0 ∧ x = x0) ∨ y = y0 ∧ x = x0) ∧ k8 = 1) ∨ (¬((y + 2 = y0 ∧ x = x0 ∨ y + 1 = y0 ∧ x = x0) ∨ y = y0 ∧ x = x0) ∧ k8 = 0))
    (h1 : x0 + 3 ≤ x) (h2 : y + 2 = y0) :
    (k1 + (k2 + (k3 + (k4 + (k5 + (k6 + (k7 + k8)))))) = 3 ∨ k1 + (k2 + (k3 + (k4 + (k5 + (k6 + (k7 + k8)))))) = 2 ∧ ((y = y0 - 1 ∧ x = x0 + 1 ∨ y = y0 ∧ x = x0 + 1) ∨ y = y0 + 1 ∧ x = x0 + 1)) ↔ ((y = y0 ∧ x = x0 ∨ y = y0 ∧ x = x0 + 1) ∨ y = y0 ∧ x = x0 + 2) := by
  have e1 := ind_val_neg hk1 (by clear hk1 hk2 hk3 hk4 hk5 hk6 hk7 hk8; omega)
  have e2 := ind_val_neg hk2 (by clear hk1 hk2 hk3 hk4 hk5 hk6 hk7 hk8; omega)
  have e3 := ind_val_neg hk3 (by clear hk1 hk2 hk3 hk4 hk5 hk6 hk7 hk8; omega)
  have e4 := ind_val_neg hk4 (by clear hk1 hk2 hk3 hk4 hk5 hk6 hk7 hk8; omega)
  have e5 := ind_val_neg hk5 (by clear hk1 hk2 hk3 hk4 hk5 hk6 hk7 hk8; omega)
  have e6 := ind_val_neg hk6 (by clear hk1 hk2 hk3 hk4 hk5 hk6 hk7 hk8; omega)
  have e7 := ind_val_neg hk7 (by clear hk1 hk2 hk3 hk4 hk5 hk6 hk7 hk8; omega)
  have e8 := ind_val_neg hk8 (by clear hk1 hk2 hk3 hk4 hk5 hk6 hk7 hk8; omega)
  clear hk1 hk2 hk3 hk4 hk5 hk6 hk7 hk8
  omega

/-- Case analysis leaf for `blinker_step2`. -/
theorem blinker_step2_case30 (n x0 y0 x y k1 k2 k3 k4 k5 k6 k7 k8 : Nat)
    (hx0 : 1 ≤ x0) (hx4 : x0 + 4 ≤ n) (hy2 : 2 ≤ y0) (hy3 : y0 + 3 ≤ n)
    (hk1 : (((y = y0 ∧ x = x0 + 2 ∨ y = y0 + 1 ∧ x = x0 + 2) ∨ y = y0 + 2 ∧ x = x0 + 2) ∧ k1 = 1) ∨ (¬((y = y0 ∧ x = x0 + 2 ∨ y = y0 + 1 ∧ x = x0 + 2) ∨ y = y0 + 2 ∧ x = x0 + 2) ∧ k1 = 0))
    (hk2 : (((y = y0 ∧ x = x0 + 1 ∨ y = y0 + 1 ∧ x = x0 + 1) ∨ y = y0 + 2 ∧ x = x0 + 1) ∧ k2 = 1) ∨ (¬((y = y0 ∧ x = x0 + 1 ∨ y = y0 + 1 ∧ x = x0 + 1) ∨ y = y0 + 2 ∧ x = x0 + 1) ∧ k2 = 0))
    (hk3 : (((y = y0 ∧ x = x0 ∨ y = y0 + 1 ∧ x = x0) ∨ y = y0 + 2 ∧ x = x0) ∧ k3 = 1) ∨ (¬((y = y0 ∧ x = x0 ∨ y = y0 + 1 ∧ x = x0) ∨ y = y0 + 2 ∧ x = x0) ∧ k3 = 0))
    (hk4 : (((y = y0 - 1 ∧ x = x0 + 2 ∨ y = y0 ∧ x = x0 + 2) ∨ y = y0 + 1 ∧ x = x0 + 2) ∧ k4 = 1) ∨ (¬((y = y0 - 1 ∧ x = x0 + 2 ∨ y = y0 ∧ x = x0 + 2) ∨ y = y0 + 1 ∧ x = x0 + 2) ∧ k4 = 0))
    (hk5 : (((y = y0 - 1 ∧ x = x0 ∨ y = y0 ∧ x = x0) ∨ y = y0 + 1 ∧ x = x0) ∧ k5 = 1) ∨ (¬((y = y0 - 1 ∧ x = x0 ∨ y = y0 ∧ x = x0) ∨ y = y0 + 1 ∧ x = x0) ∧ k5 = 0))
    (hk6 : (((y + 2 = y0 ∧ x = x0 + 2 ∨ y + 1 = y0 ∧ x = x0 + 2) ∨ y = y0 ∧ x = x0 + 2) ∧ k6 = 1) ∨ (¬((y + 2 = y0 ∧ x = x0 + 2 ∨ y + 1 = y0 ∧ x = x0 + 2) ∨ y = y0 ∧ x = x0 + 2) ∧ k6 = 0))
    (hk7 : (((y + 2 = y0 ∧ x = x0 + 1 ∨ y + 1 = y0 ∧ x = x0 + 1) ∨ y = y0 ∧ x = x0 + 1) ∧ k7 = 1) ∨ (¬((y + 2 = y0 ∧ x = x0 + 1 ∨ y + 1 = y0 ∧ x = x0 + 1) ∨ y = y0 ∧ x = x0 + 1) ∧ k7 = 0))
    (hk8 : (((y + 2 = y0 ∧ x = x0 ∨ y + 1 = y0 ∧ x = x0) ∨ y = y0 ∧ x = x0) ∧ k8 = 1) ∨ (¬((y + 2 = y0 ∧ x = x0 ∨ y + 1 = y0 ∧ x = x0) ∨ y = y0 ∧ x = x0) ∧ k8 = 0))
    (h1 : x0 + 3 ≤ x) (h2 : y + 1 = y0) :
    (k1 + (k2 + (k3 + (k4 + (k5 + (k6 + (k7 + k8)))))) = 3 ∨ k1 + (k2 + (k3 + (k4 + (k5 + (k6 + (k7 + k8)))))) = 2 ∧ ((y = y0 - 1 ∧ x = x0 + 1 ∨ y = y0 ∧ x = x0 + 1) ∨ y = y0 + 1 ∧ x = x0 + 1)) ↔ ((y = y0 ∧ x = x0 ∨ y = y0 ∧ x = x0 + 1) ∨ y = y0 ∧ x = x0 + 2) := by
  have e1 := ind_val_neg hk1 (by clear hk1 hk2 hk3 hk4 hk5 hk6 hk7 hk8; omega)
  have e2 := ind_val_neg hk2 (by clear hk1 hk2 hk3 hk4 hk5 hk6 hk7 hk8; omega)
  have e3 := ind_val_neg hk3 (by clear hk1 hk2 hk3 hk4 hk5 hk6 hk7 hk8; omega)
  have e4 := ind_val_neg hk4 (by clear hk1 hk2 hk3 hk4 hk5 hk6 hk7 hk8; omega)
  have e5 := ind_val_neg hk5 (by clear hk1 hk2 hk3 hk4 hk5 hk6 hk7 hk8; omega)
  have e6 := ind_val_neg hk6 (by clear hk1 hk2 hk3 hk4 hk5 hk6 hk7 hk8; omega)
  have e7 := ind_val_neg hk7 (by clear hk1 hk2 hk3 hk4 hk5 hk6 hk7 hk8; omega)
  have e8 := ind_val_neg hk8 (by clear hk1 hk2 hk3 hk4 hk5 hk6 hk7 hk8; omega)
  clear hk1 hk2 hk3 hk4 hk5 hk6 hk7 hk8
  omega

/-- Case analysis leaf for `blinker_step2`. -/
theorem blinker_step2_case31 (n x0 y0 x y k1 k2 k3 k4 k5 k6 k7 k8 : Nat)
    (hx0 : 1 ≤ x0) (hx4 : x0 + 4 ≤ n) (hy2 : 2 ≤ y0) (hy3 : y0 + 3 ≤ n)
    (hk1 : (((y = y0 ∧ x = x0 + 2 ∨ y = y0 + 1 ∧ x = x0 + 2) ∨ y = y0 + 2 ∧ x = x0 + 2) ∧ k1 = 1) ∨ (¬((y = y0 ∧ x = x0 + 2 ∨ y = y0 + 1 ∧ x = x0 + 2) ∨ y = y0 + 2 ∧ x = x0 + 2) ∧ k1 = 0))
    (hk2 : (((y = y0 ∧ x = x0 + 1 ∨ y = y0 + 1 ∧ x = x0 + 1) ∨ y = y0 + 2 ∧ x = x0 + 1) ∧ k2 = 1) ∨ (¬((y = y0 ∧ x = x0 + 1 ∨ y = y0 + 1 ∧ x = x0 + 1) ∨ y = y0 + 2 ∧ x = x0 + 1) ∧ k2 = 0))
    (hk3 : (((y = y0 ∧ x = x0 ∨ y = y0 + 1 ∧ x = x0) ∨ y = y0 + 2 ∧ x = x0) ∧ k3 = 1) ∨ (¬((y = y0 ∧ x = x0 ∨ y = y0 + 1 ∧ x = x0) ∨ y = y0 + 2 ∧ x = x0) ∧ k3 = 0))
    (hk4 : (((y = y0 - 1 ∧ x = x0 + 2 ∨ y = y0 ∧ x = x0 + 2) ∨ y = y0 + 1 ∧ x = x0 + 2) ∧ k4 = 1) ∨ (¬((y = y0 - 1 ∧ x = x0 + 2 ∨ y = y0 ∧ x = x0 + 2) ∨ y = y0 + 1 ∧ x = x0 + 2) ∧ k4 = 0))
    (hk5 : (((y = y0 - 1 ∧ x = x0 ∨ y = y0 ∧ x = x0) ∨ y = y0 + 1 ∧ x = x0) ∧ k5 = 1) ∨ (¬((y = y0 - 1 ∧ x = x0 ∨ y = y0 ∧ x = x0) ∨ y = y0 + 1 ∧ x = x0) ∧ k5 = 0))
    (hk6 : (((y + 2 = y0 ∧ x = x0 + 2 ∨ y + 1 = y0 ∧ x = x0 + 2) ∨ y = y0 ∧ x = x0 + 2) ∧ k6 = 1) ∨ (¬((y + 2 = y0 ∧ x = x0 + 2 ∨ y + 1 = y0 ∧ x = x0 + 2) ∨ y = y0 ∧ x = x0 + 2) ∧ k6 = 0))
    (hk7 : (((y + 2 = y0 ∧ x = x0 + 1 ∨ y + 1 = y0 ∧ x = x0 + 1) ∨ y = y0 ∧ x = x0 + 1) ∧ k7 = 1) ∨ (¬((y + 2 = y0 ∧ x = x0 + 1 ∨ y + 1 = y0 ∧ x = x0 + 1) ∨ y = y0 ∧ x = x0 + 1) ∧ k7 = 0))
    (hk8 : (((y + 2 = y0 ∧ x = x0 ∨ y + 1 = y0 ∧ x = x0) ∨ y = y0 ∧ x = x0) ∧ k8 = 1) ∨ (¬((y + 2 = y0 ∧ x = x0 ∨ y + 1 = y0 ∧ x = x0) ∨ y = y0 ∧ x = x0) ∧ k8 = 0))
    (h1 : x0 + 3 ≤ x) (h2 : y = y0) :
    (k1 + (k2 + (k3 + (k4 + (k5 + (k6 + (k7 + k8)))))) = 3 ∨ k1 + (k2 + (k3 + (k4 + (k5 + (k6 + (k7 + k8)))))) = 2 ∧ ((y = y0 - 1 ∧ x = x0 + 1 ∨ y = y0 ∧ x = x0 + 1) ∨ y = y0 + 1 ∧ x = x0 + 1)) ↔ ((y = y0 ∧ x = x0 ∨ y = y0 ∧ x = x0 + 1) ∨ y = y0 ∧ x = x0 + 2) := by
  have e1 := ind_val_neg hk1 (by clear hk1 hk2 hk3 hk4 hk5 hk6 hk7 hk8; omega)
  have e2 := ind_val_neg hk2 (by clear hk1 hk2 hk3 hk4 hk5 hk6 hk7 hk8; omega)
  have e3 := ind_val_neg hk3 (by clear hk1 hk2 hk3 hk4 hk5 hk6 hk7 hk8; omega)
  have e4 := ind_val_neg hk4 (by clear hk1 hk2 hk3 hk4 hk5 hk6 hk7 hk8; omega)
  have e5 := ind_val_neg hk5 (by clear hk1 hk2 hk3 hk4 hk5 hk6 hk7 hk8; omega)
  have e6 := ind_val_neg hk6 (by clear hk1 hk2 hk3 hk4 hk5 hk6 hk7 hk8; omega)
  have e7 := ind_val_neg hk7 (by clear hk1 hk2 hk3 hk4 hk5 hk6 hk7 hk8; omega)
  have e8 := ind_val_neg hk8 (by clear hk1 hk2 hk3 hk4 hk5 hk6 hk7 hk8; omega)
  clear hk1 hk2 hk3 hk4 hk5 hk6 hk7 hk8
  omega

/-- Case analysis leaf for `blinker_step2`. -/
theorem blinker_step2_case32 (n x0 y0 x y k1 k2 k3 k4 k5 k6 k7 k8 : Nat)
    (hx0 : 1 ≤ x0) (hx4 : x0 + 4 ≤ n) (hy2 : 2 ≤ y0) (hy3 : y0 + 3 ≤ n)
    (hk1 : (((y = y0 ∧ x = x0 + 2 ∨ y = y0 + 1 ∧ x = x0 + 2) ∨ y = y0 + 2 ∧ x = x0 + 2) ∧ k1 = 1) ∨ (¬((y = y0 ∧ x = x0 + 2 ∨ y = y0 + 1 ∧ x = x0 + 2) ∨ y = y0 + 2 ∧ x = x0 + 2) ∧ k1 = 0))
    (hk2 : (((y = y0 ∧ x = x0 + 1 ∨ y = y0 + 1 ∧ x = x0 + 1) ∨ y = y0 + 2 ∧ x = x0 + 1) ∧ k2 = 1) ∨ (¬((y = y0 ∧ x = x0 + 1 ∨ y = y0 + 1 ∧ x = x0 + 1) ∨ y = y0 + 2 ∧ x = x0 + 1) ∧ k2 = 0))
    (hk3 : (((y = y0 ∧ x = x0 ∨ y = y0 + 1 ∧ x = x0) ∨ y = y0 + 2 ∧ x = x0) ∧ k3 = 1) ∨ (¬((y = y0 ∧ x = x0 ∨ y = y0 + 1 ∧ x = x0) ∨ y = y0 + 2 ∧ x = x0) ∧ k3 = 0))
    (hk4 : (((y = y0 - 1 ∧ x = x0 + 2 ∨ y = y0 ∧ x = x0 + 2) ∨ y = y0 + 1 ∧ x = x0 + 2) ∧ k4 = 1) ∨ (¬((y = y0 - 1 ∧ x = x0 + 2 ∨ y = y0 ∧ x = x0 + 2) ∨ y = y0 + 1 ∧ x = x0 + 2) ∧ k4 = 0))
    (hk5 : (((y = y0 - 1 ∧ x = x0 ∨ y = y0 ∧ x = x0) ∨ y = y0 + 1 ∧ x = x0) ∧ k5 = 1) ∨ (¬((y = y0 - 1 ∧ x = x0 ∨ y = y0 ∧ x = x0) ∨ y = y0 + 1 ∧ x = x0) ∧ k5 = 0))
    (hk6 : (((y + 2 = y0 ∧ x = x0 + 2 ∨ y + 1 = y0 ∧ x = x0 + 2) ∨ y = y0 ∧ x = x0 + 2) ∧ k6 = 1) ∨ (¬((y + 2 = y0 ∧ x = x0 + 2 ∨ y + 1 = y0 ∧ x = x0 + 2) ∨ y = y0 ∧ x = x0 + 2) ∧ k6 = 0))
    (hk7 : (((y + 2 = y0 ∧ x = x0 + 1 ∨ y + 1 = y0 ∧ x = x0 + 1) ∨ y = y0 ∧ x = x0 + 1) ∧ k7 = 1) ∨ (¬((y + 2 = y0 ∧ x = x0 + 1 ∨ y + 1 = y0 ∧ x = x0 + 1) ∨ y = y0 ∧ x = x0 + 1) ∧ k7 = 0))
    (hk8 : (((y + 2 = y0 ∧ x = x0 ∨ y + 1 = y0 ∧ x = x0) ∨ y = y0 ∧ x = x0) ∧ k8 = 1) ∨ (¬((y + 2 = y0 ∧ x = x0 ∨ y + 1 = y0 ∧ x = x0) ∨ y = y0 ∧ x = x0) ∧ k8 = 0))
    (h1 : x0 + 3 ≤ x) (h2 : y = y0 + 1) :
    (k1 + (k2 + (k3 + (k4 + (k5 + (k6 + (k7 + k8)))))) = 3 ∨ k1 + (k2 + (k3 + (k4 + (k5 + (k6 + (k7 + k8)))))) = 2 ∧ ((y = y0 - 1 ∧ x = x0 + 1 ∨ y = y0 ∧ x = x0 + 1) ∨ y = y0 + 1 ∧ x = x0 + 1)) ↔ ((y = y0 ∧ x = x0 ∨ y = y0 ∧ x = x0 + 1) ∨ y = y0 ∧ x = x0 + 2) := by
  have e1 := ind_val_neg hk1 (by clear hk1 hk2 hk3 hk4 hk5 hk6 hk7 hk8; omega)
  have e2 := ind_val_neg hk2 (by clear hk1 hk2 hk3 hk4 hk5 hk6 hk7 hk8; omega)
  have e3 := ind_val_neg hk3 (by clear hk1 hk2 hk3 hk4 hk5 hk6 hk7 hk8; omega)
  have e4 := ind_val_neg hk4 (by clear hk1 hk2 hk3 hk4 hk5 hk6 hk7 hk8; omega)
  have e5 := ind_val_neg hk5 (by clear hk1 hk2 hk3 hk4 hk5 hk6 hk7 hk8; omega)
  have e6 := ind_val_neg hk6 (by clear hk1 hk2 hk3 hk4 hk5 hk6 hk7 hk8; omega)
  have e7 := ind_val_neg hk7 (by clear hk1 hk2 hk3 hk4 hk5 hk6 hk7 hk8; omega)
  have e8 := ind_val_neg hk8 (by clear hk1 hk2 hk3 hk4 hk5 hk6 hk7 hk8; omega)
  clear hk1 hk2 hk3 hk4 hk5 hk6 hk7 hk8
  omega

/-- Case analysis leaf for `blinker_step2`. -/
theorem blinker_step2_case33 (n x0 y0 x y k1 k2 k3 k4 k5 k6 k7 k8 : Nat)
    (hx0 : 1 ≤ x0) (hx4 : x0 + 4 ≤ n) (hy2 : 2 ≤ y0) (hy3 : y0 + 3 ≤ n)
    (hk1 : (((y = y0 ∧ x = x0 + 2 ∨ y = y0 + 1 ∧ x = x0 + 2) ∨ y = y0 + 2 ∧ x = x0 + 2) ∧ k1 = 1) ∨ (¬((y = y0 ∧ x = x0 + 2 ∨ y = y0 + 1 ∧ x = x0 + 2) ∨ y = y0 + 2 ∧ x = x0 + 2) ∧ k1 = 0))
    (hk2 : (((y = y0 ∧ x = x0 + 1 ∨ y = y0 + 1 ∧ x = x0 + 1) ∨ y = y0 + 2 ∧ x = x0 + 1) ∧ k2 = 1) ∨ (¬((y = y0 ∧ x = x0 + 1 ∨ y = y0 + 1 ∧ x = x0 + 1) ∨ y = y0 + 2 ∧ x = x0 + 1) ∧ k2 = 0))
    (hk3 : (((y = y0 ∧ x = x0 ∨ y = y0 + 1 ∧ x = x0) ∨ y = y0 + 2 ∧ x = x0) ∧ k3 = 1) ∨ (¬((y = y0 ∧ x = x0 ∨ y = y0 + 1 ∧ x = x0) ∨ y = y0 + 2 ∧ x = x0) ∧ k3 = 0))
    (hk4 : (((y = y0 - 1 ∧ x = x0 + 2 ∨ y = y0 ∧ x = x0 + 2) ∨ y = y0 + 1 ∧ x = x0 + 2) ∧ k4 = 1) ∨ (¬((y = y0 - 1 ∧ x = x0 + 2 ∨ y = y0 ∧ x = x0 + 2) ∨ y = y0 + 1 ∧ x = x0 + 2) ∧ k4 = 0))
    (hk5 : (((y = y0 - 1 ∧ x = x0 ∨ y = y0 ∧ x = x0) ∨ y = y0 + 1 ∧ x = x0) ∧ k5 = 1) ∨ (¬((y = y0 - 1 ∧ x = x0 ∨ y = y0 ∧ x = x0) ∨ y = y0 + 1 ∧ x = x0) ∧ k5 = 0))
    (hk6 : (((y + 2 = y0 ∧ x = x0 + 2 ∨ y + 1 = y0 ∧ x = x0 + 2) ∨ y = y0 ∧ x = x0 + 2) ∧ k6 = 1) ∨ (¬((y + 2 = y0 ∧ x = x0 + 2 ∨ y + 1 = y0 ∧ x = x0 + 2) ∨ y = y0 ∧ x = x0 + 2) ∧ k6 = 0))
    (hk7 : (((y + 2 = y0 ∧ x = x0 + 1 ∨ y + 1 = y0 ∧ x = x0 + 1) ∨ y = y0 ∧ x = x0 + 1) ∧ k7 = 1) ∨ (¬((y + 2 = y0 ∧ x = x0 + 1 ∨ y + 1 = y0 ∧ x = x0 + 1) ∨ y = y0 ∧ x = x0 + 1) ∧ k7 = 0))
    (hk8 : (((y + 2 = y0 ∧ x = x0 ∨ y + 1 = y0 ∧ x = x0) ∨ y = y0 ∧ x = x0) ∧ k8 = 1) ∨ (¬((y + 2 = y0 ∧ x = x0 ∨ y + 1 = y0 ∧ x = x0) ∨ y = y0 ∧ x = x0) ∧ k8 = 0))
    (h1 : x0 + 3 ≤ x) (h2 : y = y0 + 2) :
    (k1 + (k2 + (k3 + (k4 + (k5 + (k6 + (k7 + k8)))))) = 3 ∨ k1 + (k2 + (k3 + (k4 + (k5 + (k6 + (k7 + k8)))))) = 2 ∧ ((y = y0 - 1 ∧ x = x0 + 1 ∨ y = y0 ∧ x = x0 + 1) ∨ y = y0 + 1 ∧ x = x0 + 1)) ↔ ((y = y0 ∧ x = x0 ∨ y = y0 ∧ x = x0 + 1) ∨ y = y0 ∧ x = x0 + 2) := by
  have e1 := ind_val_neg hk1 (by clear hk1 hk2 hk3 hk4 hk5 hk6 hk7 hk8; omega)
  have e2 := ind_val_neg hk2 (by clear hk1 hk2 hk3 hk4 hk5 hk6 hk7 hk8; omega)
  have e3 := ind_val_neg hk3 (by clear hk1 hk2 hk3 hk4 hk5 hk6 hk7 hk8; omega)
  have e4 := ind_val_neg hk4 (by clear hk1 hk2 hk3 hk4 hk5 hk6 hk7 hk8; omega)
  have e5 := ind_val_neg hk5 (by clear hk1 hk2 hk3 hk4 hk5 hk6 hk7 hk8; omega)
  have e6 := ind_val_neg hk6 (by clear hk1 hk2 hk3 hk4 hk5 hk6 hk7 hk8; omega)
  have e7 := ind_val_neg hk7 (by clear hk1 hk2 hk3 hk4 hk5 hk6 hk7 hk8; omega)
  have e8 := ind_val_neg hk8 (by clear hk1 hk2 hk3 hk4 hk5 hk6 hk7 hk8; omega)
  clear hk1 hk2 hk3 hk4 hk5 hk6 hk7 hk8
  omega

/-- Case analysis leaf for `blinker_step2`. -/
theorem blinker_step2_case34 (n x0 y0 x y k1 k2 k3 k4 k5 k6 k7 k8 : Nat)
    (hx0 : 1 ≤ x0) (hx4 : x0 + 4 ≤ n) (hy2 : 2 ≤ y0) (hy3 : y0 + 3 ≤ n)
    (hk1 : (((y = y0 ∧ x = x0 + 2 ∨ y = y0 + 1 ∧ x = x0 + 2) ∨ y = y0 + 2 ∧ x = x0 + 2) ∧ k1 = 1) ∨ (¬((y = y0 ∧ x = x0 + 2 ∨ y = y0 + 1 ∧ x = x0 + 2) ∨ y = y0 + 2 ∧ x = x0 + 2) ∧ k1 = 0))
    (hk2 : (((y = y0 ∧ x = x0 + 1 ∨ y = y0 + 1 ∧ x = x0 + 1) ∨ y = y0 + 2 ∧ x = x0 + 1) ∧ k2 = 1) ∨ (¬((y = y0 ∧ x = x0 + 1 ∨ y = y0 + 1 ∧ x = x0 + 1) ∨ y = y0 + 2 ∧ x = x0 + 1) ∧ k2 = 0))
    (hk3 : (((y = y0 ∧ x = x0 ∨ y = y0 + 1 ∧ x = x0) ∨ y = y0 + 2 ∧ x = x0) ∧ k3 = 1) ∨ (¬((y = y0 ∧ x = x0 ∨ y = y0 + 1 ∧ x = x0) ∨ y = y0 + 2 ∧ x = x0) ∧ k3 = 0))
    (hk4 : (((y = y0 - 1 ∧ x = x0 + 2 ∨ y = y0 ∧ x = x0 + 2) ∨ y = y0 + 1 ∧ x = x0 + 2) ∧ k4 = 1) ∨ (¬((y = y0 - 1 ∧ x = x0 + 2 ∨ y = y0 ∧ x = x0 + 2) ∨ y = y0 + 1 ∧ x = x0 + 2) ∧ k4 = 0))
    (hk5 : (((y = y0 - 1 ∧ x = x0 ∨ y = y0 ∧ x = x0) ∨ y = y0 + 1 ∧ x = x0) ∧ k5 = 1) ∨ (¬((y = y0 - 1 ∧ x = x0 ∨ y = y0 ∧ x = x0) ∨ y = y0 + 1 ∧ x = x0) ∧ k5 = 0))
    (hk6 : (((y + 2 = y0 ∧ x = x0 + 2 ∨ y + 1 = y0 ∧ x = x0 + 2) ∨ y = y0 ∧ x = x0 + 2) ∧ k6 = 1) ∨ (¬((y + 2 = y0 ∧ x = x0 + 2 ∨ y + 1 = y0 ∧ x = x0 + 2) ∨ y = y0 ∧ x = x0 + 2) ∧ k6 = 0))
    (hk7 : (((y + 2 = y0 ∧ x = x0 + 1 ∨ y + 1 = y0 ∧ x = x0 + 1) ∨ y = y0 ∧ x = x0 + 1) ∧ k7 = 1) ∨ (¬((y + 2 = y0 ∧ x = x0 + 1 ∨ y + 1 = y0 ∧ x = x0 + 1) ∨ y = y0 ∧ x = x0 + 1) ∧ k7 = 0))
    (hk8 : (((y + 2 = y0 ∧ x = x0 ∨ y + 1 = y0 ∧ x = x0) ∨ y = y0 ∧ x = x0) ∧ k8 = 1) ∨ (¬((y + 2 = y0 ∧ x = x0 ∨ y + 1 = y0 ∧ x = x0) ∨ y = y0 ∧ x = x0) ∧ k8 = 0))
    (h1 : x0 + 3 ≤ x) (h2 : y + 2 < y0) :
    (k1 + (k2 + (k3 + (k4 + (k5 + (k6 + (k7 + k8)))))) = 3 ∨ k1 + (k2 + (k3 + (k4 + (k5 + (k6 + (k7 + k8)))))) = 2 ∧ ((y = y0 - 1 ∧ x = x0 + 1 ∨ y = y0 ∧ x = x0 + 1) ∨ y = y0 + 1 ∧ x = x0 + 1)) ↔ ((y = y0 ∧ x = x0 ∨ y = y0 ∧ x = x0 + 1) ∨ y = y0 ∧ x = x0 + 2) := by
  have e1 := ind_val_neg hk1 (by clear hk1 hk2 hk3 hk4 hk5 hk6 hk7 hk8; omega)
  have e2 := ind_val_neg hk2 (by clear hk1 hk2 hk3 hk4 hk5 hk6 hk7 hk8; omega)
  have e3 := ind_val_neg hk3 (by clear hk1 hk2 hk3 hk4 hk5 hk6 hk7 hk8; omega)
  have e4 := ind_val_neg hk4 (by clear hk1 hk2 hk3 hk4 hk5 hk6 hk7 hk8; omega)
  have e5 := ind_val_neg hk5 (by clear hk1 hk2 hk3 hk4 hk5 hk6 hk7 hk8; omega)
  have e6 := ind_val_neg hk6 (by clear hk1 hk2 hk3 hk4 hk5 hk6 hk7 hk8; omega)
  have e7 := ind_val_neg hk7 (by clear hk1 hk2 hk3 hk4 hk5 hk6 hk7 hk8; omega)
  have e8 := ind_val_neg hk8 (by clear hk1 hk2 hk3 hk4 hk5 hk6 hk7 hk8; omega)
  clear hk1 hk2 hk3 hk4 hk5 hk6 hk7 hk8
  omega

/-- Case analysis leaf for `blinker_step2`. -/
theorem blinker_step2_case35 (n x0 y0 x y k1 k2 k3 k4 k5 k6 k7 k8 : Nat)
    (hx0 : 1 ≤ x0) (hx4 : x0 + 4 ≤ n) (hy2 : 2 ≤ y0) (hy3 : y0 + 3 ≤ n)
    (hk1 : (((y = y0 ∧ x = x0 + 2 ∨ y = y0 + 1 ∧ x = x0 + 2) ∨ y = y0 + 2 ∧ x = x0 + 2) ∧ k1 = 1) ∨ (¬((y = y0 ∧ x = x0 + 2 ∨ y = y0 + 1 ∧ x = x0 + 2) ∨ y = y0 + 2 ∧ x = x0 + 2) ∧ k1 = 0))
    (hk2 : (((y = y0 ∧ x = x0 + 1 ∨ y = y0 + 1 ∧ x = x0 + 1) ∨ y = y0 + 2 ∧ x = x0 + 1) ∧ k2 = 1) ∨ (¬((y = y0 ∧ x = x0 + 1 ∨ y = y0 + 1 ∧ x = x0 + 1) ∨ y = y0 + 2 ∧ x = x0 + 1) ∧ k2 = 0))
    (hk3 : (((y = y0 ∧ x = x0 ∨ y = y0 + 1 ∧ x = x0) ∨ y = y0 + 2 ∧ x = x0) ∧ k3 = 1) ∨ (¬((y = y0 ∧ x = x0 ∨ y = y0 + 1 ∧ x = x0) ∨ y = y0 + 2 ∧ x = x0) ∧ k3 = 0))
    (hk4 : (((y = y0 - 1 ∧ x = x0 + 2 ∨ y = y0 ∧ x = x0 + 2) ∨ y = y0 + 1 ∧ x = x0 + 2) ∧ k4 = 1) ∨ (¬((y = y0 - 1 ∧ x = x0 + 2 ∨ y = y0 ∧ x = x0 + 2) ∨ y = y0 + 1 ∧ x = x0 + 2) ∧ k4 = 0))
    (hk5 : (((y = y0 - 1 ∧ x = x0 ∨ y = y0 ∧ x = x0) ∨ y = y0 + 1 ∧ x = x0) ∧ k5 = 1) ∨ (¬((y = y0 - 1 ∧ x = x0 ∨ y = y0 ∧ x = x0) ∨ y = y0 + 1 ∧ x = x0) ∧ k5 = 0))
    (hk6 : (((y + 2 = y0 ∧ x = x0 + 2 ∨ y + 1 = y0 ∧ x = x0 + 2) ∨ y = y0 ∧ x = x0 + 2) ∧ k6 = 1) ∨ (¬((y + 2 = y0 ∧ x = x0 + 2 ∨ y + 1 = y0 ∧ x = x0 + 2) ∨ y = y0 ∧ x = x0 + 2) ∧ k6 = 0))
    (hk7 : (((y + 2 = y0 ∧ x = x0 + 1 ∨ y + 1 = y0 ∧ x = x0 + 1) ∨ y = y0 ∧ x = x0 + 1) ∧ k7 = 1) ∨ (¬((y + 2 = y0 ∧ x = x0 + 1 ∨ y + 1 = y0 ∧ x = x0 + 1) ∨ y = y0 ∧ x = x0 + 1) ∧ k7 = 0))
    (hk8 : (((y + 2 = y0 ∧ x = x0 ∨ y + 1 = y0 ∧ x = x0) ∨ y = y0 ∧ x = x0) ∧ k8 = 1) ∨ (¬((y + 2 = y0 ∧ x = x0 ∨ y + 1 = y0 ∧ x = x0) ∨ y = y0 ∧ x = x0) ∧ k8 = 0))
    (h1 : x0 + 3 ≤ x) (h2 : y0 + 3 ≤ y) :
    (k1 + (k2 + (k3 + (k4 + (k5 + (k6 + (k7 + k8)))))) = 3 ∨ k1 + (k2 + (k3 + (k4 + (k5 + (k6 + (k7 + k8)))))) = 2 ∧ ((y = y0 - 1 ∧ x = x0 + 1 ∨ y = y0 ∧ x = x0 + 1) ∨ y = y0 + 1 ∧ x = x0 + 1)) ↔ ((y = y0 ∧ x = x0 ∨ y = y0 ∧ x = x0 + 1) ∨ y = y0 ∧ x = x0 + 2) := by
  have e1 := ind_val_neg hk1 (by clear hk1 hk2 hk3 hk4 hk5 hk6 hk7 hk8; omega)
  have e2 := ind_val_neg hk2 (by clear hk1 hk2 hk3 hk4 hk5 hk6 hk7 hk8; omega)
  have e3 := ind_val_neg hk3 (by clear hk1 hk2 hk3 hk4 hk5 hk6 hk7 hk8; omega)
  have e4 := ind_val_neg hk4 (by clear hk1 hk2 hk3 hk4 hk5 hk6 hk7 hk8; omega)
  have e5 := ind_val_neg hk5 (by clear hk1 hk2 hk3 hk4 hk5 hk6 hk7 hk8; omega)
  have e6 := ind_val_neg hk6 (by clear hk1 hk2 hk3 hk4 hk5 hk6 hk7 hk8; omega)
  have e7 := ind_val_neg hk7 (by clear hk1 hk2 hk3 hk4 hk5 hk6 hk7 hk8; omega)
  have e8 := ind_val_neg hk8 (by clear hk1 hk2 hk3 hk4 hk5 hk6 hk7 hk8; omega)
  clear hk1 hk2 hk3 hk4 hk5 hk6 hk7 hk8
  omega

set_option maxHeartbeats 1000000 in
/-- A second step turns the vertical blinker back into the horizontal one, cell by cell. -/
theorem blinker_step2 (n x0 y0 x y : Nat) (hx0 : 1 ≤ x0) (hx4 : x0 + 4 ≤ n)
    (hy2 : 2 ≤ y0) (hy3 : y0 + 3 ≤ n) (hx : x < n) (hy : y < n) :
    (step ⟨n⟩ (vblinker n x0 y0)).current (y * n + x) =
      (blinker n x0 y0).current (y * n + x) := by
  have hn : 0 < n := by omega
  have hin : y * n + x < n * n := mul_add_lt n x y hx hy
  have hcx0 : x0 < n := by omega
  have hcx1 : x0 + 1 < n := by omega
  have hcx2 : x0 + 2 < n := by omega
  obtain ⟨wm, hwmeq, hwmlt, hwm⟩ := if_pred_char n x hn hx
  obtain ⟨wp, hwpeq, hwplt, hwp⟩ := if_succ_char n x hx
  obtain ⟨vm, hvmeq, hvmlt, hvm⟩ := if_pred_char n y hn hy
  obtain ⟨vp, hvpeq, hvplt, hvp⟩ := if_succ_char n y hy
  have ha1 : (vm = y0 - 1) ↔ (y = y0) := by clear hwm hwp hvp hwmeq hwpeq hvmeq hvpeq hin hcx0 hcx1 hcx2; omega
  have ha2 : (vm = y0) ↔ (y = y0 + 1) := by clear hwm hwp hvp hwmeq hwpeq hvmeq hvpeq ha1 hin hcx0 hcx1 hcx2; omega
  have ha3 : (vm = y0 + 1) ↔ (y = y0 + 2) := by clear hwm hwp hvp hwmeq hwpeq hvmeq hvpeq ha1 ha2 hin hcx0 hcx1 hcx2; omega
  have ha4 : (vp = y0 - 1) ↔ (y + 2 = y0) := by clear hwm hwp hvm hwmeq hwpeq hvmeq hvpeq ha1 ha2 ha3 hin hcx0 hcx1 hcx2; omega
  have ha5 : (vp = y0) ↔ (y + 1 = y0) := by clear hwm hwp hvm hwmeq hwpeq hvmeq hvpeq ha1 ha2 ha3 ha4 hin hcx0 hcx1 hcx2; omega
  have ha6 : (vp = y0 + 1) ↔ (y = y0) := by clear hwm hwp hvm hwmeq hwpeq hvmeq hvpeq ha1 ha2 ha3 ha4 ha5 hin hcx0 hcx1 hcx2; omega
  have ha7 : (wm = x0 + 1) ↔ (x = x0 + 2) := by clear hwp hvm hvp hwmeq hwpeq hvmeq hvpeq ha1 ha2 ha3 ha4 ha5 ha6 hin hcx0 hcx1 hcx2; omega
  have ha8 : (wp = x0 + 1) ↔ (x = x0) := by clear hwm hvm hvp hwmeq hwpeq hvmeq hvpeq ha1 ha2 ha3 ha4 ha5 ha6 ha7 hin hcx0 hcx1 hcx2; omega
  rw [bool_eq_iff]
  rw [step_rule_aux ⟨n⟩ (vblinker n x0 y0) (y * n + x) hin rfl]
  rw [count_expand n _ x y hn hx hy, hwmeq, hwpeq, hvmeq, hvpeq]
  obtain ⟨k1, hk1e, hk1⟩ := ind_char ((vblinker n x0 y0).current (vm * n + wm) = true)
  obtain ⟨k2, hk2e, hk2⟩ := ind_char ((vblinker n x0 y0).current (vm * n + x) = true)
  obtain ⟨k3, hk3e, hk3⟩ := ind_char ((vblinker n x0 y0).current (vm * n + wp) = true)
  obtain ⟨k4, hk4e, hk4⟩ := ind_char ((vblinker n x0 y0).current (y * n + wm) = true)
  obtain ⟨k5, hk5e, hk5⟩ := ind_char ((vblinker n x0 y0).current (y * n + wp) = true)
  obtain ⟨k6, hk6e, hk6⟩ := ind_char ((vblinker n x0 y0).current (vp * n + wm) = true)
  obtain ⟨k7, hk7e, hk7⟩ := ind_char ((vblinker n x0 y0).current (vp * n + x) = true)
  obtain ⟨k8, hk8e, hk8⟩ := ind_char ((vblinker n x0 y0).current (vp * n + wp) = true)
  have hxc : x = x0 ∨ x = x0 + 1 ∨ x = x0 + 2 ∨ x < x0 ∨ x0 + 3 ≤ x := by
    clear hwm hwp hvm hvp hwmeq hwpeq hvmeq hvpeq ha1 ha2 ha3 ha4 ha5 ha6 ha7 ha8 hin hcx0 hcx1 hcx2
    omega
  have hyc : y + 2 = y0 ∨ y + 1 = y0 ∨ y = y0 ∨ y = y0 + 1 ∨ y = y0 + 2 ∨ y + 2 < y0 ∨ y0 + 3 ≤ y := by
    clear hwm hwp hvm hvp hwmeq hwpeq hvmeq hvpeq ha1 ha2 ha3 ha4 ha5 ha6 ha7 ha8 hin hcx0 hcx1 hcx2
    omega
  rw [hk1e, hk2e, hk3e, hk4e, hk5e, hk6e, hk7e, hk8e]
  simp only [blinker, vblinker, Bool.or_eq_true, beq_iff_eq,
    lin_eq_iff hn hwmlt hcx0, lin_eq_iff hn hwmlt hcx1, lin_eq_iff hn hwmlt hcx2,
    lin_eq_iff hn hx hcx0, lin_eq_iff hn hx hcx1, lin_eq_iff hn hx hcx2,
    lin_eq_iff hn hwplt hcx0, lin_eq_iff hn hwplt hcx1, lin_eq_iff hn hwplt hcx2,
    ha1, ha2, ha3, ha4, ha5, ha6, ha7, ha8]
    at hk1 hk2 hk3 hk4 hk5 hk6 hk7 hk8 ⊢
  exact
    hxc.elim (fun hxx0 => (hyc.elim (fun hyy0_0 => (blinker_step2_case1 n x0 y0 x y k1 k2 k3 k4 k5 k6 k7 k8 hx0 hx4 hy2 hy3 hk1 hk2 hk3 hk4 hk5 hk6 hk7 hk8 hxx0 hyy0_0)) (fun hyr0_1 => hyr0_1.elim (fun hyy0_1 => (blinker_step2_case2 n x0 y0 x y k1 k2 k3 k4 k5 k6 k7 k8 hx0 hx4 hy2 hy3 hk1 hk2 hk3 hk4 hk5 hk6 hk7 hk8 hxx0 hyy0_1)) (fun hyr0_2 => hyr0_2.elim (fun hyy0_2 => (blinker_step2_case3 n x0 y0 x y k1 k2 k3 k4 k5 k6 k7 k8 hx0 hx4 hy2 hy3 hk1 hk2 hk3 hk4 hk5 hk6 hk7 hk8 hxx0 hyy0_2)) (fun hyr0_3 => hyr0_3.elim (fun hyy0_3 => (blinker_step2_case4 n x0 y0 x y k1 k2 k3 k4 k5 k6 k7 k8 hx0 hx4 hy2 hy3 hk1 hk2 hk3 hk4 hk5 hk6 hk7 hk8 hxx0 hyy0_3)) (fun hyr0_4 => hyr0_4.elim (fun hyy0_4 => (blinker_step2_case5 n x0 y0 x y k1 k2 k3 k4 k5 k6 k7 k8 hx0 hx4 hy2 hy3 hk1 hk2 hk3 hk4 hk5 hk6 hk7 hk8 hxx0 hyy0_4)) (fun hyr0_5 => hyr0_5.elim (fun hyy0_5 => (blinker_step2_case6 n x0 y0 x y k1 k2 k3 k4 k5 k6 k7 k8 hx0 hx4 hy2 hy3 hk1 hk2 hk3 hk4 hk5 hk6 hk7 hk8 hxx0 hyy0_5)) (fun hyy0_6 => (blinker_step2_case7 n x0 y0 x y k1 k2 k3 k4 k5 k6 k7 k8 hx0 hx4 hy2 hy3 hk1 hk2 hk3 hk4 hk5 hk6 hk7 hk8 hxx0 hyy0_6))))))))) (fun hxr1 => hxr1.elim (fun hxx1 => (hyc.elim (fun hyy1_0 => (blinker_step2_case8 n x0 y0 x y k1 k2 k3 k4 k5 k6 k7 k8 hx0 hx4 hy2 hy3 hk1 hk2 hk3 hk4 hk5 hk6 hk7 hk8 hxx1 hyy1_0)) (fun hyr1_1 => hyr1_1.elim (fun hyy1_1 => (blinker_step2_case9 n x0 y0 x y k1 k2 k3 k4 k5 k6 k7 k8 hx0 hx4 hy2 hy3 hk1 hk2 hk3 hk4 hk5 hk6 hk7 hk8 hxx1 hyy1_1)) (fun hyr1_2 => hyr1_2.elim (fun hyy1_2 => (blinker_step2_case10 n x0 y0 x y k1 k2 k3 k4 k5 k6 k7 k8 hx0 hx4 hy2 hy3 hk1 hk2 hk3 hk4 hk5 hk6 hk7 hk8 hxx1 hyy1_2)) (fun hyr1_3 => hyr1_3.elim (fun hyy1_3 => (blinker_step2_case11 n x0 y0 x y k1 k2 k3 k4 k5 k6 k7 k8 hx0 hx4 hy2 hy3 hk1 hk2 hk3 hk4 hk5 hk6 hk7 hk8 hxx1 hyy1_3)) (fun hyr1_4 => hyr1_4.elim (fun hyy1_4 => (blinker_step2_case12 n x0 y0 x y k1 k2 k3 k4 k5 k6 k7 k8 hx0 hx4 hy2 hy3 hk1 hk2 hk3 hk4 hk5 hk6 hk7 hk8 hxx1 hyy1_4)) (fun hyr1_5 => hyr1_5.elim (fun hyy1_5 => (blinker_step2_case13 n x0 y0 x y k1 k2 k3 k4 k5 k6 k7 k8 hx0 hx4 hy2 hy3 hk1 hk2 hk3 hk4 hk5 hk6 hk7 hk8 hxx1 hyy1_5)) (fun hyy1_6 => (blinker_step2_case14 n x0 y0 x y k1 k2 k3 k4 k5 k6 k7 k8 hx0 hx4 hy2 hy3 hk1 hk2 hk3 hk4 hk5 hk6 hk7 hk8 hxx1 hyy1_6))))))))) (fun hxr2 => hxr2.elim (fun hxx2 => (hyc.elim (fun hyy2_0 => (blinker_step2_case15 n x0 y0 x y k1 k2 k3 k4 k5 k6 k7 k8 hx0 hx4 hy2 hy3 hk1 hk2 hk3 hk4 hk5 hk6 hk7 hk8 hxx2 hyy2_0)) (fun hyr2_1 => hyr2_1.elim (fun hyy2_1 => (blinker_step2_case16 n x0 y0 x y k1 k2 k3 k4 k5 k6 k7 k8 hx0 hx4 hy2 hy3 hk1 hk2 hk3 hk4 hk5 hk6 hk7 hk8 hxx2 hyy2_1)) (fun hyr2_2 => hyr2_2.elim (fun hyy2_2 => (blinker_step2_case17 n x0 y0 x y k1 k2 k3 k4 k5 k6 k7 k8 hx0 hx4 hy2 hy3 hk1 hk2 hk3 hk4 hk5 hk6 hk7 hk8 hxx2 hyy2_2)) (fun hyr2_3 => hyr2_3.elim (fun hyy2_3 => (blinker_step2_case18 n x0 y0 x y k1 k2 k3 k4 k5 k6 k7 k8 hx0 hx4 hy2 hy3 hk1 hk2 hk3 hk4 hk5 hk6 hk7 hk8 hxx2 hyy2_3)) (fun hyr2_4 => hyr2_4.elim (fun hyy2_4 => (blinker_step2_case19 n x0 y0 x y k1 k2 k3 k4 k5 k6 k7 k8 hx0 hx4 hy2 hy3 hk1 hk2 hk3 hk4 hk5 hk6 hk7 hk8 hxx2 hyy2_4)) (fun hyr2_5 => hyr2_5.elim (fun hyy2_5 => (blinker_step2_case20 n x0 y0 x y k1 k2 k3 k4 k5 k6 k7 k8 hx0 hx4 hy2 hy3 hk1 hk2 hk3 hk4 hk5 hk6 hk7 hk8 hxx2 hyy2_5)) (fun hyy2_6 => (blinker_step2_case21 n x0 y0 x y k1 k2 k3 k4 k5 k6 k7 k8 hx0 hx4 hy2 hy3 hk1 hk2 hk3 hk4 hk5 hk6 hk7 hk8 hxx2 hyy2_6))))))))) (fun hxr3 => hxr3.elim (fun hxx3 => (hyc.elim (fun hyy3_0 => (blinker_step2_case22 n x0 y0 x y k1 k2 k3 k4 k5 k6 k7 k8 hx0 hx4 hy2 hy3 hk1 hk2 hk3 hk4 hk5 hk6 hk7 hk8 hxx3 hyy3_0)) (fun hyr3_1 => hyr3_1.elim (fun hyy3_1 => (blinker_step2_case23 n x0 y0 x y k1 k2 k3 k4 k5 k6 k7 k8 hx0 hx4 hy2 hy3 hk1 hk2 hk3 hk4 hk5 hk6 hk7 hk8 hxx3 hyy3_1)) (fun hyr3_2 => hyr3_2.elim (fun hyy3_2 => (blinker_step2_case24 n x0 y0 x y k1 k2 k3 k4 k5 k6 k7 k8 hx0 hx4 hy2 hy3 hk1 hk2 hk3 hk4 hk5 hk6 hk7 hk8 hxx3 hyy3_2)) (fun hyr3_3 => hyr3_3.elim (fun hyy3_3 => (blinker_step2_case25 n x0 y0 x y k1 k2 k3 k4 k5 k6 k7 k8 hx0 hx4 hy2 hy3 hk1 hk2 hk3 hk4 hk5 hk6 hk7 hk8 hxx3 hyy3_3)) (fun hyr3_4 => hyr3_4.elim (fun hyy3_4 => (blinker_step2_case26 n x0 y0 x y k1 k2 k3 k4 k5 k6 k7 k8 hx0 hx4 hy2 hy3 hk1 hk2 hk3 hk4 hk5 hk6 hk7 hk8 hxx3 hyy3_4)) (fun hyr3_5 => hyr3_5.elim (fun hyy3_5 => (blinker_step2_case27 n x0 y0 x y k1 k2 k3 k4 k5 k6 k7 k8 hx0 hx4 hy2 hy3 hk1 hk2 hk3 hk4 hk5 hk6 hk7 hk8 hxx3 hyy3_5)) (fun hyy3_6 => (blinker_step2_case28 n x0 y0 x y k1 k2 k3 k4 k5 k6 k7 k8 hx0 hx4 hy2 hy3 hk1 hk2 hk3 hk4 hk5 hk6 hk7 hk8 hxx3 hyy3_6))))))))) (fun hxx4 => (hyc.elim (fun hyy4_0 => (blinker_step2_case29 n x0 y0 x y k1 k2 k3 k4 k5 k6 k7 k8 hx0 hx4 hy2 hy3 hk1 hk2 hk3 hk4 hk5 hk6 hk7 hk8 hxx4 hyy4_0)) (fun hyr4_1 => hyr4_1.elim (fun hyy4_1 => (blinker_step2_case30 n x0 y0 x y k1 k2 k3 k4 k5 k6 k7 k8 hx0 hx4 hy2 hy3 hk1 hk2 hk3 hk4 hk5 hk6 hk7 hk8 hxx4 hyy4_1)) (fun hyr4_2 => hyr4_2.elim (fun hyy4_2 => (blinker_step2_case31 n x0 y0 x y k1 k2 k3 k4 k5 k6 k7 k8 hx0 hx4 hy2 hy3 hk1 hk2 hk3 hk4 hk5 hk6 hk7 hk8 hxx4 hyy4_2)) (fun hyr4_3 => hyr4_3.elim (fun hyy4_3 => (blinker_step2_case32 n x0 y0 x y k1 k2 k3 k4 k5 k6 k7 k8 hx0 hx4 hy2 hy3 hk1 hk2 hk3 hk4 hk5 hk6 hk7 hk8 hxx4 hyy4_3)) (fun hyr4_4 => hyr4_4.elim (fun hyy4_4 => (blinker_step2_case33 n x0 y0 x y k1 k2 k3 k4 k5 k6 k7 k8 hx0 hx4 hy2 hy3 hk1 hk2 hk3 hk4 hk5 hk6 hk7 hk8 hxx4 hyy4_4)) (fun hyr4_5 => hyr4_5.elim (fun hyy4_5 => (blinker_step2_case34 n x0 y0 x y k1 k2 k3 k4 k5 k6 k7 k8 hx0 hx4 hy2 hy3 hk1 hk2 hk3 hk4 hk5 hk6 hk7 hk8 hxx4 hyy4_5)) (fun hyy4_6 => (blinker_step2_case35 n x0 y0 x y k1 k2 k3 k4 k5 k6 k7 k8 hx0 hx4 hy2 hy3 hk1 hk2 hk3 hk4 hk5 hk6 hk7 hk8 hxx4 hyy4_6))))))))))))


/-- C7: on a toroidal grid where the 3-cell horizontal line (and its 2-step
envelope) stays clear of the wrap seam — which requires `N ≥ 5` — the grid
whose only live cells are that line returns to exactly the original state
after 2 consecutive steps. -/
theorem blinker_period_two (n x0 y0 : Nat) (hx0 : 1 ≤ x0) (hx4 : x0 + 4 ≤ n)
    (hy2 : 2 ≤ y0) (hy3 : y0 + 3 ≤ n) :
    step ⟨n⟩ (step ⟨n⟩ (blinker n x0 y0)) = blinker n x0 y0 := by
  have hn : 0 < n := by omega
  have hstep1 : step ⟨n⟩ (blinker n x0 y0) = vblinker n x0 y0 := by
    apply GridState_ext
    · intro i
      by_cases hi : i < n * n
      · have hxlt : i % n < n := Nat.mod_lt i hn
        have hylt : i / n < n := Nat.div_lt_of_lt_mul hi
        have hieq : i / n * n + i % n = i := by
          rw [mul_comm]
          exact Nat.div_add_mod i n
        rw [← hieq]
        exact blinker_step1 n x0 y0 (i % n) (i / n) hx0 hx4 hy2 hy3 hxlt hylt
      · rw [step_current_far ⟨n⟩ _ i hi rfl]
        have hfar := blinker_far n x0 y0 i hx4 hy2 hy3 hi
        rw [hfar.1, hfar.2]
    · intro i
      rw [step_future_none ⟨n⟩ _ i rfl]
      rfl
  rw [hstep1]
  apply GridState_ext
  · intro i
    by_cases hi : i < n * n
    · have hxlt : i % n < n := Nat.mod_lt i hn
      have hylt : i / n < n := Nat.div_lt_of_lt_mul hi
      have hieq : i / n * n + i % n = i := by
        rw [mul_comm]
        exact Nat.div_add_mod i n
      rw [← hieq]
      exact blinker_step2 n x0 y0 (i % n) (i / n) hx0 hx4 hy2 hy3 hxlt hylt
    · rw [step_current_far ⟨n⟩ _ i hi rfl]
      have hfar := blinker_far n x0 y0 i hx4 hy2 hy3 hi
      rw [hfar.1, hfar.2]
  · intro i
    rw [step_future_none ⟨n⟩ _ i rfl]
    rfl

/-- C7 witness: the blinker at `(2, 3)` on an 8×8 board. -/
theorem blinker_period_two_witness :
    step ⟨8⟩ (step ⟨8⟩ (blinker 8 2 3)) = blinker 8 2 3 :=
  blinker_period_two 8 2 3 (by decide) (by decide) (by decide) (by decide)

end GoL
